import Mathlib

/-!
# Audio Stream Control Service (ASCS) server

A shallow embedding of `src/le-audio/gatt-service/audio_stream_control_service_server.c`.

* C enumerations become inductive types, C structs become structures.
* Fixed-size C arrays become lists; `a[i]` is `List.getD`, `a[i] = v` is `List.set`.
* A pointer to a connection or to a stream endpoint is the index of the slot.
* Bytes and other machine integers are natural numbers; a cursor whose width
  can be exceeded is reduced modulo `2 ^ w` at each update.
* Calls that leave the module (GATT notifications, can-send-now registration,
  events delivered to the application) are appended to a trace, oldest first.
-/

namespace ASCS

/-! ## Enumerations -/

/-- The ASE states of `ascs_state_t`; `ASCS_STATE_RFU` is the first value past the seven
defined states. -/
inductive ascs_state_t
  | ASCS_STATE_IDLE
  | ASCS_STATE_CODEC_CONFIGURED
  | ASCS_STATE_QOS_CONFIGURED
  | ASCS_STATE_ENABLING
  | ASCS_STATE_STREAMING
  | ASCS_STATE_DISABLING
  | ASCS_STATE_RELEASING
  | ASCS_STATE_RFU
  deriving DecidableEq, Repr

/-- The control point opcodes of `ascs_opcode_t`. `ASCS_OPCODE_UNSUPPORTED` is the value
0 that `ascs_server_reset_client_response` stores; `ASCS_OPCODE_RFU` stands for
every value past the nine defined opcodes. -/
inductive ascs_opcode_t
  | ASCS_OPCODE_UNSUPPORTED
  | ASCS_OPCODE_CONFIG_CODEC
  | ASCS_OPCODE_CONFIG_QOS
  | ASCS_OPCODE_ENABLE
  | ASCS_OPCODE_RECEIVER_START_READY
  | ASCS_OPCODE_DISABLE
  | ASCS_OPCODE_RECEIVER_STOP_READY
  | ASCS_OPCODE_UPDATE_METADATA
  | ASCS_OPCODE_RELEASE
  | ASCS_OPCODE_RELEASED
  | ASCS_OPCODE_RFU
  deriving DecidableEq, Repr

/-- The direction of an ASE, `le_audio_role_t`. -/
inductive le_audio_role_t
  | LE_AUDIO_ROLE_SINK
  | LE_AUDIO_ROLE_SOURCE
  deriving DecidableEq, Repr

open ascs_state_t ascs_opcode_t le_audio_role_t

/-- The nine opcodes a client may send. -/
def ascs_opcode_t.defined : ascs_opcode_t → Bool
  | ASCS_OPCODE_UNSUPPORTED => false
  | ASCS_OPCODE_RFU => false
  | _ => true

/-! ## State machine -/

/-- Body of `ascs_server_streamendpoint_can_transit_to_state`, on the two fields of the
stream endpoint it reads: `streamendpoint->state` and, through
`ascs_server_streamendpoint_in_source_role`, `streamendpoint->ase_characteristic->role`. -/
def ascs_server_streamendpoint_can_transit_to_state
    (state : ascs_state_t) (role : le_audio_role_t)
    (opcode : ascs_opcode_t) (target_state : ascs_state_t) : Bool :=
  match state with
  | ASCS_STATE_IDLE =>
    match opcode with
    | ASCS_OPCODE_CONFIG_CODEC => target_state == ASCS_STATE_CODEC_CONFIGURED
    | _ => false
  | ASCS_STATE_CODEC_CONFIGURED =>
    match opcode with
    | ASCS_OPCODE_CONFIG_CODEC => target_state == ASCS_STATE_CODEC_CONFIGURED
    | ASCS_OPCODE_CONFIG_QOS => target_state == ASCS_STATE_QOS_CONFIGURED
    | ASCS_OPCODE_RELEASE => target_state == ASCS_STATE_RELEASING
    | _ => false
  | ASCS_STATE_QOS_CONFIGURED =>
    match opcode with
    | ASCS_OPCODE_CONFIG_CODEC => target_state == ASCS_STATE_CODEC_CONFIGURED
    | ASCS_OPCODE_CONFIG_QOS => target_state == ASCS_STATE_QOS_CONFIGURED
    | ASCS_OPCODE_ENABLE => target_state == ASCS_STATE_ENABLING
    | ASCS_OPCODE_RELEASE => target_state == ASCS_STATE_RELEASING
    | _ => false
  | ASCS_STATE_ENABLING =>
    match opcode with
    | ASCS_OPCODE_UPDATE_METADATA => target_state == ASCS_STATE_ENABLING
    | ASCS_OPCODE_RELEASE => target_state == ASCS_STATE_RELEASING
    | ASCS_OPCODE_RECEIVER_START_READY => target_state == ASCS_STATE_STREAMING
    | ASCS_OPCODE_DISABLE =>
      if role = LE_AUDIO_ROLE_SOURCE then target_state == ASCS_STATE_DISABLING
      else target_state == ASCS_STATE_QOS_CONFIGURED
    | _ => false
  | ASCS_STATE_STREAMING =>
    match opcode with
    | ASCS_OPCODE_UPDATE_METADATA => target_state == ASCS_STATE_STREAMING
    | ASCS_OPCODE_RELEASE => target_state == ASCS_STATE_RELEASING
    | ASCS_OPCODE_DISABLE =>
      if role = LE_AUDIO_ROLE_SOURCE then target_state == ASCS_STATE_DISABLING
      else target_state == ASCS_STATE_QOS_CONFIGURED
    | _ => false
  | ASCS_STATE_DISABLING =>
    if role = LE_AUDIO_ROLE_SOURCE then
      match opcode with
      | ASCS_OPCODE_RELEASE => target_state == ASCS_STATE_RELEASING
      | ASCS_OPCODE_RECEIVER_STOP_READY => target_state == ASCS_STATE_QOS_CONFIGURED
      | _ => false
    else false
  | ASCS_STATE_RELEASING =>
    match opcode with
    | ASCS_OPCODE_RELEASED =>
      match target_state with
      | ASCS_STATE_IDLE => true
      | ASCS_STATE_CODEC_CONFIGURED => true
      | _ => false
    | _ => false
  | ASCS_STATE_RFU => false

/-- The transition table of section 4.3 of the specification, written from the table
alone: the list of target states the cell (row `s`, column `o`) gives for direction `d`.
An empty list is a dash. Only the cells that name a direction depend on `d`. -/
def transition_table (s : ascs_state_t) (o : ascs_opcode_t) (d : le_audio_role_t) :
    List ascs_state_t :=
  match s, o with
  | ASCS_STATE_IDLE, ASCS_OPCODE_CONFIG_CODEC => [ASCS_STATE_CODEC_CONFIGURED]
  | ASCS_STATE_CODEC_CONFIGURED, ASCS_OPCODE_CONFIG_CODEC => [ASCS_STATE_CODEC_CONFIGURED]
  | ASCS_STATE_CODEC_CONFIGURED, ASCS_OPCODE_CONFIG_QOS => [ASCS_STATE_QOS_CONFIGURED]
  | ASCS_STATE_CODEC_CONFIGURED, ASCS_OPCODE_RELEASE => [ASCS_STATE_RELEASING]
  | ASCS_STATE_QOS_CONFIGURED, ASCS_OPCODE_CONFIG_CODEC => [ASCS_STATE_CODEC_CONFIGURED]
  | ASCS_STATE_QOS_CONFIGURED, ASCS_OPCODE_CONFIG_QOS => [ASCS_STATE_QOS_CONFIGURED]
  | ASCS_STATE_QOS_CONFIGURED, ASCS_OPCODE_ENABLE => [ASCS_STATE_ENABLING]
  | ASCS_STATE_QOS_CONFIGURED, ASCS_OPCODE_RELEASE => [ASCS_STATE_RELEASING]
  | ASCS_STATE_ENABLING, ASCS_OPCODE_UPDATE_METADATA => [ASCS_STATE_ENABLING]
  | ASCS_STATE_ENABLING, ASCS_OPCODE_RECEIVER_START_READY => [ASCS_STATE_STREAMING]
  | ASCS_STATE_ENABLING, ASCS_OPCODE_DISABLE =>
    match d with
    | LE_AUDIO_ROLE_SOURCE => [ASCS_STATE_DISABLING]
    | LE_AUDIO_ROLE_SINK => [ASCS_STATE_QOS_CONFIGURED]
  | ASCS_STATE_ENABLING, ASCS_OPCODE_RELEASE => [ASCS_STATE_RELEASING]
  | ASCS_STATE_STREAMING, ASCS_OPCODE_UPDATE_METADATA => [ASCS_STATE_STREAMING]
  | ASCS_STATE_STREAMING, ASCS_OPCODE_DISABLE =>
    match d with
    | LE_AUDIO_ROLE_SOURCE => [ASCS_STATE_DISABLING]
    | LE_AUDIO_ROLE_SINK => [ASCS_STATE_QOS_CONFIGURED]
  | ASCS_STATE_STREAMING, ASCS_OPCODE_RELEASE => [ASCS_STATE_RELEASING]
  | ASCS_STATE_DISABLING, ASCS_OPCODE_RECEIVER_STOP_READY =>
    match d with
    | LE_AUDIO_ROLE_SOURCE => [ASCS_STATE_QOS_CONFIGURED]
    | LE_AUDIO_ROLE_SINK => []
  | ASCS_STATE_DISABLING, ASCS_OPCODE_RELEASE => [ASCS_STATE_RELEASING]
  | ASCS_STATE_RELEASING, ASCS_OPCODE_RELEASED =>
    [ASCS_STATE_IDLE, ASCS_STATE_CODEC_CONFIGURED]
  | _, _ => []

/-- The transition table as the code implements it: the table of section 4.3 with the
whole Disabling row restricted to Source ASEs. -/
def transition_table_source_disabling (s : ascs_state_t) (o : ascs_opcode_t)
    (d : le_audio_role_t) : List ascs_state_t :=
  match s, d with
  | ASCS_STATE_DISABLING, LE_AUDIO_ROLE_SINK => []
  | _, _ => transition_table s o d

/-! ## Data model -/

/-- Response codes of a control point operation. The response array is cleared with
`memset(.., 0, ..)` and `ASCS_ERROR_CODE_SUCCESS` is the value 0, so a cleared entry reads
as success; the other enumerators are distinct from it and from each other. -/
inductive ascs_error_code_t
  | ASCS_ERROR_CODE_SUCCESS
  | ASCS_ERROR_CODE_UNSUPPORTED_OPCODE
  | ASCS_ERROR_CODE_INVALID_LENGTH
  | ASCS_ERROR_CODE_INVALID_ASE_ID
  | ASCS_ERROR_CODE_INVALID_ASE_STATE_MACHINE_TRANSITION
  | ASCS_ERROR_CODE_INVALID_ASE_DIRECTION
  | ASCS_ERROR_CODE_INSUFFICIENT_RESOURCES
  | ASCS_ERROR_CODE_INVALID_CONFIGURATION_PARAMETER_VALUE
  | ASCS_ERROR_CODE_REJECTED_CONFIGURATION_PARAMETER_VALUE
  | ASCS_ERROR_CODE_INVALID_METADATA
  | ASCS_ERROR_CODE_REJECTED_METADATA
  | ASCS_ERROR_CODE_INSUFFICIENT_METADATA
  deriving DecidableEq, Repr

/-- Reason sub-codes. `ASCS_REJECT_REASON_NONE` is the literal 0 the code passes when
no reason applies; the named reasons are non-zero. -/
inductive ascs_reject_reason_t
  | ASCS_REJECT_REASON_NONE
  | ASCS_REJECT_REASON_CODEC_ID
  | ASCS_REJECT_REASON_CODEC_SPECIFIC_CONFIGURATION
  | ASCS_REJECT_REASON_SDU_INTERVAL
  | ASCS_REJECT_REASON_FRAMING
  | ASCS_REJECT_REASON_PHY
  | ASCS_REJECT_REASON_MAXIMUM_SDU_SIZE
  | ASCS_REJECT_REASON_MAX_TRANSPORT_LATENCY
  | ASCS_REJECT_REASON_PRESENTATION_DELAY
  | ASCS_REJECT_REASON_INVALID_ASE_CIS_MAPPING
  deriving DecidableEq, Repr

open ascs_error_code_t ascs_reject_reason_t

/-- Static part of an ASE, `ascs_streamendpoint_characteristic_t`. -/
structure ascs_streamendpoint_characteristic_t where
  ase_id : Nat
  role : le_audio_role_t
  ase_characteristic_value_handle : Nat
  ase_characteristic_client_configuration_handle : Nat
  deriving DecidableEq, Repr

/-- Codec specific configuration, `ascs_specific_codec_configuration_t`. -/
structure ascs_specific_codec_configuration_t where
  codec_configuration_mask : Nat
  sampling_frequency_index : Nat
  frame_duration_index : Nat
  audio_channel_allocation_mask : Nat
  octets_per_codec_frame : Nat
  codec_frame_blocks_per_sdu : Nat
  deriving DecidableEq, Repr

/-- Stored codec configuration of an ASE, `ascs_codec_configuration_t`. -/
structure ascs_codec_configuration_t where
  framing : Nat
  preferred_phy : Nat
  preferred_retransmission_number : Nat
  max_transport_latency_ms : Nat
  presentation_delay_min_us : Nat
  presentation_delay_max_us : Nat
  preferred_presentation_delay_min_us : Nat
  preferred_presentation_delay_max_us : Nat
  coding_format : Nat
  company_id : Nat
  vendor_specific_codec_id : Nat
  specific_codec_configuration : ascs_specific_codec_configuration_t
  deriving DecidableEq, Repr

/-- Codec configuration as requested by the client,
`ascs_client_codec_configuration_request_t`. -/
structure ascs_client_codec_configuration_request_t where
  target_latency : Nat
  target_phy : Nat
  coding_format : Nat
  company_id : Nat
  vendor_specific_codec_id : Nat
  specific_codec_configuration : ascs_specific_codec_configuration_t
  deriving DecidableEq, Repr

/-- QoS configuration, `ascs_qos_configuration_t`. -/
structure ascs_qos_configuration_t where
  cig_id : Nat
  cis_id : Nat
  sdu_interval : Nat
  framing : Nat
  phy : Nat
  max_sdu : Nat
  retransmission_number : Nat
  max_transport_latency_ms : Nat
  presentation_delay_us : Nat
  deriving DecidableEq, Repr

/-- Metadata of an ASE, `le_audio_metadata_t`: the mask of present types, the fields the
server validates, and the remaining records as raw bytes. -/
structure le_audio_metadata_t where
  metadata_mask : Nat
  preferred_audio_contexts_mask : Nat
  streaming_audio_contexts_mask : Nat
  parental_rating : Nat
  other : List Nat
  deriving DecidableEq, Repr

/-- Per connection part of an ASE, `ascs_streamendpoint_t`. The pointer
`ase_characteristic` of entry `i` is set once, in
`audio_stream_control_service_server_init`, to entry `i` of the characteristics array,
so it is represented by the index. -/
structure ascs_streamendpoint_t where
  state : ascs_state_t
  codec_configuration : ascs_codec_configuration_t
  qos_configuration : ascs_qos_configuration_t
  metadata : le_audio_metadata_t
  ase_characteristic_client_configuration : Nat
  ase_characteristic_value_change_initiated_by_client : Bool
  ase_characteristic_value_changed_w2_notify : Bool
  deriving DecidableEq, Repr

/-- One entry of the response vector, `ascs_control_point_operation_response_t`. -/
structure ascs_control_point_operation_response_t where
  ase_id : Nat
  response_code : ascs_error_code_t
  reason : ascs_reject_reason_t
  deriving DecidableEq, Repr

/-- A connection slot, `ascs_server_connection_t`. The arrays `response` and
`streamendpoints` have `ASCS_STREAMENDPOINTS_MAX_NUM` entries each; that constant is the
length of the lists. `response_opcode` keeps the byte the client wrote. -/
structure ascs_server_connection_t where
  con_handle : Nat
  ase_control_point_client_configuration : Nat
  response_opcode : Nat
  response_ases_num : Nat
  response : List ascs_control_point_operation_response_t
  scheduled_tasks : Nat
  streamendpoints : List ascs_streamendpoint_t
  deriving DecidableEq, Repr

/-- The subevents `ascs_server_emit_client_request` is called with. -/
inductive ascs_subevent_t
  | GATTSERVICE_SUBEVENT_ASCS_SERVER_START_READY
  | GATTSERVICE_SUBEVENT_ASCS_SERVER_DISABLE
  | GATTSERVICE_SUBEVENT_ASCS_SERVER_STOP_READY
  | GATTSERVICE_SUBEVENT_ASCS_SERVER_RELEASE
  | GATTSERVICE_SUBEVENT_ASCS_SERVER_RELEASED
  deriving DecidableEq, Repr

open ascs_subevent_t

/-- What the module does towards its environment, in the order it does it. The first
constructor marks an entry into `ascs_server_schedule_task`; the next two are the calls
into the ATT server; the rest are the events handed to the registered packet handler. -/
inductive ascs_effect_t
  | schedule_task (con_handle task : Nat)
  | att_server_register_can_send_now_callback (con_handle : Nat)
  | att_server_notify (con_handle attribute_handle : Nat) (value : List Nat)
  | emit_connected (con_handle status : Nat)
  | emit_disconnected (con_handle : Nat)
  | emit_client_request (con_handle ase_id : Nat) (subevent_id : ascs_subevent_t)
  | emit_client_codec_configuration_request (con_handle ase_id : Nat)
      (codec_configuration_request : ascs_client_codec_configuration_request_t)
  | emit_client_qos_configuration_request (con_handle ase_id : Nat) (state : ascs_state_t)
      (qos_configuration : ascs_qos_configuration_t)
  | emit_client_metadata_request (con_handle ase_id : Nat) (state : ascs_state_t)
      (metadata : le_audio_metadata_t)
  deriving DecidableEq, Repr

open ascs_effect_t

/-- The file-scope variables of the module together with the trace of effects. The
clients array has `ascs_clients_num` slots, the length of `ascs_clients`. -/
structure ascs_server_t where
  ascs_streamendpoint_characteristics : List ascs_streamendpoint_characteristic_t
  ascs_streamendpoint_chr_num : Nat
  ascs_clients : List ascs_server_connection_t
  ascs_streamendpoint_characteristics_id_counter : Nat
  ascs_ase_control_point_handle : Nat
  ascs_ase_control_point_client_configuration_handle : Nat
  trace : List ascs_effect_t
  deriving DecidableEq, Repr

/-! ### Zeroed values (`memset(.., 0, ..)`) and array access -/

/-- A characteristic with all fields zero. -/
def ascs_streamendpoint_characteristic_t.zero : ascs_streamendpoint_characteristic_t :=
  ⟨0, LE_AUDIO_ROLE_SINK, 0, 0⟩

/-- A codec specific configuration with all fields zero. -/
def ascs_specific_codec_configuration_t.zero : ascs_specific_codec_configuration_t :=
  ⟨0, 0, 0, 0, 0, 0⟩

/-- A codec configuration with all fields zero. -/
def ascs_codec_configuration_t.zero : ascs_codec_configuration_t :=
  ⟨0, 0, 0, 0, 0, 0, 0, 0, 0, 0, 0, ascs_specific_codec_configuration_t.zero⟩

/-- A QoS configuration with all fields zero. -/
def ascs_qos_configuration_t.zero : ascs_qos_configuration_t :=
  ⟨0, 0, 0, 0, 0, 0, 0, 0, 0⟩

/-- Metadata with all fields zero. -/
def le_audio_metadata_t.zero : le_audio_metadata_t := ⟨0, 0, 0, 0, []⟩

/-- A stream endpoint with all fields zero; state 0 is `ASCS_STATE_IDLE`. -/
def ascs_streamendpoint_t.zero : ascs_streamendpoint_t :=
  ⟨ASCS_STATE_IDLE, ascs_codec_configuration_t.zero, ascs_qos_configuration_t.zero,
    le_audio_metadata_t.zero, 0, false, false⟩

/-- A response entry with all fields zero. -/
def ascs_control_point_operation_response_t.zero : ascs_control_point_operation_response_t :=
  ⟨0, ASCS_ERROR_CODE_SUCCESS, ASCS_REJECT_REASON_NONE⟩

/-- Modelled from the spec: the invalid sentinel of a connection handle,
`HCI_CON_HANDLE_INVALID`, a constant of a header that is not part of the sources. -/
def HCI_CON_HANDLE_INVALID : Nat := 0xFFFF

/-- Task bit of a pending ASE value notification. -/
def ASCS_TASK_SEND_CODEC_CONFIGURATION_VALUE_CHANGED : Nat := 0x01

/-- Task bit of a pending control point response. -/
def ASCS_TASK_SEND_CONTROL_POINT_OPERATION_RESPONSE : Nat := 0x02

/-- Entry `i` of the characteristics array. -/
def ascs_server_t.chr (srv : ascs_server_t) (i : Nat) : ascs_streamendpoint_characteristic_t :=
  srv.ascs_streamendpoint_characteristics.getD i ascs_streamendpoint_characteristic_t.zero

/-- Entry `i` of a connection's stream endpoints, `connection->streamendpoints[i]`. -/
def ascs_server_connection_t.ase (c : ascs_server_connection_t) (i : Nat) :
    ascs_streamendpoint_t :=
  c.streamendpoints.getD i ascs_streamendpoint_t.zero

/-- Entry `i` of a connection's response vector, `connection->response[i]`. -/
def ascs_server_connection_t.resp (c : ascs_server_connection_t) (i : Nat) :
    ascs_control_point_operation_response_t :=
  c.response.getD i ascs_control_point_operation_response_t.zero

/-- Assignment through a pointer to stream endpoint `i` of a connection. -/
def ascs_server_connection_t.set_ase (c : ascs_server_connection_t) (i : Nat)
    (e : ascs_streamendpoint_t) : ascs_server_connection_t :=
  { c with streamendpoints := c.streamendpoints.set i e }

/-- Entry `i` of the clients array. -/
def ascs_server_t.client (srv : ascs_server_t) (i : Nat) : Option ascs_server_connection_t :=
  srv.ascs_clients.get? i

/-- Assignment through a pointer to slot `i` of the clients array. -/
def ascs_server_t.set_client (srv : ascs_server_t) (i : Nat) (c : ascs_server_connection_t) :
    ascs_server_t :=
  { srv with ascs_clients := srv.ascs_clients.set i c }

/-- Appends effects to the trace. -/
def ascs_server_t.emit (srv : ascs_server_t) (es : List ascs_effect_t) : ascs_server_t :=
  { srv with trace := srv.trace ++ es }

/-- A counted loop `for (i = 0; i < n; i++) body`, with the loop-carried variables in `σ`. -/
def for_loop {σ : Type} (n : Nat) (body : Nat → σ → σ) (init : σ) : σ :=
  (List.range n).foldl (fun s i => body i s) init

/-! ## Constants and helpers of headers that are not part of the sources -/

/-- The constants of `le_audio.h` and `bluetooth.h` the validator compares against, and
the two interpreters of a TLV blob, all of which live outside the sources at hand. They
are parameters of the embedding: nothing is assumed about their values. -/
structure ascs_util_t where
  LE_AUDIO_CLIENT_TARGET_LATENCY_RFU : Nat
  LE_AUDIO_CLIENT_TARGET_PHY_RFU : Nat
  HCI_AUDIO_CODING_FORMAT_LC3 : Nat
  HCI_AUDIO_CODING_FORMAT_RFU : Nat
  HCI_AUDIO_CODING_FORMAT_VENDOR_SPECIFIC : Nat
  LE_AUDIO_CODEC_CONFIGURATION_TYPE_SAMPLING_FREQUENCY : Nat
  LE_AUDIO_CODEC_CONFIGURATION_TYPE_FRAME_DURATION : Nat
  LE_AUDIO_CODEC_CONFIGURATION_TYPE_AUDIO_CHANNEL_ALLOCATION : Nat
  LE_AUDIO_CODEC_CONFIGURATION_TYPE_RFU : Nat
  LE_AUDIO_CODEC_SAMPLING_FREQUENCY_INDEX_INVALID : Nat
  LE_AUDIO_CODEC_SAMPLING_FREQUENCY_INDEX_RFU : Nat
  LE_AUDIO_CODEC_FRAME_DURATION_INDEX_INVALID : Nat
  LE_AUDIO_CODEC_FRAME_DURATION_INDEX_RFU : Nat
  LE_AUDIO_LOCATION_MASK_RFU : Nat
  LE_AUDIO_SERVER_PHY_MASK_CODED : Nat
  LE_AUDIO_METADATA_TYPE_PREFERRED_AUDIO_CONTEXTS : Nat
  LE_AUDIO_METADATA_TYPE_STREAMING_AUDIO_CONTEXTS : Nat
  LE_AUDIO_METADATA_TYPE_PARENTAL_RATING : Nat
  LE_AUDIO_METADATA_TYPE_RFU : Nat
  LE_AUDIO_CONTEXT_MASK_RFU : Nat
  LE_AUDIO_PARENTAL_RATING_RFU : Nat
  /-- Interpretation of the codec specific TLV blob of a Config Codec sub-request. -/
  ascs_util_specific_codec_configuration_parse :
    List Nat → ascs_specific_codec_configuration_t
  /-- Interpretation of the metadata TLV blob; the second argument is the previous
  content of the structure that is written to. -/
  le_audio_util_metadata_parse_tlv : List Nat → le_audio_metadata_t → le_audio_metadata_t

/-- Modelled from the spec: the cast of the opcode byte of an ACP write to
`ascs_opcode_t`, whose enumerator values are in a header that is not part of the sources.
Section 6 gives the range 0x01..0x09 and the seed scenarios 0x01 for Config Codec and
0x02 for Config QoS; the others follow in the order in which
`ascs_server_write_callback` lists its cases. -/
def ascs_opcode_of_byte (b : Nat) : ascs_opcode_t :=
  match b with
  | 0 => ASCS_OPCODE_UNSUPPORTED
  | 1 => ASCS_OPCODE_CONFIG_CODEC
  | 2 => ASCS_OPCODE_CONFIG_QOS
  | 3 => ASCS_OPCODE_ENABLE
  | 4 => ASCS_OPCODE_RECEIVER_START_READY
  | 5 => ASCS_OPCODE_DISABLE
  | 6 => ASCS_OPCODE_RECEIVER_STOP_READY
  | 7 => ASCS_OPCODE_UPDATE_METADATA
  | 8 => ASCS_OPCODE_RELEASE
  | 9 => ASCS_OPCODE_RELEASED
  | _ => ASCS_OPCODE_RFU

/-- Modelled from the spec: status of a connected event on slot exhaustion,
`ERROR_CODE_CONNECTION_LIMIT_EXCEEDED` of a header that is not part of the sources. -/
def ERROR_CODE_CONNECTION_LIMIT_EXCEEDED : Nat := 0x09

/-- Modelled from the spec: status of a connected event on success. -/
def ERROR_CODE_SUCCESS : Nat := 0x00

/-- Modelled from the spec: `little_endian_read_16` of `btstack_util.h`. -/
def little_endian_read_16 (buffer : List Nat) (pos : Nat) : Nat :=
  buffer.getD pos 0 + 256 * buffer.getD (pos + 1) 0

/-- Modelled from the spec: `little_endian_read_24` of `btstack_util.h`. -/
def little_endian_read_24 (buffer : List Nat) (pos : Nat) : Nat :=
  buffer.getD pos 0 + 256 * buffer.getD (pos + 1) 0 + 65536 * buffer.getD (pos + 2) 0

/-- Modelled from the spec: `ascs_util_codec_configuration_request_parse`, which is not
part of the sources. It is called on the bytes that follow the ase_id of a Config Codec
sub-request and returns the number of bytes it consumed: latency(1), phy(1),
codec_id(5), the length byte and the codec specific blob of that length, the layout
`ascs_server_control_point_operation_has_valid_length` walks over. -/
def ascs_util_codec_configuration_request_parse (U : ascs_util_t) (buffer : List Nat) :
    Nat × ascs_client_codec_configuration_request_t :=
  let codec_config_len := buffer.getD 7 0
  (8 + codec_config_len,
    { target_latency := buffer.getD 0 0
      target_phy := buffer.getD 1 0
      coding_format := buffer.getD 2 0
      company_id := little_endian_read_16 buffer 3
      vendor_specific_codec_id := little_endian_read_16 buffer 5
      specific_codec_configuration :=
        U.ascs_util_specific_codec_configuration_parse
          ((buffer.drop 8).take codec_config_len) })

/-- Modelled from the spec: `ascs_util_qos_configuration_parse`, which is not part of the
sources. It is called on the bytes that follow the ase_id of a Config QoS sub-request and
consumes cig_id(1), cis_id(1), sdu_interval(3), framing(1), phy(1), max_sdu(2),
retransmission_number(1), max_transport_latency(2), presentation_delay(3). -/
def ascs_util_qos_configuration_parse (buffer : List Nat) : Nat × ascs_qos_configuration_t :=
  (15,
    { cig_id := buffer.getD 0 0
      cis_id := buffer.getD 1 0
      sdu_interval := little_endian_read_24 buffer 2
      framing := buffer.getD 5 0
      phy := buffer.getD 6 0
      max_sdu := little_endian_read_16 buffer 7
      retransmission_number := buffer.getD 9 0
      max_transport_latency_ms := little_endian_read_16 buffer 10
      presentation_delay_us := little_endian_read_24 buffer 12 })

/-- Modelled from the spec: `le_audio_util_metadata_parse`, which is not part of the
sources. It is called on the bytes that follow the ase_id of an Enable or Update Metadata
sub-request and consumes the length byte and the metadata blob of that length. -/
def le_audio_util_metadata_parse (U : ascs_util_t) (buffer : List Nat)
    (metadata : le_audio_metadata_t) : Nat × le_audio_metadata_t :=
  let metadata_length := buffer.getD 0 0
  (1 + metadata_length,
    U.le_audio_util_metadata_parse_tlv ((buffer.drop 1).take metadata_length) metadata)

/-! ## Connection table -/

/-- Index of the first element of a list that satisfies `p`. -/
def find_index {α : Type} (p : α → Bool) : List α → Option Nat
  | [] => none
  | a :: as => if p a then some 0 else (find_index p as).map (fun i => i + 1)

/-- The function `ascs_server_get_next_streamendpoint_chr_id`, as a function of the value
of the counter: the id it returns, which is also the new value of the counter. -/
def ascs_server_get_next_streamendpoint_chr_id (counter : Nat) : Nat :=
  if counter = 0xff then 1 else counter + 1

/-- The function `ascs_server_get_remote_client_for_con_handle`: the index of the slot. -/
def ascs_server_get_remote_client_for_con_handle (srv : ascs_server_t) (con_handle : Nat) :
    Option Nat :=
  if con_handle = HCI_CON_HANDLE_INVALID then none
  else find_index (fun c => c.con_handle == con_handle) srv.ascs_clients

/-- The function `ascs_server_add_client`: the index of the first free slot, and the
server with that slot taken. -/
def ascs_server_add_client (srv : ascs_server_t) (con_handle : Nat) :
    Option Nat × ascs_server_t :=
  match find_index (fun c => c.con_handle == HCI_CON_HANDLE_INVALID) srv.ascs_clients with
  | some i =>
    (some i, { srv with ascs_clients :=
      srv.ascs_clients.modify (fun c => { c with con_handle := con_handle }) i })
  | none => (none, srv)

/-- The function `ascs_server_get_streamendpoint_for_ase_id`: the index of the first of
the `ascs_streamendpoint_chr_num` stream endpoints whose characteristic has the id. -/
def ascs_server_get_streamendpoint_for_ase_id (srv : ascs_server_t) (ase_id : Nat) :
    Option Nat :=
  (List.range srv.ascs_streamendpoint_chr_num).find? (fun i => (srv.chr i).ase_id == ase_id)

/-- The function `ascs_server_reset_client_response`. -/
def ascs_server_reset_client_response (c : ascs_server_connection_t) :
    ascs_server_connection_t :=
  { c with
    response_opcode := 0
    response_ases_num := 0
    response := c.response.map (fun _ => ascs_control_point_operation_response_t.zero) }

/-- Loop body of `ascs_server_reset_client_streamendpoints`. -/
def ascs_server_reset_streamendpoint (e : ascs_streamendpoint_t) : ascs_streamendpoint_t :=
  { e with
    state := ASCS_STATE_IDLE
    codec_configuration := ascs_codec_configuration_t.zero
    qos_configuration := ascs_qos_configuration_t.zero
    metadata := le_audio_metadata_t.zero
    ase_characteristic_value_change_initiated_by_client := false
    ase_characteristic_value_changed_w2_notify := false }

/-- The function `ascs_server_reset_client_streamendpoints`. -/
def ascs_server_reset_client_streamendpoints (srv : ascs_server_t)
    (c : ascs_server_connection_t) : ascs_server_connection_t :=
  for_loop srv.ascs_streamendpoint_chr_num
    (fun i c => c.set_ase i (ascs_server_reset_streamendpoint (c.ase i))) c

/-- The function `ascs_server_reset_client`. -/
def ascs_server_reset_client (srv : ascs_server_t) (c : ascs_server_connection_t) :
    ascs_server_connection_t :=
  ascs_server_reset_client_streamendpoints srv
    (ascs_server_reset_client_response
      { c with scheduled_tasks := 0, con_handle := HCI_CON_HANDLE_INVALID })

/-- The function `ascs_server_schedule_task`: the connection afterwards and the effects,
the first of which marks the call itself. -/
def ascs_server_schedule_task (srv : ascs_server_t) (c : ascs_server_connection_t)
    (task : Nat) : ascs_server_connection_t × List ascs_effect_t :=
  if c.con_handle = HCI_CON_HANDLE_INVALID then
    (ascs_server_reset_client srv c, [schedule_task c.con_handle task])
  else if task = ASCS_TASK_SEND_CONTROL_POINT_OPERATION_RESPONSE ∧
      c.ase_control_point_client_configuration = 0 then
    (c, [schedule_task c.con_handle task])
  else
    ({ c with scheduled_tasks := c.scheduled_tasks ||| task },
      schedule_task c.con_handle task ::
        (if c.scheduled_tasks = 0 then
          [att_server_register_can_send_now_callback c.con_handle] else []))

/-- The function `ascs_server_update_control_point_operation_response`. -/
def ascs_server_update_control_point_operation_response (c : ascs_server_connection_t)
    (response_index : Nat) (response_code : ascs_error_code_t)
    (reason : ascs_reject_reason_t) : ascs_server_connection_t :=
  { c with response := (c.response.set response_index
      { (c.resp response_index) with response_code := response_code, reason := reason }) }

/-- The assignment `connection->response[ase_index].ase_id = ase_id`. -/
def ascs_server_connection_t.set_response_ase_id (c : ascs_server_connection_t)
    (ase_index ase_id : Nat) : ascs_server_connection_t :=
  { c with response := c.response.set ase_index { (c.resp ase_index) with ase_id := ase_id } }

/-! ## Request validator -/

/-- The Config Codec loop of `ascs_server_control_point_operation_has_valid_length` with
`n` iterations left, including the final `return (pos == buffer_size)`. The cursor never
passes `buffer_size`, so `buffer_size - pos` does not go below zero and the 16-bit
cursor does not wrap. -/
def has_valid_length_config_codec (buffer : List Nat) (buffer_size : Nat) : Nat → Nat → Bool
  | 0, pos => pos == buffer_size
  | n + 1, pos =>
    if buffer_size - pos < 9 then false
    else
      let pos := pos + 8
      let codec_config_len := buffer.getD pos 0
      let pos := pos + 1
      if buffer_size - pos < codec_config_len then false
      else has_valid_length_config_codec buffer buffer_size n (pos + codec_config_len)

/-- The Config QoS loop of `ascs_server_control_point_operation_has_valid_length` with `n`
iterations left, including the final `return (pos == buffer_size)`. -/
def has_valid_length_config_qos (buffer_size : Nat) : Nat → Nat → Bool
  | 0, pos => pos == buffer_size
  | n + 1, pos =>
    if buffer_size - pos < 16 then false
    else has_valid_length_config_qos buffer_size n (pos + 16)

/-- The Enable / Update Metadata loop of
`ascs_server_control_point_operation_has_valid_length` with `n` iterations left,
including the final `return (pos == buffer_size)`. -/
def has_valid_length_metadata (buffer : List Nat) (buffer_size : Nat) : Nat → Nat → Bool
  | 0, pos => pos == buffer_size
  | n + 1, pos =>
    if buffer_size - pos < 2 then false
    else
      let pos := pos + 1
      let metadata_length := buffer.getD pos 0
      let pos := pos + 1
      if buffer_size - pos < metadata_length then false
      else has_valid_length_metadata buffer buffer_size n (pos + metadata_length)

/-- The function `ascs_server_control_point_operation_has_valid_length`. -/
def ascs_server_control_point_operation_has_valid_length (opcode : ascs_opcode_t)
    (ases_num : Nat) (buffer : List Nat) (buffer_size : Nat) : Bool :=
  match opcode with
  | ASCS_OPCODE_CONFIG_CODEC => has_valid_length_config_codec buffer buffer_size ases_num 0
  | ASCS_OPCODE_CONFIG_QOS => has_valid_length_config_qos buffer_size ases_num 0
  | ASCS_OPCODE_ENABLE => has_valid_length_metadata buffer buffer_size ases_num 0
  | ASCS_OPCODE_UPDATE_METADATA => has_valid_length_metadata buffer buffer_size ases_num 0
  | ASCS_OPCODE_RECEIVER_START_READY => (0 + ases_num) == buffer_size
  | ASCS_OPCODE_DISABLE => (0 + ases_num) == buffer_size
  | ASCS_OPCODE_RECEIVER_STOP_READY => (0 + ases_num) == buffer_size
  | ASCS_OPCODE_RELEASE => (0 + ases_num) == buffer_size
  | _ => true

/-- The loop over the codec configuration types in
`ascs_server_control_point_operation_prepare_response_for_codec_configuration`, with
`fuel` bounding the iterations left; it stops at the first type that sets a reason. -/
def codec_configuration_reject_reason (U : ascs_util_t)
    (specific_codec_config : ascs_specific_codec_configuration_t) :
    Nat → Nat → ascs_reject_reason_t → ascs_reject_reason_t
  | 0, _, reject_reason => reject_reason
  | fuel + 1, codec_config_type, reject_reason =>
    if codec_config_type < U.LE_AUDIO_CODEC_CONFIGURATION_TYPE_RFU ∧
        reject_reason = ASCS_REJECT_REASON_NONE then
      let reject_reason :=
        if specific_codec_config.codec_configuration_mask &&& (1 <<< codec_config_type) ≠ 0 then
          if codec_config_type = U.LE_AUDIO_CODEC_CONFIGURATION_TYPE_SAMPLING_FREQUENCY then
            if specific_codec_config.sampling_frequency_index
                  = U.LE_AUDIO_CODEC_SAMPLING_FREQUENCY_INDEX_INVALID ∨
                specific_codec_config.sampling_frequency_index
                  ≥ U.LE_AUDIO_CODEC_SAMPLING_FREQUENCY_INDEX_RFU then
              ASCS_REJECT_REASON_CODEC_SPECIFIC_CONFIGURATION
            else reject_reason
          else if codec_config_type = U.LE_AUDIO_CODEC_CONFIGURATION_TYPE_FRAME_DURATION then
            if specific_codec_config.frame_duration_index
                  = U.LE_AUDIO_CODEC_FRAME_DURATION_INDEX_INVALID ∨
                specific_codec_config.frame_duration_index
                  ≥ U.LE_AUDIO_CODEC_FRAME_DURATION_INDEX_RFU then
              ASCS_REJECT_REASON_CODEC_SPECIFIC_CONFIGURATION
            else reject_reason
          else if codec_config_type
              = U.LE_AUDIO_CODEC_CONFIGURATION_TYPE_AUDIO_CHANNEL_ALLOCATION then
            if specific_codec_config.audio_channel_allocation_mask
                ≥ U.LE_AUDIO_LOCATION_MASK_RFU then
              ASCS_REJECT_REASON_CODEC_SPECIFIC_CONFIGURATION
            else reject_reason
          else reject_reason
        else reject_reason
      codec_configuration_reject_reason U specific_codec_config fuel (codec_config_type + 1)
        reject_reason
    else reject_reason

/-- The part of
`ascs_server_control_point_operation_prepare_response_for_codec_configuration` after the
`switch` on the coding format: the loop over the codec configuration types and the
final update. -/
def prepare_response_for_codec_specific_configuration
    (U : ascs_util_t) (connection : ascs_server_connection_t) (ase_index : Nat)
    (codec_config : ascs_client_codec_configuration_request_t) : ascs_server_connection_t :=
  let reject_reason :=
    codec_configuration_reject_reason U codec_config.specific_codec_configuration
      (U.LE_AUDIO_CODEC_CONFIGURATION_TYPE_RFU
        - U.LE_AUDIO_CODEC_CONFIGURATION_TYPE_SAMPLING_FREQUENCY)
      U.LE_AUDIO_CODEC_CONFIGURATION_TYPE_SAMPLING_FREQUENCY ASCS_REJECT_REASON_NONE
  if reject_reason ≠ ASCS_REJECT_REASON_NONE then
    ascs_server_update_control_point_operation_response connection ase_index
      ASCS_ERROR_CODE_INVALID_CONFIGURATION_PARAMETER_VALUE
      ASCS_REJECT_REASON_CODEC_SPECIFIC_CONFIGURATION
  else connection

/-- The function
`ascs_server_control_point_operation_prepare_response_for_codec_configuration`. In the
`switch` on the coding format the LC3 case returns on a non-zero company or vendor id and
otherwise breaks; the default case records a rejection and breaks as well. -/
def ascs_server_control_point_operation_prepare_response_for_codec_configuration
    (U : ascs_util_t) (srv : ascs_server_t) (connection : ascs_server_connection_t)
    (ase_index ase_id : Nat) (codec_config : ascs_client_codec_configuration_request_t) :
    ascs_server_connection_t :=
  let connection := connection.set_response_ase_id ase_index ase_id
  match ascs_server_get_streamendpoint_for_ase_id srv ase_id with
  | none =>
    ascs_server_update_control_point_operation_response connection ase_index
      ASCS_ERROR_CODE_INVALID_ASE_ID ASCS_REJECT_REASON_NONE
  | some k =>
    if ¬ ascs_server_streamendpoint_can_transit_to_state (connection.ase k).state
        (srv.chr k).role ASCS_OPCODE_CONFIG_CODEC ASCS_STATE_CODEC_CONFIGURED then
      ascs_server_update_control_point_operation_response connection ase_index
        ASCS_ERROR_CODE_INVALID_ASE_STATE_MACHINE_TRANSITION ASCS_REJECT_REASON_NONE
    else if codec_config.target_latency ≥ U.LE_AUDIO_CLIENT_TARGET_LATENCY_RFU then
      ascs_server_update_control_point_operation_response connection ase_index
        ASCS_ERROR_CODE_INVALID_CONFIGURATION_PARAMETER_VALUE
        ASCS_REJECT_REASON_MAX_TRANSPORT_LATENCY
    else if codec_config.target_phy ≥ U.LE_AUDIO_CLIENT_TARGET_PHY_RFU then
      ascs_server_update_control_point_operation_response connection ase_index
        ASCS_ERROR_CODE_INVALID_CONFIGURATION_PARAMETER_VALUE ASCS_REJECT_REASON_PHY
    else if codec_config.coding_format ≥ U.HCI_AUDIO_CODING_FORMAT_RFU ∧
        codec_config.coding_format ≠ U.HCI_AUDIO_CODING_FORMAT_VENDOR_SPECIFIC then
      ascs_server_update_control_point_operation_response connection ase_index
        ASCS_ERROR_CODE_INVALID_CONFIGURATION_PARAMETER_VALUE ASCS_REJECT_REASON_CODEC_ID
    else if codec_config.coding_format = U.HCI_AUDIO_CODING_FORMAT_LC3 then
      if codec_config.company_id ≠ 0 then
        ascs_server_update_control_point_operation_response connection ase_index
          ASCS_ERROR_CODE_INVALID_CONFIGURATION_PARAMETER_VALUE ASCS_REJECT_REASON_CODEC_ID
      else if codec_config.vendor_specific_codec_id ≠ 0 then
        ascs_server_update_control_point_operation_response connection ase_index
          ASCS_ERROR_CODE_INVALID_CONFIGURATION_PARAMETER_VALUE ASCS_REJECT_REASON_CODEC_ID
      else prepare_response_for_codec_specific_configuration U connection ase_index codec_config
    else
      prepare_response_for_codec_specific_configuration U
        (ascs_server_update_control_point_operation_response connection ase_index
          ASCS_ERROR_CODE_REJECTED_CONFIGURATION_PARAMETER_VALUE
          ASCS_REJECT_REASON_CODEC_SPECIFIC_CONFIGURATION)
        ase_index codec_config

/-- The loop over the stream endpoints in
`ascs_control_point_operation_prepare_response_for_qos_configuration`, from index `i`
with `fuel` iterations left: whether it reaches the CIS mapping rejection. `k` is the
stream endpoint the request names. -/
def qos_configuration_cis_mapping_collides (srv : ascs_server_t)
    (connection : ascs_server_connection_t) (k : Nat) (qos_config : ascs_qos_configuration_t) :
    Nat → Nat → Bool
  | 0, _ => false
  | fuel + 1, i =>
    if (srv.chr k).ase_id = (srv.chr i).ase_id then
      qos_configuration_cis_mapping_collides srv connection k qos_config fuel (i + 1)
    else if (srv.chr k).role ≠ (srv.chr i).role then
      qos_configuration_cis_mapping_collides srv connection k qos_config fuel (i + 1)
    else if (connection.ase k).state = ASCS_STATE_CODEC_CONFIGURED ∧
        qos_config.cig_id = (connection.ase i).qos_configuration.cig_id ∧
        qos_config.cis_id = (connection.ase i).qos_configuration.cis_id then
      true
    else qos_configuration_cis_mapping_collides srv connection k qos_config fuel (i + 1)

/-- The function `ascs_control_point_operation_prepare_response_for_qos_configuration`. -/
def ascs_control_point_operation_prepare_response_for_qos_configuration
    (U : ascs_util_t) (srv : ascs_server_t) (connection : ascs_server_connection_t)
    (ase_index ase_id : Nat) (qos_config : ascs_qos_configuration_t) :
    ascs_server_connection_t :=
  let connection := connection.set_response_ase_id ase_index ase_id
  match ascs_server_get_streamendpoint_for_ase_id srv ase_id with
  | none =>
    ascs_server_update_control_point_operation_response connection ase_index
      ASCS_ERROR_CODE_INVALID_ASE_ID ASCS_REJECT_REASON_NONE
  | some k =>
    let streamendpoint := connection.ase k
    if ¬ ascs_server_streamendpoint_can_transit_to_state streamendpoint.state
        (srv.chr k).role ASCS_OPCODE_CONFIG_QOS ASCS_STATE_QOS_CONFIGURED then
      ascs_server_update_control_point_operation_response connection ase_index
        ASCS_ERROR_CODE_INVALID_ASE_STATE_MACHINE_TRANSITION ASCS_REJECT_REASON_NONE
    else if qos_configuration_cis_mapping_collides srv connection k qos_config
        srv.ascs_streamendpoint_chr_num 0 then
      ascs_server_update_control_point_operation_response connection ase_index
        ASCS_ERROR_CODE_INVALID_CONFIGURATION_PARAMETER_VALUE
        ASCS_REJECT_REASON_INVALID_ASE_CIS_MAPPING
    else if qos_config.sdu_interval < 0x0000FF ∨ qos_config.sdu_interval > 0x0FFFFF then
      ascs_server_update_control_point_operation_response connection ase_index
        ASCS_ERROR_CODE_INVALID_CONFIGURATION_PARAMETER_VALUE ASCS_REJECT_REASON_SDU_INTERVAL
    else if qos_config.framing ≠ streamendpoint.codec_configuration.framing then
      ascs_server_update_control_point_operation_response connection ase_index
        ASCS_ERROR_CODE_INVALID_CONFIGURATION_PARAMETER_VALUE ASCS_REJECT_REASON_FRAMING
    else if qos_config.phy > U.LE_AUDIO_SERVER_PHY_MASK_CODED then
      ascs_server_update_control_point_operation_response connection ase_index
        ASCS_ERROR_CODE_INVALID_CONFIGURATION_PARAMETER_VALUE ASCS_REJECT_REASON_PHY
    else if qos_config.max_sdu > 0x0FFF then
      ascs_server_update_control_point_operation_response connection ase_index
        ASCS_ERROR_CODE_INVALID_CONFIGURATION_PARAMETER_VALUE
        ASCS_REJECT_REASON_MAXIMUM_SDU_SIZE
    else if qos_config.max_transport_latency_ms
        > streamendpoint.codec_configuration.max_transport_latency_ms then
      ascs_server_update_control_point_operation_response connection ase_index
        ASCS_ERROR_CODE_INVALID_CONFIGURATION_PARAMETER_VALUE
        ASCS_REJECT_REASON_MAX_TRANSPORT_LATENCY
    else if qos_config.presentation_delay_us
          < streamendpoint.codec_configuration.presentation_delay_min_us ∨
        qos_config.presentation_delay_us
          > streamendpoint.codec_configuration.presentation_delay_max_us then
      ascs_server_update_control_point_operation_response connection ase_index
        ASCS_ERROR_CODE_INVALID_CONFIGURATION_PARAMETER_VALUE
        ASCS_REJECT_REASON_PRESENTATION_DELAY
    else connection

/-- The function `ascs_server_control_point_operation_prepare_response_for_target_state`.
The opcode it checks is the one stored in `connection->response_opcode`. -/
def ascs_server_control_point_operation_prepare_response_for_target_state
    (srv : ascs_server_t) (connection : ascs_server_connection_t)
    (ase_index ase_id : Nat) (target_state : ascs_state_t) : ascs_server_connection_t :=
  let connection := connection.set_response_ase_id ase_index ase_id
  match ascs_server_get_streamendpoint_for_ase_id srv ase_id with
  | none =>
    ascs_server_update_control_point_operation_response connection ase_index
      ASCS_ERROR_CODE_INVALID_ASE_ID ASCS_REJECT_REASON_NONE
  | some k =>
    let target_state :=
      if target_state = ASCS_STATE_DISABLING ∧ ¬ ((srv.chr k).role = LE_AUDIO_ROLE_SOURCE) then
        ASCS_STATE_QOS_CONFIGURED
      else target_state
    if ¬ ascs_server_streamendpoint_can_transit_to_state (connection.ase k).state
        (srv.chr k).role (ascs_opcode_of_byte connection.response_opcode) target_state then
      ascs_server_update_control_point_operation_response connection ase_index
        ASCS_ERROR_CODE_INVALID_ASE_STATE_MACHINE_TRANSITION ASCS_REJECT_REASON_NONE
    else connection

/-- The loop over the metadata types in
`ascs_server_control_point_operation_prepare_response_for_metadata_update`, with `fuel`
bounding the iterations left. -/
def metadata_reject_code (U : ascs_util_t) (metadata : le_audio_metadata_t) :
    Nat → Nat → ascs_error_code_t → ascs_error_code_t
  | 0, _, reject_code => reject_code
  | fuel + 1, metadata_type, reject_code =>
    if metadata_type < U.LE_AUDIO_METADATA_TYPE_RFU then
      let reject_code :=
        if metadata.metadata_mask &&& (1 <<< metadata_type) ≠ 0 then
          if metadata_type = U.LE_AUDIO_METADATA_TYPE_PREFERRED_AUDIO_CONTEXTS then
            if metadata.preferred_audio_contexts_mask ≥ U.LE_AUDIO_CONTEXT_MASK_RFU then
              ASCS_ERROR_CODE_INVALID_METADATA
            else reject_code
          else if metadata_type = U.LE_AUDIO_METADATA_TYPE_STREAMING_AUDIO_CONTEXTS then
            if metadata.streaming_audio_contexts_mask ≥ U.LE_AUDIO_CONTEXT_MASK_RFU then
              ASCS_ERROR_CODE_INVALID_METADATA
            else reject_code
          else if metadata_type = U.LE_AUDIO_METADATA_TYPE_PARENTAL_RATING then
            if metadata.parental_rating ≥ U.LE_AUDIO_PARENTAL_RATING_RFU then
              ASCS_ERROR_CODE_INVALID_METADATA
            else reject_code
          else reject_code
        else reject_code
      metadata_reject_code U metadata fuel (metadata_type + 1) reject_code
    else reject_code

/-- The function
`ascs_server_control_point_operation_prepare_response_for_metadata_update`. -/
def ascs_server_control_point_operation_prepare_response_for_metadata_update
    (U : ascs_util_t) (srv : ascs_server_t) (connection : ascs_server_connection_t)
    (ase_index ase_id : Nat) (metadata : le_audio_metadata_t) : ascs_server_connection_t :=
  let connection := connection.set_response_ase_id ase_index ase_id
  match ascs_server_get_streamendpoint_for_ase_id srv ase_id with
  | none =>
    ascs_server_update_control_point_operation_response connection ase_index
      ASCS_ERROR_CODE_INVALID_ASE_ID ASCS_REJECT_REASON_NONE
  | some k =>
    match (connection.ase k).state with
    | ASCS_STATE_ENABLING | ASCS_STATE_STREAMING =>
      if metadata.metadata_mask &&& (1 <<< U.LE_AUDIO_METADATA_TYPE_RFU) ≠ 0 then
        ascs_server_update_control_point_operation_response connection ase_index
          ASCS_ERROR_CODE_REJECTED_METADATA ASCS_REJECT_REASON_NONE
      else
        let reject_code :=
          metadata_reject_code U metadata
            (U.LE_AUDIO_METADATA_TYPE_RFU - U.LE_AUDIO_METADATA_TYPE_PREFERRED_AUDIO_CONTEXTS)
            U.LE_AUDIO_METADATA_TYPE_PREFERRED_AUDIO_CONTEXTS ASCS_ERROR_CODE_SUCCESS
        if reject_code ≠ ASCS_ERROR_CODE_SUCCESS then
          ascs_server_update_control_point_operation_response connection ase_index
            reject_code ASCS_REJECT_REASON_NONE
        else connection
    | _ =>
      ascs_server_update_control_point_operation_response connection ase_index
        ASCS_ERROR_CODE_INVALID_ASE_STATE_MACHINE_TRANSITION ASCS_REJECT_REASON_NONE

/-- The function `ascs_server_control_point_operation_prepare_response_for_start_ready`. -/
def ascs_server_control_point_operation_prepare_response_for_start_ready
    (srv : ascs_server_t) (connection : ascs_server_connection_t)
    (ase_index ase_id : Nat) : ascs_server_connection_t :=
  let connection := connection.set_response_ase_id ase_index ase_id
  match ascs_server_get_streamendpoint_for_ase_id srv ase_id with
  | none =>
    ascs_server_update_control_point_operation_response connection ase_index
      ASCS_ERROR_CODE_INVALID_ASE_ID ASCS_REJECT_REASON_NONE
  | some k =>
    if (srv.chr k).role = LE_AUDIO_ROLE_SINK then
      ascs_server_update_control_point_operation_response connection ase_index
        ASCS_ERROR_CODE_INVALID_ASE_DIRECTION ASCS_REJECT_REASON_NONE
    else if ¬ ascs_server_streamendpoint_can_transit_to_state (connection.ase k).state
        (srv.chr k).role ASCS_OPCODE_RECEIVER_START_READY ASCS_STATE_STREAMING then
      ascs_server_update_control_point_operation_response connection ase_index
        ASCS_ERROR_CODE_INVALID_ASE_STATE_MACHINE_TRANSITION ASCS_REJECT_REASON_NONE
    else connection

/-- The function `ascs_server_control_point_operation_prepare_response_for_stop_ready`. -/
def ascs_server_control_point_operation_prepare_response_for_stop_ready
    (srv : ascs_server_t) (connection : ascs_server_connection_t)
    (ase_index ase_id : Nat) : ascs_server_connection_t :=
  let connection := connection.set_response_ase_id ase_index ase_id
  match ascs_server_get_streamendpoint_for_ase_id srv ase_id with
  | none =>
    ascs_server_update_control_point_operation_response connection ase_index
      ASCS_ERROR_CODE_INVALID_ASE_ID ASCS_REJECT_REASON_NONE
  | some k =>
    if (srv.chr k).role = LE_AUDIO_ROLE_SINK then
      ascs_server_update_control_point_operation_response connection ase_index
        ASCS_ERROR_CODE_INVALID_ASE_DIRECTION ASCS_REJECT_REASON_NONE
    else if ¬ ascs_server_streamendpoint_can_transit_to_state (connection.ase k).state
        (srv.chr k).role ASCS_OPCODE_RECEIVER_STOP_READY ASCS_STATE_QOS_CONFIGURED then
      ascs_server_update_control_point_operation_response connection ase_index
        ASCS_ERROR_CODE_INVALID_ASE_STATE_MACHINE_TRANSITION ASCS_REJECT_REASON_NONE
    else connection

/-- The function `ascs_server_request_successfully_processed`: its result and the
connection afterwards. The stream endpoint it looks up exists whenever the entry is a
success, because the validator looked up the same id; the C code dereferences it
unchecked. -/
def ascs_server_request_successfully_processed (srv : ascs_server_t)
    (connection : ascs_server_connection_t) (response_index : Nat) :
    Bool × ascs_server_connection_t :=
  if (connection.resp response_index).response_code ≠ ASCS_ERROR_CODE_SUCCESS then
    (false, connection)
  else
    match ascs_server_get_streamendpoint_for_ase_id srv (connection.resp response_index).ase_id with
    | none => (true, connection)
    | some k =>
      (true, connection.set_ase k
        { (connection.ase k) with ase_characteristic_value_change_initiated_by_client := true })

/-! ## The GATT write callback -/

/-- Variables carried through the first read of an ACP write: the 8-bit cursor `pos`,
the local `metadata_config` and the connection. -/
structure first_read_t where
  pos : Nat
  metadata_config : le_audio_metadata_t
  connection : ascs_server_connection_t

/-- Variables carried through the second read of an ACP write: the 16-bit cursor
`data_offset`, the local `metadata_config`, the connection and the effects so far. -/
structure second_read_t where
  data_offset : Nat
  metadata_config : le_audio_metadata_t
  connection : ascs_server_connection_t
  effects : List ascs_effect_t

/-- Body of the first `for` loop of `ascs_server_write_callback` for sub-request `i`. The
callback has one such loop per opcode, inside the `switch`; the opcode does not change
while the loops run, so the `switch` is taken inside the body here. `pos` is a `uint8_t`:
every update is reduced modulo 256. -/
def first_read_body (U : ascs_util_t) (srv : ascs_server_t) (opcode : ascs_opcode_t)
    (buffer : List Nat) (i : Nat) (s : first_read_t) : first_read_t :=
  let ase_id := buffer.getD s.pos 0
  let pos := (s.pos + 1) % 256
  match opcode with
  | ASCS_OPCODE_CONFIG_CODEC =>
    let r := ascs_util_codec_configuration_request_parse U (buffer.drop pos)
    { s with
      pos := (pos + r.1) % 256
      connection :=
        ascs_server_control_point_operation_prepare_response_for_codec_configuration U srv
          s.connection i ase_id r.2 }
  | ASCS_OPCODE_CONFIG_QOS =>
    let r := ascs_util_qos_configuration_parse (buffer.drop pos)
    { s with
      pos := (pos + r.1) % 256
      connection :=
        ascs_control_point_operation_prepare_response_for_qos_configuration U srv
          s.connection i ase_id r.2 }
  | ASCS_OPCODE_ENABLE =>
    let r := le_audio_util_metadata_parse U (buffer.drop pos) s.metadata_config
    { pos := (pos + r.1) % 256
      metadata_config := r.2
      connection :=
        ascs_server_control_point_operation_prepare_response_for_target_state srv
          s.connection i ase_id ASCS_STATE_ENABLING }
  | ASCS_OPCODE_RECEIVER_START_READY =>
    { s with
      pos := pos
      connection :=
        ascs_server_control_point_operation_prepare_response_for_start_ready srv
          s.connection i ase_id }
  | ASCS_OPCODE_DISABLE =>
    { s with
      pos := pos
      connection :=
        ascs_server_control_point_operation_prepare_response_for_target_state srv
          s.connection i ase_id ASCS_STATE_DISABLING }
  | ASCS_OPCODE_RECEIVER_STOP_READY =>
    { s with
      pos := pos
      connection :=
        ascs_server_control_point_operation_prepare_response_for_stop_ready srv
          s.connection i ase_id }
  | ASCS_OPCODE_UPDATE_METADATA =>
    let r := le_audio_util_metadata_parse U (buffer.drop pos) s.metadata_config
    { pos := (pos + r.1) % 256
      metadata_config := r.2
      connection :=
        ascs_server_control_point_operation_prepare_response_for_metadata_update U srv
          s.connection i ase_id r.2 }
  | ASCS_OPCODE_RELEASE =>
    { s with
      pos := pos
      connection :=
        ascs_server_control_point_operation_prepare_response_for_target_state srv
          s.connection i ase_id ASCS_STATE_RELEASING }
  | ASCS_OPCODE_RELEASED =>
    { s with
      pos := pos
      connection :=
        ascs_server_control_point_operation_prepare_response_for_target_state srv
          s.connection i ase_id ASCS_STATE_IDLE }
  | _ => s

/-- The events of the second read: `es` if `ascs_server_request_successfully_processed`
returned true, nothing otherwise. -/
def raise_if (processed : Bool) (es : List ascs_effect_t) : List ascs_effect_t :=
  if processed then es else []

/-- Body of the second `for` loop of `ascs_server_write_callback` for sub-request `i`:
re-read the ase_id and the payload through `data_offset`, and raise the event of the
opcode if `ascs_server_request_successfully_processed` says so. As in the first read, the
`switch` on the opcode is taken inside the body. `data_offset` is a `uint16_t` that stays
within the buffer size. -/
def second_read_body (U : ascs_util_t) (srv : ascs_server_t) (opcode : ascs_opcode_t)
    (con_handle : Nat) (buffer : List Nat) (i : Nat) (s : second_read_t) : second_read_t :=
  let ase_id := buffer.getD s.data_offset 0
  let data_offset := s.data_offset + 1
  let r := ascs_server_request_successfully_processed srv s.connection i
  match opcode with
  | ASCS_OPCODE_CONFIG_CODEC =>
    let x := ascs_util_codec_configuration_request_parse U (buffer.drop data_offset)
    { data_offset := data_offset + x.1
      metadata_config := s.metadata_config
      connection := r.2
      effects := s.effects ++
        raise_if r.1 [emit_client_codec_configuration_request con_handle ase_id x.2] }
  | ASCS_OPCODE_CONFIG_QOS =>
    let x := ascs_util_qos_configuration_parse (buffer.drop data_offset)
    { data_offset := data_offset + x.1
      metadata_config := s.metadata_config
      connection := r.2
      effects := s.effects ++
        raise_if r.1 [emit_client_qos_configuration_request con_handle ase_id ASCS_STATE_RFU x.2] }
  | ASCS_OPCODE_ENABLE =>
    let x := le_audio_util_metadata_parse U (buffer.drop data_offset) s.metadata_config
    { data_offset := data_offset + x.1
      metadata_config := x.2
      connection := r.2
      effects := s.effects ++
        raise_if r.1 [emit_client_metadata_request con_handle ase_id ASCS_STATE_RFU x.2] }
  | ASCS_OPCODE_RECEIVER_START_READY =>
    { data_offset := data_offset
      metadata_config := s.metadata_config
      connection := r.2
      effects := s.effects ++
        raise_if r.1
          [emit_client_request con_handle ase_id GATTSERVICE_SUBEVENT_ASCS_SERVER_START_READY] }
  | ASCS_OPCODE_DISABLE =>
    { data_offset := data_offset
      metadata_config := s.metadata_config
      connection := r.2
      effects := s.effects ++
        raise_if r.1
          [emit_client_request con_handle ase_id GATTSERVICE_SUBEVENT_ASCS_SERVER_DISABLE] }
  | ASCS_OPCODE_RECEIVER_STOP_READY =>
    { data_offset := data_offset
      metadata_config := s.metadata_config
      connection := r.2
      effects := s.effects ++
        raise_if r.1
          [emit_client_request con_handle ase_id GATTSERVICE_SUBEVENT_ASCS_SERVER_STOP_READY] }
  | ASCS_OPCODE_UPDATE_METADATA =>
    let x := le_audio_util_metadata_parse U (buffer.drop data_offset) s.metadata_config
    { data_offset := data_offset + x.1
      metadata_config := x.2
      connection := r.2
      effects := s.effects ++
        raise_if r.1 [emit_client_metadata_request con_handle ase_id ASCS_STATE_RFU x.2] }
  | ASCS_OPCODE_RELEASE =>
    { data_offset := data_offset
      metadata_config := s.metadata_config
      connection := r.2
      effects := s.effects ++
        raise_if r.1
          [emit_client_request con_handle ase_id GATTSERVICE_SUBEVENT_ASCS_SERVER_RELEASE] }
  | ASCS_OPCODE_RELEASED =>
    { data_offset := data_offset
      metadata_config := s.metadata_config
      connection := r.2
      effects := s.effects ++
        raise_if r.1
          [emit_client_request con_handle ase_id GATTSERVICE_SUBEVENT_ASCS_SERVER_RELEASED] }
  | _ => s

/-- The invalid-length exit of `ascs_server_write_callback`: set the number of ASEs to
0xFF and schedule the response. -/
def control_point_invalid_length (srv : ascs_server_t) (connection : ascs_server_connection_t) :
    ascs_server_connection_t × List ascs_effect_t :=
  ascs_server_schedule_task srv { connection with response_ases_num := 0xFF }
    ASCS_TASK_SEND_CONTROL_POINT_OPERATION_RESPONSE

/-- The branch of `ascs_server_write_callback` for a write to the ASE control point, from
`ascs_server_reset_client_response` on, for the connection that was looked up: the
connection afterwards and the effects in order. The first loop runs over the
`response_ases_num` of the request, which no iteration changes; the second loop reads the
bound from the connection after the response was scheduled. -/
def ascs_server_control_point_write (U : ascs_util_t) (srv : ascs_server_t)
    (connection : ascs_server_connection_t) (con_handle : Nat) (buffer : List Nat) :
    ascs_server_connection_t × List ascs_effect_t :=
  let buffer_size := buffer.length
  let connection := ascs_server_reset_client_response connection
  let connection := { connection with response_opcode := buffer.getD 0 0 }
  if buffer_size < 2 then control_point_invalid_length srv connection
  else
    let connection := { connection with response_ases_num := buffer.getD 1 0 }
    if connection.response_ases_num = 0 ∨
        connection.response_ases_num > srv.ascs_streamendpoint_chr_num then
      control_point_invalid_length srv connection
    else if ¬ ascs_server_control_point_operation_has_valid_length
        (ascs_opcode_of_byte connection.response_opcode) connection.response_ases_num
        (buffer.drop 2) (buffer_size - 2) then
      control_point_invalid_length srv connection
    else
      let opcode := ascs_opcode_of_byte connection.response_opcode
      if opcode.defined then
        let s1 := for_loop connection.response_ases_num (first_read_body U srv opcode buffer)
          { pos := 2, metadata_config := le_audio_metadata_t.zero, connection := connection }
        let r := ascs_server_schedule_task srv s1.connection
          ASCS_TASK_SEND_CONTROL_POINT_OPERATION_RESPONSE
        let s2 := for_loop r.1.response_ases_num
          (second_read_body U srv opcode con_handle buffer)
          { data_offset := 2, metadata_config := s1.metadata_config,
            connection := r.1, effects := r.2 }
        (s2.connection, s2.effects)
      else control_point_invalid_length srv connection

/-- The loop of `ascs_server_write_callback` over the client configuration handles of
the ASE characteristics, from index `i` with `fuel` iterations left. -/
def write_ase_client_configuration (srv : ascs_server_t) (attribute_handle value : Nat)
    (connection : ascs_server_connection_t) : Nat → Nat → ascs_server_connection_t
  | 0, _ => connection
  | fuel + 1, i =>
    if attribute_handle = (srv.chr i).ase_characteristic_client_configuration_handle then
      connection.set_ase i
        { (connection.ase i) with ase_characteristic_client_configuration := value }
    else write_ase_client_configuration srv attribute_handle value connection fuel (i + 1)

/-- The tail of `ascs_server_write_callback` for a write to a client configuration
descriptor, on the slot `ci` of the connection. -/
def write_client_configuration (srv : ascs_server_t) (ci attribute_handle : Nat)
    (buffer : List Nat) : ascs_server_t :=
  match srv.client ci with
  | none => srv
  | some connection =>
    if attribute_handle = srv.ascs_ase_control_point_client_configuration_handle then
      srv.set_client ci
        { connection with
          ase_control_point_client_configuration := little_endian_read_16 buffer 0 }
    else
      srv.set_client ci
        (write_ase_client_configuration srv attribute_handle (little_endian_read_16 buffer 0)
          connection srv.ascs_streamendpoint_chr_num 0)

/-- The function `ascs_server_write_callback`. The arguments `transaction_mode` and
`offset` are unused by the C code; `buffer_size` is the length of `buffer`. -/
def ascs_server_write_callback (U : ascs_util_t) (srv : ascs_server_t)
    (con_handle attribute_handle : Nat) (buffer : List Nat) : ascs_server_t :=
  if attribute_handle = srv.ascs_ase_control_point_handle then
    if buffer.length < 1 then srv
    else
      match ascs_server_get_remote_client_for_con_handle srv con_handle with
      | none => srv
      | some ci =>
        match srv.client ci with
        | none => srv
        | some connection =>
          let r := ascs_server_control_point_write U srv connection con_handle buffer
          (srv.set_client ci r.1).emit r.2
  else
    match ascs_server_get_remote_client_for_con_handle srv con_handle with
    | some ci => write_client_configuration srv ci attribute_handle buffer
    | none =>
      match ascs_server_add_client srv con_handle with
      | (none, _) => srv.emit [emit_connected con_handle ERROR_CODE_CONNECTION_LIMIT_EXCEEDED]
      | (some ci, srv1) =>
        write_client_configuration (srv1.emit [emit_connected con_handle ERROR_CODE_SUCCESS])
          ci attribute_handle buffer

/-! ## Apply entry points -/

/-- The function `ascs_server_streamendpoint_schedule_value_changed_task`, for stream
endpoint `k` of the connection: the connection afterwards and the effects. -/
def ascs_server_streamendpoint_schedule_value_changed_task (srv : ascs_server_t)
    (client : ascs_server_connection_t) (k : Nat) :
    ascs_server_connection_t × List ascs_effect_t :=
  if (client.ase k).ase_characteristic_value_changed_w2_notify = true then (client, [])
  else if (client.ase k).ase_characteristic_client_configuration ≠ 0 then
    if ¬ (client.ase k).ase_characteristic_value_changed_w2_notify then
      ascs_server_schedule_task srv
        (client.set_ase k
          { (client.ase k) with ase_characteristic_value_changed_w2_notify := true })
        ASCS_TASK_SEND_CODEC_CONFIGURATION_VALUE_CHANGED
    else (client, [])
  else (client, [])

/-- The function `ascs_server_streamendpoint_transit_to_state`. On success it yields the
slot of the client, the index of the stream endpoint, and the client with the stream
endpoint in the target state; `none` is the result `false`. -/
def ascs_server_streamendpoint_transit_to_state (srv : ascs_server_t)
    (con_handle ase_id : Nat) (opcode : ascs_opcode_t) (target_state : ascs_state_t) :
    Option (Nat × Nat × ascs_server_connection_t) :=
  match ascs_server_get_remote_client_for_con_handle srv con_handle with
  | none => none
  | some ci =>
    match srv.client ci with
    | none => none
    | some client =>
      match ascs_server_get_streamendpoint_for_ase_id srv ase_id with
      | none => none
      | some k =>
        if ¬ ascs_server_streamendpoint_can_transit_to_state (client.ase k).state
            (srv.chr k).role opcode target_state then none
        else some (ci, k, client.set_ase k { (client.ase k) with state := target_state })

/-- Stores the connection a call worked on back into its slot and appends the effects. -/
def ascs_server_t.commit (srv : ascs_server_t) (ci : Nat)
    (r : ascs_server_connection_t × List ascs_effect_t) : ascs_server_t :=
  (srv.set_client ci r.1).emit r.2

/-- The function `audio_stream_control_service_server_streamendpoint_configure_codec`. -/
def audio_stream_control_service_server_streamendpoint_configure_codec (srv : ascs_server_t)
    (con_handle ase_id : Nat) (codec_configuration : ascs_codec_configuration_t) :
    ascs_server_t :=
  match ascs_server_streamendpoint_transit_to_state srv con_handle ase_id
      ASCS_OPCODE_CONFIG_CODEC ASCS_STATE_CODEC_CONFIGURED with
  | none => srv
  | some (ci, k, client) =>
    srv.commit ci (ascs_server_streamendpoint_schedule_value_changed_task srv
      (client.set_ase k { (client.ase k) with codec_configuration := codec_configuration }) k)

/-- The function `audio_stream_control_service_server_streamendpoint_configure_qos`. -/
def audio_stream_control_service_server_streamendpoint_configure_qos (srv : ascs_server_t)
    (con_handle ase_id : Nat) (qos_configuration : ascs_qos_configuration_t) :
    ascs_server_t :=
  match ascs_server_streamendpoint_transit_to_state srv con_handle ase_id
      ASCS_OPCODE_CONFIG_QOS ASCS_STATE_QOS_CONFIGURED with
  | none => srv
  | some (ci, k, client) =>
    srv.commit ci (ascs_server_streamendpoint_schedule_value_changed_task srv
      (client.set_ase k { (client.ase k) with qos_configuration := qos_configuration }) k)

/-- The function `audio_stream_control_service_server_streamendpoint_enable`. -/
def audio_stream_control_service_server_streamendpoint_enable (srv : ascs_server_t)
    (con_handle ase_id : Nat) : ascs_server_t :=
  match ascs_server_streamendpoint_transit_to_state srv con_handle ase_id
      ASCS_OPCODE_ENABLE ASCS_STATE_ENABLING with
  | none => srv
  | some (ci, k, client) =>
    srv.commit ci (ascs_server_streamendpoint_schedule_value_changed_task srv client k)

/-- The function
`audio_stream_control_service_server_streamendpoint_receiver_start_ready`. -/
def audio_stream_control_service_server_streamendpoint_receiver_start_ready
    (srv : ascs_server_t) (con_handle ase_id : Nat) : ascs_server_t :=
  match ascs_server_streamendpoint_transit_to_state srv con_handle ase_id
      ASCS_OPCODE_RECEIVER_START_READY ASCS_STATE_STREAMING with
  | none => srv
  | some (ci, k, client) =>
    srv.commit ci (ascs_server_streamendpoint_schedule_value_changed_task srv client k)

/-- The function `audio_stream_control_service_server_streamendpoint_disable`. -/
def audio_stream_control_service_server_streamendpoint_disable (srv : ascs_server_t)
    (con_handle ase_id : Nat) : ascs_server_t :=
  match ascs_server_get_remote_client_for_con_handle srv con_handle with
  | none => srv
  | some ci =>
    match srv.client ci with
    | none => srv
    | some client =>
      match ascs_server_get_streamendpoint_for_ase_id srv ase_id with
      | none => srv
      | some k =>
        let target_state :=
          if (srv.chr k).role = LE_AUDIO_ROLE_SOURCE then ASCS_STATE_DISABLING
          else ASCS_STATE_QOS_CONFIGURED
        if ¬ ascs_server_streamendpoint_can_transit_to_state (client.ase k).state
            (srv.chr k).role ASCS_OPCODE_DISABLE target_state then srv
        else
          srv.commit ci (ascs_server_streamendpoint_schedule_value_changed_task srv
            (client.set_ase k { (client.ase k) with state := target_state }) k)

/-- The function
`audio_stream_control_service_server_streamendpoint_receiver_stop_ready`. -/
def audio_stream_control_service_server_streamendpoint_receiver_stop_ready
    (srv : ascs_server_t) (con_handle ase_id : Nat) : ascs_server_t :=
  match ascs_server_streamendpoint_transit_to_state srv con_handle ase_id
      ASCS_OPCODE_RECEIVER_STOP_READY ASCS_STATE_QOS_CONFIGURED with
  | none => srv
  | some (ci, k, client) =>
    srv.commit ci (ascs_server_streamendpoint_schedule_value_changed_task srv client k)

/-- The function `audio_stream_control_service_server_streamendpoint_release`. -/
def audio_stream_control_service_server_streamendpoint_release (srv : ascs_server_t)
    (con_handle ase_id : Nat) : ascs_server_t :=
  match ascs_server_streamendpoint_transit_to_state srv con_handle ase_id
      ASCS_OPCODE_RELEASE ASCS_STATE_RELEASING with
  | none => srv
  | some (ci, k, client) =>
    srv.commit ci (ascs_server_streamendpoint_schedule_value_changed_task srv client k)

/-- The function `audio_stream_control_service_server_streamendpoint_released`. -/
def audio_stream_control_service_server_streamendpoint_released (srv : ascs_server_t)
    (con_handle ase_id : Nat) (caching : Bool) : ascs_server_t :=
  let target_state := if caching then ASCS_STATE_CODEC_CONFIGURED else ASCS_STATE_IDLE
  match ascs_server_streamendpoint_transit_to_state srv con_handle ase_id
      ASCS_OPCODE_RELEASED target_state with
  | none => srv
  | some (ci, k, client) =>
    srv.commit ci (ascs_server_streamendpoint_schedule_value_changed_task srv client k)

/-- The function `audio_stream_control_service_server_streamendpoint_metadata_update`.
In the accepting states the value-changed task is scheduled inside the `switch` and once
more after it. -/
def audio_stream_control_service_server_streamendpoint_metadata_update
    (srv : ascs_server_t) (con_handle ase_id : Nat) (metadata : le_audio_metadata_t) :
    ascs_server_t :=
  match ascs_server_get_remote_client_for_con_handle srv con_handle with
  | none => srv
  | some ci =>
    match srv.client ci with
    | none => srv
    | some client =>
      match ascs_server_get_streamendpoint_for_ase_id srv ase_id with
      | none => srv
      | some k =>
        match (client.ase k).state with
        | ASCS_STATE_ENABLING | ASCS_STATE_STREAMING =>
          let r1 := ascs_server_streamendpoint_schedule_value_changed_task srv
            (client.set_ase k { (client.ase k) with metadata := metadata }) k
          let r2 := ascs_server_streamendpoint_schedule_value_changed_task srv r1.1 k
          srv.commit ci (r2.1, r1.2 ++ r2.2)
        | _ => srv

/-- A call of one of the nine apply entry points, with its arguments after the
connection handle and the ASE id. -/
inductive ascs_apply_t
  | configure_codec (codec_configuration : ascs_codec_configuration_t)
  | configure_qos (qos_configuration : ascs_qos_configuration_t)
  | enable
  | receiver_start_ready
  | disable
  | receiver_stop_ready
  | release
  | released (caching : Bool)
  | metadata_update (metadata : le_audio_metadata_t)

/-- The opcode an apply entry point passes to the state machine. -/
def ascs_apply_t.opcode : ascs_apply_t → ascs_opcode_t
  | .configure_codec _ => ASCS_OPCODE_CONFIG_CODEC
  | .configure_qos _ => ASCS_OPCODE_CONFIG_QOS
  | .enable => ASCS_OPCODE_ENABLE
  | .receiver_start_ready => ASCS_OPCODE_RECEIVER_START_READY
  | .disable => ASCS_OPCODE_DISABLE
  | .receiver_stop_ready => ASCS_OPCODE_RECEIVER_STOP_READY
  | .release => ASCS_OPCODE_RELEASE
  | .released _ => ASCS_OPCODE_RELEASED
  | .metadata_update _ => ASCS_OPCODE_UPDATE_METADATA

/-- Dispatch of a call to the entry point it names. -/
def ascs_apply_t.run (a : ascs_apply_t) (srv : ascs_server_t) (con_handle ase_id : Nat) :
    ascs_server_t :=
  match a with
  | .configure_codec cc =>
    audio_stream_control_service_server_streamendpoint_configure_codec srv con_handle ase_id cc
  | .configure_qos qc =>
    audio_stream_control_service_server_streamendpoint_configure_qos srv con_handle ase_id qc
  | .enable => audio_stream_control_service_server_streamendpoint_enable srv con_handle ase_id
  | .receiver_start_ready =>
    audio_stream_control_service_server_streamendpoint_receiver_start_ready srv con_handle ase_id
  | .disable => audio_stream_control_service_server_streamendpoint_disable srv con_handle ase_id
  | .receiver_stop_ready =>
    audio_stream_control_service_server_streamendpoint_receiver_stop_ready srv con_handle ase_id
  | .release => audio_stream_control_service_server_streamendpoint_release srv con_handle ase_id
  | .released caching =>
    audio_stream_control_service_server_streamendpoint_released srv con_handle ase_id caching
  | .metadata_update m =>
    audio_stream_control_service_server_streamendpoint_metadata_update srv con_handle ase_id m

/-! ## The control point response as it is sent -/

/-- The value `ascs_server_can_send_now` builds for the control point notification:
opcode, number of ASEs and, unless that number is 0xFF, one triple per entry. The bytes of
a response code and of a reason are enumerator values of a header that is not part of
the sources, so they are parameters. -/
def control_point_response_value (code_byte : ascs_error_code_t → Nat)
    (reason_byte : ascs_reject_reason_t → Nat) (connection : ascs_server_connection_t) :
    List Nat :=
  let value := [connection.response_opcode, connection.response_ases_num]
  if connection.response_ases_num ≠ 0xFF then
    for_loop connection.response_ases_num
      (fun i value => value ++ [(connection.resp i).ase_id,
        code_byte (connection.resp i).response_code, reason_byte (connection.resp i).reason])
      value
  else value

/-! ## Layout of an ACP write -/

/-- Size of the sub-request that starts at offset `off` of an ACP write, by opcode:
the ase_id, the fixed fields, and for Config Codec, Enable and Update Metadata the
length byte and as many bytes as it says. The fixed part of a Config Codec sub-request
is ase_id(1), latency(1), phy(1), codec_id(5), eight bytes, as the comment in
`ascs_server_control_point_operation_has_valid_length` lists them. -/
def sub_request_size (opcode : ascs_opcode_t) (buffer : List Nat) (off : Nat) : Nat :=
  match opcode with
  | ASCS_OPCODE_CONFIG_CODEC => 9 + buffer.getD (off + 8) 0
  | ASCS_OPCODE_CONFIG_QOS => 16
  | ASCS_OPCODE_ENABLE => 2 + buffer.getD (off + 1) 0
  | ASCS_OPCODE_UPDATE_METADATA => 2 + buffer.getD (off + 1) 0
  | _ => 1

/-- Offset of sub-request `i` of an ACP write: the first one follows the two header
bytes, each further one follows its predecessor. -/
def sub_request_offset (opcode : ascs_opcode_t) (buffer : List Nat) : Nat → Nat
  | 0 => 2
  | i + 1 =>
    sub_request_offset opcode buffer i
      + sub_request_size opcode buffer (sub_request_offset opcode buffer i)

/-- The ase_id byte of sub-request `i` of an ACP write. -/
def sub_request_ase_id (opcode : ascs_opcode_t) (buffer : List Nat) (i : Nat) : Nat :=
  buffer.getD (sub_request_offset opcode buffer i) 0

/-- The ASE id an effect carries if it is one of the events raised for an accepted
sub-request, and `none` for every other effect. -/
def ascs_effect_t.upcall_ase_id : ascs_effect_t → Option Nat
  | emit_client_request _ ase_id _ => some ase_id
  | emit_client_codec_configuration_request _ ase_id _ => some ase_id
  | emit_client_qos_configuration_request _ ase_id _ _ => some ase_id
  | emit_client_metadata_request _ ase_id _ _ => some ase_id
  | _ => none

/-! ## Runs -/

/-- A step of a run: a call of an apply entry point or a write to the ASE control
point. -/
inductive ascs_step_t
  | apply (a : ascs_apply_t) (con_handle ase_id : Nat)
  | control_point_write (con_handle : Nat) (buffer : List Nat)

/-- Executes one step. -/
def ascs_step_t.exec (U : ascs_util_t) (srv : ascs_server_t) : ascs_step_t → ascs_server_t
  | .apply a con_handle ase_id => a.run srv con_handle ase_id
  | .control_point_write con_handle buffer =>
    ascs_server_write_callback U srv con_handle srv.ascs_ase_control_point_handle buffer

/-- The state of stream endpoint `k` of slot `ci`. -/
def ascs_server_t.ase_state (srv : ascs_server_t) (ci k : Nat) : ascs_state_t :=
  match srv.client ci with
  | some c => (c.ase k).state
  | none => ASCS_STATE_IDLE

/-- The states stream endpoint `k` of slot `ci` goes through in a run: the state before
the run, then the state after each step. -/
def observed_states (U : ascs_util_t) (ci k : Nat) :
    ascs_server_t → List ascs_step_t → List ascs_state_t
  | srv, [] => [srv.ase_state ci k]
  | srv, step :: steps => srv.ase_state ci k :: observed_states U ci k (step.exec U srv) steps

/-- One hop of a path in the table of section 4.3 for direction `d`: stay, or follow
the cell of some opcode. -/
def table_hop (d : le_audio_role_t) (s t : ascs_state_t) : Prop :=
  s = t ∨ ∃ o : ascs_opcode_t, o.defined = true ∧ t ∈ transition_table s o d

/-! ## Concrete instances -/

/-- An instance of the constants, with TLV interpreters that read nothing. -/
def example_util : ascs_util_t where
  LE_AUDIO_CLIENT_TARGET_LATENCY_RFU := 4
  LE_AUDIO_CLIENT_TARGET_PHY_RFU := 4
  HCI_AUDIO_CODING_FORMAT_LC3 := 6
  HCI_AUDIO_CODING_FORMAT_RFU := 7
  HCI_AUDIO_CODING_FORMAT_VENDOR_SPECIFIC := 0xFF
  LE_AUDIO_CODEC_CONFIGURATION_TYPE_SAMPLING_FREQUENCY := 1
  LE_AUDIO_CODEC_CONFIGURATION_TYPE_FRAME_DURATION := 2
  LE_AUDIO_CODEC_CONFIGURATION_TYPE_AUDIO_CHANNEL_ALLOCATION := 3
  LE_AUDIO_CODEC_CONFIGURATION_TYPE_RFU := 6
  LE_AUDIO_CODEC_SAMPLING_FREQUENCY_INDEX_INVALID := 0
  LE_AUDIO_CODEC_SAMPLING_FREQUENCY_INDEX_RFU := 14
  LE_AUDIO_CODEC_FRAME_DURATION_INDEX_INVALID := 255
  LE_AUDIO_CODEC_FRAME_DURATION_INDEX_RFU := 2
  LE_AUDIO_LOCATION_MASK_RFU := 0x10000000
  LE_AUDIO_SERVER_PHY_MASK_CODED := 4
  LE_AUDIO_METADATA_TYPE_PREFERRED_AUDIO_CONTEXTS := 1
  LE_AUDIO_METADATA_TYPE_STREAMING_AUDIO_CONTEXTS := 2
  LE_AUDIO_METADATA_TYPE_PARENTAL_RATING := 6
  LE_AUDIO_METADATA_TYPE_RFU := 9
  LE_AUDIO_CONTEXT_MASK_RFU := 0x1000
  LE_AUDIO_PARENTAL_RATING_RFU := 0x0A
  ascs_util_specific_codec_configuration_parse :=
    fun _ => ascs_specific_codec_configuration_t.zero
  le_audio_util_metadata_parse_tlv := fun _ m => m

/-- A connection on handle `con_handle` with control point notifications enabled, an
empty response vector of two entries, and two stream endpoints in the given states, both
with notifications enabled. -/
def example_connection (con_handle : Nat) (s0 s1 : ascs_state_t) : ascs_server_connection_t where
  con_handle := con_handle
  ase_control_point_client_configuration := 1
  response_opcode := 0
  response_ases_num := 0
  response := [ascs_control_point_operation_response_t.zero,
    ascs_control_point_operation_response_t.zero]
  scheduled_tasks := 0
  streamendpoints :=
    [{ ascs_streamendpoint_t.zero with
        state := s0, ase_characteristic_client_configuration := 1 },
     { ascs_streamendpoint_t.zero with
        state := s1, ase_characteristic_client_configuration := 1 }]

/-- A server with `chr_num` registered ASEs out of a Sink with id 1 and a Source with
id 2, control point at handle 20, and one client on connection handle 64 whose stream
endpoints are in the given states. -/
def example_server (chr_num : Nat) (s0 s1 : ascs_state_t) : ascs_server_t where
  ascs_streamendpoint_characteristics :=
    [⟨1, LE_AUDIO_ROLE_SINK, 10, 11⟩, ⟨2, LE_AUDIO_ROLE_SOURCE, 13, 14⟩]
  ascs_streamendpoint_chr_num := chr_num
  ascs_clients := [example_connection 64 s0 s1]
  ascs_streamendpoint_characteristics_id_counter := chr_num
  ascs_ase_control_point_handle := 20
  ascs_ase_control_point_client_configuration_handle := 21
  trace := []

/-! ## Relations used to state what a call leaves untouched -/

/-- The connection `c2` differs from `c1` at most in the entries of its response
vector. -/
def same_but_response (c1 c2 : ascs_server_connection_t) : Prop :=
  c2 = { c1 with response := c2.response } ∧ c2.response.length = c1.response.length

/-- The stream endpoint `e2` differs from `e1` at most in the flag
`ase_characteristic_value_change_initiated_by_client`. -/
def same_but_initiated (e1 e2 : ascs_streamendpoint_t) : Prop :=
  e2 = { e1 with
    ase_characteristic_value_change_initiated_by_client :=
      e2.ase_characteristic_value_change_initiated_by_client }

/-- The connection `c2` differs from `c1` at most in entry `i` of its response vector. -/
def writes_response_entry (i : Nat) (c1 c2 : ascs_server_connection_t) : Prop :=
  same_but_response c1 c2 ∧ ∀ j, j ≠ i → c2.resp j = c1.resp j

/-- The connection `c2` differs from `c1` at most in the flags
`ase_characteristic_value_change_initiated_by_client` of its stream endpoints. -/
def same_but_initiated_flags (c1 c2 : ascs_server_connection_t) : Prop :=
  c2 = { c1 with streamendpoints := c2.streamendpoints }
    ∧ c2.streamendpoints.length = c1.streamendpoints.length
    ∧ ∀ k, same_but_initiated (c1.ase k) (c2.ase k)

/-- The ids carried by the events the second read has to raise for the first `n`
sub-requests of a write, given the response vector of `c`: for each index with a success
entry, in order, the ase_id byte of that sub-request. -/
def expected_upcall_ase_ids (c : ascs_server_connection_t) (opcode : ascs_opcode_t)
    (buffer : List Nat) (n : Nat) : List (Option Nat) :=
  (List.range n).flatMap (fun i =>
    if (c.resp i).response_code = ASCS_ERROR_CODE_SUCCESS then
      [some (sub_request_ase_id opcode buffer i)]
    else [])

/-- The same list, drawn from the sub-requests other than `i` only. -/
def expected_upcall_ase_ids_without (c : ascs_server_connection_t) (opcode : ascs_opcode_t)
    (buffer : List Nat) (n i : Nat) : List (Option Nat) :=
  ((List.range n).filter (fun j => j != i)).flatMap (fun j =>
    if (c.resp j).response_code = ASCS_ERROR_CODE_SUCCESS then
      [some (sub_request_ase_id opcode buffer j)]
    else [])

/-- The variables the first read of an ACP write starts with: the cursor behind the two
header bytes, a zeroed `metadata_config`, and the connection with the response cleared
and the opcode and number of ASEs of the write stored. -/
def first_read_start (connection : ascs_server_connection_t) (buffer : List Nat) :
    first_read_t :=
  { pos := 2
    metadata_config := le_audio_metadata_t.zero
    connection :=
      { ascs_server_reset_client_response connection with
        response_opcode := buffer.getD 0 0
        response_ases_num := buffer.getD 1 0 } }

/-- The variables of the first read of an ACP write before sub-request `i`. -/
def first_read_at (U : ascs_util_t) (srv : ascs_server_t)
    (connection : ascs_server_connection_t) (buffer : List Nat) (i : Nat) : first_read_t :=
  for_loop i (first_read_body U srv (ascs_opcode_of_byte (buffer.getD 0 0)) buffer)
    (first_read_start connection buffer)

/-- An ACP write passes the checks `ascs_server_write_callback` makes before it looks at
the sub-requests: at least two bytes, a number of ASEs between 1 and the number of
registered ASEs, a length that `ascs_server_control_point_operation_has_valid_length`
accepts, and one of the nine opcodes. -/
def accepted_frame (srv : ascs_server_t) (buffer : List Nat) : Prop :=
  2 ≤ buffer.length
    ∧ buffer.getD 1 0 ≠ 0
    ∧ buffer.getD 1 0 ≤ srv.ascs_streamendpoint_chr_num
    ∧ ascs_server_control_point_operation_has_valid_length
        (ascs_opcode_of_byte (buffer.getD 0 0)) (buffer.getD 1 0) (buffer.drop 2)
        (buffer.length - 2) = true
    ∧ (ascs_opcode_of_byte (buffer.getD 0 0)).defined = true

/-- A connection slot with all fields zero and arrays of no entries. -/
def ascs_server_connection_t.zero : ascs_server_connection_t :=
  ⟨0, 0, 0, 0, [], 0, []⟩

/-- Slot `ci` of the clients array, `ascs_clients[ci]`. -/
def ascs_server_t.slot (srv : ascs_server_t) (ci : Nat) : ascs_server_connection_t :=
  srv.ascs_clients.getD ci ascs_server_connection_t.zero

/-- A Config Codec write for the ASEs 1 and 2 in which the first sub-request carries 250
bytes of codec specific configuration, so that the second sub-request starts at offset
261 of 270 bytes. -/
def long_config_codec_write : List Nat :=
  [1, 2, 1, 3, 2, 6, 0, 0, 0, 0, 250] ++ List.replicate 250 0 ++ [2, 3, 2, 6, 0, 0, 0, 0, 0]

/-- The body of an ACP write is the concatenation of `n` sub-requests, each made of
`fixed` bytes, one length byte, and as many further bytes as the length byte says. -/
def is_concatenation_of_sub_requests (fixed n : Nat) (body : List Nat) : Prop :=
  ∃ subs : List (List Nat), subs.length = n ∧ subs.flatten = body
    ∧ ∀ s ∈ subs, s.length = fixed + 1 + s.getD fixed 0

/-- The ase_id the first read of an ACP write takes for sub-request `i`: the byte under
its cursor, `buffer[pos++]`. -/
def first_read_ase_id (U : ascs_util_t) (srv : ascs_server_t)
    (connection : ascs_server_connection_t) (buffer : List Nat) (i : Nat) : Nat :=
  buffer.getD (first_read_at U srv connection buffer i).pos 0

/-- The bytes the first read of an ACP write hands to the parser of the payload of
sub-request `i`: `&buffer[pos]`, the cursor being behind the ase_id. -/
def first_read_payload (U : ascs_util_t) (srv : ascs_server_t)
    (connection : ascs_server_connection_t) (buffer : List Nat) (i : Nat) : List Nat :=
  buffer.drop (((first_read_at U srv connection buffer i).pos + 1) % 256)

/-- Every codec specific configuration field that is present, by the mask, and that the
validator looks at is a defined value: the sampling frequency and the frame duration are
neither the invalid index nor in the RFU range, the audio channel allocation is below
the RFU mask. -/
def specific_codec_configuration_in_range (U : ascs_util_t)
    (x : ascs_specific_codec_configuration_t) : Prop :=
  (x.codec_configuration_mask
        &&& (1 <<< U.LE_AUDIO_CODEC_CONFIGURATION_TYPE_SAMPLING_FREQUENCY) ≠ 0 →
      x.sampling_frequency_index ≠ U.LE_AUDIO_CODEC_SAMPLING_FREQUENCY_INDEX_INVALID
        ∧ x.sampling_frequency_index < U.LE_AUDIO_CODEC_SAMPLING_FREQUENCY_INDEX_RFU)
    ∧ (x.codec_configuration_mask
          &&& (1 <<< U.LE_AUDIO_CODEC_CONFIGURATION_TYPE_FRAME_DURATION) ≠ 0 →
        x.frame_duration_index ≠ U.LE_AUDIO_CODEC_FRAME_DURATION_INDEX_INVALID
          ∧ x.frame_duration_index < U.LE_AUDIO_CODEC_FRAME_DURATION_INDEX_RFU)
    ∧ (x.codec_configuration_mask
          &&& (1 <<< U.LE_AUDIO_CODEC_CONFIGURATION_TYPE_AUDIO_CHANNEL_ALLOCATION) ≠ 0 →
        x.audio_channel_allocation_mask < U.LE_AUDIO_LOCATION_MASK_RFU)

instance (U : ascs_util_t) (x : ascs_specific_codec_configuration_t) :
    Decidable (specific_codec_configuration_in_range U x) := by
  unfold specific_codec_configuration_in_range
  infer_instance

/-- The CIS mapping collision as section 4.4 of the specification words it: another ASE
of the same direction on the connection that is currently in Codec Configured has the
(cig_id, cis_id) pair of the request. `k` is the stream endpoint the request names. -/
def cis_mapping_collision_spec (srv : ascs_server_t) (connection : ascs_server_connection_t)
    (k : Nat) (qos_config : ascs_qos_configuration_t) : Prop :=
  ∃ j, j < srv.ascs_streamendpoint_chr_num
    ∧ (srv.chr j).ase_id ≠ (srv.chr k).ase_id
    ∧ (srv.chr j).role = (srv.chr k).role
    ∧ (connection.ase j).state = ASCS_STATE_CODEC_CONFIGURED
    ∧ qos_config.cig_id = (connection.ase j).qos_configuration.cig_id
    ∧ qos_config.cis_id = (connection.ase j).qos_configuration.cis_id

instance (srv : ascs_server_t) (connection : ascs_server_connection_t) (k : Nat)
    (qos_config : ascs_qos_configuration_t) :
    Decidable (cis_mapping_collision_spec srv connection k qos_config) := by
  unfold cis_mapping_collision_spec
  infer_instance

/-- The CIS mapping collision as the loop of
`ascs_control_point_operation_prepare_response_for_qos_configuration` detects it: the
ASE the request names is in Codec Configured, and another ASE of the same direction on
the connection, in whatever state, stores the (cig_id, cis_id) pair of the request. -/
def cis_mapping_collision (srv : ascs_server_t) (connection : ascs_server_connection_t)
    (k : Nat) (qos_config : ascs_qos_configuration_t) : Prop :=
  (connection.ase k).state = ASCS_STATE_CODEC_CONFIGURED
    ∧ ∃ j, j < srv.ascs_streamendpoint_chr_num
      ∧ (srv.chr j).ase_id ≠ (srv.chr k).ase_id
      ∧ (srv.chr j).role = (srv.chr k).role
      ∧ qos_config.cig_id = (connection.ase j).qos_configuration.cig_id
      ∧ qos_config.cis_id = (connection.ase j).qos_configuration.cis_id

instance (srv : ascs_server_t) (connection : ascs_server_connection_t) (k : Nat)
    (qos_config : ascs_qos_configuration_t) :
    Decidable (cis_mapping_collision srv connection k qos_config) := by
  unfold cis_mapping_collision
  infer_instance

/-- The Config Codec request the first read of an ACP write parses for sub-request `i`. -/
def first_read_codec_request (U : ascs_util_t) (srv : ascs_server_t)
    (connection : ascs_server_connection_t) (buffer : List Nat) (i : Nat) :
    ascs_client_codec_configuration_request_t :=
  (ascs_util_codec_configuration_request_parse U
    (first_read_payload U srv connection buffer i)).2

/-- The Config QoS request the first read of an ACP write parses for sub-request `i`. -/
def first_read_qos_request (U : ascs_util_t) (srv : ascs_server_t)
    (connection : ascs_server_connection_t) (buffer : List Nat) (i : Nat) :
    ascs_qos_configuration_t :=
  (ascs_util_qos_configuration_parse (first_read_payload U srv connection buffer i)).2

/-- An interpreter of a codec specific configuration blob for the instance below. The
blob is a sequence of records (length, type, value); each record sets the bit of its
type in the mask and, for the types that have a field, stores its value. `fuel` bounds
the number of records. -/
def example_specific_codec_configuration_parse :
    Nat → List Nat → ascs_specific_codec_configuration_t → ascs_specific_codec_configuration_t
  | 0, _, cfg => cfg
  | _ + 1, [], cfg => cfg
  | fuel + 1, len :: rest, cfg =>
    if len = 0 ∨ rest.length < len then cfg
    else
      let type := rest.getD 0 0
      let cfg := { cfg with
        codec_configuration_mask := cfg.codec_configuration_mask ||| (1 <<< type) }
      let cfg :=
        match type with
        | 1 => { cfg with sampling_frequency_index := rest.getD 1 0 }
        | 2 => { cfg with frame_duration_index := rest.getD 1 0 }
        | 3 => { cfg with
            audio_channel_allocation_mask :=
              little_endian_read_16 rest 1 + 65536 * little_endian_read_16 rest 3 }
        | 4 => { cfg with octets_per_codec_frame := little_endian_read_16 rest 1 }
        | 5 => { cfg with codec_frame_blocks_per_sdu := rest.getD 1 0 }
        | _ => cfg
      example_specific_codec_configuration_parse fuel (rest.drop len) cfg

/-- The instance of the constants above with an interpreter that reads the codec
specific configuration records. -/
def example_util_ltv : ascs_util_t :=
  { example_util with
    ascs_util_specific_codec_configuration_parse := fun blob =>
      example_specific_codec_configuration_parse blob.length blob
        ascs_specific_codec_configuration_t.zero }

/-- A stream endpoint in state `s` with notifications enabled, a stored codec
configuration that is unframed, allows a transport latency of 100 ms and presentation
delays between 20000 and 40000 us, and a stored QoS configuration with the given CIG and
CIS ids. -/
def example_streamendpoint (s : ascs_state_t) (cig_id cis_id : Nat) : ascs_streamendpoint_t :=
  { ascs_streamendpoint_t.zero with
    state := s
    ase_characteristic_client_configuration := 1
    codec_configuration :=
      { ascs_codec_configuration_t.zero with
        framing := 0
        max_transport_latency_ms := 100
        presentation_delay_min_us := 20000
        presentation_delay_max_us := 40000 }
    qos_configuration :=
      { ascs_qos_configuration_t.zero with cig_id := cig_id, cis_id := cis_id } }

/-- A server with two registered Sink ASEs, ids 1 and 2, control point at handle 20, and
one client on connection handle 64 with the given stream endpoints. -/
def example_server_two_sinks (e0 e1 : ascs_streamendpoint_t) : ascs_server_t where
  ascs_streamendpoint_characteristics :=
    [⟨1, LE_AUDIO_ROLE_SINK, 10, 11⟩, ⟨2, LE_AUDIO_ROLE_SINK, 13, 14⟩]
  ascs_streamendpoint_chr_num := 2
  ascs_clients :=
    [{ example_connection 64 ASCS_STATE_IDLE ASCS_STATE_IDLE with streamendpoints := [e0, e1] }]
  ascs_streamendpoint_characteristics_id_counter := 2
  ascs_ase_control_point_handle := 20
  ascs_ase_control_point_client_configuration_handle := 21
  trace := []

/-- The metadata the first read of an ACP write parses for sub-request `i` of an Enable
or Update Metadata write: the parser is handed the payload and the local
`metadata_config`, which it wrote to for the sub-requests before. -/
def first_read_metadata (U : ascs_util_t) (srv : ascs_server_t)
    (connection : ascs_server_connection_t) (buffer : List Nat) (i : Nat) :
    le_audio_metadata_t :=
  (le_audio_util_metadata_parse U (first_read_payload U srv connection buffer i)
    (first_read_at U srv connection buffer i).metadata_config).2

/-- Every metadata field that is present, by the mask, and that the validator looks at
is below its RFU bound: the preferred and the streaming audio contexts are below the RFU
context mask, the parental rating is below the RFU rating. -/
def metadata_in_range (U : ascs_util_t) (m : le_audio_metadata_t) : Prop :=
  (m.metadata_mask &&& (1 <<< U.LE_AUDIO_METADATA_TYPE_PREFERRED_AUDIO_CONTEXTS) ≠ 0 →
      m.preferred_audio_contexts_mask < U.LE_AUDIO_CONTEXT_MASK_RFU)
    ∧ (m.metadata_mask &&& (1 <<< U.LE_AUDIO_METADATA_TYPE_STREAMING_AUDIO_CONTEXTS) ≠ 0 →
        m.streaming_audio_contexts_mask < U.LE_AUDIO_CONTEXT_MASK_RFU)
    ∧ (m.metadata_mask &&& (1 <<< U.LE_AUDIO_METADATA_TYPE_PARENTAL_RATING) ≠ 0 →
        m.parental_rating < U.LE_AUDIO_PARENTAL_RATING_RFU)

instance (U : ascs_util_t) (m : le_audio_metadata_t) : Decidable (metadata_in_range U m) := by
  unfold metadata_in_range
  infer_instance

/-- The three metadata types the validator looks at are distinct enumerators between the
first type of the loop and the RFU type, as the `switch` over them and the bounds of the
loop in `ascs_server_control_point_operation_prepare_response_for_metadata_update`
take them to be. -/
def metadata_types_well_formed (U : ascs_util_t) : Prop :=
  U.LE_AUDIO_METADATA_TYPE_PREFERRED_AUDIO_CONTEXTS < U.LE_AUDIO_METADATA_TYPE_RFU
    ∧ U.LE_AUDIO_METADATA_TYPE_PREFERRED_AUDIO_CONTEXTS
        ≤ U.LE_AUDIO_METADATA_TYPE_STREAMING_AUDIO_CONTEXTS
    ∧ U.LE_AUDIO_METADATA_TYPE_STREAMING_AUDIO_CONTEXTS < U.LE_AUDIO_METADATA_TYPE_RFU
    ∧ U.LE_AUDIO_METADATA_TYPE_PREFERRED_AUDIO_CONTEXTS
        ≤ U.LE_AUDIO_METADATA_TYPE_PARENTAL_RATING
    ∧ U.LE_AUDIO_METADATA_TYPE_PARENTAL_RATING < U.LE_AUDIO_METADATA_TYPE_RFU
    ∧ U.LE_AUDIO_METADATA_TYPE_PREFERRED_AUDIO_CONTEXTS
        ≠ U.LE_AUDIO_METADATA_TYPE_STREAMING_AUDIO_CONTEXTS
    ∧ U.LE_AUDIO_METADATA_TYPE_PREFERRED_AUDIO_CONTEXTS
        ≠ U.LE_AUDIO_METADATA_TYPE_PARENTAL_RATING
    ∧ U.LE_AUDIO_METADATA_TYPE_STREAMING_AUDIO_CONTEXTS
        ≠ U.LE_AUDIO_METADATA_TYPE_PARENTAL_RATING

instance (U : ascs_util_t) : Decidable (metadata_types_well_formed U) := by
  unfold metadata_types_well_formed
  infer_instance

/-- An interpreter of a metadata blob for the instance below. The blob is a sequence of
records (length, type, value); each record sets the bit of its type in the mask and, for
the three types the server validates, stores its value. `fuel` bounds the number of
records. -/
def example_metadata_parse_tlv : Nat → List Nat → le_audio_metadata_t → le_audio_metadata_t
  | 0, _, m => m
  | _ + 1, [], m => m
  | fuel + 1, len :: rest, m =>
    if len = 0 ∨ rest.length < len then m
    else
      let type := rest.getD 0 0
      let m := { m with metadata_mask := m.metadata_mask ||| (1 <<< type) }
      let m :=
        match type with
        | 1 => { m with preferred_audio_contexts_mask := little_endian_read_16 rest 1 }
        | 2 => { m with streaming_audio_contexts_mask := little_endian_read_16 rest 1 }
        | 6 => { m with parental_rating := rest.getD 1 0 }
        | _ => m
      example_metadata_parse_tlv fuel (rest.drop len) m

/-- The instance of the constants above with an interpreter that reads the metadata
records. -/
def example_util_metadata : ascs_util_t :=
  { example_util with
    le_audio_util_metadata_parse_tlv := fun blob m =>
      example_metadata_parse_tlv blob.length blob m }

/-- A Config QoS sub-request for the ASE `ase_id` with the given CIG and CIS ids and
with SDU interval 10000, framing 0, phy 2, maximum SDU 40, retransmission number 2,
transport latency 10 and presentation delay 40000. -/
def example_config_qos_sub_request (ase_id cig_id cis_id : Nat) : List Nat :=
  [ase_id, cig_id, cis_id, 0x10, 0x27, 0, 0, 2, 40, 0, 2, 10, 0, 0x40, 0x9C, 0]

/-! ## Sending notifications -/

/-- The assignment `scheduled_tasks &= ~task`: the bits of `task` are cleared, the other
bits stay. -/
def clear_task (scheduled_tasks task : Nat) : Nat :=
  scheduled_tasks ^^^ (scheduled_tasks &&& task)

/-- The byte values of the enumerators of `ascs_state_t`, of the response codes and of
the reject reasons, the constant `LE_AUDIO_MAX_CODEC_CONFIG_SIZE`, and the serializers
`ascs_server_can_send_now` and `asce_server_ase_serialize` call, all of which live in
headers and files outside the sources at hand. They are parameters of the embedding. A
serializer is given the structure and the size of the buffer it may write to and yields
the bytes it writes, whose number is the value it returns. -/
structure ascs_wire_t where
  state_byte : ascs_state_t → Nat
  code_byte : ascs_error_code_t → Nat
  reason_byte : ascs_reject_reason_t → Nat
  LE_AUDIO_MAX_CODEC_CONFIG_SIZE : Nat
  ascs_util_codec_configuration_serialize : ascs_codec_configuration_t → Nat → List Nat
  ascs_util_specific_codec_configuration_serialize_to_tlv :
    ascs_specific_codec_configuration_t → Nat → List Nat
  ascs_util_qos_configuration_serialize : ascs_qos_configuration_t → Nat → List Nat
  asce_util_metadata_serialize : le_audio_metadata_t → Nat → List Nat

/-- The function `ascs_server_codec_configuration_serialize`: the bytes written. -/
def ascs_server_codec_configuration_serialize (W : ascs_wire_t)
    (codec_configuration : ascs_codec_configuration_t) (buffer_size : Nat) : List Nat :=
  let head := W.ascs_util_codec_configuration_serialize codec_configuration buffer_size
  head ++ W.ascs_util_specific_codec_configuration_serialize_to_tlv
    codec_configuration.specific_codec_configuration (buffer_size - head.length)

/-- The function `asce_server_ase_serialize` for stream endpoint `k`, whose
characteristic is entry `k` of the characteristics array: the bytes `value[0 .. pos)`
it leaves, `pos` being the value it returns. -/
def asce_server_ase_serialize (W : ascs_wire_t) (srv : ascs_server_t) (k : Nat)
    (streamendpoint : ascs_streamendpoint_t) (value_size : Nat) : List Nat :=
  let value := [(srv.chr k).ase_id, W.state_byte streamendpoint.state]
  match streamendpoint.state with
  | ASCS_STATE_CODEC_CONFIGURED =>
    value ++ ascs_server_codec_configuration_serialize W streamendpoint.codec_configuration
      (value_size - 2)
  | ASCS_STATE_QOS_CONFIGURED =>
    value ++ W.ascs_util_qos_configuration_serialize streamendpoint.qos_configuration
      (value_size - 2)
  | ASCS_STATE_ENABLING | ASCS_STATE_STREAMING | ASCS_STATE_DISABLING =>
    value ++ [streamendpoint.qos_configuration.cig_id, streamendpoint.qos_configuration.cis_id]
      ++ W.asce_util_metadata_serialize streamendpoint.metadata (value_size - 4)
  | _ => value

/-- The two-byte header of an ASE value read back: the ase_id and the state whose byte
the second byte is, if there is one. -/
def ase_header_parse (W : ascs_wire_t) (value : List Nat) : Option (Nat × ascs_state_t) :=
  match value with
  | ase_id :: state :: _ =>
    ([ASCS_STATE_IDLE, ASCS_STATE_CODEC_CONFIGURED, ASCS_STATE_QOS_CONFIGURED,
      ASCS_STATE_ENABLING, ASCS_STATE_STREAMING, ASCS_STATE_DISABLING, ASCS_STATE_RELEASING,
      ASCS_STATE_RFU].find? (fun s => W.state_byte s == state)).map (fun s => (ase_id, s))
  | _ => none

/-- The array `value` of `ascs_server_can_send_now` together with its cursor `pos`. -/
structure value_cursor_t where
  value : List Nat
  pos : Nat
  deriving DecidableEq, Repr

/-- The statement `value[pos++] = byte` with a `uint8_t` cursor: the cursor is reduced
modulo 256; a store past the end of the array is not represented. -/
def value_cursor_t.put (s : value_cursor_t) (byte : Nat) : value_cursor_t :=
  { value := s.value.set s.pos byte, pos := (s.pos + 1) % 256 }

/-- The control point branch of `ascs_server_can_send_now`: the bytes `value[0 .. pos)`
it hands to `att_server_notify`. The array has `2 + 3 * ASCS_STREAMENDPOINTS_MAX_NUM`
bytes, `ASCS_STREAMENDPOINTS_MAX_NUM` being the length of `response`. -/
def control_point_notification_value (W : ascs_wire_t) (connection : ascs_server_connection_t) :
    List Nat :=
  let s : value_cursor_t := ⟨List.replicate (2 + 3 * connection.response.length) 0, 0⟩
  let s := s.put connection.response_opcode
  let s := s.put connection.response_ases_num
  let s :=
    if connection.response_ases_num ≠ 0xFF then
      for_loop connection.response_ases_num
        (fun i s =>
          ((s.put (connection.resp i).ase_id).put
            (W.code_byte (connection.resp i).response_code)).put
            (W.reason_byte (connection.resp i).reason))
        s
    else s
  s.value.take s.pos

/-- The loop of the value-changed branch of `ascs_server_can_send_now`, from index `i`
with `fuel` iterations left, `notification_sent` being the flag of that name: the
connection afterwards and the notifications sent. The value array has
`25 + LE_AUDIO_MAX_CODEC_CONFIG_SIZE` bytes. -/
def can_send_now_value_changed (W : ascs_wire_t) (srv : ascs_server_t) :
    Nat → Nat → Bool → ascs_server_connection_t →
      ascs_server_connection_t × List ascs_effect_t
  | 0, _, _, connection => (connection, [])
  | fuel + 1, i, notification_sent, connection =>
    if ¬ (connection.ase i).ase_characteristic_value_changed_w2_notify then
      can_send_now_value_changed W srv fuel (i + 1) notification_sent connection
    else if ¬ notification_sent then
      let streamendpoint :=
        { (connection.ase i) with
          ase_characteristic_value_changed_w2_notify := false
          ase_characteristic_value_change_initiated_by_client := false }
      let r := can_send_now_value_changed W srv fuel (i + 1) true
        (connection.set_ase i streamendpoint)
      (r.1,
        att_server_notify connection.con_handle (srv.chr i).ase_characteristic_value_handle
          (asce_server_ase_serialize W srv i streamendpoint
            (25 + W.LE_AUDIO_MAX_CODEC_CONFIG_SIZE)) :: r.2)
    else
      ({ connection with
          scheduled_tasks :=
            connection.scheduled_tasks ||| ASCS_TASK_SEND_CODEC_CONFIGURATION_VALUE_CHANGED },
        [])

/-- The two branches of `ascs_server_can_send_now` on a connection whose handle is
valid, before the final test of `scheduled_tasks`. -/
def can_send_now_task (W : ascs_wire_t) (srv : ascs_server_t)
    (connection : ascs_server_connection_t) :
    ascs_server_connection_t × List ascs_effect_t :=
  if connection.scheduled_tasks &&& ASCS_TASK_SEND_CONTROL_POINT_OPERATION_RESPONSE ≠ 0 then
    ({ connection with
        scheduled_tasks :=
          clear_task connection.scheduled_tasks
            ASCS_TASK_SEND_CONTROL_POINT_OPERATION_RESPONSE },
      [att_server_notify connection.con_handle srv.ascs_ase_control_point_handle
        (control_point_notification_value W connection)])
  else if connection.scheduled_tasks
      &&& ASCS_TASK_SEND_CODEC_CONFIGURATION_VALUE_CHANGED ≠ 0 then
    can_send_now_value_changed W srv srv.ascs_streamendpoint_chr_num 0 false
      { connection with
        scheduled_tasks :=
          clear_task connection.scheduled_tasks
            ASCS_TASK_SEND_CODEC_CONFIGURATION_VALUE_CHANGED }
  else (connection, [])

/-- The function `ascs_server_can_send_now`; its context is the connection in slot `ci`
of the clients array. -/
def ascs_server_can_send_now (W : ascs_wire_t) (srv : ascs_server_t) (ci : Nat) :
    ascs_server_t :=
  match srv.client ci with
  | none => srv
  | some connection =>
    if connection.con_handle = HCI_CON_HANDLE_INVALID then
      srv.set_client ci (ascs_server_reset_client srv connection)
    else
      let r := can_send_now_task W srv connection
      srv.commit ci
        (r.1, r.2 ++
          (if r.1.scheduled_tasks ≠ 0 then
            [att_server_register_can_send_now_callback r.1.con_handle]
          else []))

/-! ## Reads, disconnects and initialisation -/

/-- The two bytes `att_read_callback_handle_little_endian_16` reads from. -/
def little_endian_bytes_16 (value : Nat) : List Nat :=
  [value % 256, value / 256 % 256]

/-- The loop of `ascs_server_read_callback` over the stream endpoints, from index `i`
with `fuel` iterations left: the value handed to the `att_read_callback_handle_*` helper
if the handle is the value handle or the client configuration handle of an ASE. The
length of a serialized ASE is stored in a `uint8_t`. -/
def read_ase_attribute (W : ascs_wire_t) (srv : ascs_server_t)
    (connection : ascs_server_connection_t) (attribute_handle : Nat) :
    Nat → Nat → Option (List Nat)
  | 0, _ => none
  | fuel + 1, i =>
    if attribute_handle = (srv.chr i).ase_characteristic_value_handle then
      let value := asce_server_ase_serialize W srv i (connection.ase i)
        (25 + W.LE_AUDIO_MAX_CODEC_CONFIG_SIZE)
      some (value.take (value.length % 256))
    else if attribute_handle
        = (srv.chr i).ase_characteristic_client_configuration_handle then
      some (little_endian_bytes_16 (connection.ase i).ase_characteristic_client_configuration)
    else read_ase_attribute W srv connection attribute_handle fuel (i + 1)

/-- The part of `ascs_server_read_callback` after the connection was looked up or
attached, on the slot `ci`: the server afterwards and the value that is read, empty where
the callback returns 0. -/
def read_attribute (W : ascs_wire_t) (srv : ascs_server_t) (ci attribute_handle : Nat) :
    ascs_server_t × List Nat :=
  match srv.client ci with
  | none => (srv, [])
  | some connection =>
    if attribute_handle = srv.ascs_ase_control_point_client_configuration_handle then
      (srv, little_endian_bytes_16 connection.ase_control_point_client_configuration)
    else
      match read_ase_attribute W srv connection attribute_handle
          srv.ascs_streamendpoint_chr_num 0 with
      | some value => (srv, value)
      | none =>
        (srv.set_client ci { connection with con_handle := HCI_CON_HANDLE_INVALID }, [])

/-- The function `ascs_server_read_callback`. The offset and the buffer of the caller
are left to the `att_read_callback_handle_*` helpers, which are not part of the sources;
the result is the server afterwards and the value those helpers read from. -/
def ascs_server_read_callback (W : ascs_wire_t) (srv : ascs_server_t)
    (con_handle attribute_handle : Nat) : ascs_server_t × List Nat :=
  match ascs_server_get_remote_client_for_con_handle srv con_handle with
  | some ci => read_attribute W srv ci attribute_handle
  | none =>
    match ascs_server_add_client srv con_handle with
    | (none, _) =>
      (srv.emit [emit_connected con_handle ERROR_CODE_CONNECTION_LIMIT_EXCEEDED], [])
    | (some ci, srv1) =>
      read_attribute W (srv1.emit [emit_connected con_handle ERROR_CODE_SUCCESS]) ci
        attribute_handle

/-- A packet as `ascs_server_packet_handler` tells them apart: an HCI event that is a
disconnection complete for a connection handle, another HCI event, or a packet of another
type. -/
inductive hci_packet_t
  | hci_event_disconnection_complete (con_handle : Nat)
  | hci_event_other
  | other_packet_type
  deriving DecidableEq, Repr

/-- The function `ascs_server_packet_handler`. -/
def ascs_server_packet_handler (srv : ascs_server_t) (packet : hci_packet_t) : ascs_server_t :=
  match packet with
  | .hci_event_disconnection_complete con_handle =>
    match ascs_server_get_remote_client_for_con_handle srv con_handle with
    | none => srv
    | some ci =>
      match srv.client ci with
      | none => srv
      | some client_connection =>
        (srv.set_client ci (ascs_server_reset_client srv client_connection)).emit
          [emit_disconnected con_handle]
  | _ => srv

/-- The characteristics of the GATT attribute table the server looks for. -/
inductive att_uuid16_t
  | ORG_BLUETOOTH_CHARACTERISTIC_SINK_ASE
  | ORG_BLUETOOTH_CHARACTERISTIC_SOURCE_ASE
  | ORG_BLUETOOTH_CHARACTERISTIC_ASE_CONTROL_POINT
  | other_characteristic
  deriving DecidableEq, Repr

/-- A characteristic of the GATT attribute table: its UUID, the handle of its value and
the handle of its client configuration descriptor. -/
structure att_characteristic_t where
  uuid16 : att_uuid16_t
  value_handle : Nat
  client_configuration_handle : Nat
  deriving DecidableEq, Repr

/-- Modelled from the spec: the first characteristic with the given UUID whose value
handle lies in the handle range, in the order of the attribute table. The two lookups
below are functions of the ATT database, which is not part of the sources; section 4.1
has the registry scan the table for the value handles of the Sink ASE and of the Source
ASE characteristics. -/
def gatt_server_find_characteristic (db : List att_characteristic_t)
    (start_handle end_handle : Nat) (uuid16 : att_uuid16_t) : Option att_characteristic_t :=
  db.find? (fun ch =>
    decide (start_handle ≤ ch.value_handle) && decide (ch.value_handle ≤ end_handle)
      && decide (ch.uuid16 = uuid16))

/-- Modelled from the spec: `gatt_server_get_value_handle_for_characteristic_with_uuid16`,
which yields 0 if there is no such characteristic. -/
def gatt_server_get_value_handle_for_characteristic_with_uuid16
    (db : List att_characteristic_t) (start_handle end_handle : Nat) (uuid16 : att_uuid16_t) :
    Nat :=
  match gatt_server_find_characteristic db start_handle end_handle uuid16 with
  | some ch => ch.value_handle
  | none => 0

/-- Modelled from the spec:
`gatt_server_get_client_configuration_handle_for_characteristic_with_uuid16`, which
yields 0 if there is no such characteristic. -/
def gatt_server_get_client_configuration_handle_for_characteristic_with_uuid16
    (db : List att_characteristic_t) (start_handle end_handle : Nat) (uuid16 : att_uuid16_t) :
    Nat :=
  match gatt_server_find_characteristic db start_handle end_handle uuid16 with
  | some ch => ch.client_configuration_handle
  | none => 0

/-- The variables the loop of `ascs_server_streamenpoint_init` changes: the global
characteristics array, the global `ascs_streamendpoint_chr_num`, the id counter, and the
local `start_handle`. -/
structure streamendpoint_init_t where
  ascs_streamendpoint_characteristics : List ascs_streamendpoint_characteristic_t
  ascs_streamendpoint_chr_num : Nat
  ascs_streamendpoint_characteristics_id_counter : Nat
  start_handle : Nat
  deriving DecidableEq, Repr

/-- The function `ascs_server_streamenpoint_init`, with `fuel` bounding the iterations of
its `while` loop. The loop compares the global `ascs_streamendpoint_chr_num` with the
argument `streamendpoint_characteristics_num`. The entry copied from the argument array
is zeroed right away, so only the stores into the global array remain; `ase_id` and
`ascs_streamendpoint_chr_num` are `uint8_t`, the handles `uint16_t`. The assertion that
the count is below `ASCS_STREAMENDPOINTS_MAX_NUM` is not represented. -/
def ascs_server_streamenpoint_init (db : List att_characteristic_t)
    (streamendpoint_characteristics_num end_handle : Nat) (role : le_audio_role_t) :
    Nat → streamendpoint_init_t → streamendpoint_init_t
  | 0, s => s
  | fuel + 1, s =>
    let chr_uuid16 :=
      if role = LE_AUDIO_ROLE_SOURCE then att_uuid16_t.ORG_BLUETOOTH_CHARACTERISTIC_SOURCE_ASE
      else att_uuid16_t.ORG_BLUETOOTH_CHARACTERISTIC_SINK_ASE
    if s.start_handle < end_handle
        ∧ s.ascs_streamendpoint_chr_num < streamendpoint_characteristics_num then
      let chr_value_handle :=
        gatt_server_get_value_handle_for_characteristic_with_uuid16 db s.start_handle
          end_handle chr_uuid16
      let chr_client_configuration_handle :=
        gatt_server_get_client_configuration_handle_for_characteristic_with_uuid16 db
          s.start_handle end_handle chr_uuid16
      if chr_value_handle = 0 then s
      else
        let ase_id :=
          ascs_server_get_next_streamendpoint_chr_id
            s.ascs_streamendpoint_characteristics_id_counter
        ascs_server_streamenpoint_init db streamendpoint_characteristics_num end_handle role
          fuel
          { ascs_streamendpoint_characteristics :=
              s.ascs_streamendpoint_characteristics.set s.ascs_streamendpoint_chr_num
                ⟨ase_id, role, chr_value_handle, chr_client_configuration_handle⟩
            ascs_streamendpoint_chr_num := (s.ascs_streamendpoint_chr_num + 1) % 256
            ascs_streamendpoint_characteristics_id_counter := ase_id
            start_handle := (chr_client_configuration_handle + 1) % 65536 }
    else s

/-- A connection slot as `audio_stream_control_service_server_init` leaves it: zeroed,
with `max_num` response entries and stream endpoints, the state of the stream endpoints
Idle, and the handle invalid. -/
def ascs_server_connection_t.init (max_num : Nat) : ascs_server_connection_t where
  con_handle := HCI_CON_HANDLE_INVALID
  ase_control_point_client_configuration := 0
  response_opcode := 0
  response_ases_num := 0
  response := List.replicate max_num ascs_control_point_operation_response_t.zero
  scheduled_tasks := 0
  streamendpoints := List.replicate max_num ascs_streamendpoint_t.zero

/-- The function `audio_stream_control_service_server_init`. `db` is the attribute table
and `start_handle` and `end_handle` the range of the service in it, which
`gatt_server_get_handle_range_for_service_with_uuid16` yields; `max_num` is
`ASCS_STREAMENDPOINTS_MAX_NUM`, `streamendpoint_characteristics` the array of the caller,
whose length is `streamendpoint_characteristics_num`. -/
def audio_stream_control_service_server_init (db : List att_characteristic_t)
    (start_handle end_handle max_num : Nat)
    (streamendpoint_characteristics : List ascs_streamendpoint_characteristic_t)
    (clients_num : Nat) : ascs_server_t :=
  let streamendpoint_characteristics_num := streamendpoint_characteristics.length
  let s0 : streamendpoint_init_t :=
    { ascs_streamendpoint_characteristics := streamendpoint_characteristics
      ascs_streamendpoint_chr_num := 0
      ascs_streamendpoint_characteristics_id_counter := 0
      start_handle := start_handle }
  let s1 := ascs_server_streamenpoint_init db streamendpoint_characteristics_num end_handle
    LE_AUDIO_ROLE_SINK streamendpoint_characteristics_num s0
  let s2 := ascs_server_streamenpoint_init db
    (streamendpoint_characteristics_num - s1.ascs_streamendpoint_chr_num) end_handle
    LE_AUDIO_ROLE_SOURCE streamendpoint_characteristics_num
    { s1 with start_handle := start_handle }
  { ascs_streamendpoint_characteristics := s2.ascs_streamendpoint_characteristics
    ascs_streamendpoint_chr_num := s2.ascs_streamendpoint_chr_num
    ascs_clients := List.replicate clients_num (ascs_server_connection_t.init max_num)
    ascs_streamendpoint_characteristics_id_counter :=
      s2.ascs_streamendpoint_characteristics_id_counter
    ascs_ase_control_point_handle :=
      gatt_server_get_value_handle_for_characteristic_with_uuid16 db start_handle end_handle
        att_uuid16_t.ORG_BLUETOOTH_CHARACTERISTIC_ASE_CONTROL_POINT
    ascs_ase_control_point_client_configuration_handle :=
      gatt_server_get_client_configuration_handle_for_characteristic_with_uuid16 db
        start_handle end_handle att_uuid16_t.ORG_BLUETOOTH_CHARACTERISTIC_ASE_CONTROL_POINT
    trace := [] }

/-! ## Events -/

/-- What may happen to the server after initialisation: a GATT read, a GATT write, a
call of an apply entry point, a can-send-now callback for a slot, and a packet. -/
inductive ascs_event_t
  | gatt_read (con_handle attribute_handle : Nat)
  | gatt_write (con_handle attribute_handle : Nat) (buffer : List Nat)
  | apply (a : ascs_apply_t) (con_handle ase_id : Nat)
  | can_send_now (ci : Nat)
  | packet (p : hci_packet_t)

/-- Executes one event. -/
def ascs_event_t.exec (U : ascs_util_t) (W : ascs_wire_t) (srv : ascs_server_t) :
    ascs_event_t → ascs_server_t
  | .gatt_read con_handle attribute_handle =>
    (ascs_server_read_callback W srv con_handle attribute_handle).1
  | .gatt_write con_handle attribute_handle buffer =>
    ascs_server_write_callback U srv con_handle attribute_handle buffer
  | .apply a con_handle ase_id => a.run srv con_handle ase_id
  | .can_send_now ci => ascs_server_can_send_now W srv ci
  | .packet p => ascs_server_packet_handler srv p

/-- The server after a sequence of events. -/
def run_events (U : ascs_util_t) (W : ascs_wire_t) (srv : ascs_server_t)
    (events : List ascs_event_t) : ascs_server_t :=
  events.foldl (fun s e => e.exec U W s) srv

/-- An instance of the byte values and serializers: the enumerators numbered in the
order of their declaration, a codec configuration written as framing and preferred
phy, its specific part as nothing, a QoS configuration as CIG id and CIS id, and
metadata as the mask byte followed by the parental rating; each serializer writes
nothing if the buffer is too small. -/
def example_wire : ascs_wire_t where
  state_byte := fun s =>
    match s with
    | ASCS_STATE_IDLE => 0
    | ASCS_STATE_CODEC_CONFIGURED => 1
    | ASCS_STATE_QOS_CONFIGURED => 2
    | ASCS_STATE_ENABLING => 3
    | ASCS_STATE_STREAMING => 4
    | ASCS_STATE_DISABLING => 5
    | ASCS_STATE_RELEASING => 6
    | ASCS_STATE_RFU => 7
  code_byte := fun c =>
    match c with
    | ASCS_ERROR_CODE_SUCCESS => 0
    | ASCS_ERROR_CODE_UNSUPPORTED_OPCODE => 1
    | ASCS_ERROR_CODE_INVALID_LENGTH => 2
    | ASCS_ERROR_CODE_INVALID_ASE_ID => 3
    | ASCS_ERROR_CODE_INVALID_ASE_STATE_MACHINE_TRANSITION => 4
    | ASCS_ERROR_CODE_INVALID_ASE_DIRECTION => 5
    | ASCS_ERROR_CODE_INSUFFICIENT_RESOURCES => 6
    | ASCS_ERROR_CODE_INVALID_CONFIGURATION_PARAMETER_VALUE => 7
    | ASCS_ERROR_CODE_REJECTED_CONFIGURATION_PARAMETER_VALUE => 8
    | ASCS_ERROR_CODE_INVALID_METADATA => 9
    | ASCS_ERROR_CODE_REJECTED_METADATA => 10
    | ASCS_ERROR_CODE_INSUFFICIENT_METADATA => 11
  reason_byte := fun r =>
    match r with
    | ASCS_REJECT_REASON_NONE => 0
    | ASCS_REJECT_REASON_CODEC_ID => 1
    | ASCS_REJECT_REASON_CODEC_SPECIFIC_CONFIGURATION => 2
    | ASCS_REJECT_REASON_SDU_INTERVAL => 3
    | ASCS_REJECT_REASON_FRAMING => 4
    | ASCS_REJECT_REASON_PHY => 5
    | ASCS_REJECT_REASON_MAXIMUM_SDU_SIZE => 6
    | ASCS_REJECT_REASON_MAX_TRANSPORT_LATENCY => 7
    | ASCS_REJECT_REASON_PRESENTATION_DELAY => 8
    | ASCS_REJECT_REASON_INVALID_ASE_CIS_MAPPING => 9
  LE_AUDIO_MAX_CODEC_CONFIG_SIZE := 19
  ascs_util_codec_configuration_serialize := fun c size =>
    if size < 2 then [] else [c.framing, c.preferred_phy]
  ascs_util_specific_codec_configuration_serialize_to_tlv := fun _ _ => []
  ascs_util_qos_configuration_serialize := fun q size =>
    if size < 2 then [] else [q.cig_id, q.cis_id]
  asce_util_metadata_serialize := fun m size =>
    if size < 2 then [] else [m.metadata_mask % 256, m.parental_rating]

/-- Whether an effect is a notification sent through `att_server_notify`. -/
def ascs_effect_t.is_notification : ascs_effect_t → Bool
  | att_server_notify _ _ _ => true
  | _ => false

/-- What arming the value-changed task may change in a connection with `n` registered
ASEs: the stream endpoints, but neither their number nor their client configurations,
and `scheduled_tasks`, which stays or gains the value-changed bit; a stream endpoint
whose `ase_characteristic_value_changed_w2_notify` is set afterwards had it set before or
is a registered one of a connection with the value-changed bit set. -/
def scheduling_frame (n : Nat) (c c2 : ascs_server_connection_t) : Prop :=
  c2.con_handle = c.con_handle
    ∧ c2.ase_control_point_client_configuration = c.ase_control_point_client_configuration
    ∧ c2.response_opcode = c.response_opcode
    ∧ c2.response_ases_num = c.response_ases_num
    ∧ c2.response = c.response
    ∧ c2.streamendpoints.length = c.streamendpoints.length
    ∧ (c2.scheduled_tasks = c.scheduled_tasks
      ∨ c2.scheduled_tasks
        = c.scheduled_tasks ||| ASCS_TASK_SEND_CODEC_CONFIGURATION_VALUE_CHANGED)
    ∧ (∀ k, (c2.ase k).ase_characteristic_client_configuration
        = (c.ase k).ase_characteristic_client_configuration)
    ∧ (∀ k, (c2.ase k).ase_characteristic_value_changed_w2_notify = true →
        (c.ase k).ase_characteristic_value_changed_w2_notify = true
          ∨ (k < n
            ∧ c2.scheduled_tasks &&& ASCS_TASK_SEND_CODEC_CONFIGURATION_VALUE_CHANGED ≠ 0))

/-- The parts of the server no callback and no entry point changes after
initialisation: the characteristics, their number, the two handles of the control point
and the number of slots. -/
def same_registry (srv srv2 : ascs_server_t) : Prop :=
  srv2.ascs_streamendpoint_characteristics = srv.ascs_streamendpoint_characteristics
    ∧ srv2.ascs_streamendpoint_chr_num = srv.ascs_streamendpoint_chr_num
    ∧ srv2.ascs_ase_control_point_handle = srv.ascs_ase_control_point_handle
    ∧ srv2.ascs_ase_control_point_client_configuration_handle
        = srv.ascs_ase_control_point_client_configuration_handle
    ∧ srv2.ascs_clients.length = srv.ascs_clients.length

/-- The indices from `i` on, `n` of them, of the stream endpoints of a connection whose
`ase_characteristic_value_changed_w2_notify` is set, in increasing order. -/
def pending_indices (c : ascs_server_connection_t) (i n : Nat) : List Nat :=
  (List.range' i n).filter (fun j => (c.ase j).ase_characteristic_value_changed_w2_notify)

/-- The stream endpoint `ascs_server_can_send_now` serializes for index `j`: the one of
the connection with the two flags cleared. -/
def notified_streamendpoint (c : ascs_server_connection_t) (j : Nat) : ascs_streamendpoint_t :=
  { (c.ase j) with
    ase_characteristic_value_changed_w2_notify := false
    ase_characteristic_value_change_initiated_by_client := false }

/-- The value notification of stream endpoint `j` of a connection. -/
def value_changed_notification (W : ascs_wire_t) (srv : ascs_server_t)
    (c : ascs_server_connection_t) (j : Nat) : ascs_effect_t :=
  att_server_notify c.con_handle (srv.chr j).ase_characteristic_value_handle
    (asce_server_ase_serialize W srv j (notified_streamendpoint c j)
      (25 + W.LE_AUDIO_MAX_CODEC_CONFIG_SIZE))

/-- One value notification per index of the list, in the order of the list, with a
registration of the can-send-now callback after each but the last. -/
def value_changed_notifications (W : ascs_wire_t) (srv : ascs_server_t)
    (c : ascs_server_connection_t) : List Nat → List ascs_effect_t
  | [] => []
  | [j] => [value_changed_notification W srv c j]
  | j :: j2 :: rest =>
    value_changed_notification W srv c j
      :: att_server_register_can_send_now_callback c.con_handle
      :: value_changed_notifications W srv c (j2 :: rest)

/-- An attribute table with one Sink ASE characteristic (value handle 3, client
configuration handle 4), one Source ASE characteristic (6 and 7) and the ASE control
point (9 and 10). -/
def example_att_db : List att_characteristic_t :=
  [⟨att_uuid16_t.ORG_BLUETOOTH_CHARACTERISTIC_SINK_ASE, 3, 4⟩,
    ⟨att_uuid16_t.ORG_BLUETOOTH_CHARACTERISTIC_SOURCE_ASE, 6, 7⟩,
    ⟨att_uuid16_t.ORG_BLUETOOTH_CHARACTERISTIC_ASE_CONTROL_POINT, 9, 10⟩]

/-- Two connections agree on the notify flags of their stream endpoints and on the
value-changed bit. -/
def notify_frame (c c2 : ascs_server_connection_t) : Prop :=
  (∀ k, (c2.ase k).ase_characteristic_value_changed_w2_notify
      = (c.ase k).ase_characteristic_value_changed_w2_notify)
    ∧ c2.scheduled_tasks &&& ASCS_TASK_SEND_CODEC_CONFIGURATION_VALUE_CHANGED
        = c.scheduled_tasks &&& ASCS_TASK_SEND_CODEC_CONFIGURATION_VALUE_CHANGED

/-- On every slot, a stream endpoint with the notify flag set is one of a registered ASE
and the value-changed bit of the slot is set. -/
def notify_invariant (srv : ascs_server_t) : Prop :=
  ∀ ci k, ((srv.slot ci).ase k).ase_characteristic_value_changed_w2_notify = true →
    k < srv.ascs_streamendpoint_chr_num
      ∧ (srv.slot ci).scheduled_tasks &&& ASCS_TASK_SEND_CODEC_CONFIGURATION_VALUE_CHANGED ≠ 0

/-- An attribute table with two Sink ASE characteristics (value handles 3 and 6, client
configuration handles 4 and 7) and the ASE control point (9 and 10). -/
def example_att_db_two_sinks : List att_characteristic_t :=
  [⟨att_uuid16_t.ORG_BLUETOOTH_CHARACTERISTIC_SINK_ASE, 3, 4⟩,
    ⟨att_uuid16_t.ORG_BLUETOOTH_CHARACTERISTIC_SINK_ASE, 6, 7⟩,
    ⟨att_uuid16_t.ORG_BLUETOOTH_CHARACTERISTIC_ASE_CONTROL_POINT, 9, 10⟩]

/-! ## What an apply entry point asks of the state machine -/

/-- The target state an apply entry point asks for, for an ASE of direction `role` in
state `state`: the constant it passes to `ascs_server_streamendpoint_transit_to_state`,
for `disable` the state it selects by the direction, for `released` the one it selects by
`caching`. The entry point `metadata_update` names no target and leaves the state as it
is. -/
def ascs_apply_t.target_state (a : ascs_apply_t) (role : le_audio_role_t)
    (state : ascs_state_t) : ascs_state_t :=
  match a with
  | .configure_codec _ => ASCS_STATE_CODEC_CONFIGURED
  | .configure_qos _ => ASCS_STATE_QOS_CONFIGURED
  | .enable => ASCS_STATE_ENABLING
  | .receiver_start_ready => ASCS_STATE_STREAMING
  | .disable =>
    if role = LE_AUDIO_ROLE_SOURCE then ASCS_STATE_DISABLING else ASCS_STATE_QOS_CONFIGURED
  | .receiver_stop_ready => ASCS_STATE_QOS_CONFIGURED
  | .release => ASCS_STATE_RELEASING
  | .released caching => if caching then ASCS_STATE_CODEC_CONFIGURED else ASCS_STATE_IDLE
  | .metadata_update _ => state

/-- The test an apply entry point makes before it changes anything: the `switch` over
the state in `metadata_update`, and for the others the call of
`ascs_server_streamendpoint_can_transit_to_state` with the opcode and the target state of the
entry point. -/
def ascs_apply_t.permitted (a : ascs_apply_t) (state : ascs_state_t)
    (role : le_audio_role_t) : Bool :=
  match a with
  | .metadata_update _ =>
    match state with
    | ASCS_STATE_ENABLING => true
    | ASCS_STATE_STREAMING => true
    | _ => false
  | _ =>
    ascs_server_streamendpoint_can_transit_to_state state role a.opcode
      (a.target_state role state)

/-- What an apply entry point stores in the stream endpoint once its test has passed: the
target state, and with it the codec configuration, the QoS configuration or, with the
state left as it is, the metadata it was called with. -/
def ascs_apply_t.store (a : ascs_apply_t) (role : le_audio_role_t)
    (e : ascs_streamendpoint_t) : ascs_streamendpoint_t :=
  match a with
  | .configure_codec codec_configuration =>
    { e with state := ASCS_STATE_CODEC_CONFIGURED, codec_configuration := codec_configuration }
  | .configure_qos qos_configuration =>
    { e with state := ASCS_STATE_QOS_CONFIGURED, qos_configuration := qos_configuration }
  | .metadata_update metadata => { e with metadata := metadata }
  | _ => { e with state := a.target_state role e.state }

/-- What `ascs_server_streamendpoint_schedule_value_changed_task` does to a live
connection after stream endpoint `k` took the value `e`: nothing more if the notify flag of
`e` is set or its client configuration is 0, and else the flag is set, the value-changed
bit is OR-ed into `scheduled_tasks`, and the can-send-now callback is registered if
`scheduled_tasks` was 0. -/
def value_changed_armed (c : ascs_server_connection_t) (k : Nat) (e : ascs_streamendpoint_t) :
    ascs_server_connection_t × List ascs_effect_t :=
  if e.ase_characteristic_value_changed_w2_notify = true
      ∨ e.ase_characteristic_client_configuration = 0 then
    (c.set_ase k e, [])
  else
    ({ (c.set_ase k { e with ase_characteristic_value_changed_w2_notify := true }) with
        scheduled_tasks :=
          c.scheduled_tasks ||| ASCS_TASK_SEND_CODEC_CONFIGURATION_VALUE_CHANGED },
      schedule_task c.con_handle ASCS_TASK_SEND_CODEC_CONFIGURATION_VALUE_CHANGED ::
        (if c.scheduled_tasks = 0 then
          [att_server_register_can_send_now_callback c.con_handle] else []))

/-- What a call of an apply entry point that passed its test leaves behind, `c` being the
connection in slot `ci` before the call, `e` the value the entry point stores in stream
endpoint `k`, and `srv2` the server after the call. The stream endpoint `k` has the
fields of `e` but for the notify flag, the other stream endpoints of the slot, the other
fields of the connection but `scheduled_tasks`, the other slots and the registry are as
before. If the notify flag was set before, it stays set, and `scheduled_tasks` and the
trace are as before. If it was not set, it is set afterwards exactly if the client
configuration of the stream endpoint is not 0; in that case the value-changed bit is
OR-ed into `scheduled_tasks` and the trace grows by the call of the scheduler and, if
`scheduled_tasks` was 0, the registration of the can-send-now callback; otherwise
`scheduled_tasks` and the trace are as before. -/
def apply_effect (srv : ascs_server_t) (ci k : Nat) (c : ascs_server_connection_t)
    (e : ascs_streamendpoint_t) (srv2 : ascs_server_t) : Prop :=
  (srv2.slot ci).ase k
      = { e with
          ase_characteristic_value_changed_w2_notify :=
            ((srv2.slot ci).ase k).ase_characteristic_value_changed_w2_notify }
    ∧ (∀ j, j ≠ k → (srv2.slot ci).ase j = c.ase j)
    ∧ (∀ cj, cj ≠ ci → srv2.slot cj = srv.slot cj)
    ∧ (srv2.slot ci).con_handle = c.con_handle
    ∧ (srv2.slot ci).ase_control_point_client_configuration
        = c.ase_control_point_client_configuration
    ∧ (srv2.slot ci).response_opcode = c.response_opcode
    ∧ (srv2.slot ci).response_ases_num = c.response_ases_num
    ∧ (srv2.slot ci).response = c.response
    ∧ (srv2.slot ci).streamendpoints.length = c.streamendpoints.length
    ∧ same_registry srv srv2
    ∧ srv2.ascs_streamendpoint_characteristics_id_counter
        = srv.ascs_streamendpoint_characteristics_id_counter
    ∧ (e.ase_characteristic_value_changed_w2_notify = true →
        ((srv2.slot ci).ase k).ase_characteristic_value_changed_w2_notify = true
          ∧ (srv2.slot ci).scheduled_tasks = c.scheduled_tasks
          ∧ srv2.trace = srv.trace)
    ∧ (e.ase_characteristic_value_changed_w2_notify = false →
        (((srv2.slot ci).ase k).ase_characteristic_value_changed_w2_notify = true
            ↔ e.ase_characteristic_client_configuration ≠ 0)
          ∧ (srv2.slot ci).scheduled_tasks
            = (if e.ase_characteristic_client_configuration ≠ 0 then
                c.scheduled_tasks ||| ASCS_TASK_SEND_CODEC_CONFIGURATION_VALUE_CHANGED
              else c.scheduled_tasks)
          ∧ srv2.trace
            = srv.trace
              ++ (if e.ase_characteristic_client_configuration ≠ 0 then
                  schedule_task c.con_handle ASCS_TASK_SEND_CODEC_CONFIGURATION_VALUE_CHANGED
                    :: (if c.scheduled_tasks = 0 then
                      [att_server_register_can_send_now_callback c.con_handle] else [])
                else []))

/-! ## The scheduler of one connection -/

/-- Whether an effect is a registration of the can-send-now callback. -/
def ascs_effect_t.is_registration : ascs_effect_t → Bool
  | att_server_register_can_send_now_callback _ => true
  | _ => false

/-- The number of registrations of the can-send-now callback among effects. -/
def registrations (effects : List ascs_effect_t) : Nat :=
  (effects.filter ascs_effect_t.is_registration).length

/-- The function `ascs_server_can_send_now` on the connection it is given as context: the
connection afterwards and the effects. -/
def can_send_now_connection (W : ascs_wire_t) (srv : ascs_server_t)
    (connection : ascs_server_connection_t) :
    ascs_server_connection_t × List ascs_effect_t :=
  if connection.con_handle = HCI_CON_HANDLE_INVALID then
    (ascs_server_reset_client srv connection, [])
  else
    let r := can_send_now_task W srv connection
    (r.1, r.2 ++
      (if r.1.scheduled_tasks ≠ 0 then
        [att_server_register_can_send_now_callback r.1.con_handle]
      else []))

/-- What happens to the scheduler of a connection: a call of `ascs_server_schedule_task`
with one of the two tasks, a call of
`ascs_server_streamendpoint_schedule_value_changed_task` for stream endpoint `k`, and the
can-send-now callback. -/
inductive scheduler_event_t
  | schedule_control_point_operation_response
  | schedule_codec_configuration_value_changed
  | schedule_value_changed_task (k : Nat)
  | can_send_now

/-- A connection together with the number of registrations of its can-send-now callback
that the ATT server holds and has not yet answered with a call. -/
structure scheduler_t where
  connection : ascs_server_connection_t
  outstanding : Nat

/-- One step of the scheduler of a connection. A call that arms a task adds the
registrations it makes. The ATT server calls the callback only for a registration it
holds, so without one the callback does not happen; with one, the registration is used
up and the registrations the callback makes are added. -/
def scheduler_event_t.exec (W : ascs_wire_t) (srv : ascs_server_t) (s : scheduler_t) :
    scheduler_event_t → scheduler_t
  | .schedule_control_point_operation_response =>
    let r := ascs_server_schedule_task srv s.connection
      ASCS_TASK_SEND_CONTROL_POINT_OPERATION_RESPONSE
    ⟨r.1, s.outstanding + registrations r.2⟩
  | .schedule_codec_configuration_value_changed =>
    let r := ascs_server_schedule_task srv s.connection
      ASCS_TASK_SEND_CODEC_CONFIGURATION_VALUE_CHANGED
    ⟨r.1, s.outstanding + registrations r.2⟩
  | .schedule_value_changed_task k =>
    let r := ascs_server_streamendpoint_schedule_value_changed_task srv s.connection k
    ⟨r.1, s.outstanding + registrations r.2⟩
  | .can_send_now =>
    if s.outstanding = 0 then s
    else
      let r := can_send_now_connection W srv s.connection
      ⟨r.1, s.outstanding - 1 + registrations r.2⟩

/-- The scheduler of a connection after a sequence of steps. -/
def run_scheduler (W : ascs_wire_t) (srv : ascs_server_t) (s : scheduler_t)
    (events : List scheduler_event_t) : scheduler_t :=
  events.foldl (fun s e => e.exec W srv s) s

/-- The ids that `n` successive calls of `ascs_server_get_next_streamendpoint_chr_id`
return when the counter is `counter` before the first: each call returns the new value of
the counter. -/
def next_streamendpoint_chr_ids : Nat → Nat → List Nat
  | 0, _ => []
  | n + 1, counter =>
    ascs_server_get_next_streamendpoint_chr_id counter
      :: next_streamendpoint_chr_ids n (ascs_server_get_next_streamendpoint_chr_id counter)

/-- The scheduler of a live connection in which a registration is outstanding exactly if
`scheduled_tasks` is not 0, and then just one. -/
def scheduler_consistent (s : scheduler_t) : Prop :=
  s.connection.con_handle ≠ HCI_CON_HANDLE_INVALID
    ∧ s.outstanding = (if s.connection.scheduled_tasks ≠ 0 then 1 else 0)

/-- A Config Codec write of 265 bytes for two ASEs. The first sub-request names ASE 2 and
carries the target latency 6 and 245 bytes of codec specific configuration, so that the
second sub-request starts at offset 256; it names ASE 2 as well and carries the target
latency 9 and the target phy 9. Read from offset 0 instead, the bytes are the ase_id 1,
target latency 2, target phy 2, coding format 6 and zeroes. -/
def wrapped_config_codec_write : List Nat :=
  [1, 2, 2, 6, 0, 0, 0, 0, 0, 0, 245] ++ List.replicate 245 0 ++ [2, 9, 9, 6, 0, 0, 0, 0, 0]

/-- The ACP write of the first seed scenario of section 8, byte for byte: opcode Config
Codec, one ASE, ase_id 1, target latency 3, target phy 2, and the five bytes 06 10 00 00
00 of the codec id before the length byte 00. -/
def seed_config_codec_write : List Nat :=
  [0x01, 0x01, 0x01, 0x03, 0x02, 0x06, 0x10, 0x00, 0x00, 0x00, 0x00]

/-- The Config Codec write the first seed scenario describes in words: opcode Config
Codec, one ASE, ase_id 1, target latency 3, target phy 2, coding format 6, company id 0,
vendor specific codec id 0, and no codec specific configuration. -/
def lc3_config_codec_write : List Nat :=
  [0x01, 0x01, 0x01, 0x03, 0x02, 0x06, 0x00, 0x00, 0x00, 0x00, 0x00]

/-- A codec configuration that is unframed, allows a transport latency of 100 ms and
presentation delays between 20000 and 40000 us, the one `example_streamendpoint`
stores. -/
def example_codec_configuration : ascs_codec_configuration_t :=
  { ascs_codec_configuration_t.zero with
    framing := 0
    max_transport_latency_ms := 100
    presentation_delay_min_us := 20000
    presentation_delay_max_us := 40000 }

/-- The QoS configuration `example_config_qos_sub_request` carries: the given CIG and CIS
ids, SDU interval 10000, framing 0, phy 2, maximum SDU 40, retransmission number 2,
transport latency 10 and presentation delay 40000. -/
def example_qos_configuration (cig_id cis_id : Nat) : ascs_qos_configuration_t :=
  ⟨cig_id, cis_id, 10000, 0, 2, 40, 2, 10, 40000⟩

/-- The server initialised from the attribute table with two Sink ASE characteristics,
with two templates and one slot. -/
def example_init_two_sinks : ascs_server_t :=
  audio_stream_control_service_server_init example_att_db_two_sinks 1 0xFFFF 4
    [ascs_streamendpoint_characteristic_t.zero, ascs_streamendpoint_characteristic_t.zero] 1

/-- Events after which a client on handle 64 is attached with the notifications of the
control point enabled, the Sink ASE 1 is in Codec Configured and the Sink ASE 2 is
Streaming and stores the pair (1, 1): the write of the client configuration of the
control point, `configure_codec` for both ASEs, and `configure_qos` with the pair (1, 1),
`enable` and `receiver_start_ready` for ASE 2. -/
def example_events_streaming_pair : List ascs_event_t :=
  [ascs_event_t.gatt_write 64 10 [1, 0],
    ascs_event_t.apply (ascs_apply_t.configure_codec example_codec_configuration) 64 1,
    ascs_event_t.apply (ascs_apply_t.configure_codec example_codec_configuration) 64 2,
    ascs_event_t.apply (ascs_apply_t.configure_qos (example_qos_configuration 1 1)) 64 2,
    ascs_event_t.apply ascs_apply_t.enable 64 2,
    ascs_event_t.apply ascs_apply_t.receiver_start_ready 64 2]

/-- Events after which a client on handle 64 is attached with the notifications of the
control point enabled, the Sink ASE 1 is in QoS Configured with the pair (2, 2) and the
Sink ASE 2 is in Codec Configured and stores the pair (1, 1): the write of the client
configuration of the control point, `configure_codec` and `configure_qos` with the pair
(2, 2) for ASE 1, and `configure_codec`, `configure_qos` with the pair (1, 1) and
`configure_codec` again for ASE 2. -/
def example_events_codec_configured_pair : List ascs_event_t :=
  [ascs_event_t.gatt_write 64 10 [1, 0],
    ascs_event_t.apply (ascs_apply_t.configure_codec example_codec_configuration) 64 1,
    ascs_event_t.apply (ascs_apply_t.configure_qos (example_qos_configuration 2 2)) 64 1,
    ascs_event_t.apply (ascs_apply_t.configure_codec example_codec_configuration) 64 2,
    ascs_event_t.apply (ascs_apply_t.configure_qos (example_qos_configuration 1 1)) 64 2,
    ascs_event_t.apply (ascs_apply_t.configure_codec example_codec_configuration) 64 2]

/-- The server initialised from the attribute table with one Sink and one Source ASE
characteristic, with three templates and one slot. -/
def example_init_sink_source : ascs_server_t :=
  audio_stream_control_service_server_init example_att_db 1 0xFFFF 4
    [ascs_streamendpoint_characteristic_t.zero, ascs_streamendpoint_characteristic_t.zero,
      ascs_streamendpoint_characteristic_t.zero] 1

/-- Events in which a client on handle 64 enables the notifications of ASE 1 and of the
control point and then disconnects. -/
def example_events_disconnect : List ascs_event_t :=
  [ascs_event_t.gatt_write 64 4 [1, 0],
    ascs_event_t.gatt_write 64 10 [1, 0],
    ascs_event_t.packet (hci_packet_t.hci_event_disconnection_complete 64)]

/-! # Theorems -/

/-! ## State machine -/

/-- C1 (as amended). For every state, opcode, direction and target state,
`ascs_server_streamendpoint_can_transit_to_state` returns true exactly when the table of
section 4.3, with its Disabling row read as applying to Source ASEs only, gives the
target: in particular Release from Disabling leads to Releasing for a Source ASE,
Disable from Enabling or Streaming leads to Disabling for a Source and to QoS Configured
for a Sink, Released from Releasing admits both Idle and Codec Configured, and everything
else is rejected. -/
theorem can_transit_to_state_iff_table_source_disabling (s : ascs_state_t)
    (o : ascs_opcode_t) (d : le_audio_role_t) (t : ascs_state_t) :
    ascs_server_streamendpoint_can_transit_to_state s d o t = true
      ↔ t ∈ transition_table_source_disabling s o d := by
  cases s <;> cases o <;> cases d <;> cases t <;> decide

/-- C1 (counterexample). The table of section 4.3 leads a Sink ASE from Disabling to
Releasing on Release; the function rejects that transition. -/
theorem can_transit_to_state_sink_disabling_release :
    ASCS_STATE_RELEASING
        ∈ transition_table ASCS_STATE_DISABLING ASCS_OPCODE_RELEASE LE_AUDIO_ROLE_SINK
      ∧ ascs_server_streamendpoint_can_transit_to_state ASCS_STATE_DISABLING
          LE_AUDIO_ROLE_SINK ASCS_OPCODE_RELEASE ASCS_STATE_RELEASING = false := by
  decide

/-! ## Loops and array entries -/

theorem for_loop_zero {σ : Type} (body : Nat → σ → σ) (s : σ) : for_loop 0 body s = s := by
  simp [for_loop]

theorem for_loop_succ {σ : Type} (n : Nat) (body : Nat → σ → σ) (s : σ) :
    for_loop (n + 1) body s = body n (for_loop n body s) := by
  simp [for_loop, List.range_succ, List.foldl_append]

@[simp] theorem resp_set_response_ase_id_self (c : ascs_server_connection_t) (i a : Nat)
    (h : i < c.response.length) :
    (c.set_response_ase_id i a).resp i = { (c.resp i) with ase_id := a } := by
  simp [ascs_server_connection_t.set_response_ase_id, ascs_server_connection_t.resp, h]

@[simp] theorem resp_set_response_ase_id_ne (c : ascs_server_connection_t) (i j a : Nat)
    (h : j ≠ i) : (c.set_response_ase_id i a).resp j = c.resp j := by
  simp [ascs_server_connection_t.set_response_ase_id, ascs_server_connection_t.resp,
    List.getD_eq_getElem?_getD, List.getElem?_set, Ne.symm h]

@[simp] theorem resp_update_self (c : ascs_server_connection_t) (i : Nat)
    (code : ascs_error_code_t) (r : ascs_reject_reason_t) (h : i < c.response.length) :
    (ascs_server_update_control_point_operation_response c i code r).resp i
      = { (c.resp i) with response_code := code, reason := r } := by
  simp [ascs_server_update_control_point_operation_response, ascs_server_connection_t.resp, h]

@[simp] theorem resp_update_ne (c : ascs_server_connection_t) (i j : Nat)
    (code : ascs_error_code_t) (r : ascs_reject_reason_t) (h : j ≠ i) :
    (ascs_server_update_control_point_operation_response c i code r).resp j = c.resp j := by
  simp [ascs_server_update_control_point_operation_response, ascs_server_connection_t.resp,
    List.getD_eq_getElem?_getD, List.getElem?_set, Ne.symm h]

theorem same_but_response_refl (c : ascs_server_connection_t) : same_but_response c c :=
  ⟨rfl, rfl⟩

theorem same_but_response_trans {c1 c2 c3 : ascs_server_connection_t}
    (h12 : same_but_response c1 c2) (h23 : same_but_response c2 c3) :
    same_but_response c1 c3 := by
  obtain ⟨h1, h1l⟩ := h12
  obtain ⟨h2, h2l⟩ := h23
  refine ⟨?_, h2l.trans h1l⟩
  rw [h2, h1]

theorem same_but_response_set_response_ase_id (c : ascs_server_connection_t) (i a : Nat) :
    same_but_response c (c.set_response_ase_id i a) := by
  simp [same_but_response, ascs_server_connection_t.set_response_ase_id]

theorem same_but_response_update (c : ascs_server_connection_t) (i : Nat)
    (code : ascs_error_code_t) (r : ascs_reject_reason_t) :
    same_but_response c (ascs_server_update_control_point_operation_response c i code r) := by
  simp [same_but_response, ascs_server_update_control_point_operation_response]

theorem same_but_response_ase {c1 c2 : ascs_server_connection_t}
    (h : same_but_response c1 c2) (k : Nat) : c2.ase k = c1.ase k := by
  rw [h.1]; rfl

theorem same_but_response_opcode {c1 c2 : ascs_server_connection_t}
    (h : same_but_response c1 c2) : c2.response_opcode = c1.response_opcode := by
  rw [h.1]

theorem same_but_response_fields {c1 c2 : ascs_server_connection_t}
    (h : same_but_response c1 c2) :
    c2.con_handle = c1.con_handle
      ∧ c2.ase_control_point_client_configuration = c1.ase_control_point_client_configuration
      ∧ c2.response_ases_num = c1.response_ases_num
      ∧ c2.scheduled_tasks = c1.scheduled_tasks
      ∧ c2.streamendpoints = c1.streamendpoints := by
  rw [h.1]; simp

theorem writes_response_entry_refl (i : Nat) (c : ascs_server_connection_t) :
    writes_response_entry i c c := ⟨same_but_response_refl c, fun _ _ => rfl⟩

theorem writes_response_entry_update {i : Nat} {c c1 : ascs_server_connection_t}
    (code : ascs_error_code_t) (r : ascs_reject_reason_t) (h : writes_response_entry i c c1) :
    writes_response_entry i c (ascs_server_update_control_point_operation_response c1 i code r) :=
  ⟨same_but_response_trans h.1 (same_but_response_update c1 i code r),
    fun j hj => by rw [resp_update_ne c1 i j code r hj, h.2 j hj]⟩

theorem writes_response_entry_set_ase_id {i : Nat} {c c1 : ascs_server_connection_t}
    (a : Nat) (h : writes_response_entry i c c1) :
    writes_response_entry i c (c1.set_response_ase_id i a) :=
  ⟨same_but_response_trans h.1 (same_but_response_set_response_ase_id c1 i a),
    fun j hj => by rw [resp_set_response_ase_id_ne c1 i j a hj, h.2 j hj]⟩

theorem writes_response_entry_codec_specific (U : ascs_util_t) {i : Nat}
    {c c1 : ascs_server_connection_t} (x : ascs_client_codec_configuration_request_t)
    (h : writes_response_entry i c c1) :
    writes_response_entry i c (prepare_response_for_codec_specific_configuration U c1 i x) := by
  unfold prepare_response_for_codec_specific_configuration
  dsimp only
  split
  · exact writes_response_entry_update _ _ h
  · exact h

theorem writes_response_entry_codec (U : ascs_util_t) (srv : ascs_server_t)
    (c : ascs_server_connection_t) (i a : Nat) (x : ascs_client_codec_configuration_request_t) :
    writes_response_entry i c
      (ascs_server_control_point_operation_prepare_response_for_codec_configuration U srv c
        i a x) := by
  have h0 := writes_response_entry_set_ase_id a (writes_response_entry_refl i c)
  unfold ascs_server_control_point_operation_prepare_response_for_codec_configuration
  dsimp only
  repeat' split
  all_goals
    first
    | exact writes_response_entry_update _ _ h0
    | exact writes_response_entry_codec_specific U x h0
    | exact writes_response_entry_codec_specific U x (writes_response_entry_update _ _ h0)

theorem writes_response_entry_qos (U : ascs_util_t) (srv : ascs_server_t)
    (c : ascs_server_connection_t) (i a : Nat) (x : ascs_qos_configuration_t) :
    writes_response_entry i c
      (ascs_control_point_operation_prepare_response_for_qos_configuration U srv c i a x) := by
  have h0 := writes_response_entry_set_ase_id a (writes_response_entry_refl i c)
  unfold ascs_control_point_operation_prepare_response_for_qos_configuration
  dsimp only
  repeat' split
  all_goals first | exact writes_response_entry_update _ _ h0 | exact h0

theorem writes_response_entry_target_state (srv : ascs_server_t)
    (c : ascs_server_connection_t) (i a : Nat) (t : ascs_state_t) :
    writes_response_entry i c
      (ascs_server_control_point_operation_prepare_response_for_target_state srv c i a t) := by
  have h0 := writes_response_entry_set_ase_id a (writes_response_entry_refl i c)
  unfold ascs_server_control_point_operation_prepare_response_for_target_state
  dsimp only
  repeat' split
  all_goals first | exact writes_response_entry_update _ _ h0 | exact h0

theorem writes_response_entry_metadata (U : ascs_util_t) (srv : ascs_server_t)
    (c : ascs_server_connection_t) (i a : Nat) (x : le_audio_metadata_t) :
    writes_response_entry i c
      (ascs_server_control_point_operation_prepare_response_for_metadata_update U srv c
        i a x) := by
  have h0 := writes_response_entry_set_ase_id a (writes_response_entry_refl i c)
  unfold ascs_server_control_point_operation_prepare_response_for_metadata_update
  dsimp only
  repeat' split
  all_goals first | exact writes_response_entry_update _ _ h0 | exact h0

theorem writes_response_entry_start_ready (srv : ascs_server_t)
    (c : ascs_server_connection_t) (i a : Nat) :
    writes_response_entry i c
      (ascs_server_control_point_operation_prepare_response_for_start_ready srv c i a) := by
  have h0 := writes_response_entry_set_ase_id a (writes_response_entry_refl i c)
  unfold ascs_server_control_point_operation_prepare_response_for_start_ready
  dsimp only
  repeat' split
  all_goals first | exact writes_response_entry_update _ _ h0 | exact h0

theorem writes_response_entry_stop_ready (srv : ascs_server_t)
    (c : ascs_server_connection_t) (i a : Nat) :
    writes_response_entry i c
      (ascs_server_control_point_operation_prepare_response_for_stop_ready srv c i a) := by
  have h0 := writes_response_entry_set_ase_id a (writes_response_entry_refl i c)
  unfold ascs_server_control_point_operation_prepare_response_for_stop_ready
  dsimp only
  repeat' split
  all_goals first | exact writes_response_entry_update _ _ h0 | exact h0

theorem writes_response_entry_first_read_body (U : ascs_util_t) (srv : ascs_server_t)
    (opcode : ascs_opcode_t) (buffer : List Nat) (i : Nat) (s : first_read_t) :
    writes_response_entry i s.connection (first_read_body U srv opcode buffer i s).connection := by
  unfold first_read_body
  cases opcode <;> dsimp only
  all_goals
    first
    | exact writes_response_entry_refl i _
    | exact writes_response_entry_codec U srv _ i _ _
    | exact writes_response_entry_qos U srv _ i _ _
    | exact writes_response_entry_target_state srv _ i _ _
    | exact writes_response_entry_metadata U srv _ i _ _
    | exact writes_response_entry_start_ready srv _ i _
    | exact writes_response_entry_stop_ready srv _ i _

/-- What the first read leaves untouched: after `n` iterations the connection differs
from the initial one only in the response entries below `n`, and entry `i` is the one
iteration `i` wrote. -/
theorem first_read_loop (U : ascs_util_t) (srv : ascs_server_t) (opcode : ascs_opcode_t)
    (buffer : List Nat) (s0 : first_read_t) (n : Nat) :
    same_but_response s0.connection
        (for_loop n (first_read_body U srv opcode buffer) s0).connection
      ∧ (∀ j, n ≤ j →
          (for_loop n (first_read_body U srv opcode buffer) s0).connection.resp j
            = s0.connection.resp j)
      ∧ (∀ i, i < n →
          (for_loop n (first_read_body U srv opcode buffer) s0).connection.resp i
            = (first_read_body U srv opcode buffer i
                (for_loop i (first_read_body U srv opcode buffer) s0)).connection.resp i) := by
  induction n with
  | zero =>
    rw [for_loop_zero]
    exact ⟨same_but_response_refl _, fun _ _ => rfl, fun i hi => absurd hi (Nat.not_lt_zero i)⟩
  | succ n ih =>
    obtain ⟨ih1, ih2, ih3⟩ := ih
    have hb := writes_response_entry_first_read_body U srv opcode buffer n
      (for_loop n (first_read_body U srv opcode buffer) s0)
    rw [for_loop_succ]
    refine ⟨same_but_response_trans ih1 hb.1, ?_, ?_⟩
    · intro j hj
      rw [hb.2 j (by omega), ih2 j (by omega)]
    · intro i hi
      by_cases hin : i = n
      · subst hin; rfl
      · rw [hb.2 i hin, ih3 i (by omega)]

/-! ## The second read -/

theorem getD_drop (l : List Nat) (a b d : Nat) : (l.drop a).getD b d = l.getD (a + b) d := by
  simp [List.getD_eq_getElem?_getD, List.getElem?_drop]

theorem same_but_initiated_flags_refl (c : ascs_server_connection_t) :
    same_but_initiated_flags c c := ⟨rfl, rfl, fun _ => rfl⟩

theorem same_but_initiated_flags_trans {c1 c2 c3 : ascs_server_connection_t}
    (h12 : same_but_initiated_flags c1 c2) (h23 : same_but_initiated_flags c2 c3) :
    same_but_initiated_flags c1 c3 := by
  obtain ⟨h1, h1l, h1k⟩ := h12
  obtain ⟨h2, h2l, h2k⟩ := h23
  refine ⟨?_, h2l.trans h1l, fun k => ?_⟩
  · rw [h2, h1]
  · have a := h1k k
    have b := h2k k
    unfold same_but_initiated at *
    rw [b, a]

theorem same_but_initiated_flags_resp {c1 c2 : ascs_server_connection_t}
    (h : same_but_initiated_flags c1 c2) (i : Nat) : c2.resp i = c1.resp i := by
  rw [h.1]; rfl

theorem ase_set_ase (c : ascs_server_connection_t) (k j : Nat) (e : ascs_streamendpoint_t) :
    (c.set_ase k e).ase j
      = if j = k ∧ k < c.streamendpoints.length then e else c.ase j := by
  unfold ascs_server_connection_t.set_ase ascs_server_connection_t.ase
  simp only [List.getD_eq_getElem?_getD, List.getElem?_set]
  by_cases hjk : j = k
  · subst hjk
    by_cases hl : j < c.streamendpoints.length
    · simp [hl]
    · simp [hl, List.getElem?_eq_none (Nat.le_of_not_lt hl)]
  · simp [hjk, Ne.symm hjk]

theorem request_successfully_processed_frame (srv : ascs_server_t)
    (c : ascs_server_connection_t) (i : Nat) :
    same_but_initiated_flags c (ascs_server_request_successfully_processed srv c i).2 := by
  unfold ascs_server_request_successfully_processed
  split
  · exact same_but_initiated_flags_refl c
  · split
    · exact same_but_initiated_flags_refl c
    · rename_i k _
      refine ⟨by simp [ascs_server_connection_t.set_ase], by
        simp [ascs_server_connection_t.set_ase], fun j => ?_⟩
      rw [ase_set_ase]
      split
      · rename_i h
        rw [h.1]
        simp [same_but_initiated]
      · rfl

theorem request_successfully_processed_result (srv : ascs_server_t)
    (c : ascs_server_connection_t) (i : Nat) :
    (ascs_server_request_successfully_processed srv c i).1
      = decide ((c.resp i).response_code = ASCS_ERROR_CODE_SUCCESS) := by
  unfold ascs_server_request_successfully_processed
  split
  · rename_i h; simp [h]
  · rename_i h
    have h2 : (c.resp i).response_code = ASCS_ERROR_CODE_SUCCESS := by
      by_contra hne; exact h hne
    split <;> simp [h2]

theorem request_successfully_processed_flag (srv : ascs_server_t)
    (c : ascs_server_connection_t) (i k : Nat) (hk : k < c.streamendpoints.length) :
    ((ascs_server_request_successfully_processed srv c i).2.ase
        k).ase_characteristic_value_change_initiated_by_client = true
      ↔ (c.ase k).ase_characteristic_value_change_initiated_by_client = true
        ∨ ((c.resp i).response_code = ASCS_ERROR_CODE_SUCCESS
          ∧ ascs_server_get_streamendpoint_for_ase_id srv (c.resp i).ase_id = some k) := by
  unfold ascs_server_request_successfully_processed
  split
  · rename_i h; simp [h]
  · rename_i h
    have h2 : (c.resp i).response_code = ASCS_ERROR_CODE_SUCCESS := by
      by_contra hne; exact h hne
    split
    · rename_i hnone; simp [hnone]
    · rename_i k2 hsome
      rw [ase_set_ase]
      by_cases hkk : k = k2
      · subst hkk; simp [hk, h2, hsome]
      · simp [hkk, h2, hsome, Ne.symm hkk]

theorem expected_upcall_ase_ids_succ (c : ascs_server_connection_t) (opcode : ascs_opcode_t)
    (buffer : List Nat) (n : Nat) :
    expected_upcall_ase_ids c opcode buffer (n + 1)
      = expected_upcall_ase_ids c opcode buffer n
        ++ (if (c.resp n).response_code = ASCS_ERROR_CODE_SUCCESS then
            [some (sub_request_ase_id opcode buffer n)] else []) := by
  simp [expected_upcall_ase_ids, List.range_succ, List.flatMap_append]

theorem second_read_body_data_offset (U : ascs_util_t) (srv : ascs_server_t)
    (opcode : ascs_opcode_t) (hop : opcode.defined = true) (con_handle : Nat)
    (buffer : List Nat) (i : Nat) (s : second_read_t) :
    (second_read_body U srv opcode con_handle buffer i s).data_offset
      = s.data_offset + sub_request_size opcode buffer s.data_offset := by
  unfold second_read_body
  cases opcode <;> first | exact absurd hop (by decide) | skip
  all_goals
    simp [sub_request_size, ascs_util_codec_configuration_request_parse,
      ascs_util_qos_configuration_parse, le_audio_util_metadata_parse, getD_drop,
      Nat.add_assoc]
  all_goals omega

theorem second_read_body_connection (U : ascs_util_t) (srv : ascs_server_t)
    (opcode : ascs_opcode_t) (hop : opcode.defined = true) (con_handle : Nat)
    (buffer : List Nat) (i : Nat) (s : second_read_t) :
    (second_read_body U srv opcode con_handle buffer i s).connection
      = (ascs_server_request_successfully_processed srv s.connection i).2 := by
  unfold second_read_body
  cases opcode <;> first | exact absurd hop (by decide) | rfl

theorem second_read_body_effects (U : ascs_util_t) (srv : ascs_server_t)
    (opcode : ascs_opcode_t) (hop : opcode.defined = true) (con_handle : Nat)
    (buffer : List Nat) (i : Nat) (s : second_read_t) :
    ∃ ups, (second_read_body U srv opcode con_handle buffer i s).effects = s.effects ++ ups
      ∧ ups.map ascs_effect_t.upcall_ase_id
        = if (s.connection.resp i).response_code = ASCS_ERROR_CODE_SUCCESS then
            [some (buffer.getD s.data_offset 0)] else [] := by
  unfold second_read_body
  by_cases hc : (s.connection.resp i).response_code = ASCS_ERROR_CODE_SUCCESS
  all_goals
    cases opcode <;> first | exact absurd hop (by decide) | skip
  all_goals
    exact ⟨_, rfl, by
      simp [raise_if, request_successfully_processed_result, hc,
        ascs_effect_t.upcall_ase_id]⟩

/-- What the second read does in its first `n` iterations: it touches only the
client-initiated flags, walks `data_offset` over the sub-requests, and appends one event
per success entry, each carrying the ase_id byte of its sub-request. -/
theorem second_read_loop (U : ascs_util_t) (srv : ascs_server_t) (opcode : ascs_opcode_t)
    (hop : opcode.defined = true) (con_handle : Nat) (buffer : List Nat) (s0 : second_read_t)
    (hoff : s0.data_offset = 2) (n : Nat) :
    same_but_initiated_flags s0.connection
        (for_loop n (second_read_body U srv opcode con_handle buffer) s0).connection
      ∧ (for_loop n (second_read_body U srv opcode con_handle buffer) s0).data_offset
          = sub_request_offset opcode buffer n
      ∧ (∃ ups,
          (for_loop n (second_read_body U srv opcode con_handle buffer) s0).effects
              = s0.effects ++ ups
            ∧ ups.map ascs_effect_t.upcall_ase_id
              = expected_upcall_ase_ids s0.connection opcode buffer n)
      ∧ (∀ k, k < s0.connection.streamendpoints.length →
          (((for_loop n (second_read_body U srv opcode con_handle buffer) s0).connection.ase
              k).ase_characteristic_value_change_initiated_by_client = true
            ↔ (s0.connection.ase k).ase_characteristic_value_change_initiated_by_client = true
              ∨ ∃ i, i < n ∧ (s0.connection.resp i).response_code = ASCS_ERROR_CODE_SUCCESS
                ∧ ascs_server_get_streamendpoint_for_ase_id srv (s0.connection.resp i).ase_id
                  = some k)) := by
  induction n with
  | zero =>
    rw [for_loop_zero]
    refine ⟨same_but_initiated_flags_refl _, by rw [hoff]; rfl, ⟨[], by simp, rfl⟩, ?_⟩
    intro k _
    simp
  | succ n ih =>
    obtain ⟨ih1, ih2, ⟨ups, ih3, ih4⟩, ih5⟩ := ih
    rw [for_loop_succ]
    generalize for_loop n (second_read_body U srv opcode con_handle buffer) s0 = s at *
    have hresp : ∀ i, s.connection.resp i = s0.connection.resp i :=
      same_but_initiated_flags_resp ih1
    have hbody := second_read_body_connection U srv opcode hop con_handle buffer n s
    refine ⟨?_, ?_, ?_, ?_⟩
    · rw [hbody]
      exact same_but_initiated_flags_trans ih1
        (request_successfully_processed_frame srv s.connection n)
    · rw [second_read_body_data_offset U srv opcode hop, ih2]; rfl
    · obtain ⟨ups2, h1, h2⟩ := second_read_body_effects U srv opcode hop con_handle buffer n s
      refine ⟨ups ++ ups2, by rw [h1, ih3, List.append_assoc], ?_⟩
      rw [List.map_append, ih4, h2, expected_upcall_ase_ids_succ, hresp, ih2]
      rfl
    · intro k hk
      have hlen : k < s.connection.streamendpoints.length := by rw [ih1.2.1]; exact hk
      have hflag := request_successfully_processed_flag srv s.connection n k hlen
      rw [hbody, hflag, ih5 k hk, hresp]
      constructor
      · rintro ((h | ⟨i, hi, h⟩) | h)
        · exact Or.inl h
        · exact Or.inr ⟨i, by omega, h⟩
        · exact Or.inr ⟨n, by omega, h⟩
      · rintro (h | ⟨i, hi, h⟩)
        · exact Or.inl (Or.inl h)
        · by_cases hin : i = n
          · subst hin; exact Or.inr h
          · exact Or.inl (Or.inr ⟨i, by omega, h⟩)

/-! ## Scheduling and the control point write as a whole -/

theorem schedule_task_live (srv : ascs_server_t) (c : ascs_server_connection_t) (task : Nat)
    (h : c.con_handle ≠ HCI_CON_HANDLE_INVALID) :
    ascs_server_schedule_task srv c task
      = if task = ASCS_TASK_SEND_CONTROL_POINT_OPERATION_RESPONSE ∧
            c.ase_control_point_client_configuration = 0 then
          (c, [schedule_task c.con_handle task])
        else
          ({ c with scheduled_tasks := c.scheduled_tasks ||| task },
            schedule_task c.con_handle task ::
              (if c.scheduled_tasks = 0 then
                [att_server_register_can_send_now_callback c.con_handle] else [])) := by
  simp [ascs_server_schedule_task, h]

/-- On a live connection `ascs_server_schedule_task` changes nothing but
`scheduled_tasks`, its first effect marks the call, and it raises no event. -/
theorem schedule_task_live_frame (srv : ascs_server_t) (c : ascs_server_connection_t)
    (task : Nat) (h : c.con_handle ≠ HCI_CON_HANDLE_INVALID) :
    (ascs_server_schedule_task srv c task).1
        = { c with scheduled_tasks := (ascs_server_schedule_task srv c task).1.scheduled_tasks }
      ∧ (∃ rest, (ascs_server_schedule_task srv c task).2
            = schedule_task c.con_handle task :: rest
          ∧ (rest = [] ∨ rest = [att_server_register_can_send_now_callback c.con_handle]))
      ∧ (ascs_server_schedule_task srv c task).1.scheduled_tasks
          = (if task = ASCS_TASK_SEND_CONTROL_POINT_OPERATION_RESPONSE ∧
                c.ase_control_point_client_configuration = 0 then c.scheduled_tasks
              else c.scheduled_tasks ||| task) := by
  rw [schedule_task_live srv c task h]
  split
  · exact ⟨rfl, ⟨[], rfl, Or.inl rfl⟩, rfl⟩
  · refine ⟨rfl, ⟨_, rfl, ?_⟩, rfl⟩
    split
    · exact Or.inr rfl
    · exact Or.inl rfl

/-- The connection the first read starts from: the response cleared, then the opcode and
the number of ASEs of the write stored. -/
theorem reset_client_response_resp (c : ascs_server_connection_t) (i : Nat) :
    (ascs_server_reset_client_response c).resp i
      = ascs_control_point_operation_response_t.zero := by
  unfold ascs_server_reset_client_response ascs_server_connection_t.resp
  simp only [List.getD_eq_getElem?_getD, List.getElem?_map]
  cases c.response[i]? <;> rfl

theorem control_point_write_accepted_eq (U : ascs_util_t) (srv : ascs_server_t)
    (c : ascs_server_connection_t) (con_handle : Nat) (buffer : List Nat)
    (hacc : accepted_frame srv buffer) :
    ascs_server_control_point_write U srv c con_handle buffer
      = ((for_loop
            (ascs_server_schedule_task srv
              (first_read_at U srv c buffer (buffer.getD 1 0)).connection
              ASCS_TASK_SEND_CONTROL_POINT_OPERATION_RESPONSE).1.response_ases_num
            (second_read_body U srv (ascs_opcode_of_byte (buffer.getD 0 0)) con_handle buffer)
            { data_offset := 2
              metadata_config :=
                (first_read_at U srv c buffer (buffer.getD 1 0)).metadata_config
              connection :=
                (ascs_server_schedule_task srv
                  (first_read_at U srv c buffer (buffer.getD 1 0)).connection
                  ASCS_TASK_SEND_CONTROL_POINT_OPERATION_RESPONSE).1
              effects :=
                (ascs_server_schedule_task srv
                  (first_read_at U srv c buffer (buffer.getD 1 0)).connection
                  ASCS_TASK_SEND_CONTROL_POINT_OPERATION_RESPONSE).2 }).connection,
         (for_loop
            (ascs_server_schedule_task srv
              (first_read_at U srv c buffer (buffer.getD 1 0)).connection
              ASCS_TASK_SEND_CONTROL_POINT_OPERATION_RESPONSE).1.response_ases_num
            (second_read_body U srv (ascs_opcode_of_byte (buffer.getD 0 0)) con_handle buffer)
            { data_offset := 2
              metadata_config :=
                (first_read_at U srv c buffer (buffer.getD 1 0)).metadata_config
              connection :=
                (ascs_server_schedule_task srv
                  (first_read_at U srv c buffer (buffer.getD 1 0)).connection
                  ASCS_TASK_SEND_CONTROL_POINT_OPERATION_RESPONSE).1
              effects :=
                (ascs_server_schedule_task srv
                  (first_read_at U srv c buffer (buffer.getD 1 0)).connection
                  ASCS_TASK_SEND_CONTROL_POINT_OPERATION_RESPONSE).2 }).effects) := by
  obtain ⟨h1, h2, h3, h4, h5⟩ := hacc
  unfold ascs_server_control_point_write
  simp only [Nat.not_lt.mpr h1, if_false, h2, false_or, Nat.not_lt.mpr h3, h4, h5,
    not_true_eq_false, if_true, gt_iff_lt]
  rfl

/-- The result of an accepted ACP write on a live connection, field by field. -/
theorem control_point_write_accepted (U : ascs_util_t) (srv : ascs_server_t)
    (c : ascs_server_connection_t) (con_handle : Nat) (buffer : List Nat)
    (hlive : c.con_handle ≠ HCI_CON_HANDLE_INVALID) (hacc : accepted_frame srv buffer) :
    (∀ i, (ascs_server_control_point_write U srv c con_handle buffer).1.resp i
        = (first_read_at U srv c buffer (buffer.getD 1 0)).connection.resp i)
      ∧ (ascs_server_control_point_write U srv c con_handle buffer).1.response.length
          = c.response.length
      ∧ (ascs_server_control_point_write U srv c con_handle buffer).1.response_opcode
          = buffer.getD 0 0
      ∧ (ascs_server_control_point_write U srv c con_handle buffer).1.response_ases_num
          = buffer.getD 1 0
      ∧ (ascs_server_control_point_write U srv c con_handle buffer).1.con_handle = c.con_handle
      ∧ (ascs_server_control_point_write U srv c con_handle
            buffer).1.ase_control_point_client_configuration
          = c.ase_control_point_client_configuration
      ∧ (ascs_server_control_point_write U srv c con_handle buffer).1.scheduled_tasks
          = (if c.ase_control_point_client_configuration = 0 then c.scheduled_tasks
              else c.scheduled_tasks ||| ASCS_TASK_SEND_CONTROL_POINT_OPERATION_RESPONSE)
      ∧ (ascs_server_control_point_write U srv c con_handle buffer).1.streamendpoints.length
          = c.streamendpoints.length
      ∧ (∀ k, same_but_initiated (c.ase k)
          ((ascs_server_control_point_write U srv c con_handle buffer).1.ase k))
      ∧ (∀ k, k < c.streamendpoints.length →
          (((ascs_server_control_point_write U srv c con_handle buffer).1.ase
              k).ase_characteristic_value_change_initiated_by_client = true
            ↔ (c.ase k).ase_characteristic_value_change_initiated_by_client = true
              ∨ ∃ i, i < buffer.getD 1 0
                ∧ ((ascs_server_control_point_write U srv c con_handle buffer).1.resp
                    i).response_code = ASCS_ERROR_CODE_SUCCESS
                ∧ ascs_server_get_streamendpoint_for_ase_id srv
                    ((ascs_server_control_point_write U srv c con_handle buffer).1.resp
                      i).ase_id = some k))
      ∧ (∃ rest ups, (ascs_server_control_point_write U srv c con_handle buffer).2
            = schedule_task c.con_handle ASCS_TASK_SEND_CONTROL_POINT_OPERATION_RESPONSE
                :: (rest ++ ups)
          ∧ (rest = [] ∨ rest = [att_server_register_can_send_now_callback c.con_handle])
          ∧ ups.map ascs_effect_t.upcall_ase_id
            = expected_upcall_ase_ids
                (ascs_server_control_point_write U srv c con_handle buffer).1
                (ascs_opcode_of_byte (buffer.getD 0 0)) buffer (buffer.getD 1 0)) := by
  rw [control_point_write_accepted_eq U srv c con_handle buffer hacc]
  have hB := (first_read_loop U srv (ascs_opcode_of_byte (buffer.getD 0 0)) buffer
    (first_read_start c buffer) (buffer.getD 1 0)).1
  change same_but_response _ (first_read_at U srv c buffer (buffer.getD 1 0)).connection at hB
  generalize first_read_at U srv c buffer (buffer.getD 1 0) = sB at *
  have hBf := same_but_response_fields hB
  have hBo := same_but_response_opcode hB
  have hBa := same_but_response_ase hB
  simp only [first_read_start, ascs_server_reset_client_response] at hBf hBo
  have hliveB : sB.connection.con_handle ≠ HCI_CON_HANDLE_INVALID := by rw [hBf.1]; exact hlive
  obtain ⟨hS1, ⟨rest, hS2, hS3⟩, hS4⟩ := schedule_task_live_frame srv sB.connection
    ASCS_TASK_SEND_CONTROL_POINT_OPERATION_RESPONSE hliveB
  generalize ascs_server_schedule_task srv sB.connection
    ASCS_TASK_SEND_CONTROL_POINT_OPERATION_RESPONSE = rS at *
  have hSn : rS.1.response_ases_num = buffer.getD 1 0 := by rw [hS1]; exact hBf.2.2.1
  obtain ⟨hC1, -, ⟨ups, hC3, hC4⟩, hC5⟩ := second_read_loop U srv
    (ascs_opcode_of_byte (buffer.getD 0 0)) hacc.2.2.2.2 con_handle buffer
    { data_offset := 2, metadata_config := sB.metadata_config, connection := rS.1,
      effects := rS.2 } rfl rS.1.response_ases_num
  generalize for_loop rS.1.response_ases_num
    (second_read_body U srv (ascs_opcode_of_byte (buffer.getD 0 0)) con_handle buffer)
    { data_offset := 2, metadata_config := sB.metadata_config, connection := rS.1,
      effects := rS.2 } = sC at *
  dsimp only at hC1 hC3 hC4 hC5 ⊢
  have hresp : ∀ i, sC.connection.resp i = sB.connection.resp i := by
    intro i
    rw [same_but_initiated_flags_resp hC1, hS1]
    rfl
  have hCeq := hC1.1
  have hSase : ∀ k, rS.1.ase k = c.ase k := by
    intro k
    rw [hS1]
    exact (hBa k).trans rfl
  have hSlen : rS.1.streamendpoints.length = c.streamendpoints.length := by
    rw [hS1]; exact congrArg List.length hBf.2.2.2.2
  refine ⟨hresp, ?_, ?_, ?_, ?_, ?_, ?_, ?_, ?_, ?_, ?_⟩
  · rw [hCeq, hS1]; simpa [first_read_start, ascs_server_reset_client_response] using hB.2
  · rw [hCeq, hS1]; exact hBo
  · rw [hCeq]; exact hSn
  · rw [hCeq, hS1]; exact hBf.1
  · rw [hCeq, hS1]; exact hBf.2.1
  · rw [hCeq]
    show rS.1.scheduled_tasks = _
    rw [hS4, hBf.2.1, hBf.2.2.2.1]
    simp
  · rw [hC1.2.1, hSlen]
  · intro k
    have := hC1.2.2 k
    rw [hSase k] at this
    exact this
  · intro k hk
    rw [hC5 k (by rw [hSlen]; exact hk), hSase k, hSn]
    constructor
    · rintro (h | ⟨i, hi, h1, h2⟩)
      · exact Or.inl h
      · refine Or.inr ⟨i, hi, ?_, ?_⟩
        · rw [hresp, ← h1, hS1]; rfl
        · rw [hresp, ← h2, hS1]; rfl
    · rintro (h | ⟨i, hi, h1, h2⟩)
      · exact Or.inl h
      · refine Or.inr ⟨i, hi, ?_, ?_⟩
        · rw [← h1, hresp, hS1]; rfl
        · rw [← h2, hresp, hS1]; rfl
  · refine ⟨rest, ups, ?_, ?_, ?_⟩
    · rw [hC3, hS2, hBf.1]; rfl
    · rw [hBf.1] at hS3; exact hS3
    · rw [hC4, hSn]
      unfold expected_upcall_ase_ids
      congr 1
      funext i
      have hSresp : rS.1.resp i = sB.connection.resp i := by rw [hS1]; rfl
      rw [hSresp, hresp]

/-! ## From the connection to the server -/

theorem find_index_some {α : Type} (p : α → Bool) (l : List α) (i : Nat)
    (h : find_index p l = some i) : ∃ a, l.get? i = some a ∧ p a = true := by
  induction l generalizing i with
  | nil => simp [find_index] at h
  | cons x xs ih =>
    unfold find_index at h
    by_cases hx : p x = true
    · simp [hx] at h
      subst h
      exact ⟨x, rfl, hx⟩
    · simp [hx] at h
      obtain ⟨j, hj, rfl⟩ := h
      obtain ⟨a, ha, hpa⟩ := ih j hj
      exact ⟨a, by simpa using ha, hpa⟩

theorem get_remote_client_some (srv : ascs_server_t) (con_handle ci : Nat)
    (h : ascs_server_get_remote_client_for_con_handle srv con_handle = some ci) :
    con_handle ≠ HCI_CON_HANDLE_INVALID
      ∧ ∃ c, srv.client ci = some c ∧ c.con_handle = con_handle := by
  unfold ascs_server_get_remote_client_for_con_handle at h
  by_cases hinv : con_handle = HCI_CON_HANDLE_INVALID
  · simp [hinv] at h
  · simp only [hinv, if_false] at h
    obtain ⟨c, hc, hp⟩ := find_index_some _ _ _ h
    exact ⟨hinv, c, hc, by simpa using hp⟩

theorem client_commit_self (srv : ascs_server_t) (ci : Nat)
    (r : ascs_server_connection_t × List ascs_effect_t) (c : ascs_server_connection_t)
    (hc : srv.client ci = some c) : (srv.commit ci r).client ci = some r.1 := by
  unfold ascs_server_t.client at hc
  have hlt : ci < srv.ascs_clients.length := by
    by_contra hge
    rw [List.get?_eq_none.mpr (Nat.le_of_not_lt hge)] at hc
    exact Option.noConfusion hc
  simp [ascs_server_t.commit, ascs_server_t.emit, ascs_server_t.set_client,
    ascs_server_t.client, List.getElem?_set, hlt]

theorem client_commit_ne (srv : ascs_server_t) (ci j : Nat)
    (r : ascs_server_connection_t × List ascs_effect_t) (h : j ≠ ci) :
    (srv.commit ci r).client j = srv.client j := by
  simp [ascs_server_t.commit, ascs_server_t.emit, ascs_server_t.set_client,
    ascs_server_t.client, List.getElem?_set, Ne.symm h]

theorem trace_commit (srv : ascs_server_t) (ci : Nat)
    (r : ascs_server_connection_t × List ascs_effect_t) :
    (srv.commit ci r).trace = srv.trace ++ r.2 := rfl

theorem chr_commit (srv : ascs_server_t) (ci : Nat)
    (r : ascs_server_connection_t × List ascs_effect_t) :
    (srv.commit ci r).ascs_streamendpoint_characteristics
        = srv.ascs_streamendpoint_characteristics
      ∧ (srv.commit ci r).ascs_streamendpoint_chr_num = srv.ascs_streamendpoint_chr_num
      ∧ (srv.commit ci r).ascs_ase_control_point_handle = srv.ascs_ase_control_point_handle :=
  ⟨rfl, rfl, rfl⟩

/-- A non-empty write to the control point handle on an attached connection is the
control point branch run on the slot of that connection. -/
theorem write_callback_control_point (U : ascs_util_t) (srv : ascs_server_t)
    (con_handle ci : Nat) (buffer : List Nat) (c : ascs_server_connection_t)
    (hfind : ascs_server_get_remote_client_for_con_handle srv con_handle = some ci)
    (hc : srv.client ci = some c) (hsize : 1 ≤ buffer.length) :
    ascs_server_write_callback U srv con_handle srv.ascs_ase_control_point_handle buffer
      = srv.commit ci (ascs_server_control_point_write U srv c con_handle buffer) := by
  unfold ascs_server_write_callback
  simp only [if_true, Nat.not_lt.mpr hsize, if_false, hfind, hc]
  rfl

/-! ## Frame length -/

theorem has_valid_length_config_qos_iff (buffer_size n pos : Nat) :
    has_valid_length_config_qos buffer_size n pos = true ↔ pos + 16 * n = buffer_size := by
  induction n generalizing pos with
  | zero => simp [has_valid_length_config_qos]
  | succ n ih =>
    unfold has_valid_length_config_qos
    by_cases h : buffer_size - pos < 16
    · simp only [h, if_true]
      constructor
      · intro hf; exact absurd hf (by decide)
      · intro he; omega
    · simp only [h, if_false]
      rw [ih]
      omega

/-- The step from the offset of a sub-request to the offset of the next one. -/
theorem sub_request_offset_iterate (opcode : ascs_opcode_t) (buffer : List Nat) (n : Nat) :
    sub_request_offset opcode buffer n
      = (fun off => off + sub_request_size opcode buffer off)^[n] 2 := by
  induction n with
  | zero => rfl
  | succ n ih =>
    rw [Function.iterate_succ_apply', ← ih]
    rfl

theorem le_iterate_offset (opcode : ascs_opcode_t) (buffer : List Nat) (n x : Nat) :
    x ≤ (fun off => off + sub_request_size opcode buffer off)^[n] x := by
  induction n generalizing x with
  | zero => exact Nat.le_refl x
  | succ n ih =>
    rw [Function.iterate_succ_apply]
    exact Nat.le_trans (Nat.le_add_right _ _) (ih _)

theorem has_valid_length_config_codec_iff (buffer : List Nat) (h2 : 2 ≤ buffer.length)
    (n pos : Nat) :
    has_valid_length_config_codec (buffer.drop 2) (buffer.length - 2) n pos = true
      ↔ (fun off => off + sub_request_size ASCS_OPCODE_CONFIG_CODEC buffer off)^[n] (pos + 2)
          = buffer.length := by
  induction n generalizing pos with
  | zero =>
    simp only [has_valid_length_config_codec, Function.iterate_zero, id_eq, beq_iff_eq]
    omega
  | succ n ih =>
    unfold has_valid_length_config_codec
    rw [Function.iterate_succ_apply]
    have hstep : pos + 2 + sub_request_size ASCS_OPCODE_CONFIG_CODEC buffer (pos + 2)
        = pos + 8 + 1 + (buffer.drop 2).getD (pos + 8) 0 + 2 := by
      simp only [sub_request_size, getD_drop]
      have : pos + 2 + 8 = 2 + (pos + 8) := by omega
      rw [this]
      omega
    have hmono := le_iterate_offset ASCS_OPCODE_CONFIG_CODEC buffer n
      (pos + 2 + sub_request_size ASCS_OPCODE_CONFIG_CODEC buffer (pos + 2))
    by_cases h : buffer.length - 2 - pos < 9
    · simp only [h, if_true]
      constructor
      · intro hf; exact absurd hf (by decide)
      · intro he
        simp only at he hmono
        omega
    · simp only [h, if_false]
      by_cases h' : buffer.length - 2 - (pos + 8 + 1) < (buffer.drop 2).getD (pos + 8) 0
      · simp only [h', if_true]
        constructor
        · intro hf; exact absurd hf (by decide)
        · intro he
          simp only at he hmono
          omega
      · simp only [h', if_false]
        rw [ih, hstep]

theorem has_valid_length_metadata_iff (opcode : ascs_opcode_t)
    (hop : opcode = ASCS_OPCODE_ENABLE ∨ opcode = ASCS_OPCODE_UPDATE_METADATA)
    (buffer : List Nat) (h2 : 2 ≤ buffer.length) (n pos : Nat) :
    has_valid_length_metadata (buffer.drop 2) (buffer.length - 2) n pos = true
      ↔ (fun off => off + sub_request_size opcode buffer off)^[n] (pos + 2)
          = buffer.length := by
  induction n generalizing pos with
  | zero =>
    simp only [has_valid_length_metadata, Function.iterate_zero, id_eq, beq_iff_eq]
    omega
  | succ n ih =>
    unfold has_valid_length_metadata
    rw [Function.iterate_succ_apply]
    have hstep : pos + 2 + sub_request_size opcode buffer (pos + 2)
        = pos + 1 + 1 + (buffer.drop 2).getD (pos + 1) 0 + 2 := by
      have : pos + 2 + 1 = 2 + (pos + 1) := by omega
      rcases hop with rfl | rfl <;> simp only [sub_request_size, getD_drop] <;> rw [this] <;> omega
    have hmono := le_iterate_offset opcode buffer n
      (pos + 2 + sub_request_size opcode buffer (pos + 2))
    by_cases h : buffer.length - 2 - pos < 2
    · simp only [h, if_true]
      constructor
      · intro hf; exact absurd hf (by decide)
      · intro he
        simp only at he hmono
        omega
    · simp only [h, if_false]
      by_cases h' : buffer.length - 2 - (pos + 1 + 1) < (buffer.drop 2).getD (pos + 1) 0
      · simp only [h', if_true]
        constructor
        · intro hf; exact absurd hf (by decide)
        · intro he
          simp only at he hmono
          omega
      · simp only [h', if_false]
        rw [ih, hstep]

theorem sub_request_offset_fixed (opcode : ascs_opcode_t) (buffer : List Nat) (size : Nat)
    (h : ∀ off, sub_request_size opcode buffer off = size) (n : Nat) :
    sub_request_offset opcode buffer n = 2 + size * n := by
  induction n with
  | zero => rfl
  | succ n ih =>
    unfold sub_request_offset
    rw [ih, h, Nat.mul_succ]
    omega

/-- For every opcode but Released, the length check of the code accepts a write of at
least two bytes exactly when its body is the concatenation of the announced number of
sub-requests. -/
theorem has_valid_length_iff_offset (opcode : ascs_opcode_t) (hop : opcode.defined = true)
    (hrel : opcode ≠ ASCS_OPCODE_RELEASED) (buffer : List Nat) (h2 : 2 ≤ buffer.length)
    (n : Nat) :
    ascs_server_control_point_operation_has_valid_length opcode n (buffer.drop 2)
        (buffer.length - 2) = true
      ↔ sub_request_offset opcode buffer n = buffer.length := by
  cases opcode
  case ASCS_OPCODE_UNSUPPORTED => exact absurd hop (by decide)
  case ASCS_OPCODE_RFU => exact absurd hop (by decide)
  case ASCS_OPCODE_RELEASED => exact absurd rfl hrel
  case ASCS_OPCODE_CONFIG_CODEC =>
    rw [sub_request_offset_iterate]
    exact has_valid_length_config_codec_iff buffer h2 n 0
  case ASCS_OPCODE_CONFIG_QOS =>
    rw [sub_request_offset_fixed ASCS_OPCODE_CONFIG_QOS buffer 16 (fun _ => rfl)]
    simp only [ascs_server_control_point_operation_has_valid_length,
      has_valid_length_config_qos_iff]
    omega
  case ASCS_OPCODE_ENABLE =>
    rw [sub_request_offset_iterate]
    exact has_valid_length_metadata_iff _ (Or.inl rfl) buffer h2 n 0
  case ASCS_OPCODE_UPDATE_METADATA =>
    rw [sub_request_offset_iterate]
    exact has_valid_length_metadata_iff _ (Or.inr rfl) buffer h2 n 0
  all_goals
    first
    | rw [sub_request_offset_fixed ASCS_OPCODE_RECEIVER_START_READY buffer 1 (fun _ => rfl)]
    | rw [sub_request_offset_fixed ASCS_OPCODE_DISABLE buffer 1 (fun _ => rfl)]
    | rw [sub_request_offset_fixed ASCS_OPCODE_RECEIVER_STOP_READY buffer 1 (fun _ => rfl)]
    | rw [sub_request_offset_fixed ASCS_OPCODE_RELEASE buffer 1 (fun _ => rfl)]
    simp only [ascs_server_control_point_operation_has_valid_length, beq_iff_eq]
    omega

/-! ## Rejected frames -/

theorem control_point_invalid_length_live (srv : ascs_server_t)
    (c : ascs_server_connection_t) (hlive : c.con_handle ≠ HCI_CON_HANDLE_INVALID) :
    (control_point_invalid_length srv c).1
        = { c with
            response_ases_num := 0xFF
            scheduled_tasks :=
              (if c.ase_control_point_client_configuration = 0 then c.scheduled_tasks
                else c.scheduled_tasks ||| ASCS_TASK_SEND_CONTROL_POINT_OPERATION_RESPONSE) }
      ∧ ∃ rest, (control_point_invalid_length srv c).2
            = schedule_task c.con_handle ASCS_TASK_SEND_CONTROL_POINT_OPERATION_RESPONSE :: rest
          ∧ (rest = [] ∨ rest = [att_server_register_can_send_now_callback c.con_handle]) := by
  unfold control_point_invalid_length
  rw [schedule_task_live _ _ _ (by exact hlive)]
  by_cases hz : c.ase_control_point_client_configuration = 0
  · rw [if_pos ⟨rfl, hz⟩, if_pos hz]
    exact ⟨rfl, [], rfl, Or.inl rfl⟩
  · rw [if_neg (fun h => hz h.2), if_neg hz]
    refine ⟨rfl, _, rfl, ?_⟩
    split
    · exact Or.inr rfl
    · exact Or.inl rfl

/-- A write that fails one of the framing checks leaves the connection with the opcode
stored, the number of ASEs at 0xFF, the response entries cleared and the response
scheduled; nothing else changes. -/
theorem control_point_write_rejected (U : ascs_util_t) (srv : ascs_server_t)
    (c : ascs_server_connection_t) (con_handle : Nat) (buffer : List Nat)
    (hlive : c.con_handle ≠ HCI_CON_HANDLE_INVALID) (hrej : ¬ accepted_frame srv buffer) :
    (ascs_server_control_point_write U srv c con_handle buffer).1
        = { c with
            response_opcode := buffer.getD 0 0
            response_ases_num := 0xFF
            response := c.response.map (fun _ => ascs_control_point_operation_response_t.zero)
            scheduled_tasks :=
              (if c.ase_control_point_client_configuration = 0 then c.scheduled_tasks
                else c.scheduled_tasks ||| ASCS_TASK_SEND_CONTROL_POINT_OPERATION_RESPONSE) }
      ∧ ∃ rest, (ascs_server_control_point_write U srv c con_handle buffer).2
            = schedule_task c.con_handle ASCS_TASK_SEND_CONTROL_POINT_OPERATION_RESPONSE :: rest
          ∧ (rest = [] ∨ rest = [att_server_register_can_send_now_callback c.con_handle]) := by
  have key : ∀ m : Nat,
      (control_point_invalid_length srv
          { ascs_server_reset_client_response c with
            response_opcode := buffer.getD 0 0, response_ases_num := m }).1
        = { c with
            response_opcode := buffer.getD 0 0
            response_ases_num := 0xFF
            response := c.response.map (fun _ => ascs_control_point_operation_response_t.zero)
            scheduled_tasks :=
              (if c.ase_control_point_client_configuration = 0 then c.scheduled_tasks
                else c.scheduled_tasks ||| ASCS_TASK_SEND_CONTROL_POINT_OPERATION_RESPONSE) }
      ∧ ∃ rest, (control_point_invalid_length srv
            { ascs_server_reset_client_response c with
              response_opcode := buffer.getD 0 0, response_ases_num := m }).2
            = schedule_task c.con_handle ASCS_TASK_SEND_CONTROL_POINT_OPERATION_RESPONSE :: rest
          ∧ (rest = [] ∨ rest = [att_server_register_can_send_now_callback c.con_handle]) := by
    intro m
    exact control_point_invalid_length_live srv _ hlive
  unfold ascs_server_control_point_write
  dsimp only
  split
  · exact key 0
  · rename_i h1
    split
    · exact key _
    · rename_i h2
      split
      · exact key _
      · rename_i h3
        split
        · rename_i h4
          exfalso
          apply hrej
          refine ⟨by omega, ?_, ?_, ?_, h4⟩
          · intro h0; exact h2 (Or.inl h0)
          · by_contra hgt; exact h2 (Or.inr (by omega))
          · by_contra hv; exact h3 hv
        · exact key _

theorem slot_of_client (srv : ascs_server_t) (ci : Nat) (c : ascs_server_connection_t)
    (hc : srv.client ci = some c) : srv.slot ci = c := by
  unfold ascs_server_t.client at hc
  unfold ascs_server_t.slot
  rw [List.getD_eq_getElem?_getD, ← List.get?_eq_getElem?, hc]
  rfl

theorem slot_commit_self (srv : ascs_server_t) (ci : Nat)
    (r : ascs_server_connection_t × List ascs_effect_t) (c : ascs_server_connection_t)
    (hc : srv.client ci = some c) : (srv.commit ci r).slot ci = r.1 :=
  slot_of_client _ _ _ (client_commit_self srv ci r c hc)

theorem slot_commit_ne (srv : ascs_server_t) (ci j : Nat)
    (r : ascs_server_connection_t × List ascs_effect_t) (h : j ≠ ci) :
    (srv.commit ci r).slot j = srv.slot j := by
  simp [ascs_server_t.commit, ascs_server_t.emit, ascs_server_t.set_client,
    ascs_server_t.slot, List.getD_eq_getElem?_getD, List.getElem?_set, Ne.symm h]

theorem upcall_ase_id_schedule_effects (h : Nat) (rest : List ascs_effect_t)
    (hrest : rest = [] ∨ rest = [att_server_register_can_send_now_callback h])
    (e : ascs_effect_t)
    (he : e ∈ schedule_task h ASCS_TASK_SEND_CONTROL_POINT_OPERATION_RESPONSE :: rest) :
    e.upcall_ase_id = none := by
  rcases hrest with rfl | rfl
  · simp at he; subst he; rfl
  · simp at he; rcases he with rfl | rfl <;> rfl

/-- C10. For the fixed-size opcodes
`ascs_server_control_point_operation_has_valid_length` returns true exactly when the
body length is the number of ASEs times the size of a sub-request: 16 bytes for Config
QoS, and 1 byte for Receiver Start Ready, Disable, Receiver Stop Ready and Release, for
every number of ASEs, every body length and every body. -/
theorem has_valid_length_fixed_size (ases_num buffer_size : Nat) (buffer : List Nat) :
    (ascs_server_control_point_operation_has_valid_length ASCS_OPCODE_CONFIG_QOS ases_num
          buffer buffer_size = true ↔ buffer_size = 16 * ases_num)
      ∧ (ascs_server_control_point_operation_has_valid_length
          ASCS_OPCODE_RECEIVER_START_READY ases_num buffer buffer_size = true
        ↔ buffer_size = 1 * ases_num)
      ∧ (ascs_server_control_point_operation_has_valid_length ASCS_OPCODE_DISABLE ases_num
          buffer buffer_size = true ↔ buffer_size = 1 * ases_num)
      ∧ (ascs_server_control_point_operation_has_valid_length
          ASCS_OPCODE_RECEIVER_STOP_READY ases_num buffer buffer_size = true
        ↔ buffer_size = 1 * ases_num)
      ∧ (ascs_server_control_point_operation_has_valid_length ASCS_OPCODE_RELEASE ases_num
          buffer buffer_size = true ↔ buffer_size = 1 * ases_num) := by
  refine ⟨?_, ?_, ?_, ?_, ?_⟩
  · simp only [ascs_server_control_point_operation_has_valid_length,
      has_valid_length_config_qos_iff]
    omega
  all_goals
    simp only [ascs_server_control_point_operation_has_valid_length, beq_iff_eq]
    omega

theorem control_point_response_value_invalid_length (code_byte : ascs_error_code_t → Nat)
    (reason_byte : ascs_reject_reason_t → Nat) (c : ascs_server_connection_t)
    (h : c.response_ases_num = 0xFF) :
    control_point_response_value code_byte reason_byte c = [c.response_opcode, 0xFF] := by
  simp [control_point_response_value, h]

/-- The server after a write to the control point that fails a framing check. -/
theorem write_callback_rejected (U : ascs_util_t) (srv : ascs_server_t)
    (con_handle ci : Nat) (c : ascs_server_connection_t) (buffer : List Nat)
    (hfind : ascs_server_get_remote_client_for_con_handle srv con_handle = some ci)
    (hc : srv.client ci = some c) (hne : 1 ≤ buffer.length)
    (hrej : ¬ accepted_frame srv buffer) :
    (ascs_server_write_callback U srv con_handle srv.ascs_ase_control_point_handle
          buffer).slot ci
        = { c with
            response_opcode := buffer.getD 0 0
            response_ases_num := 0xFF
            response := c.response.map (fun _ => ascs_control_point_operation_response_t.zero)
            scheduled_tasks :=
              (if c.ase_control_point_client_configuration = 0 then c.scheduled_tasks
                else c.scheduled_tasks ||| ASCS_TASK_SEND_CONTROL_POINT_OPERATION_RESPONSE) }
      ∧ (∀ j, j ≠ ci →
          (ascs_server_write_callback U srv con_handle srv.ascs_ase_control_point_handle
            buffer).slot j = srv.slot j)
      ∧ ∃ rest,
          (ascs_server_write_callback U srv con_handle srv.ascs_ase_control_point_handle
              buffer).trace
            = srv.trace
              ++ schedule_task con_handle ASCS_TASK_SEND_CONTROL_POINT_OPERATION_RESPONSE :: rest
          ∧ (rest = [] ∨ rest = [att_server_register_can_send_now_callback con_handle]) := by
  obtain ⟨hv, c2, hc2, hh⟩ := get_remote_client_some srv con_handle ci hfind
  have hcc : c2 = c := Option.some.inj (hc2.symm.trans hc)
  subst hcc
  have hlive : c2.con_handle ≠ HCI_CON_HANDLE_INVALID := by rw [hh]; exact hv
  rw [write_callback_control_point U srv con_handle ci buffer c2 hfind hc hne]
  obtain ⟨h1, rest, h2, h3⟩ := control_point_write_rejected U srv c2 con_handle buffer hlive hrej
  refine ⟨?_, fun j hj => slot_commit_ne srv ci j _ hj, rest, ?_, ?_⟩
  · rw [slot_commit_self srv ci _ c2 hc, h1]
  · rw [trace_commit, h2, hh]
  · rw [hh] at h3; exact h3

/-- C7 (as amended). An empty write to the control point is ignored: the server is left
as it was and no response is prepared. For every non-empty ACP write on an attached
connection that is rejected at the framing level (one byte only, a number of ASEs that
is 0 or exceeds the number of registered ASEs, or, for every opcode but Released, a body
that is not the concatenation of that many sub-requests), the number of ASEs of the
response becomes 0xFF so that the response value is exactly (opcode, 0xFF), the stream
endpoints of the connection keep every field, the other slots are untouched, and what
is added to the trace contains no event for the application. -/
theorem acp_write_framing_rejection (U : ascs_util_t) (srv : ascs_server_t)
    (con_handle ci : Nat) (c : ascs_server_connection_t) (buffer : List Nat)
    (code_byte : ascs_error_code_t → Nat) (reason_byte : ascs_reject_reason_t → Nat)
    (hfind : ascs_server_get_remote_client_for_con_handle srv con_handle = some ci)
    (hc : srv.client ci = some c) (hne : 1 ≤ buffer.length)
    (hrej : buffer.length = 1 ∨ buffer.getD 1 0 = 0
      ∨ srv.ascs_streamendpoint_chr_num < buffer.getD 1 0
      ∨ ((ascs_opcode_of_byte (buffer.getD 0 0)).defined = true
        ∧ ascs_opcode_of_byte (buffer.getD 0 0) ≠ ASCS_OPCODE_RELEASED
        ∧ sub_request_offset (ascs_opcode_of_byte (buffer.getD 0 0)) buffer (buffer.getD 1 0)
          ≠ buffer.length)) :
    ascs_server_write_callback U srv con_handle srv.ascs_ase_control_point_handle [] = srv
      ∧ ((ascs_server_write_callback U srv con_handle srv.ascs_ase_control_point_handle
          buffer).slot ci).response_ases_num = 0xFF
      ∧ control_point_response_value code_byte reason_byte
          ((ascs_server_write_callback U srv con_handle srv.ascs_ase_control_point_handle
            buffer).slot ci) = [buffer.getD 0 0, 0xFF]
      ∧ ((ascs_server_write_callback U srv con_handle srv.ascs_ase_control_point_handle
          buffer).slot ci).streamendpoints = c.streamendpoints
      ∧ (∀ j, j ≠ ci →
          (ascs_server_write_callback U srv con_handle srv.ascs_ase_control_point_handle
            buffer).slot j = srv.slot j)
      ∧ ∃ new,
          (ascs_server_write_callback U srv con_handle srv.ascs_ase_control_point_handle
              buffer).trace = srv.trace ++ new
          ∧ ∀ e, e ∈ new → e.upcall_ase_id = none := by
  have hnot : ¬ accepted_frame srv buffer := by
    rintro ⟨a1, a2, a3, a4, a5⟩
    rcases hrej with h | h | h | ⟨h1, h2, h3⟩
    · omega
    · exact a2 h
    · omega
    · exact h3 ((has_valid_length_iff_offset _ h1 h2 buffer a1 _).mp a4)
  obtain ⟨h1, h2, rest, h3, h4⟩ :=
    write_callback_rejected U srv con_handle ci c buffer hfind hc hne hnot
  refine ⟨?_, ?_, ?_, ?_, h2, _, h3, ?_⟩
  · simp [ascs_server_write_callback]
  · rw [h1]
  · rw [control_point_response_value_invalid_length _ _ _ (by rw [h1]), h1]
  · rw [h1]
  · exact upcall_ase_id_schedule_effects con_handle rest h4

/-- C7 (witness). A Config Codec write for one ASE that ends inside the codec id. -/
theorem acp_write_framing_rejection_witness :
    ascs_server_get_remote_client_for_con_handle
        (example_server 2 ASCS_STATE_IDLE ASCS_STATE_IDLE) 64 = some 0
      ∧ (example_server 2 ASCS_STATE_IDLE ASCS_STATE_IDLE).client 0
          = some (example_connection 64 ASCS_STATE_IDLE ASCS_STATE_IDLE)
      ∧ ((ascs_server_write_callback example_util
            (example_server 2 ASCS_STATE_IDLE ASCS_STATE_IDLE) 64 20
            [1, 1, 1, 3, 2, 6, 0]).slot 0).response_ases_num = 0xFF
      ∧ control_point_response_value (fun _ => 0) (fun _ => 0)
          ((ascs_server_write_callback example_util
            (example_server 2 ASCS_STATE_IDLE ASCS_STATE_IDLE) 64 20
            [1, 1, 1, 3, 2, 6, 0]).slot 0) = [1, 0xFF]
      ∧ ((ascs_server_write_callback example_util
            (example_server 2 ASCS_STATE_IDLE ASCS_STATE_IDLE) 64 20
            [1, 1, 1, 3, 2, 6, 0]).slot 0).streamendpoints
          = (example_connection 64 ASCS_STATE_IDLE ASCS_STATE_IDLE).streamendpoints :=
  have h := acp_write_framing_rejection example_util
    (example_server 2 ASCS_STATE_IDLE ASCS_STATE_IDLE) 64 0
    (example_connection 64 ASCS_STATE_IDLE ASCS_STATE_IDLE) [1, 1, 1, 3, 2, 6, 0]
    (fun _ => 0) (fun _ => 0) (by decide) (by decide) (by decide)
    (Or.inr (Or.inr (Or.inr ⟨by decide, by decide, by decide⟩)))
  ⟨by decide, by decide, h.2.1, h.2.2.1, h.2.2.2.1⟩

/-- C7 (counterexample). An empty write to the control point has total size below 2,
yet the number of ASEs of the response stays 0 and nothing is scheduled. -/
theorem acp_write_empty_not_answered :
    ((ascs_server_write_callback example_util
          (example_server 1 ASCS_STATE_IDLE ASCS_STATE_IDLE) 64 20 []).slot 0).response_ases_num
        = 0
      ∧ (ascs_server_write_callback example_util
          (example_server 1 ASCS_STATE_IDLE ASCS_STATE_IDLE) 64 20 []).trace = [] := by
  decide

/-- C8 (as amended). For every write of exactly one byte to the control point on an
attached connection, the write stores the opcode, sets the number of ASEs of the
response to the sentinel 0xFF and calls `ascs_server_schedule_task` for the control
point response, whose value is just (opcode, 0xFF); the task bit is set unless control
point notifications are disabled. A write of no bytes is ignored. -/
theorem acp_write_one_byte (U : ascs_util_t) (srv : ascs_server_t)
    (con_handle ci opcode : Nat) (c : ascs_server_connection_t)
    (code_byte : ascs_error_code_t → Nat) (reason_byte : ascs_reject_reason_t → Nat)
    (hfind : ascs_server_get_remote_client_for_con_handle srv con_handle = some ci)
    (hc : srv.client ci = some c) :
    ((ascs_server_write_callback U srv con_handle srv.ascs_ase_control_point_handle
          [opcode]).slot ci).response_ases_num = 0xFF
      ∧ control_point_response_value code_byte reason_byte
          ((ascs_server_write_callback U srv con_handle srv.ascs_ase_control_point_handle
            [opcode]).slot ci) = [opcode, 0xFF]
      ∧ ((ascs_server_write_callback U srv con_handle srv.ascs_ase_control_point_handle
          [opcode]).slot ci).scheduled_tasks
          = (if c.ase_control_point_client_configuration = 0 then c.scheduled_tasks
              else c.scheduled_tasks ||| ASCS_TASK_SEND_CONTROL_POINT_OPERATION_RESPONSE)
      ∧ (∃ rest,
          (ascs_server_write_callback U srv con_handle srv.ascs_ase_control_point_handle
              [opcode]).trace
            = srv.trace
              ++ schedule_task con_handle ASCS_TASK_SEND_CONTROL_POINT_OPERATION_RESPONSE :: rest
          ∧ (rest = [] ∨ rest = [att_server_register_can_send_now_callback con_handle]))
      ∧ ascs_server_write_callback U srv con_handle srv.ascs_ase_control_point_handle [] = srv := by
  have hnot : ¬ accepted_frame srv [opcode] := by
    rintro ⟨a1, -⟩
    simp at a1
  obtain ⟨h1, -, h3⟩ :=
    write_callback_rejected U srv con_handle ci c [opcode] hfind hc (by simp) hnot
  refine ⟨?_, ?_, ?_, h3, ?_⟩
  · rw [h1]
  · rw [control_point_response_value_invalid_length _ _ _ (by rw [h1]), h1]
    rfl
  · rw [h1]
  · simp [ascs_server_write_callback]

/-- C8 (witness). A write of the single byte 8 on the attached connection 64. -/
theorem acp_write_one_byte_witness :
    ascs_server_get_remote_client_for_con_handle
        (example_server 2 ASCS_STATE_IDLE ASCS_STATE_IDLE) 64 = some 0
      ∧ (example_server 2 ASCS_STATE_IDLE ASCS_STATE_IDLE).client 0
          = some (example_connection 64 ASCS_STATE_IDLE ASCS_STATE_IDLE)
      ∧ ((ascs_server_write_callback example_util
            (example_server 2 ASCS_STATE_IDLE ASCS_STATE_IDLE) 64 20
            [8]).slot 0).response_ases_num = 0xFF
      ∧ control_point_response_value (fun _ => 0) (fun _ => 0)
          ((ascs_server_write_callback example_util
            (example_server 2 ASCS_STATE_IDLE ASCS_STATE_IDLE) 64 20 [8]).slot 0) = [8, 0xFF] :=
  have h := acp_write_one_byte example_util
    (example_server 2 ASCS_STATE_IDLE ASCS_STATE_IDLE) 64 0 8
    (example_connection 64 ASCS_STATE_IDLE ASCS_STATE_IDLE)
    (fun _ => 0) (fun _ => 0) (by decide) (by decide)
  ⟨by decide, by decide, h.1, h.2.1⟩

/-- C8 (counterexample). A write of no bytes has total size below 2; it leaves the server
as it was, with the number of ASEs of the response at 0 and no task scheduled. -/
theorem acp_write_no_bytes_ignored :
    ascs_server_write_callback example_util
        (example_server 2 ASCS_STATE_IDLE ASCS_STATE_STREAMING) 64 20 []
      = example_server 2 ASCS_STATE_IDLE ASCS_STATE_STREAMING
      ∧ ((example_server 2 ASCS_STATE_IDLE ASCS_STATE_STREAMING).slot 0).response_ases_num = 0
      ∧ ((example_server 2 ASCS_STATE_IDLE ASCS_STATE_STREAMING).slot 0).scheduled_tasks = 0 := by
  decide

/-- C9 (as amended). For every ACP write of at least two bytes on an attached connection
whose number of ASEs is 0 or greater than the number of registered ASEs (which covers
every number greater than the capacity of the arrays), the number of ASEs of the
response is set to 0xFF, the response value is (opcode, 0xFF), every response entry
stays cleared and what is added to the trace contains no event for the application.
Conversely a write whose number of ASEs is between 1 and the number of registered ASEs
is not rejected by the header check: if it passes the length check and carries one of
the nine opcodes, the number of ASEs of the response is the one of the write. -/
theorem acp_write_number_of_ases_check (U : ascs_util_t) (srv : ascs_server_t)
    (con_handle ci : Nat) (c : ascs_server_connection_t) (buffer : List Nat)
    (code_byte : ascs_error_code_t → Nat) (reason_byte : ascs_reject_reason_t → Nat)
    (hfind : ascs_server_get_remote_client_for_con_handle srv con_handle = some ci)
    (hc : srv.client ci = some c) (hsize : 2 ≤ buffer.length) :
    ((buffer.getD 1 0 = 0 ∨ srv.ascs_streamendpoint_chr_num < buffer.getD 1 0) →
        ((ascs_server_write_callback U srv con_handle srv.ascs_ase_control_point_handle
            buffer).slot ci).response_ases_num = 0xFF
          ∧ control_point_response_value code_byte reason_byte
              ((ascs_server_write_callback U srv con_handle srv.ascs_ase_control_point_handle
                buffer).slot ci) = [buffer.getD 0 0, 0xFF]
          ∧ (∀ i,
              ((ascs_server_write_callback U srv con_handle srv.ascs_ase_control_point_handle
                buffer).slot ci).resp i = ascs_control_point_operation_response_t.zero)
          ∧ ∃ new,
              (ascs_server_write_callback U srv con_handle srv.ascs_ase_control_point_handle
                  buffer).trace = srv.trace ++ new
              ∧ ∀ e, e ∈ new → e.upcall_ase_id = none)
      ∧ ((1 ≤ buffer.getD 1 0 ∧ buffer.getD 1 0 ≤ srv.ascs_streamendpoint_chr_num) →
          ascs_server_control_point_operation_has_valid_length
              (ascs_opcode_of_byte (buffer.getD 0 0)) (buffer.getD 1 0) (buffer.drop 2)
              (buffer.length - 2) = true →
          (ascs_opcode_of_byte (buffer.getD 0 0)).defined = true →
          ((ascs_server_write_callback U srv con_handle srv.ascs_ase_control_point_handle
              buffer).slot ci).response_ases_num = buffer.getD 1 0) := by
  obtain ⟨hv, c2, hc2, hh⟩ := get_remote_client_some srv con_handle ci hfind
  have hcc : c2 = c := Option.some.inj (hc2.symm.trans hc)
  subst hcc
  have hlive : c2.con_handle ≠ HCI_CON_HANDLE_INVALID := by rw [hh]; exact hv
  constructor
  · intro hrej
    have hnot : ¬ accepted_frame srv buffer := by
      rintro ⟨-, a2, a3, -⟩
      rcases hrej with h | h
      · exact a2 h
      · omega
    obtain ⟨h1, -, rest, h3, h4⟩ :=
      write_callback_rejected U srv con_handle ci c2 buffer hfind hc (by omega) hnot
    refine ⟨by rw [h1], ?_, ?_, _, h3, ?_⟩
    · rw [control_point_response_value_invalid_length _ _ _ (by rw [h1]), h1]
    · intro i
      rw [h1]
      exact reset_client_response_resp c2 i
    · exact upcall_ase_id_schedule_effects con_handle rest h4
  · intro hn hlen hop
    have hacc : accepted_frame srv buffer := ⟨hsize, by omega, hn.2, hlen, hop⟩
    rw [write_callback_control_point U srv con_handle ci buffer c2 hfind hc (by omega),
      slot_commit_self srv ci _ c2 hc]
    exact (control_point_write_accepted U srv c2 con_handle buffer hlive hacc).2.2.2.1

/-- C9 (witness). A Release write that names no ASE at all, on a server with two
registered ASEs. -/
theorem acp_write_number_of_ases_check_witness :
    ascs_server_get_remote_client_for_con_handle
        (example_server 2 ASCS_STATE_IDLE ASCS_STATE_IDLE) 64 = some 0
      ∧ (example_server 2 ASCS_STATE_IDLE ASCS_STATE_IDLE).client 0
          = some (example_connection 64 ASCS_STATE_IDLE ASCS_STATE_IDLE)
      ∧ 2 ≤ [8, 0].length
      ∧ ((ascs_server_write_callback example_util
            (example_server 2 ASCS_STATE_IDLE ASCS_STATE_IDLE) 64 20
            [8, 0]).slot 0).response_ases_num = 0xFF :=
  have h := acp_write_number_of_ases_check example_util
    (example_server 2 ASCS_STATE_IDLE ASCS_STATE_IDLE) 64 0
    (example_connection 64 ASCS_STATE_IDLE ASCS_STATE_IDLE) [8, 0]
    (fun _ => 0) (fun _ => 0) (by decide) (by decide) (by decide)
  ⟨by decide, by decide, by decide, (h.1 (Or.inl (by decide))).1⟩

/-- C9 (counterexample). With one registered ASE and arrays of two entries, a Release
write for two ASEs has a number of ASEs within the capacity and a valid length, yet the
header check rejects it. -/
theorem acp_write_two_ases_one_registered :
    ((example_server 1 ASCS_STATE_CODEC_CONFIGURED ASCS_STATE_CODEC_CONFIGURED).slot
          0).response.length = 2
      ∧ [8, 2, 1, 2].getD 1 0 ≤ 2
      ∧ ascs_server_control_point_operation_has_valid_length
          (ascs_opcode_of_byte 8) 2 [1, 2] 2 = true
      ∧ ((ascs_server_write_callback example_util
          (example_server 1 ASCS_STATE_CODEC_CONFIGURED ASCS_STATE_CODEC_CONFIGURED) 64 20
          [8, 2, 1, 2]).slot 0).response_ases_num = 0xFF := by
  decide

/-! ## The entry the first read writes for a sub-request -/

@[simp] theorem length_set_response_ase_id (c : ascs_server_connection_t) (i a : Nat) :
    (c.set_response_ase_id i a).response.length = c.response.length := by
  simp [ascs_server_connection_t.set_response_ase_id]

@[simp] theorem length_update_response (c : ascs_server_connection_t) (i : Nat)
    (code : ascs_error_code_t) (r : ascs_reject_reason_t) :
    (ascs_server_update_control_point_operation_response c i code r).response.length
      = c.response.length := by
  simp [ascs_server_update_control_point_operation_response]

@[simp] theorem ase_set_response_ase_id (c : ascs_server_connection_t) (i a k : Nat) :
    (c.set_response_ase_id i a).ase k = c.ase k := rfl

@[simp] theorem ase_update_response (c : ascs_server_connection_t) (i k : Nat)
    (code : ascs_error_code_t) (r : ascs_reject_reason_t) :
    (ascs_server_update_control_point_operation_response c i code r).ase k = c.ase k := rfl

@[simp] theorem opcode_set_response_ase_id (c : ascs_server_connection_t) (i a : Nat) :
    (c.set_response_ase_id i a).response_opcode = c.response_opcode := rfl

/-- The entry after the id was stored and a code recorded. -/
theorem resp_update_set_ase_id (c : ascs_server_connection_t) (i a : Nat)
    (code : ascs_error_code_t) (r : ascs_reject_reason_t) (h : i < c.response.length) :
    (ascs_server_update_control_point_operation_response (c.set_response_ase_id i a) i
        code r).resp i = ⟨a, code, r⟩ := by
  rw [resp_update_self _ _ _ _ (by simpa using h), resp_set_response_ase_id_self _ _ _ h]

/-- The entry after the id was stored and nothing recorded, on a cleared entry. -/
theorem resp_set_ase_id_cleared (c : ascs_server_connection_t) (i a : Nat)
    (h : i < c.response.length)
    (hz : c.resp i = ascs_control_point_operation_response_t.zero) :
    (c.set_response_ase_id i a).resp i
      = ⟨a, ASCS_ERROR_CODE_SUCCESS, ASCS_REJECT_REASON_NONE⟩ := by
  rw [resp_set_response_ase_id_self _ _ _ h, hz]
  rfl

/-- The loop over the codec configuration types leaves the id of the entry alone and
records at most an invalid configuration parameter value. -/
theorem codec_specific_entry (U : ascs_util_t) (c : ascs_server_connection_t) (i : Nat)
    (x : ascs_client_codec_configuration_request_t) (h : i < c.response.length) :
    ((prepare_response_for_codec_specific_configuration U c i x).resp i).ase_id
        = (c.resp i).ase_id
      ∧ (((prepare_response_for_codec_specific_configuration U c i x).resp i).response_code
            = (c.resp i).response_code
          ∧ ((prepare_response_for_codec_specific_configuration U c i x).resp i).reason
            = (c.resp i).reason
        ∨ ((prepare_response_for_codec_specific_configuration U c i x).resp i).response_code
            = ASCS_ERROR_CODE_INVALID_CONFIGURATION_PARAMETER_VALUE) := by
  unfold prepare_response_for_codec_specific_configuration
  dsimp only
  split
  · rw [resp_update_self _ _ _ _ h]
    exact ⟨rfl, Or.inr rfl⟩
  · exact ⟨rfl, Or.inl ⟨rfl, rfl⟩⟩

theorem codec_configuration_entry (U : ascs_util_t) (srv : ascs_server_t)
    (c : ascs_server_connection_t) (i a k : Nat) (x : ascs_client_codec_configuration_request_t)
    (hi : i < c.response.length)
    (hz : c.resp i = ascs_control_point_operation_response_t.zero)
    (hk : ascs_server_get_streamendpoint_for_ase_id srv a = some k) :
    ((ascs_server_control_point_operation_prepare_response_for_codec_configuration U srv c
        i a x).resp i).ase_id = a
      ∧ (((ascs_server_control_point_operation_prepare_response_for_codec_configuration U srv c
            i a x).resp i).response_code
            = ASCS_ERROR_CODE_INVALID_ASE_STATE_MACHINE_TRANSITION
          ↔ ascs_server_streamendpoint_can_transit_to_state (c.ase k).state (srv.chr k).role
              ASCS_OPCODE_CONFIG_CODEC ASCS_STATE_CODEC_CONFIGURED = false)
      ∧ (((ascs_server_control_point_operation_prepare_response_for_codec_configuration U srv c
            i a x).resp i).response_code
            = ASCS_ERROR_CODE_INVALID_ASE_STATE_MACHINE_TRANSITION
          → ((ascs_server_control_point_operation_prepare_response_for_codec_configuration U
              srv c i a x).resp i).reason = ASCS_REJECT_REASON_NONE) := by
  have hi2 : i < (c.set_response_ase_id i a).response.length := by simpa using hi
  have h0 := resp_set_ase_id_cleared c i a hi hz
  unfold ascs_server_control_point_operation_prepare_response_for_codec_configuration
  simp only [hk, ase_set_response_ase_id]
  by_cases hT : ascs_server_streamendpoint_can_transit_to_state (c.ase k).state (srv.chr k).role
      ASCS_OPCODE_CONFIG_CODEC ASCS_STATE_CODEC_CONFIGURED = true
  · have hT' : ¬ (ascs_server_streamendpoint_can_transit_to_state (c.ase k).state
        (srv.chr k).role ASCS_OPCODE_CONFIG_CODEC ASCS_STATE_CODEC_CONFIGURED = false) := by
      rw [hT]; decide
    simp only [hT, not_true_eq_false, if_false, hT', iff_false]
    have hspec := codec_specific_entry U (c.set_response_ase_id i a) i x hi2
    have hspec2 := codec_specific_entry U
      (ascs_server_update_control_point_operation_response (c.set_response_ase_id i a) i
        ASCS_ERROR_CODE_REJECTED_CONFIGURATION_PARAMETER_VALUE
        ASCS_REJECT_REASON_CODEC_SPECIFIC_CONFIGURATION) i x (by simpa using hi)
    rw [resp_update_set_ase_id c i a _ _ hi] at hspec2
    rw [h0] at hspec
    repeat' split
    all_goals
      first
      | (rw [resp_update_set_ase_id c i a _ _ hi]
         simp)
      | (obtain ⟨ha, hb | hb⟩ := hspec
         · refine ⟨ha, ?_, ?_⟩ <;> simp [hb.1]
         · refine ⟨ha, ?_, ?_⟩ <;> simp [hb])
      | (obtain ⟨ha, hb | hb⟩ := hspec2
         · refine ⟨ha, ?_, ?_⟩ <;> simp [hb.1]
         · refine ⟨ha, ?_, ?_⟩ <;> simp [hb])
  · have hT' : ascs_server_streamendpoint_can_transit_to_state (c.ase k).state
        (srv.chr k).role ASCS_OPCODE_CONFIG_CODEC ASCS_STATE_CODEC_CONFIGURED = false := by
      simpa using hT
    simp only [hT', Bool.false_eq_true, not_false_eq_true, if_true]
    rw [resp_update_set_ase_id c i a _ _ hi]
    exact ⟨rfl, by simp, fun _ => rfl⟩

theorem qos_configuration_entry (U : ascs_util_t) (srv : ascs_server_t)
    (c : ascs_server_connection_t) (i a k : Nat) (x : ascs_qos_configuration_t)
    (hi : i < c.response.length)
    (hz : c.resp i = ascs_control_point_operation_response_t.zero)
    (hk : ascs_server_get_streamendpoint_for_ase_id srv a = some k) :
    ((ascs_control_point_operation_prepare_response_for_qos_configuration U srv c
        i a x).resp i).ase_id = a
      ∧ (((ascs_control_point_operation_prepare_response_for_qos_configuration U srv c
            i a x).resp i).response_code
            = ASCS_ERROR_CODE_INVALID_ASE_STATE_MACHINE_TRANSITION
          ↔ ascs_server_streamendpoint_can_transit_to_state (c.ase k).state (srv.chr k).role
              ASCS_OPCODE_CONFIG_QOS ASCS_STATE_QOS_CONFIGURED = false)
      ∧ (((ascs_control_point_operation_prepare_response_for_qos_configuration U srv c
            i a x).resp i).response_code
            = ASCS_ERROR_CODE_INVALID_ASE_STATE_MACHINE_TRANSITION
          → ((ascs_control_point_operation_prepare_response_for_qos_configuration U
              srv c i a x).resp i).reason = ASCS_REJECT_REASON_NONE) := by
  have h0 := resp_set_ase_id_cleared c i a hi hz
  unfold ascs_control_point_operation_prepare_response_for_qos_configuration
  simp only [hk, ase_set_response_ase_id]
  by_cases hT : ascs_server_streamendpoint_can_transit_to_state (c.ase k).state (srv.chr k).role
      ASCS_OPCODE_CONFIG_QOS ASCS_STATE_QOS_CONFIGURED = true
  · have hT' : ¬ (ascs_server_streamendpoint_can_transit_to_state (c.ase k).state
        (srv.chr k).role ASCS_OPCODE_CONFIG_QOS ASCS_STATE_QOS_CONFIGURED = false) := by
      rw [hT]; decide
    simp only [hT, not_true_eq_false, if_false, hT', iff_false]
    repeat' split
    all_goals
      first
      | (rw [resp_update_set_ase_id c i a _ _ hi]
         simp)
      | (rw [h0]
         simp)
  · have hT' : ascs_server_streamendpoint_can_transit_to_state (c.ase k).state
        (srv.chr k).role ASCS_OPCODE_CONFIG_QOS ASCS_STATE_QOS_CONFIGURED = false := by
      simpa using hT
    simp only [hT', Bool.false_eq_true, not_false_eq_true, if_true]
    rw [resp_update_set_ase_id c i a _ _ hi]
    exact ⟨rfl, by simp, fun _ => rfl⟩

theorem target_state_entry (srv : ascs_server_t)
    (c : ascs_server_connection_t) (i a k : Nat) (t : ascs_state_t)
    (hi : i < c.response.length)
    (hz : c.resp i = ascs_control_point_operation_response_t.zero)
    (hk : ascs_server_get_streamendpoint_for_ase_id srv a = some k) :
    ((ascs_server_control_point_operation_prepare_response_for_target_state srv c
        i a t).resp i).ase_id = a
      ∧ (((ascs_server_control_point_operation_prepare_response_for_target_state srv c
            i a t).resp i).response_code
            = ASCS_ERROR_CODE_INVALID_ASE_STATE_MACHINE_TRANSITION
          ↔ ascs_server_streamendpoint_can_transit_to_state (c.ase k).state (srv.chr k).role
              (ascs_opcode_of_byte c.response_opcode)
              (if t = ASCS_STATE_DISABLING ∧ ¬ ((srv.chr k).role = LE_AUDIO_ROLE_SOURCE) then
                ASCS_STATE_QOS_CONFIGURED else t) = false)
      ∧ (((ascs_server_control_point_operation_prepare_response_for_target_state srv c
            i a t).resp i).response_code
            = ASCS_ERROR_CODE_INVALID_ASE_STATE_MACHINE_TRANSITION
          → ((ascs_server_control_point_operation_prepare_response_for_target_state
              srv c i a t).resp i).reason = ASCS_REJECT_REASON_NONE) := by
  have h0 := resp_set_ase_id_cleared c i a hi hz
  unfold ascs_server_control_point_operation_prepare_response_for_target_state
  simp only [hk, ase_set_response_ase_id, opcode_set_response_ase_id]
  generalize (if t = ASCS_STATE_DISABLING ∧ ¬ ((srv.chr k).role = LE_AUDIO_ROLE_SOURCE) then
    ASCS_STATE_QOS_CONFIGURED else t) = t2
  by_cases hT : ascs_server_streamendpoint_can_transit_to_state (c.ase k).state (srv.chr k).role
      (ascs_opcode_of_byte c.response_opcode) t2 = true
  · simp only [hT, not_true_eq_false, if_false]
    rw [h0]
    simp
  · have hT' : ascs_server_streamendpoint_can_transit_to_state (c.ase k).state
        (srv.chr k).role (ascs_opcode_of_byte c.response_opcode) t2 = false := by
      simpa using hT
    simp only [hT', Bool.false_eq_true, not_false_eq_true, if_true]
    rw [resp_update_set_ase_id c i a _ _ hi]
    exact ⟨rfl, by simp, fun _ => rfl⟩

theorem metadata_update_entry (U : ascs_util_t) (srv : ascs_server_t)
    (c : ascs_server_connection_t) (i a k : Nat) (x : le_audio_metadata_t)
    (hi : i < c.response.length)
    (hz : c.resp i = ascs_control_point_operation_response_t.zero)
    (hk : ascs_server_get_streamendpoint_for_ase_id srv a = some k) :
    ((ascs_server_control_point_operation_prepare_response_for_metadata_update U srv c
        i a x).resp i).ase_id = a
      ∧ (((ascs_server_control_point_operation_prepare_response_for_metadata_update U srv c
            i a x).resp i).response_code
            = ASCS_ERROR_CODE_INVALID_ASE_STATE_MACHINE_TRANSITION
          ↔ ¬ ((c.ase k).state = ASCS_STATE_ENABLING ∨ (c.ase k).state = ASCS_STATE_STREAMING))
      ∧ (((ascs_server_control_point_operation_prepare_response_for_metadata_update U srv c
            i a x).resp i).response_code
            = ASCS_ERROR_CODE_INVALID_ASE_STATE_MACHINE_TRANSITION
          → ((ascs_server_control_point_operation_prepare_response_for_metadata_update U
              srv c i a x).resp i).reason = ASCS_REJECT_REASON_NONE) := by
  have h0 := resp_set_ase_id_cleared c i a hi hz
  have hloop : ∀ fuel t r, r ≠ ASCS_ERROR_CODE_INVALID_ASE_STATE_MACHINE_TRANSITION →
      metadata_reject_code U x fuel t r ≠ ASCS_ERROR_CODE_INVALID_ASE_STATE_MACHINE_TRANSITION := by
    intro fuel
    induction fuel with
    | zero => intro t r hr; exact hr
    | succ fuel ih =>
      intro t r hr
      unfold metadata_reject_code
      dsimp only
      repeat' split
      all_goals first | exact hr | (apply ih; first | exact hr | decide)
  unfold ascs_server_control_point_operation_prepare_response_for_metadata_update
  simp only [hk, ase_set_response_ase_id]
  have hcode := hloop
    (U.LE_AUDIO_METADATA_TYPE_RFU - U.LE_AUDIO_METADATA_TYPE_PREFERRED_AUDIO_CONTEXTS)
    U.LE_AUDIO_METADATA_TYPE_PREFERRED_AUDIO_CONTEXTS ASCS_ERROR_CODE_SUCCESS (by decide)
  cases hs : (c.ase k).state <;> simp only [] <;> repeat' split
  all_goals
    first
    | (rw [resp_update_set_ase_id c i a _ _ hi]
       simp
       done)
    | (rw [resp_update_set_ase_id c i a _ _ hi]
       simp [hcode])
    | (rw [h0]
       simp)

theorem start_ready_entry (srv : ascs_server_t)
    (c : ascs_server_connection_t) (i a k : Nat)
    (hi : i < c.response.length)
    (hz : c.resp i = ascs_control_point_operation_response_t.zero)
    (hk : ascs_server_get_streamendpoint_for_ase_id srv a = some k) :
    ((ascs_server_control_point_operation_prepare_response_for_start_ready srv c
        i a).resp i).ase_id = a
      ∧ ((srv.chr k).role = LE_AUDIO_ROLE_SINK →
          (ascs_server_control_point_operation_prepare_response_for_start_ready srv c
            i a).resp i = ⟨a, ASCS_ERROR_CODE_INVALID_ASE_DIRECTION, ASCS_REJECT_REASON_NONE⟩)
      ∧ ((srv.chr k).role = LE_AUDIO_ROLE_SOURCE →
          ((ascs_server_control_point_operation_prepare_response_for_start_ready srv c
              i a).resp i).response_code ≠ ASCS_ERROR_CODE_INVALID_ASE_DIRECTION
            ∧ (((ascs_server_control_point_operation_prepare_response_for_start_ready srv c
                  i a).resp i).response_code
                  = ASCS_ERROR_CODE_INVALID_ASE_STATE_MACHINE_TRANSITION
                ↔ ascs_server_streamendpoint_can_transit_to_state (c.ase k).state
                    (srv.chr k).role ASCS_OPCODE_RECEIVER_START_READY ASCS_STATE_STREAMING
                  = false)
            ∧ (((ascs_server_control_point_operation_prepare_response_for_start_ready srv c
                  i a).resp i).response_code
                  = ASCS_ERROR_CODE_INVALID_ASE_STATE_MACHINE_TRANSITION
                → ((ascs_server_control_point_operation_prepare_response_for_start_ready
                    srv c i a).resp i).reason = ASCS_REJECT_REASON_NONE)) := by
  have h0 := resp_set_ase_id_cleared c i a hi hz
  unfold ascs_server_control_point_operation_prepare_response_for_start_ready
  simp only [hk, ase_set_response_ase_id]
  cases hr : (srv.chr k).role
  · simp only [if_true]
    rw [resp_update_set_ase_id c i a _ _ hi]
    simp
  · have hne : ¬ (LE_AUDIO_ROLE_SOURCE = LE_AUDIO_ROLE_SINK) := by decide
    simp only [hne, if_false]
    by_cases hT : ascs_server_streamendpoint_can_transit_to_state (c.ase k).state
        LE_AUDIO_ROLE_SOURCE ASCS_OPCODE_RECEIVER_START_READY ASCS_STATE_STREAMING = true
    · simp only [hT, not_true_eq_false, if_false]
      rw [h0]
      simp
    · have hT' : ascs_server_streamendpoint_can_transit_to_state (c.ase k).state
          LE_AUDIO_ROLE_SOURCE ASCS_OPCODE_RECEIVER_START_READY ASCS_STATE_STREAMING
          = false := by simpa using hT
      simp only [hT', Bool.false_eq_true, not_false_eq_true, if_true]
      rw [resp_update_set_ase_id c i a _ _ hi]
      simp

theorem stop_ready_entry (srv : ascs_server_t)
    (c : ascs_server_connection_t) (i a k : Nat)
    (hi : i < c.response.length)
    (hz : c.resp i = ascs_control_point_operation_response_t.zero)
    (hk : ascs_server_get_streamendpoint_for_ase_id srv a = some k) :
    ((ascs_server_control_point_operation_prepare_response_for_stop_ready srv c
        i a).resp i).ase_id = a
      ∧ ((srv.chr k).role = LE_AUDIO_ROLE_SINK →
          (ascs_server_control_point_operation_prepare_response_for_stop_ready srv c
            i a).resp i = ⟨a, ASCS_ERROR_CODE_INVALID_ASE_DIRECTION, ASCS_REJECT_REASON_NONE⟩)
      ∧ ((srv.chr k).role = LE_AUDIO_ROLE_SOURCE →
          ((ascs_server_control_point_operation_prepare_response_for_stop_ready srv c
              i a).resp i).response_code ≠ ASCS_ERROR_CODE_INVALID_ASE_DIRECTION
            ∧ (((ascs_server_control_point_operation_prepare_response_for_stop_ready srv c
                  i a).resp i).response_code
                  = ASCS_ERROR_CODE_INVALID_ASE_STATE_MACHINE_TRANSITION
                ↔ ascs_server_streamendpoint_can_transit_to_state (c.ase k).state
                    (srv.chr k).role ASCS_OPCODE_RECEIVER_STOP_READY ASCS_STATE_QOS_CONFIGURED
                  = false)
            ∧ (((ascs_server_control_point_operation_prepare_response_for_stop_ready srv c
                  i a).resp i).response_code
                  = ASCS_ERROR_CODE_INVALID_ASE_STATE_MACHINE_TRANSITION
                → ((ascs_server_control_point_operation_prepare_response_for_stop_ready
                    srv c i a).resp i).reason = ASCS_REJECT_REASON_NONE)) := by
  have h0 := resp_set_ase_id_cleared c i a hi hz
  unfold ascs_server_control_point_operation_prepare_response_for_stop_ready
  simp only [hk, ase_set_response_ase_id]
  cases hr : (srv.chr k).role
  · simp only [if_true]
    rw [resp_update_set_ase_id c i a _ _ hi]
    simp
  · have hne : ¬ (LE_AUDIO_ROLE_SOURCE = LE_AUDIO_ROLE_SINK) := by decide
    simp only [hne, if_false]
    by_cases hT : ascs_server_streamendpoint_can_transit_to_state (c.ase k).state
        LE_AUDIO_ROLE_SOURCE ASCS_OPCODE_RECEIVER_STOP_READY ASCS_STATE_QOS_CONFIGURED = true
    · simp only [hT, not_true_eq_false, if_false]
      rw [h0]
      simp
    · have hT' : ascs_server_streamendpoint_can_transit_to_state (c.ase k).state
          LE_AUDIO_ROLE_SOURCE ASCS_OPCODE_RECEIVER_STOP_READY ASCS_STATE_QOS_CONFIGURED
          = false := by simpa using hT
      simp only [hT', Bool.false_eq_true, not_false_eq_true, if_true]
      rw [resp_update_set_ase_id c i a _ _ hi]
      simp

/-- A non-empty write to the control point on an attached connection, seen from the
server: the slot holds the connection the control point branch returns, the trace grows
by its effects, the other slots stay. -/
theorem write_callback_attached (U : ascs_util_t) (srv : ascs_server_t)
    (con_handle ci : Nat) (c : ascs_server_connection_t) (buffer : List Nat)
    (hfind : ascs_server_get_remote_client_for_con_handle srv con_handle = some ci)
    (hc : srv.client ci = some c) (hne : 1 ≤ buffer.length) :
    c.con_handle = con_handle
      ∧ c.con_handle ≠ HCI_CON_HANDLE_INVALID
      ∧ (ascs_server_write_callback U srv con_handle srv.ascs_ase_control_point_handle
          buffer).slot ci = (ascs_server_control_point_write U srv c con_handle buffer).1
      ∧ (ascs_server_write_callback U srv con_handle srv.ascs_ase_control_point_handle
          buffer).trace
          = srv.trace ++ (ascs_server_control_point_write U srv c con_handle buffer).2
      ∧ ∀ j, j ≠ ci →
          (ascs_server_write_callback U srv con_handle srv.ascs_ase_control_point_handle
            buffer).slot j = srv.slot j := by
  obtain ⟨hv, c2, hc2, hh⟩ := get_remote_client_some srv con_handle ci hfind
  have hcc : c2 = c := Option.some.inj (hc2.symm.trans hc)
  subst hcc
  rw [write_callback_control_point U srv con_handle ci buffer c2 hfind hc hne]
  exact ⟨hh, by rw [hh]; exact hv, slot_commit_self srv ci _ c2 hc, trace_commit srv ci _,
    fun j hj => slot_commit_ne srv ci j _ hj⟩

/-- The variables of the first read before sub-request `i`: the connection is the
initial one up to response entries, and entry `i` is still cleared. -/
theorem first_read_at_connection (U : ascs_util_t) (srv : ascs_server_t)
    (c : ascs_server_connection_t) (buffer : List Nat) (i : Nat) :
    (first_read_at U srv c buffer i).connection.response_opcode = buffer.getD 0 0
      ∧ (first_read_at U srv c buffer i).connection.response.length = c.response.length
      ∧ (∀ k, (first_read_at U srv c buffer i).connection.ase k = c.ase k)
      ∧ (first_read_at U srv c buffer i).connection.resp i
          = ascs_control_point_operation_response_t.zero := by
  obtain ⟨h1, h2, -⟩ := first_read_loop U srv (ascs_opcode_of_byte (buffer.getD 0 0)) buffer
    (first_read_start c buffer) i
  change same_but_response _ (first_read_at U srv c buffer i).connection at h1
  change ∀ j, i ≤ j → (first_read_at U srv c buffer i).connection.resp j = _ at h2
  refine ⟨same_but_response_opcode h1, ?_, ?_, ?_⟩
  · rw [h1.2]
    simp [first_read_start, ascs_server_reset_client_response]
  · intro k
    rw [same_but_response_ase h1 k]
    rfl
  · rw [h2 i (Nat.le_refl i)]
    exact reset_client_response_resp c i

/-- Entry `i` of the response of an accepted write is the entry iteration `i` of the
first read wrote. -/
theorem control_point_write_entry (U : ascs_util_t) (srv : ascs_server_t)
    (c : ascs_server_connection_t) (con_handle : Nat) (buffer : List Nat)
    (hlive : c.con_handle ≠ HCI_CON_HANDLE_INVALID) (hacc : accepted_frame srv buffer)
    (i : Nat) (hi : i < buffer.getD 1 0) :
    (ascs_server_control_point_write U srv c con_handle buffer).1.resp i
      = (first_read_body U srv (ascs_opcode_of_byte (buffer.getD 0 0)) buffer i
          (first_read_at U srv c buffer i)).connection.resp i := by
  rw [(control_point_write_accepted U srv c con_handle buffer hlive hacc).1 i]
  exact (first_read_loop U srv (ascs_opcode_of_byte (buffer.getD 0 0)) buffer
    (first_read_start c buffer) (buffer.getD 1 0)).2.2 i hi

theorem expected_upcall_ase_ids_eq_without (c : ascs_server_connection_t)
    (opcode : ascs_opcode_t) (buffer : List Nat) (n i : Nat)
    (h : (c.resp i).response_code ≠ ASCS_ERROR_CODE_SUCCESS) :
    expected_upcall_ase_ids c opcode buffer n
      = expected_upcall_ase_ids_without c opcode buffer n i := by
  unfold expected_upcall_ase_ids expected_upcall_ase_ids_without
  generalize List.range n = l
  induction l with
  | nil => rfl
  | cons x xs ih =>
    by_cases hx : x = i
    · subst hx
      simp [List.filter_cons, h, ih]
    · simp [List.filter_cons, hx, ih]

/-- The check the validator makes for each opcode, against the table as implemented. -/
theorem validator_check_iff_table (st : ascs_state_t) (r : le_audio_role_t) :
    (ascs_server_streamendpoint_can_transit_to_state st r ASCS_OPCODE_CONFIG_CODEC
          ASCS_STATE_CODEC_CONFIGURED = false
        ↔ transition_table_source_disabling st ASCS_OPCODE_CONFIG_CODEC r = [])
      ∧ (ascs_server_streamendpoint_can_transit_to_state st r ASCS_OPCODE_CONFIG_QOS
          ASCS_STATE_QOS_CONFIGURED = false
        ↔ transition_table_source_disabling st ASCS_OPCODE_CONFIG_QOS r = [])
      ∧ (ascs_server_streamendpoint_can_transit_to_state st r ASCS_OPCODE_ENABLE
          ASCS_STATE_ENABLING = false
        ↔ transition_table_source_disabling st ASCS_OPCODE_ENABLE r = [])
      ∧ (ascs_server_streamendpoint_can_transit_to_state st r ASCS_OPCODE_RECEIVER_START_READY
          ASCS_STATE_STREAMING = false
        ↔ transition_table_source_disabling st ASCS_OPCODE_RECEIVER_START_READY r = [])
      ∧ (ascs_server_streamendpoint_can_transit_to_state st r ASCS_OPCODE_DISABLE
          (if ASCS_STATE_DISABLING = ASCS_STATE_DISABLING ∧ ¬ (r = LE_AUDIO_ROLE_SOURCE) then
            ASCS_STATE_QOS_CONFIGURED else ASCS_STATE_DISABLING) = false
        ↔ transition_table_source_disabling st ASCS_OPCODE_DISABLE r = [])
      ∧ (r = LE_AUDIO_ROLE_SOURCE →
          (ascs_server_streamendpoint_can_transit_to_state st r ASCS_OPCODE_RECEIVER_STOP_READY
            ASCS_STATE_QOS_CONFIGURED = false
          ↔ transition_table_source_disabling st ASCS_OPCODE_RECEIVER_STOP_READY r = []))
      ∧ (¬ (st = ASCS_STATE_ENABLING ∨ st = ASCS_STATE_STREAMING)
        ↔ transition_table_source_disabling st ASCS_OPCODE_UPDATE_METADATA r = [])
      ∧ (ascs_server_streamendpoint_can_transit_to_state st r ASCS_OPCODE_RELEASE
          (if ASCS_STATE_RELEASING = ASCS_STATE_DISABLING ∧ ¬ (r = LE_AUDIO_ROLE_SOURCE) then
            ASCS_STATE_QOS_CONFIGURED else ASCS_STATE_RELEASING) = false
        ↔ transition_table_source_disabling st ASCS_OPCODE_RELEASE r = [])
      ∧ (ascs_server_streamendpoint_can_transit_to_state st r ASCS_OPCODE_RELEASED
          (if ASCS_STATE_IDLE = ASCS_STATE_DISABLING ∧ ¬ (r = LE_AUDIO_ROLE_SOURCE) then
            ASCS_STATE_QOS_CONFIGURED else ASCS_STATE_IDLE) = false
        ↔ transition_table_source_disabling st ASCS_OPCODE_RELEASED r = []) := by
  cases st <;> cases r <;> decide

/-- The entry the first read writes for a sub-request whose ase_id names a registered
ASE: the id, the direction check of Receiver Start Ready and Receiver Stop Ready, and
the state machine check of every opcode. -/
theorem first_read_body_entry (U : ascs_util_t) (srv : ascs_server_t)
    (opcode : ascs_opcode_t) (buffer : List Nat) (i k : Nat) (s : first_read_t)
    (hop : opcode.defined = true)
    (hopc : ascs_opcode_of_byte s.connection.response_opcode = opcode)
    (hi : i < s.connection.response.length)
    (hz : s.connection.resp i = ascs_control_point_operation_response_t.zero)
    (hk : ascs_server_get_streamendpoint_for_ase_id srv (buffer.getD s.pos 0) = some k) :
    ((first_read_body U srv opcode buffer i s).connection.resp i).ase_id = buffer.getD s.pos 0
      ∧ ((opcode = ASCS_OPCODE_RECEIVER_START_READY ∨ opcode = ASCS_OPCODE_RECEIVER_STOP_READY) →
          (srv.chr k).role = LE_AUDIO_ROLE_SINK →
          (first_read_body U srv opcode buffer i s).connection.resp i
            = ⟨buffer.getD s.pos 0, ASCS_ERROR_CODE_INVALID_ASE_DIRECTION,
                ASCS_REJECT_REASON_NONE⟩)
      ∧ ((opcode = ASCS_OPCODE_RECEIVER_START_READY ∨ opcode = ASCS_OPCODE_RECEIVER_STOP_READY) →
          (srv.chr k).role = LE_AUDIO_ROLE_SOURCE →
          ((first_read_body U srv opcode buffer i s).connection.resp i).response_code
            ≠ ASCS_ERROR_CODE_INVALID_ASE_DIRECTION)
      ∧ (((opcode = ASCS_OPCODE_RECEIVER_START_READY
            ∨ opcode = ASCS_OPCODE_RECEIVER_STOP_READY) →
            (srv.chr k).role = LE_AUDIO_ROLE_SOURCE) →
          (((first_read_body U srv opcode buffer i s).connection.resp i).response_code
              = ASCS_ERROR_CODE_INVALID_ASE_STATE_MACHINE_TRANSITION
            ↔ transition_table_source_disabling (s.connection.ase k).state opcode
                (srv.chr k).role = [])
          ∧ (((first_read_body U srv opcode buffer i s).connection.resp i).response_code
              = ASCS_ERROR_CODE_INVALID_ASE_STATE_MACHINE_TRANSITION
            → ((first_read_body U srv opcode buffer i s).connection.resp i).reason
              = ASCS_REJECT_REASON_NONE)) := by
  have htab := validator_check_iff_table (s.connection.ase k).state (srv.chr k).role
  obtain ⟨t1, t2, t3, t4, t5, t6, t7, t8, t9⟩ := htab
  unfold first_read_body
  cases opcode
  case ASCS_OPCODE_UNSUPPORTED => exact absurd hop (by decide)
  case ASCS_OPCODE_RFU => exact absurd hop (by decide)
  case ASCS_OPCODE_CONFIG_CODEC =>
    obtain ⟨e1, e2, e3⟩ := codec_configuration_entry U srv s.connection i _ k
      (ascs_util_codec_configuration_request_parse U
        (buffer.drop ((s.pos + 1) % 256))).2 hi hz hk
    exact ⟨e1, by simp, by simp, fun _ => ⟨e2.trans t1, e3⟩⟩
  case ASCS_OPCODE_CONFIG_QOS =>
    obtain ⟨e1, e2, e3⟩ := qos_configuration_entry U srv s.connection i _ k
      (ascs_util_qos_configuration_parse (buffer.drop ((s.pos + 1) % 256))).2 hi hz hk
    exact ⟨e1, by simp, by simp, fun _ => ⟨e2.trans t2, e3⟩⟩
  case ASCS_OPCODE_ENABLE =>
    obtain ⟨e1, e2, e3⟩ := target_state_entry srv s.connection i _ k ASCS_STATE_ENABLING hi hz hk
    rw [hopc] at e2
    exact ⟨e1, by simp, by simp, fun _ => ⟨e2.trans t3, e3⟩⟩
  case ASCS_OPCODE_RECEIVER_START_READY =>
    obtain ⟨e1, e2, e3⟩ := start_ready_entry srv s.connection i _ k hi hz hk
    exact ⟨e1, fun _ h => e2 h, fun _ h => (e3 h).1,
      fun h => ⟨(e3 (h (Or.inl rfl))).2.1.trans t4, (e3 (h (Or.inl rfl))).2.2⟩⟩
  case ASCS_OPCODE_DISABLE =>
    obtain ⟨e1, e2, e3⟩ := target_state_entry srv s.connection i _ k ASCS_STATE_DISABLING hi hz hk
    rw [hopc] at e2
    exact ⟨e1, by simp, by simp, fun _ => ⟨e2.trans t5, e3⟩⟩
  case ASCS_OPCODE_RECEIVER_STOP_READY =>
    obtain ⟨e1, e2, e3⟩ := stop_ready_entry srv s.connection i _ k hi hz hk
    exact ⟨e1, fun _ h => e2 h, fun _ h => (e3 h).1,
      fun h => ⟨(e3 (h (Or.inr rfl))).2.1.trans (t6 (h (Or.inr rfl))),
        (e3 (h (Or.inr rfl))).2.2⟩⟩
  case ASCS_OPCODE_UPDATE_METADATA =>
    obtain ⟨e1, e2, e3⟩ := metadata_update_entry U srv s.connection i _ k
      (le_audio_util_metadata_parse U (buffer.drop ((s.pos + 1) % 256)) s.metadata_config).2
      hi hz hk
    exact ⟨e1, by simp, by simp, fun _ => ⟨e2.trans t7, e3⟩⟩
  case ASCS_OPCODE_RELEASE =>
    obtain ⟨e1, e2, e3⟩ := target_state_entry srv s.connection i _ k ASCS_STATE_RELEASING hi hz hk
    rw [hopc] at e2
    exact ⟨e1, by simp, by simp, fun _ => ⟨e2.trans t8, e3⟩⟩
  case ASCS_OPCODE_RELEASED =>
    obtain ⟨e1, e2, e3⟩ := target_state_entry srv s.connection i _ k ASCS_STATE_IDLE hi hz hk
    rw [hopc] at e2
    exact ⟨e1, by simp, by simp, fun _ => ⟨e2.trans t9, e3⟩⟩

theorem entry_ase_id_set (c : ascs_server_connection_t) (i a : Nat)
    (hi : i < c.response.length) :
    i < (c.set_response_ase_id i a).response.length
      ∧ ((c.set_response_ase_id i a).resp i).ase_id = a := by
  refine ⟨by simpa using hi, ?_⟩
  rw [resp_set_response_ase_id_self _ _ _ hi]

theorem entry_ase_id_update {c : ascs_server_connection_t} {i a : Nat}
    (code : ascs_error_code_t) (r : ascs_reject_reason_t)
    (h : i < c.response.length ∧ (c.resp i).ase_id = a) :
    i < (ascs_server_update_control_point_operation_response c i code r).response.length
      ∧ ((ascs_server_update_control_point_operation_response c i code r).resp i).ase_id
        = a := by
  refine ⟨by simpa using h.1, ?_⟩
  rw [resp_update_self _ _ _ _ h.1]
  exact h.2

theorem entry_ase_id_codec_specific (U : ascs_util_t) {c : ascs_server_connection_t}
    {i a : Nat} (x : ascs_client_codec_configuration_request_t)
    (h : i < c.response.length ∧ (c.resp i).ase_id = a) :
    ((prepare_response_for_codec_specific_configuration U c i x).resp i).ase_id = a := by
  rw [(codec_specific_entry U c i x h.1).1]
  exact h.2

/-- Whatever the validator decides, the entry it writes for a sub-request carries the
ase_id it read through the cursor of the first read. -/
theorem first_read_body_entry_ase_id (U : ascs_util_t) (srv : ascs_server_t)
    (opcode : ascs_opcode_t) (buffer : List Nat) (i : Nat) (s : first_read_t)
    (hop : opcode.defined = true) (hi : i < s.connection.response.length) :
    ((first_read_body U srv opcode buffer i s).connection.resp i).ase_id
      = buffer.getD s.pos 0 := by
  have h0 := entry_ase_id_set s.connection i (buffer.getD s.pos 0) hi
  unfold first_read_body
  cases opcode
  case ASCS_OPCODE_UNSUPPORTED => exact absurd hop (by decide)
  case ASCS_OPCODE_RFU => exact absurd hop (by decide)
  case ASCS_OPCODE_CONFIG_CODEC =>
    dsimp only
    unfold ascs_server_control_point_operation_prepare_response_for_codec_configuration
    dsimp only
    repeat' split
    all_goals
      first
      | exact (entry_ase_id_update _ _ h0).2
      | exact entry_ase_id_codec_specific U _ h0
      | exact entry_ase_id_codec_specific U _ (entry_ase_id_update _ _ h0)
  case ASCS_OPCODE_CONFIG_QOS =>
    dsimp only
    unfold ascs_control_point_operation_prepare_response_for_qos_configuration
    dsimp only
    repeat' split
    all_goals first | exact (entry_ase_id_update _ _ h0).2 | exact h0.2
  case ASCS_OPCODE_UPDATE_METADATA =>
    dsimp only
    unfold ascs_server_control_point_operation_prepare_response_for_metadata_update
    dsimp only
    repeat' split
    all_goals first | exact (entry_ase_id_update _ _ h0).2 | exact h0.2
  case ASCS_OPCODE_RECEIVER_START_READY =>
    dsimp only
    unfold ascs_server_control_point_operation_prepare_response_for_start_ready
    dsimp only
    repeat' split
    all_goals first | exact (entry_ase_id_update _ _ h0).2 | exact h0.2
  case ASCS_OPCODE_RECEIVER_STOP_READY =>
    dsimp only
    unfold ascs_server_control_point_operation_prepare_response_for_stop_ready
    dsimp only
    repeat' split
    all_goals first | exact (entry_ase_id_update _ _ h0).2 | exact h0.2
  all_goals
    dsimp only
    unfold ascs_server_control_point_operation_prepare_response_for_target_state
    dsimp only
    repeat' split
    all_goals first | exact (entry_ase_id_update _ _ h0).2 | exact h0.2

/-- Entry `i` of the response of an accepted write to the control point on an attached
connection, when the ase_id it records names the registered ASE `k`. -/
theorem write_callback_entry (U : ascs_util_t) (srv : ascs_server_t)
    (con_handle ci : Nat) (c : ascs_server_connection_t) (buffer : List Nat) (i k : Nat)
    (hfind : ascs_server_get_remote_client_for_con_handle srv con_handle = some ci)
    (hc : srv.client ci = some c) (hacc : accepted_frame srv buffer)
    (hcap : srv.ascs_streamendpoint_chr_num ≤ c.response.length)
    (hi : i < buffer.getD 1 0)
    (hk : ascs_server_get_streamendpoint_for_ase_id srv
      (((ascs_server_write_callback U srv con_handle srv.ascs_ase_control_point_handle
        buffer).slot ci).resp i).ase_id = some k) :
    ((ascs_opcode_of_byte (buffer.getD 0 0) = ASCS_OPCODE_RECEIVER_START_READY
          ∨ ascs_opcode_of_byte (buffer.getD 0 0) = ASCS_OPCODE_RECEIVER_STOP_READY) →
        (srv.chr k).role = LE_AUDIO_ROLE_SINK →
        ((ascs_server_write_callback U srv con_handle srv.ascs_ase_control_point_handle
            buffer).slot ci).resp i
          = ⟨(((ascs_server_write_callback U srv con_handle srv.ascs_ase_control_point_handle
                buffer).slot ci).resp i).ase_id, ASCS_ERROR_CODE_INVALID_ASE_DIRECTION,
              ASCS_REJECT_REASON_NONE⟩)
      ∧ ((ascs_opcode_of_byte (buffer.getD 0 0) = ASCS_OPCODE_RECEIVER_START_READY
          ∨ ascs_opcode_of_byte (buffer.getD 0 0) = ASCS_OPCODE_RECEIVER_STOP_READY) →
        (srv.chr k).role = LE_AUDIO_ROLE_SOURCE →
        (((ascs_server_write_callback U srv con_handle srv.ascs_ase_control_point_handle
            buffer).slot ci).resp i).response_code ≠ ASCS_ERROR_CODE_INVALID_ASE_DIRECTION)
      ∧ (((ascs_opcode_of_byte (buffer.getD 0 0) = ASCS_OPCODE_RECEIVER_START_READY
            ∨ ascs_opcode_of_byte (buffer.getD 0 0) = ASCS_OPCODE_RECEIVER_STOP_READY) →
            (srv.chr k).role = LE_AUDIO_ROLE_SOURCE) →
          ((((ascs_server_write_callback U srv con_handle srv.ascs_ase_control_point_handle
              buffer).slot ci).resp i).response_code
              = ASCS_ERROR_CODE_INVALID_ASE_STATE_MACHINE_TRANSITION
            ↔ transition_table_source_disabling (c.ase k).state
                (ascs_opcode_of_byte (buffer.getD 0 0)) (srv.chr k).role = [])
          ∧ ((((ascs_server_write_callback U srv con_handle srv.ascs_ase_control_point_handle
              buffer).slot ci).resp i).response_code
              = ASCS_ERROR_CODE_INVALID_ASE_STATE_MACHINE_TRANSITION
            → (((ascs_server_write_callback U srv con_handle srv.ascs_ase_control_point_handle
                buffer).slot ci).resp i).reason = ASCS_REJECT_REASON_NONE)) := by
  obtain ⟨-, hlive, hslot, -, -⟩ :=
    write_callback_attached U srv con_handle ci c buffer hfind hc (by have := hacc.1; omega)
  rw [hslot] at hk ⊢
  rw [control_point_write_entry U srv c con_handle buffer hlive hacc i hi] at hk ⊢
  obtain ⟨f1, f2, f3, f4⟩ := first_read_at_connection U srv c buffer i
  have hilen : i < (first_read_at U srv c buffer i).connection.response.length := by
    rw [f2]; have := hacc.2.2.1; omega
  have hid := first_read_body_entry_ase_id U srv (ascs_opcode_of_byte (buffer.getD 0 0)) buffer
    i (first_read_at U srv c buffer i) hacc.2.2.2.2 hilen
  rw [hid] at hk
  have hmain := first_read_body_entry U srv (ascs_opcode_of_byte (buffer.getD 0 0)) buffer i k
    (first_read_at U srv c buffer i) hacc.2.2.2.2 (by rw [f1]) hilen f4 hk
  rw [f3 k] at hmain
  rw [hid]
  exact hmain.2

/-- The trace after an accepted write to the control point on an attached connection:
the call of the scheduler, possibly the registration of the can-send-now callback, then
the events for the success entries in order. -/
theorem write_callback_trace (U : ascs_util_t) (srv : ascs_server_t)
    (con_handle ci : Nat) (c : ascs_server_connection_t) (buffer : List Nat)
    (hfind : ascs_server_get_remote_client_for_con_handle srv con_handle = some ci)
    (hc : srv.client ci = some c) (hacc : accepted_frame srv buffer) :
    ∃ rest ups,
      (ascs_server_write_callback U srv con_handle srv.ascs_ase_control_point_handle
          buffer).trace
        = srv.trace
          ++ schedule_task con_handle ASCS_TASK_SEND_CONTROL_POINT_OPERATION_RESPONSE
            :: (rest ++ ups)
      ∧ (rest = [] ∨ rest = [att_server_register_can_send_now_callback con_handle])
      ∧ ups.map ascs_effect_t.upcall_ase_id
        = expected_upcall_ase_ids
            ((ascs_server_write_callback U srv con_handle srv.ascs_ase_control_point_handle
              buffer).slot ci)
            (ascs_opcode_of_byte (buffer.getD 0 0)) buffer (buffer.getD 1 0) := by
  obtain ⟨hh, hlive, hslot, htrace, -⟩ :=
    write_callback_attached U srv con_handle ci c buffer hfind hc (by have := hacc.1; omega)
  obtain ⟨rest, ups, h1, h2, h3⟩ :=
    (control_point_write_accepted U srv c con_handle buffer hlive hacc).2.2.2.2.2.2.2.2.2.2
  refine ⟨rest, ups, ?_, ?_, ?_⟩
  · rw [htrace, h1, hh]
  · rw [hh] at h2; exact h2
  · rw [hslot]; exact h3

/-! ## Claims on the validator -/

/-- C3. For every Receiver Start Ready or Receiver Stop Ready sub-request of an accepted
ACP write on an attached connection whose recorded ase_id names a registered Sink ASE,
whatever the state of that ASE, the entry recorded is (ase_id, invalid ASE direction, 0)
and the events the write raises are drawn from the other sub-requests only; for a Source
ASE the recorded code is never the invalid ASE direction. -/
theorem acp_write_receiver_ready_direction (U : ascs_util_t) (srv : ascs_server_t)
    (con_handle ci : Nat) (c : ascs_server_connection_t) (buffer : List Nat) (i k : Nat)
    (hfind : ascs_server_get_remote_client_for_con_handle srv con_handle = some ci)
    (hc : srv.client ci = some c) (hacc : accepted_frame srv buffer)
    (hcap : srv.ascs_streamendpoint_chr_num ≤ c.response.length)
    (hop : ascs_opcode_of_byte (buffer.getD 0 0) = ASCS_OPCODE_RECEIVER_START_READY
      ∨ ascs_opcode_of_byte (buffer.getD 0 0) = ASCS_OPCODE_RECEIVER_STOP_READY)
    (hi : i < buffer.getD 1 0)
    (hk : ascs_server_get_streamendpoint_for_ase_id srv
      (((ascs_server_write_callback U srv con_handle srv.ascs_ase_control_point_handle
        buffer).slot ci).resp i).ase_id = some k) :
    ((srv.chr k).role = LE_AUDIO_ROLE_SINK →
        (((ascs_server_write_callback U srv con_handle srv.ascs_ase_control_point_handle
            buffer).slot ci).resp i).response_code = ASCS_ERROR_CODE_INVALID_ASE_DIRECTION
          ∧ (((ascs_server_write_callback U srv con_handle srv.ascs_ase_control_point_handle
              buffer).slot ci).resp i).reason = ASCS_REJECT_REASON_NONE
          ∧ ∃ rest ups,
              (ascs_server_write_callback U srv con_handle srv.ascs_ase_control_point_handle
                  buffer).trace
                = srv.trace
                  ++ schedule_task con_handle ASCS_TASK_SEND_CONTROL_POINT_OPERATION_RESPONSE
                    :: (rest ++ ups)
              ∧ (rest = [] ∨ rest = [att_server_register_can_send_now_callback con_handle])
              ∧ ups.map ascs_effect_t.upcall_ase_id
                = expected_upcall_ase_ids_without
                    ((ascs_server_write_callback U srv con_handle
                      srv.ascs_ase_control_point_handle buffer).slot ci)
                    (ascs_opcode_of_byte (buffer.getD 0 0)) buffer (buffer.getD 1 0) i)
      ∧ ((srv.chr k).role = LE_AUDIO_ROLE_SOURCE →
          (((ascs_server_write_callback U srv con_handle srv.ascs_ase_control_point_handle
              buffer).slot ci).resp i).response_code
            ≠ ASCS_ERROR_CODE_INVALID_ASE_DIRECTION) := by
  obtain ⟨h1, h2, -⟩ := write_callback_entry U srv con_handle ci c buffer i k hfind hc hacc hcap
    hi hk
  refine ⟨fun hsink => ?_, fun hsrc => h2 hop hsrc⟩
  have he := h1 hop hsink
  have hcode : (((ascs_server_write_callback U srv con_handle
      srv.ascs_ase_control_point_handle buffer).slot ci).resp i).response_code
      = ASCS_ERROR_CODE_INVALID_ASE_DIRECTION := by rw [he]
  refine ⟨hcode, by rw [he], ?_⟩
  obtain ⟨rest, ups, t1, t2, t3⟩ := write_callback_trace U srv con_handle ci c buffer hfind hc hacc
  refine ⟨rest, ups, t1, t2, ?_⟩
  rw [t3]
  exact expected_upcall_ase_ids_eq_without _ _ _ _ _ (by rw [hcode]; decide)

/-- C3 (witness). Receiver Start Ready for the Sink ASE 1 in Enabling. -/
theorem acp_write_receiver_ready_direction_witness :
    ascs_server_get_remote_client_for_con_handle
        (example_server 2 ASCS_STATE_ENABLING ASCS_STATE_ENABLING) 64 = some 0
      ∧ (example_server 2 ASCS_STATE_ENABLING ASCS_STATE_ENABLING).client 0
          = some (example_connection 64 ASCS_STATE_ENABLING ASCS_STATE_ENABLING)
      ∧ accepted_frame (example_server 2 ASCS_STATE_ENABLING ASCS_STATE_ENABLING) [4, 1, 1]
      ∧ ((example_server 2 ASCS_STATE_ENABLING ASCS_STATE_ENABLING).chr 0).role
          = LE_AUDIO_ROLE_SINK
      ∧ (((ascs_server_write_callback example_util
            (example_server 2 ASCS_STATE_ENABLING ASCS_STATE_ENABLING) 64 20
            [4, 1, 1]).slot 0).resp 0).response_code = ASCS_ERROR_CODE_INVALID_ASE_DIRECTION
      ∧ (((ascs_server_write_callback example_util
            (example_server 2 ASCS_STATE_ENABLING ASCS_STATE_ENABLING) 64 20
            [4, 1, 1]).slot 0).resp 0).reason = ASCS_REJECT_REASON_NONE :=
  have hacc : accepted_frame (example_server 2 ASCS_STATE_ENABLING ASCS_STATE_ENABLING)
      [4, 1, 1] := ⟨by decide, by decide, by decide, by decide, by decide⟩
  have h := (acp_write_receiver_ready_direction example_util
    (example_server 2 ASCS_STATE_ENABLING ASCS_STATE_ENABLING) 64 0
    (example_connection 64 ASCS_STATE_ENABLING ASCS_STATE_ENABLING) [4, 1, 1] 0 0
    (by decide) (by decide) hacc (by decide) (Or.inl (by decide)) (by decide)
    (by decide)).1 (by decide)
  ⟨by decide, by decide, hacc, by decide, h.1, h.2.1⟩

theorem two_le_sub_request_offset (opcode : ascs_opcode_t) (buffer : List Nat) (n : Nat) :
    2 ≤ sub_request_offset opcode buffer n := by
  rw [sub_request_offset_iterate]
  exact le_iterate_offset opcode buffer n 2

/-- A write with one of the nine opcodes, a number of ASEs between 1 and the number of
registered ASEs, and a body that is the concatenation of that many sub-requests passes
the framing checks of the code. -/
theorem accepted_frame_of_layout (srv : ascs_server_t) (buffer : List Nat)
    (hop : (ascs_opcode_of_byte (buffer.getD 0 0)).defined = true)
    (hn : 1 ≤ buffer.getD 1 0 ∧ buffer.getD 1 0 ≤ srv.ascs_streamendpoint_chr_num)
    (hlen : sub_request_offset (ascs_opcode_of_byte (buffer.getD 0 0)) buffer (buffer.getD 1 0)
      = buffer.length) :
    accepted_frame srv buffer := by
  have h2 : 2 ≤ buffer.length := by
    rw [← hlen]; exact two_le_sub_request_offset _ _ _
  refine ⟨h2, by omega, hn.2, ?_, hop⟩
  by_cases hrel : ascs_opcode_of_byte (buffer.getD 0 0) = ASCS_OPCODE_RELEASED
  · rw [hrel]; rfl
  · exact (has_valid_length_iff_offset _ hop hrel buffer h2 _).mpr hlen

/-- C6. For every ACP write on an attached connection with one of the nine opcodes, a
number of ASEs between 1 and the number of registered ASEs and a body that is the
concatenation of that many sub-requests: what the write adds to the trace is the call of
`ascs_server_schedule_task` for the control point response, possibly the registration of
the can-send-now callback, and then exactly one event for each sub-request whose response
code is success, in the order of the sub-requests and carrying the ase_id byte of that
sub-request, and no event for any other sub-request; every stream endpoint keeps all its
fields but the client-initiated flag, and that flag is set afterwards exactly on the
stream endpoints that had it set before or are named by a success entry. -/
theorem acp_write_upcalls (U : ascs_util_t) (srv : ascs_server_t)
    (con_handle ci : Nat) (c : ascs_server_connection_t) (buffer : List Nat)
    (hfind : ascs_server_get_remote_client_for_con_handle srv con_handle = some ci)
    (hc : srv.client ci = some c)
    (hop : (ascs_opcode_of_byte (buffer.getD 0 0)).defined = true)
    (hn : 1 ≤ buffer.getD 1 0 ∧ buffer.getD 1 0 ≤ srv.ascs_streamendpoint_chr_num)
    (hlen : sub_request_offset (ascs_opcode_of_byte (buffer.getD 0 0)) buffer (buffer.getD 1 0)
      = buffer.length) :
    (∃ rest ups,
        (ascs_server_write_callback U srv con_handle srv.ascs_ase_control_point_handle
            buffer).trace
          = srv.trace
            ++ schedule_task con_handle ASCS_TASK_SEND_CONTROL_POINT_OPERATION_RESPONSE
              :: (rest ++ ups)
        ∧ (rest = [] ∨ rest = [att_server_register_can_send_now_callback con_handle])
        ∧ ups.map ascs_effect_t.upcall_ase_id
          = (List.range (buffer.getD 1 0)).flatMap (fun i =>
              if (((ascs_server_write_callback U srv con_handle
                  srv.ascs_ase_control_point_handle buffer).slot ci).resp i).response_code
                  = ASCS_ERROR_CODE_SUCCESS then
                [some (sub_request_ase_id (ascs_opcode_of_byte (buffer.getD 0 0)) buffer i)]
              else []))
      ∧ (∀ k, same_but_initiated (c.ase k)
          (((ascs_server_write_callback U srv con_handle srv.ascs_ase_control_point_handle
            buffer).slot ci).ase k))
      ∧ (∀ k, k < c.streamendpoints.length →
          ((((ascs_server_write_callback U srv con_handle srv.ascs_ase_control_point_handle
              buffer).slot ci).ase k).ase_characteristic_value_change_initiated_by_client
              = true
            ↔ (c.ase k).ase_characteristic_value_change_initiated_by_client = true
              ∨ ∃ i, i < buffer.getD 1 0
                ∧ (((ascs_server_write_callback U srv con_handle
                    srv.ascs_ase_control_point_handle buffer).slot ci).resp i).response_code
                  = ASCS_ERROR_CODE_SUCCESS
                ∧ ascs_server_get_streamendpoint_for_ase_id srv
                    (((ascs_server_write_callback U srv con_handle
                      srv.ascs_ase_control_point_handle buffer).slot ci).resp i).ase_id
                  = some k)) := by
  have hacc := accepted_frame_of_layout srv buffer hop hn hlen
  obtain ⟨-, hlive, hslot, -, -⟩ :=
    write_callback_attached U srv con_handle ci c buffer hfind hc (by have := hacc.1; omega)
  refine ⟨write_callback_trace U srv con_handle ci c buffer hfind hc hacc, ?_, ?_⟩
  · rw [hslot]
    exact (control_point_write_accepted U srv c con_handle buffer hlive hacc).2.2.2.2.2.2.2.2.1
  · rw [hslot]
    exact (control_point_write_accepted U srv c con_handle buffer hlive hacc).2.2.2.2.2.2.2.2.2.1

/-- C6 (witness). A Release write for the Sink ASE 1, which is Idle, and the Source ASE
2, which is in Disabling: one event, for ASE 2, after the call of the scheduler. -/
theorem acp_write_upcalls_witness :
    ascs_server_get_remote_client_for_con_handle
        (example_server 2 ASCS_STATE_IDLE ASCS_STATE_DISABLING) 64 = some 0
      ∧ (example_server 2 ASCS_STATE_IDLE ASCS_STATE_DISABLING).client 0
          = some (example_connection 64 ASCS_STATE_IDLE ASCS_STATE_DISABLING)
      ∧ sub_request_offset (ascs_opcode_of_byte 8) [8, 2, 1, 2] 2 = 4
      ∧ (∃ rest ups,
          (ascs_server_write_callback example_util
              (example_server 2 ASCS_STATE_IDLE ASCS_STATE_DISABLING) 64 20 [8, 2, 1, 2]).trace
            = (example_server 2 ASCS_STATE_IDLE ASCS_STATE_DISABLING).trace
              ++ schedule_task 64 ASCS_TASK_SEND_CONTROL_POINT_OPERATION_RESPONSE
                :: (rest ++ ups)
          ∧ (rest = [] ∨ rest = [att_server_register_can_send_now_callback 64])
          ∧ ups.map ascs_effect_t.upcall_ase_id
            = (List.range 2).flatMap (fun i =>
                if (((ascs_server_write_callback example_util
                    (example_server 2 ASCS_STATE_IDLE ASCS_STATE_DISABLING) 64 20
                    [8, 2, 1, 2]).slot 0).resp i).response_code = ASCS_ERROR_CODE_SUCCESS then
                  [some (sub_request_ase_id (ascs_opcode_of_byte 8) [8, 2, 1, 2] i)]
                else []))
      ∧ (ascs_server_write_callback example_util
            (example_server 2 ASCS_STATE_IDLE ASCS_STATE_DISABLING) 64 20 [8, 2, 1, 2]).trace
          = [schedule_task 64 ASCS_TASK_SEND_CONTROL_POINT_OPERATION_RESPONSE,
              att_server_register_can_send_now_callback 64,
              emit_client_request 64 2 GATTSERVICE_SUBEVENT_ASCS_SERVER_RELEASE] :=
  ⟨by decide, by decide, by decide,
    (acp_write_upcalls example_util (example_server 2 ASCS_STATE_IDLE ASCS_STATE_DISABLING)
      64 0 (example_connection 64 ASCS_STATE_IDLE ASCS_STATE_DISABLING) [8, 2, 1, 2]
      (by decide) (by decide) (by decide) (by decide) (by decide)).1,
    by decide⟩

/-! ## Apply entry points and the states of an ASE -/

theorem can_transit_mem_table (s : ascs_state_t) (d : le_audio_role_t) (o : ascs_opcode_t)
    (t : ascs_state_t)
    (h : ascs_server_streamendpoint_can_transit_to_state s d o t = true) :
    o.defined = true ∧ t ∈ transition_table s o d := by
  revert h
  cases s <;> cases o <;> cases d <;> cases t <;> decide

theorem state_set_ase (c : ascs_server_connection_t) (k j : Nat) (e : ascs_streamendpoint_t)
    (h : e.state = (c.ase k).state) : ((c.set_ase k e).ase j).state = (c.ase j).state := by
  rw [ase_set_ase]
  split
  · rename_i hjk; rw [hjk.1]; exact h
  · rfl

theorem schedule_task_state (srv : ascs_server_t) (c : ascs_server_connection_t) (task : Nat)
    (hlive : c.con_handle ≠ HCI_CON_HANDLE_INVALID) (j : Nat) :
    (ascs_server_schedule_task srv c task).1.ase j = c.ase j := by
  rw [(schedule_task_live_frame srv c task hlive).1]
  rfl

theorem schedule_value_changed_task_state (srv : ascs_server_t)
    (client : ascs_server_connection_t) (k : Nat)
    (hlive : client.con_handle ≠ HCI_CON_HANDLE_INVALID) (j : Nat) :
    ((ascs_server_streamendpoint_schedule_value_changed_task srv client k).1.ase j).state
      = (client.ase j).state := by
  unfold ascs_server_streamendpoint_schedule_value_changed_task
  repeat' split
  all_goals first
    | rfl
    | (rw [schedule_task_state srv _ _ (by exact hlive)]
       exact state_set_ase client k j _ rfl)

theorem schedule_value_changed_task_con_handle (srv : ascs_server_t)
    (client : ascs_server_connection_t) (k : Nat)
    (hlive : client.con_handle ≠ HCI_CON_HANDLE_INVALID) :
    (ascs_server_streamendpoint_schedule_value_changed_task srv client k).1.con_handle
      = client.con_handle := by
  unfold ascs_server_streamendpoint_schedule_value_changed_task
  repeat' split
  all_goals first
    | rfl
    | (rw [(schedule_task_live_frame srv _ _ (by exact hlive)).1]
       rfl)

theorem ase_state_commit (srv : ascs_server_t) (ci : Nat)
    (r : ascs_server_connection_t × List ascs_effect_t) (c : ascs_server_connection_t)
    (hc : srv.client ci = some c) (cj k : Nat) :
    (srv.commit ci r).ase_state cj k
      = if cj = ci then (r.1.ase k).state else srv.ase_state cj k := by
  unfold ascs_server_t.ase_state
  by_cases h : cj = ci
  · subst h
    rw [client_commit_self srv cj r c hc, if_pos rfl]
  · rw [client_commit_ne srv ci cj r h, if_neg h]

theorem ase_state_of_client (srv : ascs_server_t) (ci k : Nat) (c : ascs_server_connection_t)
    (hc : srv.client ci = some c) : srv.ase_state ci k = (c.ase k).state := by
  unfold ascs_server_t.ase_state
  rw [hc]

/-- After a successful `ascs_server_streamendpoint_transit_to_state` every stream
endpoint of the client it returns is in its old state or went along an edge of the
table. -/
theorem transit_to_state_some (srv : ascs_server_t) (con_handle ase_id : Nat)
    (opcode : ascs_opcode_t) (target_state : ascs_state_t) (ci k : Nat)
    (client2 : ascs_server_connection_t)
    (h : ascs_server_streamendpoint_transit_to_state srv con_handle ase_id opcode target_state
      = some (ci, k, client2)) :
    ∃ client, srv.client ci = some client
      ∧ client.con_handle ≠ HCI_CON_HANDLE_INVALID
      ∧ client2.con_handle = client.con_handle
      ∧ ascs_server_get_remote_client_for_con_handle srv con_handle = some ci
      ∧ ascs_server_get_streamendpoint_for_ase_id srv ase_id = some k
      ∧ ascs_server_streamendpoint_can_transit_to_state (client.ase k).state (srv.chr k).role
          opcode target_state = true
      ∧ client2 = client.set_ase k { (client.ase k) with state := target_state } := by
  unfold ascs_server_streamendpoint_transit_to_state at h
  split at h
  · exact Option.noConfusion h
  · rename_i ci2 hfind
    split at h
    · exact Option.noConfusion h
    · rename_i client hcl
      split at h
      · exact Option.noConfusion h
      · rename_i k2 hk
        split at h
        · exact Option.noConfusion h
        · rename_i hT
          have hT2 : ascs_server_streamendpoint_can_transit_to_state (client.ase k2).state
              (srv.chr k2).role opcode target_state = true := by
            by_contra hne; exact hT hne
          have heq := Option.some.inj h
          simp only [Prod.mk.injEq] at heq
          obtain ⟨rfl, rfl, rfl⟩ := heq
          obtain ⟨hv, c2, hc2, hh⟩ := get_remote_client_some srv con_handle _ hfind
          have hcc : c2 = client := Option.some.inj (hc2.symm.trans hcl)
          subst hcc
          exact ⟨c2, hcl, by rw [hh]; exact hv, rfl, hfind, hk, hT2, rfl⟩

/-- Storing back a client whose stream endpoints are in the states of the old client,
except that stream endpoint `k` went to a target the state machine admits, moves every
ASE of the server by at most one edge of the table. -/
theorem commit_transition_state (srv : ascs_server_t) (ci k : Nat)
    (client : ascs_server_connection_t) (opcode : ascs_opcode_t) (target_state : ascs_state_t)
    (r : ascs_server_connection_t × List ascs_effect_t)
    (hc : srv.client ci = some client)
    (hT : ascs_server_streamendpoint_can_transit_to_state (client.ase k).state (srv.chr k).role
      opcode target_state = true)
    (hr : ∀ j, (r.1.ase j).state
      = ((client.set_ase k { (client.ase k) with state := target_state }).ase j).state)
    (cj kk : Nat) :
    (srv.commit ci r).ase_state cj kk = srv.ase_state cj kk
      ∨ (srv.commit ci r).ase_state cj kk
        ∈ transition_table (srv.ase_state cj kk) opcode (srv.chr kk).role := by
  rw [ase_state_commit srv ci r client hc]
  by_cases hcj : cj = ci
  · subst hcj
    rw [if_pos rfl, hr kk, ase_set_ase, ase_state_of_client srv cj kk client hc]
    split
    · rename_i hk
      obtain ⟨rfl, -⟩ := hk
      exact Or.inr (can_transit_mem_table _ _ _ _ hT).2
    · exact Or.inl rfl
  · rw [if_neg hcj]
    exact Or.inl rfl

/-- The shape shared by the entry points that go through
`ascs_server_streamendpoint_transit_to_state`: after the transition they may store a
configuration in the stream endpoint (the function `g`) and then schedule the
value-changed task. -/
theorem transit_then_schedule_state (srv : ascs_server_t) (con_handle ase_id : Nat)
    (opcode : ascs_opcode_t) (target_state : ascs_state_t)
    (g : Nat → ascs_server_connection_t → ascs_server_connection_t)
    (hg : ∀ k c j, ((g k c).ase j).state = (c.ase j).state)
    (hgh : ∀ k c, (g k c).con_handle = c.con_handle) (cj kk : Nat) :
    (match ascs_server_streamendpoint_transit_to_state srv con_handle ase_id opcode
        target_state with
      | none => srv
      | some (ci, k, client) =>
        srv.commit ci (ascs_server_streamendpoint_schedule_value_changed_task srv
          (g k client) k)).ase_state cj kk = srv.ase_state cj kk
      ∨ (match ascs_server_streamendpoint_transit_to_state srv con_handle ase_id opcode
          target_state with
        | none => srv
        | some (ci, k, client) =>
          srv.commit ci (ascs_server_streamendpoint_schedule_value_changed_task srv
            (g k client) k)).ase_state cj kk
        ∈ transition_table (srv.ase_state cj kk) opcode (srv.chr kk).role := by
  cases h : ascs_server_streamendpoint_transit_to_state srv con_handle ase_id opcode
    target_state with
  | none => exact Or.inl rfl
  | some x =>
    obtain ⟨ci, k, client2⟩ := x
    obtain ⟨client, hc, hlive, hh, -, -, hT, hset⟩ :=
      transit_to_state_some srv con_handle ase_id opcode target_state ci k client2 h
    apply commit_transition_state srv ci k client opcode target_state _ hc hT
    intro j
    rw [schedule_value_changed_task_state srv _ k (by rw [hgh, hh]; exact hlive) j,
      hg k client2 j, hset]

theorem disable_state (srv : ascs_server_t) (con_handle ase_id : Nat) (cj kk : Nat) :
    (audio_stream_control_service_server_streamendpoint_disable srv con_handle
        ase_id).ase_state cj kk = srv.ase_state cj kk
      ∨ (audio_stream_control_service_server_streamendpoint_disable srv con_handle
          ase_id).ase_state cj kk
        ∈ transition_table (srv.ase_state cj kk) ASCS_OPCODE_DISABLE (srv.chr kk).role := by
  unfold audio_stream_control_service_server_streamendpoint_disable
  cases hfind : ascs_server_get_remote_client_for_con_handle srv con_handle with
  | none => exact Or.inl rfl
  | some ci =>
    obtain ⟨hv, client, hc, hh⟩ := get_remote_client_some srv con_handle ci hfind
    simp only [hc]
    cases hk : ascs_server_get_streamendpoint_for_ase_id srv ase_id with
    | none => exact Or.inl rfl
    | some k =>
      dsimp only
      generalize (if (srv.chr k).role = LE_AUDIO_ROLE_SOURCE then ASCS_STATE_DISABLING
        else ASCS_STATE_QOS_CONFIGURED) = tgt
      split
      · exact Or.inl rfl
      · rename_i hT
        have hT2 : ascs_server_streamendpoint_can_transit_to_state (client.ase k).state
            (srv.chr k).role ASCS_OPCODE_DISABLE tgt = true := by
          by_contra hne; exact hT hne
        apply commit_transition_state srv ci k client ASCS_OPCODE_DISABLE _ _ hc hT2
        intro j
        rw [schedule_value_changed_task_state srv _ k (by rw [← hh] at hv; exact hv) j]

theorem metadata_update_state (srv : ascs_server_t) (con_handle ase_id : Nat)
    (m : le_audio_metadata_t) (cj kk : Nat) :
    (audio_stream_control_service_server_streamendpoint_metadata_update srv con_handle
        ase_id m).ase_state cj kk = srv.ase_state cj kk := by
  unfold audio_stream_control_service_server_streamendpoint_metadata_update
  cases hfind : ascs_server_get_remote_client_for_con_handle srv con_handle with
  | none => rfl
  | some ci =>
    obtain ⟨hv, client, hc, hh⟩ := get_remote_client_some srv con_handle ci hfind
    have hlive : client.con_handle ≠ HCI_CON_HANDLE_INVALID := by rw [hh]; exact hv
    simp only [hc]
    cases hk : ascs_server_get_streamendpoint_for_ase_id srv ase_id with
    | none => rfl
    | some k =>
      dsimp only
      split
      all_goals first
        | rfl
        | (rw [ase_state_commit srv ci _ client hc]
           split
           · rename_i hcj
             subst hcj
             rw [schedule_value_changed_task_state srv _ k
               (by rw [schedule_value_changed_task_con_handle srv _ k (by exact hlive)]
                   exact hlive) kk,
               schedule_value_changed_task_state srv _ k (by exact hlive) kk,
               state_set_ase client k kk { (client.ase k) with metadata := m } rfl,
               ase_state_of_client srv cj kk client hc]
           · rfl)

/-- Every apply entry point moves every ASE of the server by at most one edge of the
table of section 4.3, under the opcode of the entry point. -/
theorem apply_run_state (a : ascs_apply_t) (srv : ascs_server_t) (con_handle ase_id : Nat)
    (cj kk : Nat) :
    (a.run srv con_handle ase_id).ase_state cj kk = srv.ase_state cj kk
      ∨ (a.run srv con_handle ase_id).ase_state cj kk
        ∈ transition_table (srv.ase_state cj kk) a.opcode (srv.chr kk).role := by
  cases a with
  | configure_codec x =>
    exact transit_then_schedule_state srv con_handle ase_id ASCS_OPCODE_CONFIG_CODEC
      ASCS_STATE_CODEC_CONFIGURED
      (fun k c => c.set_ase k { (c.ase k) with codec_configuration := x })
      (fun k c j => state_set_ase c k j _ rfl) (fun _ _ => rfl) cj kk
  | configure_qos x =>
    exact transit_then_schedule_state srv con_handle ase_id ASCS_OPCODE_CONFIG_QOS
      ASCS_STATE_QOS_CONFIGURED
      (fun k c => c.set_ase k { (c.ase k) with qos_configuration := x })
      (fun k c j => state_set_ase c k j _ rfl) (fun _ _ => rfl) cj kk
  | enable =>
    exact transit_then_schedule_state srv con_handle ase_id ASCS_OPCODE_ENABLE
      ASCS_STATE_ENABLING (fun _ c => c) (fun _ _ _ => rfl) (fun _ _ => rfl) cj kk
  | receiver_start_ready =>
    exact transit_then_schedule_state srv con_handle ase_id ASCS_OPCODE_RECEIVER_START_READY
      ASCS_STATE_STREAMING (fun _ c => c) (fun _ _ _ => rfl) (fun _ _ => rfl) cj kk
  | receiver_stop_ready =>
    exact transit_then_schedule_state srv con_handle ase_id ASCS_OPCODE_RECEIVER_STOP_READY
      ASCS_STATE_QOS_CONFIGURED (fun _ c => c) (fun _ _ _ => rfl) (fun _ _ => rfl) cj kk
  | release =>
    exact transit_then_schedule_state srv con_handle ase_id ASCS_OPCODE_RELEASE
      ASCS_STATE_RELEASING (fun _ c => c) (fun _ _ _ => rfl) (fun _ _ => rfl) cj kk
  | released caching =>
    exact transit_then_schedule_state srv con_handle ase_id ASCS_OPCODE_RELEASED
      (if caching then ASCS_STATE_CODEC_CONFIGURED else ASCS_STATE_IDLE)
      (fun _ c => c) (fun _ _ _ => rfl) (fun _ _ => rfl) cj kk
  | disable => exact disable_state srv con_handle ase_id cj kk
  | metadata_update m => exact Or.inl (metadata_update_state srv con_handle ase_id m cj kk)

theorem apply_run_chr (a : ascs_apply_t) (srv : ascs_server_t) (con_handle ase_id k : Nat) :
    (a.run srv con_handle ase_id).chr k = srv.chr k := by
  cases a
  all_goals
    simp only [ascs_apply_t.run,
      audio_stream_control_service_server_streamendpoint_configure_codec,
      audio_stream_control_service_server_streamendpoint_configure_qos,
      audio_stream_control_service_server_streamendpoint_enable,
      audio_stream_control_service_server_streamendpoint_receiver_start_ready,
      audio_stream_control_service_server_streamendpoint_disable,
      audio_stream_control_service_server_streamendpoint_receiver_stop_ready,
      audio_stream_control_service_server_streamendpoint_release,
      audio_stream_control_service_server_streamendpoint_released,
      audio_stream_control_service_server_streamendpoint_metadata_update]
    repeat' split
    all_goals rfl

/-- A write to the control point changes the state of no ASE and keeps the control
point handle and the characteristics. -/
theorem write_callback_control_point_state (U : ascs_util_t) (srv : ascs_server_t)
    (con_handle : Nat) (buffer : List Nat) (cj kk : Nat) :
    (ascs_server_write_callback U srv con_handle srv.ascs_ase_control_point_handle
        buffer).ase_state cj kk = srv.ase_state cj kk
      ∧ (ascs_server_write_callback U srv con_handle srv.ascs_ase_control_point_handle
          buffer).chr kk = srv.chr kk
      ∧ (ascs_server_write_callback U srv con_handle srv.ascs_ase_control_point_handle
          buffer).ascs_ase_control_point_handle = srv.ascs_ase_control_point_handle := by
  by_cases hne : 1 ≤ buffer.length
  · cases hfind : ascs_server_get_remote_client_for_con_handle srv con_handle with
    | none =>
      simp [ascs_server_write_callback, hfind]
    | some ci =>
      obtain ⟨hv, c, hc, hh⟩ := get_remote_client_some srv con_handle ci hfind
      have hlive : c.con_handle ≠ HCI_CON_HANDLE_INVALID := by rw [hh]; exact hv
      rw [write_callback_control_point U srv con_handle ci buffer c hfind hc hne]
      refine ⟨?_, rfl, rfl⟩
      rw [ase_state_commit srv ci _ c hc]
      split
      · rename_i hcj
        subst hcj
        rw [ase_state_of_client srv cj kk c hc]
        by_cases hacc : accepted_frame srv buffer
        · have h := (control_point_write_accepted U srv c con_handle buffer hlive
            hacc).2.2.2.2.2.2.2.2.1 kk
          unfold same_but_initiated at h
          rw [h]
        · rw [(control_point_write_rejected U srv c con_handle buffer hlive hacc).1]
          rfl
      · rfl
  · simp [ascs_server_write_callback, Nat.lt_of_not_le hne]

theorem step_exec_chr (U : ascs_util_t) (srv : ascs_server_t) (step : ascs_step_t) (k : Nat) :
    (step.exec U srv).chr k = srv.chr k := by
  cases step with
  | apply a con_handle ase_id => exact apply_run_chr a srv con_handle ase_id k
  | control_point_write con_handle buffer =>
    exact (write_callback_control_point_state U srv con_handle buffer 0 k).2.1

theorem apply_opcode_defined (a : ascs_apply_t) : a.opcode.defined = true := by
  cases a <;> rfl

theorem step_exec_hop (U : ascs_util_t) (srv : ascs_server_t) (step : ascs_step_t)
    (ci k : Nat) :
    table_hop (srv.chr k).role (srv.ase_state ci k) ((step.exec U srv).ase_state ci k) := by
  cases step with
  | apply a con_handle ase_id =>
    rcases apply_run_state a srv con_handle ase_id ci k with h | h
    · exact Or.inl h.symm
    · exact Or.inr ⟨a.opcode, apply_opcode_defined a, h⟩
  | control_point_write con_handle buffer =>
    exact Or.inl (write_callback_control_point_state U srv con_handle buffer ci k).1.symm

theorem observed_states_head (U : ascs_util_t) (ci k : Nat) (srv : ascs_server_t)
    (steps : List ascs_step_t) :
    (observed_states U ci k srv steps).head? = some (srv.ase_state ci k) := by
  cases steps <;> rfl

theorem observed_states_chain (U : ascs_util_t) (ci k : Nat) (d : le_audio_role_t)
    (steps : List ascs_step_t) (srv : ascs_server_t) (hd : (srv.chr k).role = d) :
    List.Chain' (table_hop d) (observed_states U ci k srv steps) := by
  induction steps generalizing srv with
  | nil => exact List.chain'_singleton _
  | cons step steps ih =>
    unfold observed_states
    rw [List.chain'_cons']
    refine ⟨?_, ih (step.exec U srv) (by rw [step_exec_chr]; exact hd)⟩
    intro y hy
    rw [observed_states_head] at hy
    have hy2 : y = (step.exec U srv).ase_state ci k := (Option.some.inj hy).symm
    rw [hy2, ← hd]
    exact step_exec_hop U srv step ci k

/-- C4. For every one of the nine apply entry points and every server state, the state
of each ASE after the call equals its state before the call or is a target the table of
section 4.3 gives for the state before, the opcode of the entry point and the direction
of the ASE; a write to the ASE control point changes the state of no ASE. Hence in every
run of apply calls and control point writes the states an ASE goes through form a path
in the table. -/
theorem ase_states_follow_table (U : ascs_util_t) (srv : ascs_server_t) (ci k : Nat) :
    (∀ (a : ascs_apply_t) (con_handle ase_id : Nat),
        (a.run srv con_handle ase_id).ase_state ci k = srv.ase_state ci k
          ∨ (a.run srv con_handle ase_id).ase_state ci k
            ∈ transition_table (srv.ase_state ci k) a.opcode (srv.chr k).role)
      ∧ (∀ (con_handle : Nat) (buffer : List Nat),
          (ascs_server_write_callback U srv con_handle srv.ascs_ase_control_point_handle
            buffer).ase_state ci k = srv.ase_state ci k)
      ∧ (∀ steps : List ascs_step_t,
          List.Chain' (table_hop (srv.chr k).role) (observed_states U ci k srv steps)) :=
  ⟨fun a con_handle ase_id => apply_run_state a srv con_handle ase_id ci k,
    fun con_handle buffer =>
      (write_callback_control_point_state U srv con_handle buffer ci k).1,
    fun steps => observed_states_chain U ci k _ steps srv rfl⟩

/-! ## The cursor of the first read -/

set_option maxRecDepth 100000 in
/-- C5 (the code at the failing input). A Config Codec write of 270 bytes for the ASEs 1
and 2 whose body is the concatenation of two sub-requests, the second of which starts at
offset 261 with ase_id 2: the number of ASEs of the response is 2, but the second entry
carries the byte at offset 5 (the coding format 6 of the first sub-request) as its
ase_id and the code for an invalid ASE id, because the cursor of the first read is
reduced modulo 256. -/
theorem acp_write_long_config_codec :
    long_config_codec_write.length = 270
      ∧ ascs_opcode_of_byte (long_config_codec_write.getD 0 0) = ASCS_OPCODE_CONFIG_CODEC
      ∧ long_config_codec_write.getD 1 0 = 2
      ∧ sub_request_offset ASCS_OPCODE_CONFIG_CODEC long_config_codec_write 1 = 261
      ∧ sub_request_offset ASCS_OPCODE_CONFIG_CODEC long_config_codec_write 2 = 270
      ∧ sub_request_ase_id ASCS_OPCODE_CONFIG_CODEC long_config_codec_write 1 = 2
      ∧ ((ascs_server_write_callback example_util
            (example_server 2 ASCS_STATE_IDLE ASCS_STATE_IDLE) 64 20
            long_config_codec_write).slot 0).response_ases_num = 2
      ∧ ((ascs_server_write_callback example_util
            (example_server 2 ASCS_STATE_IDLE ASCS_STATE_IDLE) 64 20
            long_config_codec_write).slot 0).resp 1
          = ⟨6, ASCS_ERROR_CODE_INVALID_ASE_ID, ASCS_REJECT_REASON_NONE⟩ := by
  decide

/-! ## Short writes: the 8-bit cursor does not wrap -/

theorem sub_request_size_pos (opcode : ascs_opcode_t) (buffer : List Nat) (off : Nat) :
    1 ≤ sub_request_size opcode buffer off := by
  cases opcode <;> simp only [sub_request_size] <;> omega

theorem sub_request_offset_add_le (opcode : ascs_opcode_t) (buffer : List Nat) (i d : Nat) :
    sub_request_offset opcode buffer i + d ≤ sub_request_offset opcode buffer (i + d) := by
  induction d with
  | zero => exact Nat.le_refl _
  | succ d ih =>
    have h := sub_request_size_pos opcode buffer (sub_request_offset opcode buffer (i + d))
    have e : sub_request_offset opcode buffer (i + (d + 1))
        = sub_request_offset opcode buffer (i + d)
          + sub_request_size opcode buffer (sub_request_offset opcode buffer (i + d)) := rfl
    omega

theorem first_read_body_pos (U : ascs_util_t) (srv : ascs_server_t) (opcode : ascs_opcode_t)
    (hop : opcode.defined = true) (buffer : List Nat) (i : Nat) (s : first_read_t)
    (h : s.pos + 1 < 256) :
    (first_read_body U srv opcode buffer i s).pos
      = (s.pos + sub_request_size opcode buffer s.pos) % 256 := by
  have h1 : (s.pos + 1) % 256 = s.pos + 1 := Nat.mod_eq_of_lt h
  unfold first_read_body
  cases opcode <;> first | exact absurd hop (by decide) | skip
  all_goals
    simp only [h1, sub_request_size, ascs_util_codec_configuration_request_parse,
      ascs_util_qos_configuration_parse, le_audio_util_metadata_parse, getD_drop,
      Nat.add_assoc]
  all_goals first | rfl | (congr 1; omega) | (rw [Nat.mod_eq_of_lt h]) | (congr 1; norm_num; omega)

/-- On a write of at most 256 bytes whose body is the concatenation of the announced
sub-requests, the 8-bit cursor of the first read is at the offset of sub-request `i`
when it reads the ase_id of that sub-request. -/
theorem first_read_at_pos (U : ascs_util_t) (srv : ascs_server_t)
    (c : ascs_server_connection_t) (buffer : List Nat)
    (hop : (ascs_opcode_of_byte (buffer.getD 0 0)).defined = true)
    (hlen : sub_request_offset (ascs_opcode_of_byte (buffer.getD 0 0)) buffer (buffer.getD 1 0)
      = buffer.length)
    (hshort : buffer.length ≤ 256) (i : Nat) (hi : i < buffer.getD 1 0) :
    (first_read_at U srv c buffer i).pos
      = sub_request_offset (ascs_opcode_of_byte (buffer.getD 0 0)) buffer i := by
  induction i with
  | zero => rfl
  | succ i ih =>
    have hprev := ih (by omega)
    have hmono := sub_request_offset_add_le (ascs_opcode_of_byte (buffer.getD 0 0)) buffer
      (i + 1) (buffer.getD 1 0 - (i + 1))
    have hn : i + 1 + (buffer.getD 1 0 - (i + 1)) = buffer.getD 1 0 := by omega
    rw [hn, hlen] at hmono
    have hstep : sub_request_offset (ascs_opcode_of_byte (buffer.getD 0 0)) buffer (i + 1)
        = sub_request_offset (ascs_opcode_of_byte (buffer.getD 0 0)) buffer i
          + sub_request_size (ascs_opcode_of_byte (buffer.getD 0 0)) buffer
              (sub_request_offset (ascs_opcode_of_byte (buffer.getD 0 0)) buffer i) := rfl
    have hsz := sub_request_size_pos (ascs_opcode_of_byte (buffer.getD 0 0)) buffer
      (sub_request_offset (ascs_opcode_of_byte (buffer.getD 0 0)) buffer i)
    unfold first_read_at
    rw [for_loop_succ]
    change (first_read_body U srv _ buffer i (first_read_at U srv c buffer i)).pos = _
    rw [first_read_body_pos U srv _ hop buffer i _ (by rw [hprev]; omega), hprev, ← hstep]
    exact Nat.mod_eq_of_lt (by omega)

/-- On a write of at most 256 bytes that passes the framing checks with a body that is
the concatenation of the announced sub-requests, the number of ASEs of the response is
the one of the write and entry `i` of the response carries the ase_id byte of
sub-request `i`. -/
theorem acp_write_short_response_ase_ids (U : ascs_util_t) (srv : ascs_server_t)
    (con_handle ci : Nat) (c : ascs_server_connection_t) (buffer : List Nat)
    (hfind : ascs_server_get_remote_client_for_con_handle srv con_handle = some ci)
    (hc : srv.client ci = some c)
    (hop : (ascs_opcode_of_byte (buffer.getD 0 0)).defined = true)
    (hn : 1 ≤ buffer.getD 1 0 ∧ buffer.getD 1 0 ≤ srv.ascs_streamendpoint_chr_num)
    (hlen : sub_request_offset (ascs_opcode_of_byte (buffer.getD 0 0)) buffer (buffer.getD 1 0)
      = buffer.length)
    (hcap : srv.ascs_streamendpoint_chr_num ≤ c.response.length)
    (hshort : buffer.length ≤ 256) :
    ((ascs_server_write_callback U srv con_handle srv.ascs_ase_control_point_handle
        buffer).slot ci).response_ases_num = buffer.getD 1 0
      ∧ ∀ i, i < buffer.getD 1 0 →
          (((ascs_server_write_callback U srv con_handle srv.ascs_ase_control_point_handle
            buffer).slot ci).resp i).ase_id
            = sub_request_ase_id (ascs_opcode_of_byte (buffer.getD 0 0)) buffer i := by
  have hacc := accepted_frame_of_layout srv buffer hop hn hlen
  obtain ⟨-, hlive, hslot, -, -⟩ :=
    write_callback_attached U srv con_handle ci c buffer hfind hc (by have := hacc.1; omega)
  rw [hslot]
  refine ⟨(control_point_write_accepted U srv c con_handle buffer hlive hacc).2.2.2.1, ?_⟩
  intro i hi
  rw [control_point_write_entry U srv c con_handle buffer hlive hacc i hi]
  have hilen : i < (first_read_at U srv c buffer i).connection.response.length := by
    rw [(first_read_at_connection U srv c buffer i).2.1]; omega
  rw [first_read_body_entry_ase_id U srv _ buffer i _ hop hilen,
    first_read_at_pos U srv c buffer hop hlen hshort i hi]
  rfl

/-! ## Frame length: the body as a concatenation of sub-requests -/

theorem getD_append_left (s t : List Nat) (j d : Nat) (h : j < s.length) :
    (s ++ t).getD j d = s.getD j d := by
  simp only [List.getD_eq_getElem?_getD, List.getElem?_append_left h]

theorem is_concatenation_zero (fixed : Nat) (body : List Nat) :
    is_concatenation_of_sub_requests fixed 0 body ↔ body = [] := by
  constructor
  · rintro ⟨subs, hl, hf, -⟩
    have hnil : subs = [] := List.length_eq_zero.mp hl
    subst hnil
    exact hf.symm
  · rintro rfl
    exact ⟨[], rfl, rfl, by simp⟩

/-- One sub-request is split off the front of a concatenation. -/
theorem is_concatenation_succ (fixed n : Nat) (body : List Nat) :
    is_concatenation_of_sub_requests fixed (n + 1) body
      ↔ fixed + 1 + body.getD fixed 0 ≤ body.length
        ∧ is_concatenation_of_sub_requests fixed n
            (body.drop (fixed + 1 + body.getD fixed 0)) := by
  constructor
  · rintro ⟨subs, hl, hf, hs⟩
    match subs, hl, hf, hs with
    | s :: rest, hl, hf, hs =>
      have hlen := hs s (List.mem_cons_self _ _)
      rw [List.flatten_cons] at hf
      have hget : body.getD fixed 0 = s.getD fixed 0 := by
        rw [← hf]; exact getD_append_left s _ fixed 0 (by omega)
      have hbl : body.length = s.length + rest.flatten.length := by
        rw [← hf, List.length_append]
      refine ⟨by omega, rest, by simpa using hl, ?_, fun t ht => hs t (List.mem_cons_of_mem _ ht)⟩
      rw [hget, ← hlen, ← hf, List.drop_left]
  · rintro ⟨hle, subs, hl, hf, hs⟩
    refine ⟨body.take (fixed + 1 + body.getD fixed 0) :: subs, by simp [hl], ?_, ?_⟩
    · rw [List.flatten_cons, hf, List.take_append_drop]
    · intro s hsm
      rcases List.mem_cons.mp hsm with rfl | hsm
      · have hl2 : (body.take (fixed + 1 + body.getD fixed 0)).length
            = fixed + 1 + body.getD fixed 0 := by
          rw [List.length_take]; omega
        have hg : (body.take (fixed + 1 + body.getD fixed 0)).getD fixed 0
            = body.getD fixed 0 := by
          conv_rhs => rw [← List.take_append_drop (fixed + 1 + body.getD fixed 0) body]
          exact (getD_append_left _ _ fixed 0 (by omega)).symm
        rw [hl2, hg]
      · exact hs s hsm

theorem has_valid_length_config_codec_iff_concat (body : List Nat) (n pos : Nat)
    (hpos : pos ≤ body.length) :
    has_valid_length_config_codec body body.length n pos = true
      ↔ is_concatenation_of_sub_requests 8 n (body.drop pos) := by
  induction n generalizing pos with
  | zero =>
    rw [is_concatenation_zero, List.drop_eq_nil_iff]
    simp only [has_valid_length_config_codec, beq_iff_eq]
    omega
  | succ n ih =>
    rw [is_concatenation_succ, List.length_drop, getD_drop, List.drop_drop]
    unfold has_valid_length_config_codec
    by_cases h : body.length - pos < 9
    · simp only [h, if_true]
      constructor
      · intro hf; exact absurd hf (by decide)
      · rintro ⟨hle, -⟩; omega
    · simp only [h, if_false]
      by_cases h' : body.length - (pos + 8 + 1) < body.getD (pos + 8) 0
      · simp only [h', if_true]
        constructor
        · intro hf; exact absurd hf (by decide)
        · rintro ⟨hle, -⟩; omega
      · simp only [h', if_false]
        rw [ih _ (by omega)]
        have e : pos + 8 + 1 + body.getD (pos + 8) 0 = pos + (8 + 1 + body.getD (pos + 8) 0) := by
          omega
        rw [e]
        constructor
        · intro hc; exact ⟨by omega, hc⟩
        · rintro ⟨-, hc⟩; exact hc

theorem has_valid_length_metadata_iff_concat (body : List Nat) (n pos : Nat)
    (hpos : pos ≤ body.length) :
    has_valid_length_metadata body body.length n pos = true
      ↔ is_concatenation_of_sub_requests 1 n (body.drop pos) := by
  induction n generalizing pos with
  | zero =>
    rw [is_concatenation_zero, List.drop_eq_nil_iff]
    simp only [has_valid_length_metadata, beq_iff_eq]
    omega
  | succ n ih =>
    rw [is_concatenation_succ, List.length_drop, getD_drop, List.drop_drop]
    unfold has_valid_length_metadata
    by_cases h : body.length - pos < 2
    · simp only [h, if_true]
      constructor
      · intro hf; exact absurd hf (by decide)
      · rintro ⟨hle, -⟩; omega
    · simp only [h, if_false]
      by_cases h' : body.length - (pos + 1 + 1) < body.getD (pos + 1) 0
      · simp only [h', if_true]
        constructor
        · intro hf; exact absurd hf (by decide)
        · rintro ⟨hle, -⟩; omega
      · simp only [h', if_false]
        rw [ih _ (by omega)]
        have e : pos + 1 + 1 + body.getD (pos + 1) 0 = pos + (1 + 1 + body.getD (pos + 1) 0) := by
          omega
        rw [e]
        constructor
        · intro hc; exact ⟨by omega, hc⟩
        · rintro ⟨-, hc⟩; exact hc

/-! ## Claims on the frame length -/

/-- C11 (the code at the failing inputs). A Released write for one ASE whose body has
three bytes passes `ascs_server_control_point_operation_has_valid_length`: the response
keeps the number of ASEs 1, the sub-request is validated and, the Sink ASE 1 being in
Releasing, an event is raised for it; the same body under the opcode Release is answered
with the number of ASEs 0xFF. A Released write that announces two ASEs in a body of one
byte is accepted as well, and its first sub-request is validated. -/
theorem acp_write_released_length_unchecked :
    ascs_server_control_point_operation_has_valid_length ASCS_OPCODE_RELEASED 1 [1, 7, 7] 3
        = true
      ∧ ((ascs_server_write_callback example_util
            (example_server 2 ASCS_STATE_RELEASING ASCS_STATE_RELEASING) 64 20
            [9, 1, 1, 7, 7]).slot 0).response_ases_num = 1
      ∧ ((ascs_server_write_callback example_util
            (example_server 2 ASCS_STATE_RELEASING ASCS_STATE_RELEASING) 64 20
            [9, 1, 1, 7, 7]).slot 0).resp 0
          = ⟨1, ASCS_ERROR_CODE_SUCCESS, ASCS_REJECT_REASON_NONE⟩
      ∧ (ascs_server_write_callback example_util
            (example_server 2 ASCS_STATE_RELEASING ASCS_STATE_RELEASING) 64 20
            [9, 1, 1, 7, 7]).trace
          = [schedule_task 64 ASCS_TASK_SEND_CONTROL_POINT_OPERATION_RESPONSE,
              att_server_register_can_send_now_callback 64,
              emit_client_request 64 1 GATTSERVICE_SUBEVENT_ASCS_SERVER_RELEASED]
      ∧ ((ascs_server_write_callback example_util
            (example_server 2 ASCS_STATE_RELEASING ASCS_STATE_RELEASING) 64 20
            [8, 1, 1, 7, 7]).slot 0).response_ases_num = 0xFF
      ∧ ascs_server_control_point_operation_has_valid_length ASCS_OPCODE_RELEASED 2 [1] 1
          = true
      ∧ ((ascs_server_write_callback example_util
            (example_server 2 ASCS_STATE_RELEASING ASCS_STATE_RELEASING) 64 20
            [9, 2, 1]).slot 0).response_ases_num = 2
      ∧ ((ascs_server_write_callback example_util
            (example_server 2 ASCS_STATE_RELEASING ASCS_STATE_RELEASING) 64 20
            [9, 2, 1]).slot 0).resp 0
          = ⟨1, ASCS_ERROR_CODE_SUCCESS, ASCS_REJECT_REASON_NONE⟩ := by
  decide

/-- C12 (as amended). For the opcode Config Codec, every number of ASEs and every body,
`ascs_server_control_point_operation_has_valid_length` returns true exactly when the body
is the concatenation of that many sub-requests, each consisting of 8 fixed bytes (ase_id,
target latency, target phy and the five bytes of the codec id), then a one-byte
codec_cfg_len, then exactly codec_cfg_len bytes. On an attached connection and with a
number of ASEs between 1 and the number of registered ASEs, a Config Codec write with
such a body keeps the number of ASEs of the write in the response, and any other body
yields the number of ASEs 0xFF and the response value (opcode, 0xFF). -/
theorem acp_write_config_codec_length (U : ascs_util_t) (srv : ascs_server_t)
    (con_handle ci : Nat) (c : ascs_server_connection_t) (b n : Nat) (body : List Nat)
    (code_byte : ascs_error_code_t → Nat) (reason_byte : ascs_reject_reason_t → Nat)
    (hfind : ascs_server_get_remote_client_for_con_handle srv con_handle = some ci)
    (hc : srv.client ci = some c)
    (hb : ascs_opcode_of_byte b = ASCS_OPCODE_CONFIG_CODEC)
    (hn : 1 ≤ n ∧ n ≤ srv.ascs_streamendpoint_chr_num) :
    (ascs_server_control_point_operation_has_valid_length ASCS_OPCODE_CONFIG_CODEC n body
          body.length = true ↔ is_concatenation_of_sub_requests 8 n body)
      ∧ (is_concatenation_of_sub_requests 8 n body →
          ((ascs_server_write_callback U srv con_handle srv.ascs_ase_control_point_handle
            (b :: n :: body)).slot ci).response_ases_num = n)
      ∧ (¬ is_concatenation_of_sub_requests 8 n body →
          ((ascs_server_write_callback U srv con_handle srv.ascs_ase_control_point_handle
            (b :: n :: body)).slot ci).response_ases_num = 0xFF
          ∧ control_point_response_value code_byte reason_byte
              ((ascs_server_write_callback U srv con_handle srv.ascs_ase_control_point_handle
                (b :: n :: body)).slot ci) = [b, 0xFF]) := by
  have hiff : ascs_server_control_point_operation_has_valid_length ASCS_OPCODE_CONFIG_CODEC n
      body body.length = true ↔ is_concatenation_of_sub_requests 8 n body :=
    has_valid_length_config_codec_iff_concat body n 0 (Nat.zero_le _)
  have hframe : accepted_frame srv (b :: n :: body)
      ↔ is_concatenation_of_sub_requests 8 n body := by
    rw [← hiff]
    unfold accepted_frame
    simp only [List.getD_cons_zero, List.getD_cons_succ, List.length_cons, List.drop_succ_cons,
      List.drop_zero, hb, Nat.add_sub_cancel]
    constructor
    · rintro ⟨-, -, -, h, -⟩; exact h
    · intro h; exact ⟨by omega, by omega, hn.2, h, rfl⟩
  refine ⟨hiff, fun hl => ?_, fun hl => ?_⟩
  · obtain ⟨-, hlive, hslot, -, -⟩ :=
      write_callback_attached U srv con_handle ci c (b :: n :: body) hfind hc (by simp)
    rw [hslot]
    exact (control_point_write_accepted U srv c con_handle _ hlive (hframe.mpr hl)).2.2.2.1
  · obtain ⟨h1, -, -⟩ := write_callback_rejected U srv con_handle ci c (b :: n :: body) hfind hc
      (by simp) (fun h => hl (hframe.mp h))
    refine ⟨by rw [h1], ?_⟩
    rw [control_point_response_value_invalid_length _ _ _ (by rw [h1]), h1]
    rfl

/-- C12 (witness). The Config Codec write of the first seed scenario of section 6, for
the Sink ASE 1: nine body bytes, the last of which is the length byte 0. -/
theorem acp_write_config_codec_length_witness :
    ascs_server_get_remote_client_for_con_handle
        (example_server 2 ASCS_STATE_IDLE ASCS_STATE_IDLE) 64 = some 0
      ∧ (example_server 2 ASCS_STATE_IDLE ASCS_STATE_IDLE).client 0
          = some (example_connection 64 ASCS_STATE_IDLE ASCS_STATE_IDLE)
      ∧ is_concatenation_of_sub_requests 8 1 [1, 3, 2, 6, 0x10, 0, 0, 0, 0]
      ∧ ((ascs_server_write_callback example_util
            (example_server 2 ASCS_STATE_IDLE ASCS_STATE_IDLE) 64 20
            (1 :: 1 :: [1, 3, 2, 6, 0x10, 0, 0, 0, 0])).slot 0).response_ases_num = 1 :=
  have h := acp_write_config_codec_length example_util
    (example_server 2 ASCS_STATE_IDLE ASCS_STATE_IDLE) 64 0
    (example_connection 64 ASCS_STATE_IDLE ASCS_STATE_IDLE) 1 1 [1, 3, 2, 6, 0x10, 0, 0, 0, 0]
    (fun _ => 0) (fun _ => 0) (by decide) (by decide) (by decide) (by decide)
  ⟨by decide, by decide, h.1.mp (by decide), h.2.1 (h.1.mp (by decide))⟩

/-- C12 (counterexample). The body of the Config Codec write of the first seed scenario
has nine bytes: `ascs_server_control_point_operation_has_valid_length` accepts it for one
ASE and the write keeps the number of ASEs 1, although the body is not a sub-request of 9
fixed bytes followed by a length byte, which takes ten bytes at least. -/
theorem config_codec_nine_byte_body_accepted :
    ascs_server_control_point_operation_has_valid_length ASCS_OPCODE_CONFIG_CODEC 1
        [1, 3, 2, 6, 0x10, 0, 0, 0, 0] 9 = true
      ∧ ¬ is_concatenation_of_sub_requests 9 1 [1, 3, 2, 6, 0x10, 0, 0, 0, 0]
      ∧ ((ascs_server_write_callback example_util
            (example_server 2 ASCS_STATE_IDLE ASCS_STATE_IDLE) 64 20
            [1, 1, 1, 3, 2, 6, 0x10, 0, 0, 0, 0]).slot 0).response_ases_num = 1 :=
  ⟨by decide,
    fun h => absurd ((is_concatenation_succ 9 0 _).mp h).1 (by decide),
    by decide⟩

/-- C13. For the opcodes Enable and Update Metadata, every number of ASEs and every
body, `ascs_server_control_point_operation_has_valid_length` returns true exactly when
the body is the concatenation of that many sub-requests, each consisting of a one-byte
ase_id, a one-byte meta_len and exactly meta_len further bytes, with no bytes left
over. -/
theorem has_valid_length_enable_update_metadata (ases_num : Nat) (body : List Nat) :
    (ascs_server_control_point_operation_has_valid_length ASCS_OPCODE_ENABLE ases_num body
          body.length = true ↔ is_concatenation_of_sub_requests 1 ases_num body)
      ∧ (ascs_server_control_point_operation_has_valid_length ASCS_OPCODE_UPDATE_METADATA
          ases_num body body.length = true
        ↔ is_concatenation_of_sub_requests 1 ases_num body) :=
  ⟨has_valid_length_metadata_iff_concat body ases_num 0 (Nat.zero_le _),
    has_valid_length_metadata_iff_concat body ases_num 0 (Nat.zero_le _)⟩

/-- C14 (as amended). For every ACP write of at least two bytes on an attached connection
whose opcode is not one of the nine defined opcodes, whether or not its number of ASEs is
in range, `ascs_server_control_point_operation_has_valid_length` accepts the frame
whatever the body, no sub-request is validated, and the write is answered in the same
form as an invalid length: the number of ASEs of the response is 0xFF, the response value
is exactly (opcode, 0xFF), every entry of the response vector stays cleared, so that no
entry carries the response code for an unsupported opcode, the stream endpoints keep
every field and no event is raised. -/
theorem acp_write_unknown_opcode (U : ascs_util_t) (srv : ascs_server_t)
    (con_handle ci : Nat) (c : ascs_server_connection_t) (buffer : List Nat)
    (code_byte : ascs_error_code_t → Nat) (reason_byte : ascs_reject_reason_t → Nat)
    (hfind : ascs_server_get_remote_client_for_con_handle srv con_handle = some ci)
    (hc : srv.client ci = some c) (h2 : 2 ≤ buffer.length)
    (hop : (ascs_opcode_of_byte (buffer.getD 0 0)).defined = false) :
    ascs_server_control_point_operation_has_valid_length
        (ascs_opcode_of_byte (buffer.getD 0 0)) (buffer.getD 1 0) (buffer.drop 2)
        (buffer.length - 2) = true
      ∧ ((ascs_server_write_callback U srv con_handle srv.ascs_ase_control_point_handle
          buffer).slot ci).response_ases_num = 0xFF
      ∧ control_point_response_value code_byte reason_byte
          ((ascs_server_write_callback U srv con_handle srv.ascs_ase_control_point_handle
            buffer).slot ci) = [buffer.getD 0 0, 0xFF]
      ∧ (∀ i, ((ascs_server_write_callback U srv con_handle srv.ascs_ase_control_point_handle
          buffer).slot ci).resp i = ascs_control_point_operation_response_t.zero)
      ∧ ((ascs_server_write_callback U srv con_handle srv.ascs_ase_control_point_handle
          buffer).slot ci).streamendpoints = c.streamendpoints
      ∧ ∃ new,
          (ascs_server_write_callback U srv con_handle srv.ascs_ase_control_point_handle
              buffer).trace = srv.trace ++ new
          ∧ ∀ e, e ∈ new → e.upcall_ase_id = none := by
  have hnot : ¬ accepted_frame srv buffer := by
    rintro ⟨-, -, -, -, a5⟩
    rw [hop] at a5
    exact absurd a5 (by decide)
  obtain ⟨h1, -, rest, h3, h4⟩ :=
    write_callback_rejected U srv con_handle ci c buffer hfind hc (by omega) hnot
  refine ⟨?_, by rw [h1], ?_, ?_, by rw [h1], _, h3, ?_⟩
  · revert hop
    cases ascs_opcode_of_byte (buffer.getD 0 0) <;> intro hop <;>
      first | rfl | exact absurd hop (by decide)
  · rw [control_point_response_value_invalid_length _ _ _ (by rw [h1]), h1]
  · intro i
    rw [h1]
    exact reset_client_response_resp c i
  · exact upcall_ase_id_schedule_effects con_handle rest h4

/-- C14 (witness). A write with the opcode byte 0x0A for the Sink ASE 1. -/
theorem acp_write_unknown_opcode_witness :
    ascs_server_get_remote_client_for_con_handle
        (example_server 2 ASCS_STATE_IDLE ASCS_STATE_IDLE) 64 = some 0
      ∧ (example_server 2 ASCS_STATE_IDLE ASCS_STATE_IDLE).client 0
          = some (example_connection 64 ASCS_STATE_IDLE ASCS_STATE_IDLE)
      ∧ (ascs_opcode_of_byte 10).defined = false
      ∧ ((ascs_server_write_callback example_util
            (example_server 2 ASCS_STATE_IDLE ASCS_STATE_IDLE) 64 20
            [10, 1, 1]).slot 0).response_ases_num = 0xFF
      ∧ control_point_response_value (fun _ => 0) (fun _ => 0)
          ((ascs_server_write_callback example_util
            (example_server 2 ASCS_STATE_IDLE ASCS_STATE_IDLE) 64 20
            [10, 1, 1]).slot 0) = [10, 0xFF] :=
  have h := acp_write_unknown_opcode example_util
    (example_server 2 ASCS_STATE_IDLE ASCS_STATE_IDLE) 64 0
    (example_connection 64 ASCS_STATE_IDLE ASCS_STATE_IDLE) [10, 1, 1]
    (fun _ => 0) (fun _ => 0) (by decide) (by decide) (by decide) (by decide)
  ⟨by decide, by decide, by decide, h.2.1, h.2.2.1⟩

/-- C14 (counterexample). A write with the opcode byte 0x0A for the Sink ASE 1: the
response has the number of ASEs 0xFF, the form of an invalid length, as after the
one-byte write of the same opcode, and entry 0 of the response vector holds the cleared
response code, not the code for an unsupported opcode. -/
theorem acp_write_unknown_opcode_sentinel :
    ((ascs_server_write_callback example_util
          (example_server 2 ASCS_STATE_IDLE ASCS_STATE_IDLE) 64 20
          [10, 1, 1]).slot 0).response_ases_num = 0xFF
      ∧ control_point_response_value (fun _ => 0) (fun _ => 0)
          ((ascs_server_write_callback example_util
            (example_server 2 ASCS_STATE_IDLE ASCS_STATE_IDLE) 64 20 [10, 1, 1]).slot 0)
        = control_point_response_value (fun _ => 0) (fun _ => 0)
            ((ascs_server_write_callback example_util
              (example_server 2 ASCS_STATE_IDLE ASCS_STATE_IDLE) 64 20 [10]).slot 0)
      ∧ (((ascs_server_write_callback example_util
            (example_server 2 ASCS_STATE_IDLE ASCS_STATE_IDLE) 64 20
            [10, 1, 1]).slot 0).resp 0).response_code = ASCS_ERROR_CODE_SUCCESS
      ∧ (((ascs_server_write_callback example_util
            (example_server 2 ASCS_STATE_IDLE ASCS_STATE_IDLE) 64 20
            [10, 1, 1]).slot 0).resp 0).response_code
          ≠ ASCS_ERROR_CODE_UNSUPPORTED_OPCODE := by
  decide

/-! ## The validator on one sub-request -/

theorem get_streamendpoint_some (srv : ascs_server_t) (a k : Nat)
    (h : ascs_server_get_streamendpoint_for_ase_id srv a = some k) :
    k < srv.ascs_streamendpoint_chr_num ∧ (srv.chr k).ase_id = a := by
  unfold ascs_server_get_streamendpoint_for_ase_id at h
  have h1 := List.find?_some h
  have h2 := List.mem_of_find?_eq_some h
  exact ⟨List.mem_range.mp h2, by simpa using h1⟩

/-- Entry `i` of the response of an accepted write to the control point on an attached
connection is the entry iteration `i` of the first read wrote. -/
theorem write_callback_first_read_entry (U : ascs_util_t) (srv : ascs_server_t)
    (con_handle ci : Nat) (c : ascs_server_connection_t) (buffer : List Nat) (i : Nat)
    (hfind : ascs_server_get_remote_client_for_con_handle srv con_handle = some ci)
    (hc : srv.client ci = some c) (hacc : accepted_frame srv buffer)
    (hi : i < buffer.getD 1 0) :
    ((ascs_server_write_callback U srv con_handle srv.ascs_ase_control_point_handle
        buffer).slot ci).resp i
      = (first_read_body U srv (ascs_opcode_of_byte (buffer.getD 0 0)) buffer i
          (first_read_at U srv c buffer i)).connection.resp i := by
  obtain ⟨-, hlive, hslot, -, -⟩ :=
    write_callback_attached U srv con_handle ci c buffer hfind hc (by have := hacc.1; omega)
  rw [hslot]
  exact control_point_write_entry U srv c con_handle buffer hlive hacc i hi

/-- The events of an accepted write whose entry `i` is not a success are drawn from the
other sub-requests. -/
theorem write_callback_trace_without (U : ascs_util_t) (srv : ascs_server_t)
    (con_handle ci : Nat) (c : ascs_server_connection_t) (buffer : List Nat) (i : Nat)
    (hfind : ascs_server_get_remote_client_for_con_handle srv con_handle = some ci)
    (hc : srv.client ci = some c) (hacc : accepted_frame srv buffer)
    (hcode : (((ascs_server_write_callback U srv con_handle srv.ascs_ase_control_point_handle
        buffer).slot ci).resp i).response_code ≠ ASCS_ERROR_CODE_SUCCESS) :
    ∃ rest ups,
      (ascs_server_write_callback U srv con_handle srv.ascs_ase_control_point_handle
          buffer).trace
        = srv.trace
          ++ schedule_task con_handle ASCS_TASK_SEND_CONTROL_POINT_OPERATION_RESPONSE
            :: (rest ++ ups)
      ∧ (rest = [] ∨ rest = [att_server_register_can_send_now_callback con_handle])
      ∧ ups.map ascs_effect_t.upcall_ase_id
        = expected_upcall_ase_ids_without
            ((ascs_server_write_callback U srv con_handle srv.ascs_ase_control_point_handle
              buffer).slot ci)
            (ascs_opcode_of_byte (buffer.getD 0 0)) buffer (buffer.getD 1 0) i := by
  obtain ⟨rest, ups, t1, t2, t3⟩ := write_callback_trace U srv con_handle ci c buffer hfind hc hacc
  refine ⟨rest, ups, t1, t2, ?_⟩
  rw [t3]
  exact expected_upcall_ase_ids_eq_without _ _ _ _ _ hcode

/-- The entry `ascs_server_control_point_operation_prepare_response_for_codec_configuration`
leaves for a registered ASE that may take Config Codec, with target latency and target
phy below their RFU values, on a cleared entry. -/
theorem codec_configuration_response (U : ascs_util_t) (srv : ascs_server_t)
    (c : ascs_server_connection_t) (i a k : Nat) (x : ascs_client_codec_configuration_request_t)
    (hi : i < c.response.length)
    (hz : c.resp i = ascs_control_point_operation_response_t.zero)
    (hk : ascs_server_get_streamendpoint_for_ase_id srv a = some k)
    (ht : ascs_server_streamendpoint_can_transit_to_state (c.ase k).state (srv.chr k).role
      ASCS_OPCODE_CONFIG_CODEC ASCS_STATE_CODEC_CONFIGURED = true)
    (hlat : x.target_latency < U.LE_AUDIO_CLIENT_TARGET_LATENCY_RFU)
    (hphy : x.target_phy < U.LE_AUDIO_CLIENT_TARGET_PHY_RFU) :
    (ascs_server_control_point_operation_prepare_response_for_codec_configuration U srv c
        i a x).resp i
      = if x.coding_format ≥ U.HCI_AUDIO_CODING_FORMAT_RFU ∧
            x.coding_format ≠ U.HCI_AUDIO_CODING_FORMAT_VENDOR_SPECIFIC then
          ⟨a, ASCS_ERROR_CODE_INVALID_CONFIGURATION_PARAMETER_VALUE, ASCS_REJECT_REASON_CODEC_ID⟩
        else if x.coding_format = U.HCI_AUDIO_CODING_FORMAT_LC3 then
          if x.company_id ≠ 0 ∨ x.vendor_specific_codec_id ≠ 0 then
            ⟨a, ASCS_ERROR_CODE_INVALID_CONFIGURATION_PARAMETER_VALUE,
              ASCS_REJECT_REASON_CODEC_ID⟩
          else if codec_configuration_reject_reason U x.specific_codec_configuration
              (U.LE_AUDIO_CODEC_CONFIGURATION_TYPE_RFU
                - U.LE_AUDIO_CODEC_CONFIGURATION_TYPE_SAMPLING_FREQUENCY)
              U.LE_AUDIO_CODEC_CONFIGURATION_TYPE_SAMPLING_FREQUENCY ASCS_REJECT_REASON_NONE
                ≠ ASCS_REJECT_REASON_NONE then
            ⟨a, ASCS_ERROR_CODE_INVALID_CONFIGURATION_PARAMETER_VALUE,
              ASCS_REJECT_REASON_CODEC_SPECIFIC_CONFIGURATION⟩
          else ⟨a, ASCS_ERROR_CODE_SUCCESS, ASCS_REJECT_REASON_NONE⟩
        else if codec_configuration_reject_reason U x.specific_codec_configuration
            (U.LE_AUDIO_CODEC_CONFIGURATION_TYPE_RFU
              - U.LE_AUDIO_CODEC_CONFIGURATION_TYPE_SAMPLING_FREQUENCY)
            U.LE_AUDIO_CODEC_CONFIGURATION_TYPE_SAMPLING_FREQUENCY ASCS_REJECT_REASON_NONE
              ≠ ASCS_REJECT_REASON_NONE then
          ⟨a, ASCS_ERROR_CODE_INVALID_CONFIGURATION_PARAMETER_VALUE,
            ASCS_REJECT_REASON_CODEC_SPECIFIC_CONFIGURATION⟩
        else
          ⟨a, ASCS_ERROR_CODE_REJECTED_CONFIGURATION_PARAMETER_VALUE,
            ASCS_REJECT_REASON_CODEC_SPECIFIC_CONFIGURATION⟩ := by
  have h0 := resp_set_ase_id_cleared c i a hi hz
  have hi2 : i < (c.set_response_ase_id i a).response.length := by simpa using hi
  unfold ascs_server_control_point_operation_prepare_response_for_codec_configuration
  simp only [hk, ase_set_response_ase_id, ht, not_true_eq_false, if_false, ge_iff_le,
    Nat.not_le.mpr hlat, Nat.not_le.mpr hphy]
  unfold prepare_response_for_codec_specific_configuration
  dsimp only
  by_cases hrfu : U.HCI_AUDIO_CODING_FORMAT_RFU ≤ x.coding_format ∧
      x.coding_format ≠ U.HCI_AUDIO_CODING_FORMAT_VENDOR_SPECIFIC
  · rw [if_pos hrfu, if_pos hrfu]
    exact resp_update_set_ase_id c i a _ _ hi
  · rw [if_neg hrfu, if_neg hrfu]
    by_cases hlc3 : x.coding_format = U.HCI_AUDIO_CODING_FORMAT_LC3
    · rw [if_pos hlc3, if_pos hlc3]
      by_cases hco : x.company_id ≠ 0
      · rw [if_pos hco, if_pos (Or.inl hco)]
        exact resp_update_set_ase_id c i a _ _ hi
      · rw [if_neg hco]
        by_cases hve : x.vendor_specific_codec_id ≠ 0
        · rw [if_pos hve, if_pos (Or.inr hve)]
          exact resp_update_set_ase_id c i a _ _ hi
        · have hboth : ¬ (x.company_id ≠ 0 ∨ x.vendor_specific_codec_id ≠ 0) := by
            rintro (h | h)
            · exact hco h
            · exact hve h
          rw [if_neg hve, if_neg hboth]
          by_cases hr : codec_configuration_reject_reason U x.specific_codec_configuration
              (U.LE_AUDIO_CODEC_CONFIGURATION_TYPE_RFU
                - U.LE_AUDIO_CODEC_CONFIGURATION_TYPE_SAMPLING_FREQUENCY)
              U.LE_AUDIO_CODEC_CONFIGURATION_TYPE_SAMPLING_FREQUENCY ASCS_REJECT_REASON_NONE
                ≠ ASCS_REJECT_REASON_NONE
          · rw [if_pos hr, if_pos hr]
            exact resp_update_set_ase_id c i a _ _ hi
          · rw [if_neg hr, if_neg hr]
            exact h0
    · rw [if_neg hlc3, if_neg hlc3]
      by_cases hr : codec_configuration_reject_reason U x.specific_codec_configuration
          (U.LE_AUDIO_CODEC_CONFIGURATION_TYPE_RFU
            - U.LE_AUDIO_CODEC_CONFIGURATION_TYPE_SAMPLING_FREQUENCY)
          U.LE_AUDIO_CODEC_CONFIGURATION_TYPE_SAMPLING_FREQUENCY ASCS_REJECT_REASON_NONE
            ≠ ASCS_REJECT_REASON_NONE
      · rw [if_pos hr, if_pos hr, resp_update_self _ _ _ _ (by simpa using hi),
          resp_update_set_ase_id c i a _ _ hi]
      · rw [if_neg hr, if_neg hr]
        exact resp_update_set_ase_id c i a _ _ hi

/-- The loop over the codec configuration types sets no reason when every present
field it looks at is a defined value. -/
theorem codec_configuration_reject_reason_in_range (U : ascs_util_t)
    (x : ascs_specific_codec_configuration_t)
    (hv : specific_codec_configuration_in_range U x) (fuel t : Nat) :
    codec_configuration_reject_reason U x fuel t ASCS_REJECT_REASON_NONE
      = ASCS_REJECT_REASON_NONE := by
  obtain ⟨h1, h2, h3⟩ := hv
  induction fuel generalizing t with
  | zero => rfl
  | succ fuel ih =>
    unfold codec_configuration_reject_reason
    split
    · have hstep : (if x.codec_configuration_mask &&& (1 <<< t) ≠ 0 then
            if t = U.LE_AUDIO_CODEC_CONFIGURATION_TYPE_SAMPLING_FREQUENCY then
              if x.sampling_frequency_index
                    = U.LE_AUDIO_CODEC_SAMPLING_FREQUENCY_INDEX_INVALID ∨
                  x.sampling_frequency_index
                    ≥ U.LE_AUDIO_CODEC_SAMPLING_FREQUENCY_INDEX_RFU then
                ASCS_REJECT_REASON_CODEC_SPECIFIC_CONFIGURATION
              else ASCS_REJECT_REASON_NONE
            else if t = U.LE_AUDIO_CODEC_CONFIGURATION_TYPE_FRAME_DURATION then
              if x.frame_duration_index
                    = U.LE_AUDIO_CODEC_FRAME_DURATION_INDEX_INVALID ∨
                  x.frame_duration_index
                    ≥ U.LE_AUDIO_CODEC_FRAME_DURATION_INDEX_RFU then
                ASCS_REJECT_REASON_CODEC_SPECIFIC_CONFIGURATION
              else ASCS_REJECT_REASON_NONE
            else if t = U.LE_AUDIO_CODEC_CONFIGURATION_TYPE_AUDIO_CHANNEL_ALLOCATION then
              if x.audio_channel_allocation_mask ≥ U.LE_AUDIO_LOCATION_MASK_RFU then
                ASCS_REJECT_REASON_CODEC_SPECIFIC_CONFIGURATION
              else ASCS_REJECT_REASON_NONE
            else ASCS_REJECT_REASON_NONE
          else ASCS_REJECT_REASON_NONE) = ASCS_REJECT_REASON_NONE := by
        by_cases hm : x.codec_configuration_mask &&& (1 <<< t) ≠ 0
        · rw [if_pos hm]
          by_cases e1 : t = U.LE_AUDIO_CODEC_CONFIGURATION_TYPE_SAMPLING_FREQUENCY
          · rw [if_pos e1, if_neg]
            have := h1 (e1 ▸ hm)
            rintro (h | h) <;> omega
          · rw [if_neg e1]
            by_cases e2 : t = U.LE_AUDIO_CODEC_CONFIGURATION_TYPE_FRAME_DURATION
            · rw [if_pos e2, if_neg]
              have := h2 (e2 ▸ hm)
              rintro (h | h) <;> omega
            · rw [if_neg e2]
              by_cases e3 : t = U.LE_AUDIO_CODEC_CONFIGURATION_TYPE_AUDIO_CHANNEL_ALLOCATION
              · rw [if_pos e3, if_neg]
                have := h3 (e3 ▸ hm)
                omega
              · rw [if_neg e3]
        · rw [if_neg hm]
      dsimp only
      rw [hstep]
      exact ih _
    · rfl

/-- The loop over the stream endpoints reaches the CIS mapping rejection exactly when
the ASE the request names is in Codec Configured and one of the stream endpoints it
visits belongs to another ASE of the same direction and stores the pair of the request. -/
theorem cis_mapping_collides_iff (srv : ascs_server_t) (c : ascs_server_connection_t)
    (k : Nat) (x : ascs_qos_configuration_t) (fuel i : Nat) :
    qos_configuration_cis_mapping_collides srv c k x fuel i = true
      ↔ (c.ase k).state = ASCS_STATE_CODEC_CONFIGURED
        ∧ ∃ j, i ≤ j ∧ j < i + fuel
          ∧ (srv.chr j).ase_id ≠ (srv.chr k).ase_id
          ∧ (srv.chr j).role = (srv.chr k).role
          ∧ x.cig_id = (c.ase j).qos_configuration.cig_id
          ∧ x.cis_id = (c.ase j).qos_configuration.cis_id := by
  induction fuel generalizing i with
  | zero =>
    simp only [qos_configuration_cis_mapping_collides, Nat.add_zero]
    constructor
    · intro h; exact absurd h (by decide)
    · rintro ⟨-, j, h1, h2, -⟩; omega
  | succ fuel ih =>
    unfold qos_configuration_cis_mapping_collides
    have hshift : ∀ (P : Nat → Prop), ¬ P i →
        ((∃ j, i + 1 ≤ j ∧ j < i + 1 + fuel ∧ P j) ↔ ∃ j, i ≤ j ∧ j < i + (fuel + 1) ∧ P j) := by
      intro P hP
      constructor
      · rintro ⟨j, h1, h2, h3⟩; exact ⟨j, by omega, by omega, h3⟩
      · rintro ⟨j, h1, h2, h3⟩
        have hji : j ≠ i := fun e => hP (e ▸ h3)
        exact ⟨j, by omega, by omega, h3⟩
    by_cases hid : (srv.chr k).ase_id = (srv.chr i).ase_id
    · rw [if_pos hid, ih, hshift _ (fun h => h.1 hid.symm)]
    · rw [if_neg hid]
      by_cases hrole : (srv.chr k).role ≠ (srv.chr i).role
      · rw [if_pos hrole, ih, hshift _ (fun h => hrole h.2.1.symm)]
      · rw [if_neg hrole]
        by_cases hhit : (c.ase k).state = ASCS_STATE_CODEC_CONFIGURED ∧
            x.cig_id = (c.ase i).qos_configuration.cig_id ∧
            x.cis_id = (c.ase i).qos_configuration.cis_id
        · rw [if_pos hhit]
          refine ⟨fun _ => ⟨hhit.1, i, Nat.le_refl i, by omega, fun e => hid e.symm, ?_,
            hhit.2.1, hhit.2.2⟩, fun _ => rfl⟩
          exact (not_not.mp hrole).symm
        · rw [if_neg hhit, ih]
          constructor
          · rintro ⟨hs, hex⟩
            exact ⟨hs, (hshift _ (fun h => hhit ⟨hs, h.2.2.1, h.2.2.2⟩)).mp hex⟩
          · rintro ⟨hs, hex⟩
            exact ⟨hs, (hshift _ (fun h => hhit ⟨hs, h.2.2.1, h.2.2.2⟩)).mpr hex⟩

theorem cis_mapping_collides_iff_collision (srv : ascs_server_t)
    (c : ascs_server_connection_t) (k : Nat) (x : ascs_qos_configuration_t) :
    qos_configuration_cis_mapping_collides srv c k x srv.ascs_streamendpoint_chr_num 0 = true
      ↔ cis_mapping_collision srv c k x := by
  rw [cis_mapping_collides_iff]
  unfold cis_mapping_collision
  constructor
  · rintro ⟨hs, j, -, h2, h3⟩; exact ⟨hs, j, by omega, h3⟩
  · rintro ⟨hs, j, h2, h3⟩; exact ⟨hs, j, Nat.zero_le j, by omega, h3⟩

/-- The collision depends on the connection through its stream endpoints only. -/
theorem cis_mapping_collision_congr (srv : ascs_server_t)
    (c1 c2 : ascs_server_connection_t) (k : Nat) (x : ascs_qos_configuration_t)
    (h : ∀ j, c1.ase j = c2.ase j) :
    cis_mapping_collision srv c1 k x ↔ cis_mapping_collision srv c2 k x := by
  unfold cis_mapping_collision
  simp only [h]

/-- The entry `ascs_control_point_operation_prepare_response_for_qos_configuration` leaves
for a registered ASE that may take Config QoS, on a cleared entry. -/
theorem qos_configuration_response (U : ascs_util_t) (srv : ascs_server_t)
    (c : ascs_server_connection_t) (i a k : Nat) (x : ascs_qos_configuration_t)
    (hi : i < c.response.length)
    (hz : c.resp i = ascs_control_point_operation_response_t.zero)
    (hk : ascs_server_get_streamendpoint_for_ase_id srv a = some k)
    (ht : ascs_server_streamendpoint_can_transit_to_state (c.ase k).state (srv.chr k).role
      ASCS_OPCODE_CONFIG_QOS ASCS_STATE_QOS_CONFIGURED = true) :
    (ascs_control_point_operation_prepare_response_for_qos_configuration U srv c i a x).resp i
      = if cis_mapping_collision srv c k x then
          ⟨a, ASCS_ERROR_CODE_INVALID_CONFIGURATION_PARAMETER_VALUE,
            ASCS_REJECT_REASON_INVALID_ASE_CIS_MAPPING⟩
        else if x.sdu_interval < 0x0000FF ∨ x.sdu_interval > 0x0FFFFF then
          ⟨a, ASCS_ERROR_CODE_INVALID_CONFIGURATION_PARAMETER_VALUE,
            ASCS_REJECT_REASON_SDU_INTERVAL⟩
        else if x.framing ≠ (c.ase k).codec_configuration.framing then
          ⟨a, ASCS_ERROR_CODE_INVALID_CONFIGURATION_PARAMETER_VALUE,
            ASCS_REJECT_REASON_FRAMING⟩
        else if x.phy > U.LE_AUDIO_SERVER_PHY_MASK_CODED then
          ⟨a, ASCS_ERROR_CODE_INVALID_CONFIGURATION_PARAMETER_VALUE, ASCS_REJECT_REASON_PHY⟩
        else if x.max_sdu > 0x0FFF then
          ⟨a, ASCS_ERROR_CODE_INVALID_CONFIGURATION_PARAMETER_VALUE,
            ASCS_REJECT_REASON_MAXIMUM_SDU_SIZE⟩
        else if x.max_transport_latency_ms
            > (c.ase k).codec_configuration.max_transport_latency_ms then
          ⟨a, ASCS_ERROR_CODE_INVALID_CONFIGURATION_PARAMETER_VALUE,
            ASCS_REJECT_REASON_MAX_TRANSPORT_LATENCY⟩
        else if x.presentation_delay_us
              < (c.ase k).codec_configuration.presentation_delay_min_us ∨
            x.presentation_delay_us
              > (c.ase k).codec_configuration.presentation_delay_max_us then
          ⟨a, ASCS_ERROR_CODE_INVALID_CONFIGURATION_PARAMETER_VALUE,
            ASCS_REJECT_REASON_PRESENTATION_DELAY⟩
        else ⟨a, ASCS_ERROR_CODE_SUCCESS, ASCS_REJECT_REASON_NONE⟩ := by
  have h0 := resp_set_ase_id_cleared c i a hi hz
  have hcol : qos_configuration_cis_mapping_collides srv (c.set_response_ase_id i a) k x
      srv.ascs_streamendpoint_chr_num 0 = true ↔ cis_mapping_collision srv c k x := by
    rw [cis_mapping_collides_iff_collision]
    exact cis_mapping_collision_congr srv _ _ k x (fun j => rfl)
  unfold ascs_control_point_operation_prepare_response_for_qos_configuration
  simp only [hk, ase_set_response_ase_id, ht, not_true_eq_false, if_false, hcol]
  repeat' split
  all_goals first | exact resp_update_set_ase_id c i a _ _ hi | exact h0

theorem config_codec_permitted_iff (st : ascs_state_t) (r : le_audio_role_t) :
    transition_table st ASCS_OPCODE_CONFIG_CODEC r ≠ []
      ↔ ascs_server_streamendpoint_can_transit_to_state st r ASCS_OPCODE_CONFIG_CODEC
          ASCS_STATE_CODEC_CONFIGURED = true := by
  cases st <;> cases r <;> decide

theorem config_qos_permitted_iff (st : ascs_state_t) (r : le_audio_role_t) :
    transition_table st ASCS_OPCODE_CONFIG_QOS r ≠ []
      ↔ ascs_server_streamendpoint_can_transit_to_state st r ASCS_OPCODE_CONFIG_QOS
          ASCS_STATE_QOS_CONFIGURED = true := by
  cases st <;> cases r <;> decide

theorem config_qos_permitted_iff_state (st : ascs_state_t) (r : le_audio_role_t) :
    (st = ASCS_STATE_CODEC_CONFIGURED ∨ st = ASCS_STATE_QOS_CONFIGURED)
      ↔ ascs_server_streamendpoint_can_transit_to_state st r ASCS_OPCODE_CONFIG_QOS
          ASCS_STATE_QOS_CONFIGURED = true := by
  cases st <;> cases r <;> decide

/-- Entry `i` of the response of an accepted Config Codec write on an attached
connection, as `ascs_server_control_point_operation_prepare_response_for_codec_configuration`
computes it from the ase_id and the request the first read takes for sub-request `i`. -/
theorem write_callback_codec_entry (U : ascs_util_t) (srv : ascs_server_t)
    (con_handle ci : Nat) (c : ascs_server_connection_t) (buffer : List Nat) (i : Nat)
    (hfind : ascs_server_get_remote_client_for_con_handle srv con_handle = some ci)
    (hc : srv.client ci = some c) (hacc : accepted_frame srv buffer)
    (hop : ascs_opcode_of_byte (buffer.getD 0 0) = ASCS_OPCODE_CONFIG_CODEC)
    (hi : i < buffer.getD 1 0) :
    ((ascs_server_write_callback U srv con_handle srv.ascs_ase_control_point_handle
        buffer).slot ci).resp i
      = (ascs_server_control_point_operation_prepare_response_for_codec_configuration U srv
          (first_read_at U srv c buffer i).connection i (first_read_ase_id U srv c buffer i)
          (first_read_codec_request U srv c buffer i)).resp i := by
  rw [write_callback_first_read_entry U srv con_handle ci c buffer i hfind hc hacc hi, hop]
  rfl

/-- The same for an accepted Config QoS write. -/
theorem write_callback_qos_entry (U : ascs_util_t) (srv : ascs_server_t)
    (con_handle ci : Nat) (c : ascs_server_connection_t) (buffer : List Nat) (i : Nat)
    (hfind : ascs_server_get_remote_client_for_con_handle srv con_handle = some ci)
    (hc : srv.client ci = some c) (hacc : accepted_frame srv buffer)
    (hop : ascs_opcode_of_byte (buffer.getD 0 0) = ASCS_OPCODE_CONFIG_QOS)
    (hi : i < buffer.getD 1 0) :
    ((ascs_server_write_callback U srv con_handle srv.ascs_ase_control_point_handle
        buffer).slot ci).resp i
      = (ascs_control_point_operation_prepare_response_for_qos_configuration U srv
          (first_read_at U srv c buffer i).connection i (first_read_ase_id U srv c buffer i)
          (first_read_qos_request U srv c buffer i)).resp i := by
  rw [write_callback_first_read_entry U srv con_handle ci c buffer i hfind hc hacc hi, hop]
  rfl

/-- On a write of at most 255 bytes whose body is the concatenation of the announced
sub-requests, the first read takes the ase_id and the payload of sub-request `i` from the
offset of that sub-request. -/
theorem first_read_short (U : ascs_util_t) (srv : ascs_server_t)
    (c : ascs_server_connection_t) (buffer : List Nat)
    (hop : (ascs_opcode_of_byte (buffer.getD 0 0)).defined = true)
    (hlen : sub_request_offset (ascs_opcode_of_byte (buffer.getD 0 0)) buffer (buffer.getD 1 0)
      = buffer.length)
    (hshort : buffer.length ≤ 255) (i : Nat) (hi : i < buffer.getD 1 0) :
    first_read_ase_id U srv c buffer i
        = sub_request_ase_id (ascs_opcode_of_byte (buffer.getD 0 0)) buffer i
      ∧ first_read_payload U srv c buffer i
        = buffer.drop
            (sub_request_offset (ascs_opcode_of_byte (buffer.getD 0 0)) buffer i + 1) := by
  have hpos := first_read_at_pos U srv c buffer hop hlen (by omega) i hi
  have hmono := sub_request_offset_add_le (ascs_opcode_of_byte (buffer.getD 0 0)) buffer
    i (buffer.getD 1 0 - i)
  have hn : i + (buffer.getD 1 0 - i) = buffer.getD 1 0 := by omega
  rw [hn, hlen] at hmono
  unfold first_read_ase_id first_read_payload sub_request_ase_id
  rw [hpos]
  exact ⟨rfl, by rw [Nat.mod_eq_of_lt (by omega)]⟩

/-- Entry `i` of the response of an accepted Config Codec write on an attached
connection, for a sub-request on a registered ASE with a permitted transition and with
target latency and target phy below their RFU values. -/
theorem write_callback_codec_response (U : ascs_util_t) (srv : ascs_server_t)
    (con_handle ci : Nat) (c : ascs_server_connection_t) (buffer : List Nat) (i k a : Nat)
    (x : ascs_client_codec_configuration_request_t)
    (hfind : ascs_server_get_remote_client_for_con_handle srv con_handle = some ci)
    (hc : srv.client ci = some c) (hacc : accepted_frame srv buffer)
    (hcap : srv.ascs_streamendpoint_chr_num ≤ c.response.length)
    (hop : ascs_opcode_of_byte (buffer.getD 0 0) = ASCS_OPCODE_CONFIG_CODEC)
    (hi : i < buffer.getD 1 0)
    (ha : first_read_ase_id U srv c buffer i = a)
    (hx : first_read_codec_request U srv c buffer i = x)
    (hk : ascs_server_get_streamendpoint_for_ase_id srv a = some k)
    (ht : transition_table (c.ase k).state ASCS_OPCODE_CONFIG_CODEC (srv.chr k).role ≠ [])
    (hlat : x.target_latency < U.LE_AUDIO_CLIENT_TARGET_LATENCY_RFU)
    (hphy : x.target_phy < U.LE_AUDIO_CLIENT_TARGET_PHY_RFU) :
    ((ascs_server_write_callback U srv con_handle srv.ascs_ase_control_point_handle
        buffer).slot ci).resp i
      = if x.coding_format ≥ U.HCI_AUDIO_CODING_FORMAT_RFU ∧
            x.coding_format ≠ U.HCI_AUDIO_CODING_FORMAT_VENDOR_SPECIFIC then
          ⟨a, ASCS_ERROR_CODE_INVALID_CONFIGURATION_PARAMETER_VALUE, ASCS_REJECT_REASON_CODEC_ID⟩
        else if x.coding_format = U.HCI_AUDIO_CODING_FORMAT_LC3 then
          if x.company_id ≠ 0 ∨ x.vendor_specific_codec_id ≠ 0 then
            ⟨a, ASCS_ERROR_CODE_INVALID_CONFIGURATION_PARAMETER_VALUE,
              ASCS_REJECT_REASON_CODEC_ID⟩
          else if codec_configuration_reject_reason U x.specific_codec_configuration
              (U.LE_AUDIO_CODEC_CONFIGURATION_TYPE_RFU
                - U.LE_AUDIO_CODEC_CONFIGURATION_TYPE_SAMPLING_FREQUENCY)
              U.LE_AUDIO_CODEC_CONFIGURATION_TYPE_SAMPLING_FREQUENCY ASCS_REJECT_REASON_NONE
                ≠ ASCS_REJECT_REASON_NONE then
            ⟨a, ASCS_ERROR_CODE_INVALID_CONFIGURATION_PARAMETER_VALUE,
              ASCS_REJECT_REASON_CODEC_SPECIFIC_CONFIGURATION⟩
          else ⟨a, ASCS_ERROR_CODE_SUCCESS, ASCS_REJECT_REASON_NONE⟩
        else if codec_configuration_reject_reason U x.specific_codec_configuration
            (U.LE_AUDIO_CODEC_CONFIGURATION_TYPE_RFU
              - U.LE_AUDIO_CODEC_CONFIGURATION_TYPE_SAMPLING_FREQUENCY)
            U.LE_AUDIO_CODEC_CONFIGURATION_TYPE_SAMPLING_FREQUENCY ASCS_REJECT_REASON_NONE
              ≠ ASCS_REJECT_REASON_NONE then
          ⟨a, ASCS_ERROR_CODE_INVALID_CONFIGURATION_PARAMETER_VALUE,
            ASCS_REJECT_REASON_CODEC_SPECIFIC_CONFIGURATION⟩
        else
          ⟨a, ASCS_ERROR_CODE_REJECTED_CONFIGURATION_PARAMETER_VALUE,
            ASCS_REJECT_REASON_CODEC_SPECIFIC_CONFIGURATION⟩ := by
  subst ha hx
  obtain ⟨-, f2, f3, f4⟩ := first_read_at_connection U srv c buffer i
  have hilen : i < (first_read_at U srv c buffer i).connection.response.length := by
    rw [f2]; have := hacc.2.2.1; omega
  rw [write_callback_codec_entry U srv con_handle ci c buffer i hfind hc hacc hop hi]
  exact codec_configuration_response U srv _ i _ k _ hilen f4 hk
    (by rw [f3 k]; exact (config_codec_permitted_iff _ _).mp ht) hlat hphy

/-- Entry `i` of the response of an accepted Config QoS write on an attached connection,
for a sub-request on a registered ASE with a permitted transition. -/
theorem write_callback_qos_response (U : ascs_util_t) (srv : ascs_server_t)
    (con_handle ci : Nat) (c : ascs_server_connection_t) (buffer : List Nat) (i k a : Nat)
    (q : ascs_qos_configuration_t)
    (hfind : ascs_server_get_remote_client_for_con_handle srv con_handle = some ci)
    (hc : srv.client ci = some c) (hacc : accepted_frame srv buffer)
    (hcap : srv.ascs_streamendpoint_chr_num ≤ c.response.length)
    (hop : ascs_opcode_of_byte (buffer.getD 0 0) = ASCS_OPCODE_CONFIG_QOS)
    (hi : i < buffer.getD 1 0)
    (ha : first_read_ase_id U srv c buffer i = a)
    (hq : first_read_qos_request U srv c buffer i = q)
    (hk : ascs_server_get_streamendpoint_for_ase_id srv a = some k)
    (ht : ascs_server_streamendpoint_can_transit_to_state (c.ase k).state (srv.chr k).role
      ASCS_OPCODE_CONFIG_QOS ASCS_STATE_QOS_CONFIGURED = true) :
    ((ascs_server_write_callback U srv con_handle srv.ascs_ase_control_point_handle
        buffer).slot ci).resp i
      = if cis_mapping_collision srv c k q then
          ⟨a, ASCS_ERROR_CODE_INVALID_CONFIGURATION_PARAMETER_VALUE,
            ASCS_REJECT_REASON_INVALID_ASE_CIS_MAPPING⟩
        else if q.sdu_interval < 0x0000FF ∨ q.sdu_interval > 0x0FFFFF then
          ⟨a, ASCS_ERROR_CODE_INVALID_CONFIGURATION_PARAMETER_VALUE,
            ASCS_REJECT_REASON_SDU_INTERVAL⟩
        else if q.framing ≠ (c.ase k).codec_configuration.framing then
          ⟨a, ASCS_ERROR_CODE_INVALID_CONFIGURATION_PARAMETER_VALUE,
            ASCS_REJECT_REASON_FRAMING⟩
        else if q.phy > U.LE_AUDIO_SERVER_PHY_MASK_CODED then
          ⟨a, ASCS_ERROR_CODE_INVALID_CONFIGURATION_PARAMETER_VALUE, ASCS_REJECT_REASON_PHY⟩
        else if q.max_sdu > 0x0FFF then
          ⟨a, ASCS_ERROR_CODE_INVALID_CONFIGURATION_PARAMETER_VALUE,
            ASCS_REJECT_REASON_MAXIMUM_SDU_SIZE⟩
        else if q.max_transport_latency_ms
            > (c.ase k).codec_configuration.max_transport_latency_ms then
          ⟨a, ASCS_ERROR_CODE_INVALID_CONFIGURATION_PARAMETER_VALUE,
            ASCS_REJECT_REASON_MAX_TRANSPORT_LATENCY⟩
        else if q.presentation_delay_us
              < (c.ase k).codec_configuration.presentation_delay_min_us ∨
            q.presentation_delay_us
              > (c.ase k).codec_configuration.presentation_delay_max_us then
          ⟨a, ASCS_ERROR_CODE_INVALID_CONFIGURATION_PARAMETER_VALUE,
            ASCS_REJECT_REASON_PRESENTATION_DELAY⟩
        else ⟨a, ASCS_ERROR_CODE_SUCCESS, ASCS_REJECT_REASON_NONE⟩ := by
  subst ha hq
  obtain ⟨-, f2, f3, f4⟩ := first_read_at_connection U srv c buffer i
  have hilen : i < (first_read_at U srv c buffer i).connection.response.length := by
    rw [f2]; have := hacc.2.2.1; omega
  rw [write_callback_qos_entry U srv con_handle ci c buffer i hfind hc hacc hop hi,
    qos_configuration_response U srv _ i _ k _ hilen f4 hk (by rw [f3 k]; exact ht), f3 k]
  have hcol := cis_mapping_collision_congr srv (first_read_at U srv c buffer i).connection c k
    (first_read_qos_request U srv c buffer i) f3
  by_cases hcc : cis_mapping_collision srv c k (first_read_qos_request U srv c buffer i)
  · rw [if_pos hcc, if_pos (hcol.mpr hcc)]
  · rw [if_neg hcc, if_neg (fun h => hcc (hcol.mp h))]

/-! ## Claims on the validation of a sub-request -/

/-- C16. For every Config Codec sub-request of an accepted ACP write on an attached
connection that names a registered ASE for which the table of section 4.3 permits Config
Codec, with target latency and target phy below their RFU values and with the coding
format LC3: if the company id or the vendor specific codec id is not 0, the entry
recorded is (ase_id, invalid configuration parameter value, codec id); if both are 0,
LC3 is one of the standard coding formats and every present codec specific field the
validator looks at is a defined value, the entry recorded is (ase_id, success, 0). -/
theorem acp_write_config_codec_lc3 (U : ascs_util_t) (srv : ascs_server_t)
    (con_handle ci : Nat) (c : ascs_server_connection_t) (buffer : List Nat) (i k a : Nat)
    (x : ascs_client_codec_configuration_request_t)
    (hfind : ascs_server_get_remote_client_for_con_handle srv con_handle = some ci)
    (hc : srv.client ci = some c) (hacc : accepted_frame srv buffer)
    (hcap : srv.ascs_streamendpoint_chr_num ≤ c.response.length)
    (hop : ascs_opcode_of_byte (buffer.getD 0 0) = ASCS_OPCODE_CONFIG_CODEC)
    (hi : i < buffer.getD 1 0)
    (ha : first_read_ase_id U srv c buffer i = a)
    (hx : first_read_codec_request U srv c buffer i = x)
    (hk : ascs_server_get_streamendpoint_for_ase_id srv a = some k)
    (ht : transition_table (c.ase k).state ASCS_OPCODE_CONFIG_CODEC (srv.chr k).role ≠ [])
    (hlat : x.target_latency < U.LE_AUDIO_CLIENT_TARGET_LATENCY_RFU)
    (hphy : x.target_phy < U.LE_AUDIO_CLIENT_TARGET_PHY_RFU)
    (hfmt : x.coding_format = U.HCI_AUDIO_CODING_FORMAT_LC3) :
    ((x.company_id ≠ 0 ∨ x.vendor_specific_codec_id ≠ 0) →
        ((ascs_server_write_callback U srv con_handle srv.ascs_ase_control_point_handle
            buffer).slot ci).resp i
          = ⟨a, ASCS_ERROR_CODE_INVALID_CONFIGURATION_PARAMETER_VALUE,
              ASCS_REJECT_REASON_CODEC_ID⟩)
      ∧ (x.company_id = 0 → x.vendor_specific_codec_id = 0 →
          U.HCI_AUDIO_CODING_FORMAT_LC3 < U.HCI_AUDIO_CODING_FORMAT_RFU →
          specific_codec_configuration_in_range U x.specific_codec_configuration →
          ((ascs_server_write_callback U srv con_handle srv.ascs_ase_control_point_handle
              buffer).slot ci).resp i
            = ⟨a, ASCS_ERROR_CODE_SUCCESS, ASCS_REJECT_REASON_NONE⟩) := by
  rw [write_callback_codec_response U srv con_handle ci c buffer i k a x hfind hc hacc hcap hop
    hi ha hx hk ht hlat hphy]
  constructor
  · intro hid
    by_cases hrfu : x.coding_format ≥ U.HCI_AUDIO_CODING_FORMAT_RFU ∧
        x.coding_format ≠ U.HCI_AUDIO_CODING_FORMAT_VENDOR_SPECIFIC
    · rw [if_pos hrfu]
    · rw [if_neg hrfu, if_pos hfmt, if_pos hid]
  · intro hco hve hstd hin
    have hrfu : ¬ (x.coding_format ≥ U.HCI_AUDIO_CODING_FORMAT_RFU ∧
        x.coding_format ≠ U.HCI_AUDIO_CODING_FORMAT_VENDOR_SPECIFIC) := by
      rintro ⟨h, -⟩
      rw [hfmt] at h
      omega
    have hid : ¬ (x.company_id ≠ 0 ∨ x.vendor_specific_codec_id ≠ 0) := by
      rintro (h | h)
      · exact h hco
      · exact h hve
    rw [if_neg hrfu, if_pos hfmt, if_neg hid,
      codec_configuration_reject_reason_in_range U _ hin, if_neg (fun h => h rfl)]

/-- C16 (witness). A Config Codec write for the Sink ASE 1, which is Idle, with target
latency 3, target phy 2, coding format LC3, company id 0, vendor specific codec id 0 and
no codec specific configuration: the entry recorded is (1, success, 0). -/
theorem acp_write_config_codec_lc3_witness :
    accepted_frame (example_server 2 ASCS_STATE_IDLE ASCS_STATE_IDLE)
        [1, 1, 1, 3, 2, 6, 0, 0, 0, 0, 0]
      ∧ first_read_codec_request example_util (example_server 2 ASCS_STATE_IDLE ASCS_STATE_IDLE)
          (example_connection 64 ASCS_STATE_IDLE ASCS_STATE_IDLE)
          [1, 1, 1, 3, 2, 6, 0, 0, 0, 0, 0] 0
        = ⟨3, 2, 6, 0, 0, ascs_specific_codec_configuration_t.zero⟩
      ∧ ((ascs_server_write_callback example_util
            (example_server 2 ASCS_STATE_IDLE ASCS_STATE_IDLE) 64 20
            [1, 1, 1, 3, 2, 6, 0, 0, 0, 0, 0]).slot 0).resp 0
          = ⟨1, ASCS_ERROR_CODE_SUCCESS, ASCS_REJECT_REASON_NONE⟩ :=
  have hacc : accepted_frame (example_server 2 ASCS_STATE_IDLE ASCS_STATE_IDLE)
      [1, 1, 1, 3, 2, 6, 0, 0, 0, 0, 0] :=
    ⟨by decide, by decide, by decide, by decide, by decide⟩
  ⟨hacc, by decide,
    (acp_write_config_codec_lc3 example_util (example_server 2 ASCS_STATE_IDLE ASCS_STATE_IDLE)
      64 0 (example_connection 64 ASCS_STATE_IDLE ASCS_STATE_IDLE)
      [1, 1, 1, 3, 2, 6, 0, 0, 0, 0, 0] 0 0 1
      ⟨3, 2, 6, 0, 0, ascs_specific_codec_configuration_t.zero⟩
      (by decide) (by decide) hacc (by decide) (by decide) (by decide) (by decide) (by decide)
      (by decide) (by decide) (by decide) (by decide) (by decide)).2
      (by decide) (by decide) (by decide) (by decide)⟩

/-- C17 (as amended). For every Config Codec sub-request of an accepted ACP write on an
attached connection that names a registered ASE for which the table of section 4.3
permits Config Codec, with target latency and target phy below their RFU values, with
every present codec specific field the validator looks at a defined value and with the
coding format vendor specific, a value other than LC3: whatever the company id and the
vendor specific codec id are, the request is not answered with the reason codec id; the
entry recorded is (ase_id, rejected configuration parameter value, codec specific
configuration), and the events the write raises are drawn from the other sub-requests
only. -/
theorem acp_write_config_codec_vendor_specific (U : ascs_util_t) (srv : ascs_server_t)
    (con_handle ci : Nat) (c : ascs_server_connection_t) (buffer : List Nat) (i k a : Nat)
    (x : ascs_client_codec_configuration_request_t)
    (hfind : ascs_server_get_remote_client_for_con_handle srv con_handle = some ci)
    (hc : srv.client ci = some c) (hacc : accepted_frame srv buffer)
    (hcap : srv.ascs_streamendpoint_chr_num ≤ c.response.length)
    (hop : ascs_opcode_of_byte (buffer.getD 0 0) = ASCS_OPCODE_CONFIG_CODEC)
    (hi : i < buffer.getD 1 0)
    (ha : first_read_ase_id U srv c buffer i = a)
    (hx : first_read_codec_request U srv c buffer i = x)
    (hk : ascs_server_get_streamendpoint_for_ase_id srv a = some k)
    (ht : transition_table (c.ase k).state ASCS_OPCODE_CONFIG_CODEC (srv.chr k).role ≠ [])
    (hlat : x.target_latency < U.LE_AUDIO_CLIENT_TARGET_LATENCY_RFU)
    (hphy : x.target_phy < U.LE_AUDIO_CLIENT_TARGET_PHY_RFU)
    (hin : specific_codec_configuration_in_range U x.specific_codec_configuration)
    (hfmt : x.coding_format = U.HCI_AUDIO_CODING_FORMAT_VENDOR_SPECIFIC)
    (hne : U.HCI_AUDIO_CODING_FORMAT_VENDOR_SPECIFIC ≠ U.HCI_AUDIO_CODING_FORMAT_LC3) :
    ((ascs_server_write_callback U srv con_handle srv.ascs_ase_control_point_handle
        buffer).slot ci).resp i
        = ⟨a, ASCS_ERROR_CODE_REJECTED_CONFIGURATION_PARAMETER_VALUE,
            ASCS_REJECT_REASON_CODEC_SPECIFIC_CONFIGURATION⟩
      ∧ ∃ rest ups,
          (ascs_server_write_callback U srv con_handle srv.ascs_ase_control_point_handle
              buffer).trace
            = srv.trace
              ++ schedule_task con_handle ASCS_TASK_SEND_CONTROL_POINT_OPERATION_RESPONSE
                :: (rest ++ ups)
          ∧ (rest = [] ∨ rest = [att_server_register_can_send_now_callback con_handle])
          ∧ ups.map ascs_effect_t.upcall_ase_id
            = expected_upcall_ase_ids_without
                ((ascs_server_write_callback U srv con_handle
                  srv.ascs_ase_control_point_handle buffer).slot ci)
                (ascs_opcode_of_byte (buffer.getD 0 0)) buffer (buffer.getD 1 0) i := by
  have he : ((ascs_server_write_callback U srv con_handle srv.ascs_ase_control_point_handle
      buffer).slot ci).resp i
      = ⟨a, ASCS_ERROR_CODE_REJECTED_CONFIGURATION_PARAMETER_VALUE,
          ASCS_REJECT_REASON_CODEC_SPECIFIC_CONFIGURATION⟩ := by
    rw [write_callback_codec_response U srv con_handle ci c buffer i k a x hfind hc hacc hcap
      hop hi ha hx hk ht hlat hphy, if_neg (fun h => h.2 hfmt), if_neg (by rw [hfmt]; exact hne),
      codec_configuration_reject_reason_in_range U _ hin, if_neg (fun h => h rfl)]
  exact ⟨he, write_callback_trace_without U srv con_handle ci c buffer i hfind hc hacc
    (by rw [he]; simp)⟩

/-- C17 (witness). A Config Codec write for the Sink ASE 1, which is Idle, with the
coding format 0xFF, company id 0x1234 and vendor specific codec id 0x5678. -/
theorem acp_write_config_codec_vendor_specific_witness :
    accepted_frame (example_server 2 ASCS_STATE_IDLE ASCS_STATE_IDLE)
        [1, 1, 1, 3, 2, 0xFF, 0x34, 0x12, 0x78, 0x56, 0]
      ∧ first_read_codec_request example_util (example_server 2 ASCS_STATE_IDLE ASCS_STATE_IDLE)
          (example_connection 64 ASCS_STATE_IDLE ASCS_STATE_IDLE)
          [1, 1, 1, 3, 2, 0xFF, 0x34, 0x12, 0x78, 0x56, 0] 0
        = ⟨3, 2, 0xFF, 0x1234, 0x5678, ascs_specific_codec_configuration_t.zero⟩
      ∧ ((ascs_server_write_callback example_util
            (example_server 2 ASCS_STATE_IDLE ASCS_STATE_IDLE) 64 20
            [1, 1, 1, 3, 2, 0xFF, 0x34, 0x12, 0x78, 0x56, 0]).slot 0).resp 0
          = ⟨1, ASCS_ERROR_CODE_REJECTED_CONFIGURATION_PARAMETER_VALUE,
              ASCS_REJECT_REASON_CODEC_SPECIFIC_CONFIGURATION⟩ :=
  have hacc : accepted_frame (example_server 2 ASCS_STATE_IDLE ASCS_STATE_IDLE)
      [1, 1, 1, 3, 2, 0xFF, 0x34, 0x12, 0x78, 0x56, 0] :=
    ⟨by decide, by decide, by decide, by decide, by decide⟩
  ⟨hacc, by decide,
    (acp_write_config_codec_vendor_specific example_util
      (example_server 2 ASCS_STATE_IDLE ASCS_STATE_IDLE)
      64 0 (example_connection 64 ASCS_STATE_IDLE ASCS_STATE_IDLE)
      [1, 1, 1, 3, 2, 0xFF, 0x34, 0x12, 0x78, 0x56, 0] 0 0 1
      ⟨3, 2, 0xFF, 0x1234, 0x5678, ascs_specific_codec_configuration_t.zero⟩
      (by decide) (by decide) hacc (by decide) (by decide) (by decide) (by decide) (by decide)
      (by decide) (by decide) (by decide) (by decide) (by decide) (by decide) (by decide)).1⟩

/-- C17 (counterexample). A Config Codec write for the Sink ASE 1, which is Idle, with
target latency 3, target phy 2, the coding format vendor specific and no codec specific
configuration: the response code is not success, and the write raises no event. -/
theorem acp_write_vendor_specific_rejected :
    ((ascs_server_write_callback example_util
          (example_server 2 ASCS_STATE_IDLE ASCS_STATE_IDLE) 64 20
          [1, 1, 1, 3, 2, 0xFF, 0x34, 0x12, 0x78, 0x56, 0]).slot 0).resp 0
        = ⟨1, ASCS_ERROR_CODE_REJECTED_CONFIGURATION_PARAMETER_VALUE,
            ASCS_REJECT_REASON_CODEC_SPECIFIC_CONFIGURATION⟩
      ∧ (((ascs_server_write_callback example_util
            (example_server 2 ASCS_STATE_IDLE ASCS_STATE_IDLE) 64 20
            [1, 1, 1, 3, 2, 0xFF, 0x34, 0x12, 0x78, 0x56, 0]).slot 0).resp 0).response_code
          ≠ ASCS_ERROR_CODE_SUCCESS
      ∧ (ascs_server_write_callback example_util
            (example_server 2 ASCS_STATE_IDLE ASCS_STATE_IDLE) 64 20
            [1, 1, 1, 3, 2, 0xFF, 0x34, 0x12, 0x78, 0x56, 0]).trace
          = [schedule_task 64 ASCS_TASK_SEND_CONTROL_POINT_OPERATION_RESPONSE,
              att_server_register_can_send_now_callback 64]
      ∧ example_util.HCI_AUDIO_CODING_FORMAT_VENDOR_SPECIFIC = 0xFF
      ∧ transition_table ASCS_STATE_IDLE ASCS_OPCODE_CONFIG_CODEC LE_AUDIO_ROLE_SINK
          = [ASCS_STATE_CODEC_CONFIGURED] := by
  decide

/-- C18 (the code at the failing input). A Config Codec write for the Sink ASE 1, which
is Idle, with target latency 3, target phy 2, the standard coding format 3 and a codec
specific configuration whose only record gives the sampling frequency the invalid index
0: the entry recorded is (1, invalid configuration parameter value, codec specific
configuration), the rejection recorded in the `default` case of the `switch` being
overwritten after the loop over the codec configuration types. With the index 3 in the
same record the entry is (1, rejected configuration parameter value, codec specific
configuration). -/
theorem acp_write_standard_format_invalid_field :
    first_read_codec_request example_util_ltv (example_server 2 ASCS_STATE_IDLE ASCS_STATE_IDLE)
        (example_connection 64 ASCS_STATE_IDLE ASCS_STATE_IDLE)
        [1, 1, 1, 3, 2, 3, 0, 0, 0, 0, 3, 2, 1, 0] 0
        = ⟨3, 2, 3, 0, 0, { ascs_specific_codec_configuration_t.zero with
            codec_configuration_mask := 2, sampling_frequency_index := 0 }⟩
      ∧ ((ascs_server_write_callback example_util_ltv
            (example_server 2 ASCS_STATE_IDLE ASCS_STATE_IDLE) 64 20
            [1, 1, 1, 3, 2, 3, 0, 0, 0, 0, 3, 2, 1, 0]).slot 0).response_ases_num = 1
      ∧ ((ascs_server_write_callback example_util_ltv
            (example_server 2 ASCS_STATE_IDLE ASCS_STATE_IDLE) 64 20
            [1, 1, 1, 3, 2, 3, 0, 0, 0, 0, 3, 2, 1, 0]).slot 0).resp 0
          = ⟨1, ASCS_ERROR_CODE_INVALID_CONFIGURATION_PARAMETER_VALUE,
              ASCS_REJECT_REASON_CODEC_SPECIFIC_CONFIGURATION⟩
      ∧ ((ascs_server_write_callback example_util_ltv
            (example_server 2 ASCS_STATE_IDLE ASCS_STATE_IDLE) 64 20
            [1, 1, 1, 3, 2, 3, 0, 0, 0, 0, 3, 2, 1, 3]).slot 0).resp 0
          = ⟨1, ASCS_ERROR_CODE_REJECTED_CONFIGURATION_PARAMETER_VALUE,
              ASCS_REJECT_REASON_CODEC_SPECIFIC_CONFIGURATION⟩ := by
  decide

/-- C19 (as amended). For every Config QoS sub-request of an accepted ACP write on an
attached connection that names a registered ASE in Codec Configured or QoS Configured,
when no other ASE of the same direction on the connection, in whatever state, stores the
(cig_id, cis_id) pair of the request: the response code recorded is success exactly when
the SDU interval is in [0x0000FF, 0x0FFFFF], the framing equals the framing of the
stored codec configuration, the phy is at most the coded mask, the maximum SDU is at
most 0x0FFF, the maximum transport latency is at most the one of the stored codec
configuration and the presentation delay is between the minimum and the maximum of the
stored codec configuration, and the entry is then (ase_id, success, 0); otherwise the
entry is (ase_id, invalid configuration parameter value, reason) with the reason of the
first violated constraint in the order SDU interval, framing, phy, maximum SDU size,
maximum transport latency, presentation delay. -/
theorem acp_write_config_qos_fields (U : ascs_util_t) (srv : ascs_server_t)
    (con_handle ci : Nat) (c : ascs_server_connection_t) (buffer : List Nat) (i k a : Nat)
    (q : ascs_qos_configuration_t)
    (hfind : ascs_server_get_remote_client_for_con_handle srv con_handle = some ci)
    (hc : srv.client ci = some c) (hacc : accepted_frame srv buffer)
    (hcap : srv.ascs_streamendpoint_chr_num ≤ c.response.length)
    (hop : ascs_opcode_of_byte (buffer.getD 0 0) = ASCS_OPCODE_CONFIG_QOS)
    (hi : i < buffer.getD 1 0)
    (ha : first_read_ase_id U srv c buffer i = a)
    (hq : first_read_qos_request U srv c buffer i = q)
    (hk : ascs_server_get_streamendpoint_for_ase_id srv a = some k)
    (hst : (c.ase k).state = ASCS_STATE_CODEC_CONFIGURED
      ∨ (c.ase k).state = ASCS_STATE_QOS_CONFIGURED)
    (hfree : ∀ j, j < srv.ascs_streamendpoint_chr_num →
      (srv.chr j).ase_id ≠ (srv.chr k).ase_id → (srv.chr j).role = (srv.chr k).role →
      ¬ (q.cig_id = (c.ase j).qos_configuration.cig_id
        ∧ q.cis_id = (c.ase j).qos_configuration.cis_id)) :
    ((((ascs_server_write_callback U srv con_handle srv.ascs_ase_control_point_handle
          buffer).slot ci).resp i).response_code = ASCS_ERROR_CODE_SUCCESS
        ↔ (0x0000FF ≤ q.sdu_interval ∧ q.sdu_interval ≤ 0x0FFFFF)
          ∧ q.framing = (c.ase k).codec_configuration.framing
          ∧ q.phy ≤ U.LE_AUDIO_SERVER_PHY_MASK_CODED
          ∧ q.max_sdu ≤ 0x0FFF
          ∧ q.max_transport_latency_ms ≤ (c.ase k).codec_configuration.max_transport_latency_ms
          ∧ ((c.ase k).codec_configuration.presentation_delay_min_us ≤ q.presentation_delay_us
            ∧ q.presentation_delay_us
              ≤ (c.ase k).codec_configuration.presentation_delay_max_us))
      ∧ ((0x0000FF ≤ q.sdu_interval ∧ q.sdu_interval ≤ 0x0FFFFF) →
          q.framing = (c.ase k).codec_configuration.framing →
          q.phy ≤ U.LE_AUDIO_SERVER_PHY_MASK_CODED →
          q.max_sdu ≤ 0x0FFF →
          q.max_transport_latency_ms ≤ (c.ase k).codec_configuration.max_transport_latency_ms →
          ((c.ase k).codec_configuration.presentation_delay_min_us ≤ q.presentation_delay_us
            ∧ q.presentation_delay_us
              ≤ (c.ase k).codec_configuration.presentation_delay_max_us) →
          ((ascs_server_write_callback U srv con_handle srv.ascs_ase_control_point_handle
              buffer).slot ci).resp i
            = ⟨a, ASCS_ERROR_CODE_SUCCESS, ASCS_REJECT_REASON_NONE⟩)
      ∧ (¬ (0x0000FF ≤ q.sdu_interval ∧ q.sdu_interval ≤ 0x0FFFFF) →
          ((ascs_server_write_callback U srv con_handle srv.ascs_ase_control_point_handle
              buffer).slot ci).resp i
            = ⟨a, ASCS_ERROR_CODE_INVALID_CONFIGURATION_PARAMETER_VALUE,
                ASCS_REJECT_REASON_SDU_INTERVAL⟩)
      ∧ ((0x0000FF ≤ q.sdu_interval ∧ q.sdu_interval ≤ 0x0FFFFF) →
          q.framing ≠ (c.ase k).codec_configuration.framing →
          ((ascs_server_write_callback U srv con_handle srv.ascs_ase_control_point_handle
              buffer).slot ci).resp i
            = ⟨a, ASCS_ERROR_CODE_INVALID_CONFIGURATION_PARAMETER_VALUE,
                ASCS_REJECT_REASON_FRAMING⟩)
      ∧ ((0x0000FF ≤ q.sdu_interval ∧ q.sdu_interval ≤ 0x0FFFFF) →
          q.framing = (c.ase k).codec_configuration.framing →
          ¬ q.phy ≤ U.LE_AUDIO_SERVER_PHY_MASK_CODED →
          ((ascs_server_write_callback U srv con_handle srv.ascs_ase_control_point_handle
              buffer).slot ci).resp i
            = ⟨a, ASCS_ERROR_CODE_INVALID_CONFIGURATION_PARAMETER_VALUE,
                ASCS_REJECT_REASON_PHY⟩)
      ∧ ((0x0000FF ≤ q.sdu_interval ∧ q.sdu_interval ≤ 0x0FFFFF) →
          q.framing = (c.ase k).codec_configuration.framing →
          q.phy ≤ U.LE_AUDIO_SERVER_PHY_MASK_CODED →
          ¬ q.max_sdu ≤ 0x0FFF →
          ((ascs_server_write_callback U srv con_handle srv.ascs_ase_control_point_handle
              buffer).slot ci).resp i
            = ⟨a, ASCS_ERROR_CODE_INVALID_CONFIGURATION_PARAMETER_VALUE,
                ASCS_REJECT_REASON_MAXIMUM_SDU_SIZE⟩)
      ∧ ((0x0000FF ≤ q.sdu_interval ∧ q.sdu_interval ≤ 0x0FFFFF) →
          q.framing = (c.ase k).codec_configuration.framing →
          q.phy ≤ U.LE_AUDIO_SERVER_PHY_MASK_CODED →
          q.max_sdu ≤ 0x0FFF →
          ¬ q.max_transport_latency_ms
              ≤ (c.ase k).codec_configuration.max_transport_latency_ms →
          ((ascs_server_write_callback U srv con_handle srv.ascs_ase_control_point_handle
              buffer).slot ci).resp i
            = ⟨a, ASCS_ERROR_CODE_INVALID_CONFIGURATION_PARAMETER_VALUE,
                ASCS_REJECT_REASON_MAX_TRANSPORT_LATENCY⟩)
      ∧ ((0x0000FF ≤ q.sdu_interval ∧ q.sdu_interval ≤ 0x0FFFFF) →
          q.framing = (c.ase k).codec_configuration.framing →
          q.phy ≤ U.LE_AUDIO_SERVER_PHY_MASK_CODED →
          q.max_sdu ≤ 0x0FFF →
          q.max_transport_latency_ms ≤ (c.ase k).codec_configuration.max_transport_latency_ms →
          ¬ ((c.ase k).codec_configuration.presentation_delay_min_us ≤ q.presentation_delay_us
            ∧ q.presentation_delay_us
              ≤ (c.ase k).codec_configuration.presentation_delay_max_us) →
          ((ascs_server_write_callback U srv con_handle srv.ascs_ase_control_point_handle
              buffer).slot ci).resp i
            = ⟨a, ASCS_ERROR_CODE_INVALID_CONFIGURATION_PARAMETER_VALUE,
                ASCS_REJECT_REASON_PRESENTATION_DELAY⟩) := by
  have hnc : ¬ cis_mapping_collision srv c k q := by
    rintro ⟨-, j, h1, h2, h3, h4, h5⟩
    exact hfree j h1 h2 h3 ⟨h4, h5⟩
  rw [write_callback_qos_response U srv con_handle ci c buffer i k a q hfind hc hacc hcap hop
    hi ha hq hk ((config_qos_permitted_iff_state _ _).mp hst), if_neg hnc]
  have e1 : (q.sdu_interval < 0x0000FF ∨ q.sdu_interval > 0x0FFFFF)
      ↔ ¬ (0x0000FF ≤ q.sdu_interval ∧ q.sdu_interval ≤ 0x0FFFFF) := by omega
  have e3 : q.phy > U.LE_AUDIO_SERVER_PHY_MASK_CODED
      ↔ ¬ q.phy ≤ U.LE_AUDIO_SERVER_PHY_MASK_CODED := by omega
  have e4 : q.max_sdu > 0x0FFF ↔ ¬ q.max_sdu ≤ 0x0FFF := by omega
  have e5 : q.max_transport_latency_ms > (c.ase k).codec_configuration.max_transport_latency_ms
      ↔ ¬ q.max_transport_latency_ms
          ≤ (c.ase k).codec_configuration.max_transport_latency_ms := by omega
  have e6 : (q.presentation_delay_us < (c.ase k).codec_configuration.presentation_delay_min_us
        ∨ q.presentation_delay_us > (c.ase k).codec_configuration.presentation_delay_max_us)
      ↔ ¬ ((c.ase k).codec_configuration.presentation_delay_min_us ≤ q.presentation_delay_us
        ∧ q.presentation_delay_us
          ≤ (c.ase k).codec_configuration.presentation_delay_max_us) := by omega
  simp only [e1, e3, e4, e5, e6]
  by_cases c1 : 0x0000FF ≤ q.sdu_interval ∧ q.sdu_interval ≤ 0x0FFFFF
  · by_cases c2 : q.framing = (c.ase k).codec_configuration.framing
    · by_cases c3 : q.phy ≤ U.LE_AUDIO_SERVER_PHY_MASK_CODED
      · by_cases c4 : q.max_sdu ≤ 0x0FFF
        · by_cases c5 : q.max_transport_latency_ms
              ≤ (c.ase k).codec_configuration.max_transport_latency_ms
          · by_cases c6 : (c.ase k).codec_configuration.presentation_delay_min_us
                ≤ q.presentation_delay_us
              ∧ q.presentation_delay_us
                ≤ (c.ase k).codec_configuration.presentation_delay_max_us
            · simp [c1, c2, c3, c4, c5, c6]
            · simp [c1, c2, c3, c4, c5, c6]
          · simp [c1, c2, c3, c4, c5]
        · simp [c1, c2, c3, c4]
      · simp [c1, c2, c3]
    · simp [c1, c2]
  · simp [c1]

set_option maxRecDepth 100000 in
/-- C19 (witness). A state reached from initialisation with two Sink ASEs: the client on
handle 64 has enabled the notifications of the control point, ASE 1 is in Codec
Configured with a stored codec configuration that is unframed, allows 100 ms of
transport latency and presentation delays from 20000 to 40000 us, and ASE 2 is in QoS
Configured and stores the pair (2, 2). A Config QoS write with the pair (1, 1) for ASE 1,
with the SDU interval 10000, framing 0, phy 2, maximum SDU 40, transport latency 10 and
presentation delay 40000: no other ASE stores the pair, and the entry recorded is
(1, success, 0). -/
theorem acp_write_config_qos_fields_witness :
    ((run_events example_util example_wire example_init_two_sinks
          [ascs_event_t.gatt_write 64 10 [1, 0],
            ascs_event_t.apply (ascs_apply_t.configure_codec example_codec_configuration) 64 1,
            ascs_event_t.apply (ascs_apply_t.configure_codec example_codec_configuration) 64 2,
            ascs_event_t.apply (ascs_apply_t.configure_qos (example_qos_configuration 2 2))
              64 2]).slot 0).streamendpoints.map
        (fun e => (e.state, e.qos_configuration.cig_id, e.qos_configuration.cis_id))
      = [(ASCS_STATE_CODEC_CONFIGURED, 0, 0), (ASCS_STATE_QOS_CONFIGURED, 2, 2),
          (ASCS_STATE_IDLE, 0, 0), (ASCS_STATE_IDLE, 0, 0)]
      ∧ first_read_qos_request example_util
          (run_events example_util example_wire example_init_two_sinks
            [ascs_event_t.gatt_write 64 10 [1, 0],
              ascs_event_t.apply (ascs_apply_t.configure_codec example_codec_configuration) 64 1,
              ascs_event_t.apply (ascs_apply_t.configure_codec example_codec_configuration) 64 2,
              ascs_event_t.apply (ascs_apply_t.configure_qos (example_qos_configuration 2 2))
                64 2])
          ((run_events example_util example_wire example_init_two_sinks
            [ascs_event_t.gatt_write 64 10 [1, 0],
              ascs_event_t.apply (ascs_apply_t.configure_codec example_codec_configuration) 64 1,
              ascs_event_t.apply (ascs_apply_t.configure_codec example_codec_configuration) 64 2,
              ascs_event_t.apply (ascs_apply_t.configure_qos (example_qos_configuration 2 2))
                64 2]).slot 0)
          ([2, 1] ++ example_config_qos_sub_request 1 1 1) 0
        = example_qos_configuration 1 1
      ∧ ((ascs_server_write_callback example_util
            (run_events example_util example_wire example_init_two_sinks
              [ascs_event_t.gatt_write 64 10 [1, 0],
                ascs_event_t.apply (ascs_apply_t.configure_codec example_codec_configuration)
                  64 1,
                ascs_event_t.apply (ascs_apply_t.configure_codec example_codec_configuration)
                  64 2,
                ascs_event_t.apply (ascs_apply_t.configure_qos (example_qos_configuration 2 2))
                  64 2]) 64 9
            ([2, 1] ++ example_config_qos_sub_request 1 1 1)).slot 0).resp 0
          = ⟨1, ASCS_ERROR_CODE_SUCCESS, ASCS_REJECT_REASON_NONE⟩ :=
  ⟨by decide, by decide,
    (acp_write_config_qos_fields example_util
      (run_events example_util example_wire example_init_two_sinks
        [ascs_event_t.gatt_write 64 10 [1, 0],
          ascs_event_t.apply (ascs_apply_t.configure_codec example_codec_configuration) 64 1,
          ascs_event_t.apply (ascs_apply_t.configure_codec example_codec_configuration) 64 2,
          ascs_event_t.apply (ascs_apply_t.configure_qos (example_qos_configuration 2 2))
            64 2]) 64 0
      ((run_events example_util example_wire example_init_two_sinks
        [ascs_event_t.gatt_write 64 10 [1, 0],
          ascs_event_t.apply (ascs_apply_t.configure_codec example_codec_configuration) 64 1,
          ascs_event_t.apply (ascs_apply_t.configure_codec example_codec_configuration) 64 2,
          ascs_event_t.apply (ascs_apply_t.configure_qos (example_qos_configuration 2 2))
            64 2]).slot 0)
      ([2, 1] ++ example_config_qos_sub_request 1 1 1) 0 0 1 (example_qos_configuration 1 1)
      (by decide) (by decide) ⟨by decide, by decide, by decide, by decide, by decide⟩
      (by decide) (by decide) (by decide) (by decide) (by decide)
      (by decide) (by decide) (by decide)).2.1
      (by decide) (by decide) (by decide) (by decide) (by decide) (by decide)⟩

set_option maxRecDepth 100000 in
/-- C19 (counterexample). Two Sink ASEs on one connection, in a state reached from
initialisation: ASE 1 is in Codec Configured, ASE 2 is Streaming and stores the pair
(1, 1). No other ASE in Codec Configured has the pair (1, 1), so there is no CIS mapping
collision in the sense of section 4.4, and the six fields of the request are valid; yet
a Config QoS write with the pair (1, 1) for ASE 1 is answered with the invalid
configuration parameter value and the reason invalid ASE CIS mapping, not with
success. -/
theorem acp_write_config_qos_stored_pair_rejected :
    ((run_events example_util example_wire example_init_two_sinks
          example_events_streaming_pair).slot 0).streamendpoints.map
        (fun e => (e.state, e.qos_configuration.cig_id, e.qos_configuration.cis_id))
      = [(ASCS_STATE_CODEC_CONFIGURED, 0, 0), (ASCS_STATE_STREAMING, 1, 1),
          (ASCS_STATE_IDLE, 0, 0), (ASCS_STATE_IDLE, 0, 0)]
      ∧ (run_events example_util example_wire example_init_two_sinks
          example_events_streaming_pair).ascs_streamendpoint_characteristics
        = [⟨1, LE_AUDIO_ROLE_SINK, 3, 4⟩, ⟨2, LE_AUDIO_ROLE_SINK, 6, 7⟩]
      ∧ ascs_server_get_streamendpoint_for_ase_id
          (run_events example_util example_wire example_init_two_sinks
            example_events_streaming_pair) 1 = some 0
      ∧ first_read_qos_request example_util
          (run_events example_util example_wire example_init_two_sinks
            example_events_streaming_pair)
          ((run_events example_util example_wire example_init_two_sinks
            example_events_streaming_pair).slot 0)
          ([2, 1] ++ example_config_qos_sub_request 1 1 1) 0
        = example_qos_configuration 1 1
      ∧ ¬ cis_mapping_collision_spec
          (run_events example_util example_wire example_init_two_sinks
            example_events_streaming_pair)
          ((run_events example_util example_wire example_init_two_sinks
            example_events_streaming_pair).slot 0) 0 (example_qos_configuration 1 1)
      ∧ (((run_events example_util example_wire example_init_two_sinks
          example_events_streaming_pair).slot 0).ase 0).codec_configuration
        = example_codec_configuration
      ∧ ((ascs_server_write_callback example_util
          (run_events example_util example_wire example_init_two_sinks
            example_events_streaming_pair) 64 9
          ([2, 1] ++ example_config_qos_sub_request 1 1 1)).slot 0).resp 0
        = ⟨1, ASCS_ERROR_CODE_INVALID_CONFIGURATION_PARAMETER_VALUE,
            ASCS_REJECT_REASON_INVALID_ASE_CIS_MAPPING⟩ := by
  decide

/-- What the loop of `ascs_control_point_operation_prepare_response_for_qos_configuration`
decides, as it is written: for every Config QoS sub-request of an accepted ACP write on
an attached connection that names a registered ASE for which the table of section 4.3
permits Config QoS, the entry recorded is (ase_id, invalid configuration parameter value,
invalid ASE CIS mapping) exactly when the ASE the request names is itself in Codec
Configured and some ASE with another ase_id and of the same direction on the same
connection, whatever its state, stores the (cig_id, cis_id) pair of the request. -/
theorem write_callback_cis_mapping_iff (U : ascs_util_t) (srv : ascs_server_t)
    (con_handle ci : Nat) (c : ascs_server_connection_t) (buffer : List Nat) (i k a : Nat)
    (q : ascs_qos_configuration_t)
    (hfind : ascs_server_get_remote_client_for_con_handle srv con_handle = some ci)
    (hc : srv.client ci = some c) (hacc : accepted_frame srv buffer)
    (hcap : srv.ascs_streamendpoint_chr_num ≤ c.response.length)
    (hop : ascs_opcode_of_byte (buffer.getD 0 0) = ASCS_OPCODE_CONFIG_QOS)
    (hi : i < buffer.getD 1 0)
    (ha : first_read_ase_id U srv c buffer i = a)
    (hq : first_read_qos_request U srv c buffer i = q)
    (hk : ascs_server_get_streamendpoint_for_ase_id srv a = some k)
    (ht : transition_table (c.ase k).state ASCS_OPCODE_CONFIG_QOS (srv.chr k).role ≠ []) :
    ((ascs_server_write_callback U srv con_handle srv.ascs_ase_control_point_handle
        buffer).slot ci).resp i
        = ⟨a, ASCS_ERROR_CODE_INVALID_CONFIGURATION_PARAMETER_VALUE,
            ASCS_REJECT_REASON_INVALID_ASE_CIS_MAPPING⟩
      ↔ (c.ase k).state = ASCS_STATE_CODEC_CONFIGURED
        ∧ ∃ j, j < srv.ascs_streamendpoint_chr_num
          ∧ (srv.chr j).ase_id ≠ a
          ∧ (srv.chr j).role = (srv.chr k).role
          ∧ q.cig_id = (c.ase j).qos_configuration.cig_id
          ∧ q.cis_id = (c.ase j).qos_configuration.cis_id := by
  rw [write_callback_qos_response U srv con_handle ci c buffer i k a q hfind hc hacc hcap hop
    hi ha hq hk ((config_qos_permitted_iff _ _).mp ht)]
  have hdef : cis_mapping_collision srv c k q
      ↔ (c.ase k).state = ASCS_STATE_CODEC_CONFIGURED
        ∧ ∃ j, j < srv.ascs_streamendpoint_chr_num
          ∧ (srv.chr j).ase_id ≠ a
          ∧ (srv.chr j).role = (srv.chr k).role
          ∧ q.cig_id = (c.ase j).qos_configuration.cig_id
          ∧ q.cis_id = (c.ase j).qos_configuration.cis_id := by
    unfold cis_mapping_collision
    rw [(get_streamendpoint_some srv a k hk).2]
  rw [← hdef]
  by_cases hcc : cis_mapping_collision srv c k q
  · rw [if_pos hcc]
    exact ⟨fun _ => hcc, fun _ => rfl⟩
  · rw [if_neg hcc]
    refine ⟨fun h => ?_, fun h => absurd h hcc⟩
    exfalso
    revert h
    repeat' split
    all_goals simp

set_option maxRecDepth 100000 in
/-- C20 (the code at the failing input). Two Sink ASEs on one connection, in a state
reached from initialisation: ASE 1 is in QoS Configured with the pair (2, 2), ASE 2 is in
Codec Configured and stores the pair (1, 1). A Config QoS write with the pair (1, 1) for
ASE 1 is permitted by the table, and another Sink ASE in Codec Configured has the pair
of the request; the entry recorded is (1, success, 0) and the QoS event is raised for
ASE 1. When the application answers the event with `configure_qos`, both Sink ASEs store
the pair (1, 1). The same write while ASE 1 is in Codec Configured, with ASE 2 Streaming
and storing the pair (1, 1), is answered with the invalid ASE CIS mapping. -/
theorem acp_write_config_qos_collision_accepted :
    ((run_events example_util example_wire example_init_two_sinks
          example_events_codec_configured_pair).slot 0).streamendpoints.map
        (fun e => (e.state, e.qos_configuration.cig_id, e.qos_configuration.cis_id))
      = [(ASCS_STATE_QOS_CONFIGURED, 2, 2), (ASCS_STATE_CODEC_CONFIGURED, 1, 1),
          (ASCS_STATE_IDLE, 0, 0), (ASCS_STATE_IDLE, 0, 0)]
      ∧ (run_events example_util example_wire example_init_two_sinks
          example_events_codec_configured_pair).ascs_streamendpoint_characteristics
        = [⟨1, LE_AUDIO_ROLE_SINK, 3, 4⟩, ⟨2, LE_AUDIO_ROLE_SINK, 6, 7⟩]
      ∧ transition_table ASCS_STATE_QOS_CONFIGURED ASCS_OPCODE_CONFIG_QOS LE_AUDIO_ROLE_SINK
        ≠ []
      ∧ cis_mapping_collision_spec
          (run_events example_util example_wire example_init_two_sinks
            example_events_codec_configured_pair)
          ((run_events example_util example_wire example_init_two_sinks
            example_events_codec_configured_pair).slot 0) 0 (example_qos_configuration 1 1)
      ∧ ((ascs_server_write_callback example_util
          (run_events example_util example_wire example_init_two_sinks
            example_events_codec_configured_pair) 64 9
          ([2, 1] ++ example_config_qos_sub_request 1 1 1)).slot 0).resp 0
        = ⟨1, ASCS_ERROR_CODE_SUCCESS, ASCS_REJECT_REASON_NONE⟩
      ∧ (ascs_server_write_callback example_util
          (run_events example_util example_wire example_init_two_sinks
            example_events_codec_configured_pair) 64 9
          ([2, 1] ++ example_config_qos_sub_request 1 1 1)).trace
        = (run_events example_util example_wire example_init_two_sinks
            example_events_codec_configured_pair).trace
          ++ [schedule_task 64 ASCS_TASK_SEND_CONTROL_POINT_OPERATION_RESPONSE,
            att_server_register_can_send_now_callback 64,
            emit_client_qos_configuration_request 64 1 ASCS_STATE_RFU
              (example_qos_configuration 1 1)]
      ∧ ((run_events example_util example_wire example_init_two_sinks
          (example_events_codec_configured_pair
            ++ [ascs_event_t.gatt_write 64 9 ([2, 1] ++ example_config_qos_sub_request 1 1 1),
              ascs_event_t.apply (ascs_apply_t.configure_qos (example_qos_configuration 1 1))
                64 1])).slot 0).streamendpoints.map
          (fun e => (e.state, e.qos_configuration.cig_id, e.qos_configuration.cis_id))
        = [(ASCS_STATE_QOS_CONFIGURED, 1, 1), (ASCS_STATE_CODEC_CONFIGURED, 1, 1),
            (ASCS_STATE_IDLE, 0, 0), (ASCS_STATE_IDLE, 0, 0)]
      ∧ ((ascs_server_write_callback example_util
          (run_events example_util example_wire example_init_two_sinks
            example_events_streaming_pair) 64 9
          ([2, 1] ++ example_config_qos_sub_request 1 1 1)).slot 0).resp 0
        = ⟨1, ASCS_ERROR_CODE_INVALID_CONFIGURATION_PARAMETER_VALUE,
            ASCS_REJECT_REASON_INVALID_ASE_CIS_MAPPING⟩ := by
  decide

/-- One pass of the loop over the metadata types: the code for type `t`. -/
theorem metadata_reject_code_succ (U : ascs_util_t) (m : le_audio_metadata_t)
    (fuel t : Nat) (r : ascs_error_code_t) (ht : t < U.LE_AUDIO_METADATA_TYPE_RFU) :
    metadata_reject_code U m (fuel + 1) t r
      = metadata_reject_code U m fuel (t + 1)
          (if m.metadata_mask &&& (1 <<< t) ≠ 0 then
            if t = U.LE_AUDIO_METADATA_TYPE_PREFERRED_AUDIO_CONTEXTS then
              if m.preferred_audio_contexts_mask ≥ U.LE_AUDIO_CONTEXT_MASK_RFU then
                ASCS_ERROR_CODE_INVALID_METADATA
              else r
            else if t = U.LE_AUDIO_METADATA_TYPE_STREAMING_AUDIO_CONTEXTS then
              if m.streaming_audio_contexts_mask ≥ U.LE_AUDIO_CONTEXT_MASK_RFU then
                ASCS_ERROR_CODE_INVALID_METADATA
              else r
            else if t = U.LE_AUDIO_METADATA_TYPE_PARENTAL_RATING then
              if m.parental_rating ≥ U.LE_AUDIO_PARENTAL_RATING_RFU then
                ASCS_ERROR_CODE_INVALID_METADATA
              else r
            else r
          else r) := by
  conv_lhs => unfold metadata_reject_code
  rw [if_pos ht]

theorem metadata_reject_code_stop (U : ascs_util_t) (m : le_audio_metadata_t)
    (fuel t : Nat) (r : ascs_error_code_t) (ht : ¬ t < U.LE_AUDIO_METADATA_TYPE_RFU) :
    metadata_reject_code U m fuel t r = r := by
  cases fuel with
  | zero => rfl
  | succ fuel =>
    unfold metadata_reject_code
    rw [if_neg ht]

/-- The loop over the metadata types leaves the code alone when every present field it
looks at is below its RFU bound. -/
theorem metadata_reject_code_in_range (U : ascs_util_t) (m : le_audio_metadata_t)
    (hv : metadata_in_range U m) (fuel t : Nat) (r : ascs_error_code_t) :
    metadata_reject_code U m fuel t r = r := by
  obtain ⟨h1, h2, h3⟩ := hv
  induction fuel generalizing t r with
  | zero => rfl
  | succ fuel ih =>
    by_cases ht : t < U.LE_AUDIO_METADATA_TYPE_RFU
    · rw [metadata_reject_code_succ U m fuel t r ht, ih]
      by_cases hm : m.metadata_mask &&& (1 <<< t) ≠ 0
      · rw [if_pos hm]
        by_cases e1 : t = U.LE_AUDIO_METADATA_TYPE_PREFERRED_AUDIO_CONTEXTS
        · rw [if_pos e1, if_neg]
          have := h1 (e1 ▸ hm)
          omega
        · rw [if_neg e1]
          by_cases e2 : t = U.LE_AUDIO_METADATA_TYPE_STREAMING_AUDIO_CONTEXTS
          · rw [if_pos e2, if_neg]
            have := h2 (e2 ▸ hm)
            omega
          · rw [if_neg e2]
            by_cases e3 : t = U.LE_AUDIO_METADATA_TYPE_PARENTAL_RATING
            · rw [if_pos e3, if_neg]
              have := h3 (e3 ▸ hm)
              omega
            · rw [if_neg e3]
      · rw [if_neg hm]
    · exact metadata_reject_code_stop U m (fuel + 1) t r ht

/-- Once the code is the invalid metadata it stays so. -/
theorem metadata_reject_code_invalid (U : ascs_util_t) (m : le_audio_metadata_t)
    (fuel t : Nat) :
    metadata_reject_code U m fuel t ASCS_ERROR_CODE_INVALID_METADATA
      = ASCS_ERROR_CODE_INVALID_METADATA := by
  induction fuel generalizing t with
  | zero => rfl
  | succ fuel ih =>
    by_cases ht : t < U.LE_AUDIO_METADATA_TYPE_RFU
    · rw [metadata_reject_code_succ U m fuel t _ ht]
      have hstep : ∀ x : ascs_error_code_t, x = ASCS_ERROR_CODE_INVALID_METADATA →
          metadata_reject_code U m fuel (t + 1) x = ASCS_ERROR_CODE_INVALID_METADATA := by
        intro x hx; rw [hx]; exact ih _
      apply hstep
      repeat' split
      all_goals rfl
    · exact metadata_reject_code_stop U m (fuel + 1) t _ ht

/-- The loop sets the invalid metadata when it passes a type whose field is present and
not below its RFU bound. -/
theorem metadata_reject_code_violation (U : ascs_util_t) (m : le_audio_metadata_t)
    (hU : metadata_types_well_formed U) (fuel t v : Nat) (r : ascs_error_code_t)
    (hv1 : t ≤ v) (hv2 : v < t + fuel) (hv3 : v < U.LE_AUDIO_METADATA_TYPE_RFU)
    (hbit : m.metadata_mask &&& (1 <<< v) ≠ 0)
    (hbad : (v = U.LE_AUDIO_METADATA_TYPE_PREFERRED_AUDIO_CONTEXTS
          ∧ m.preferred_audio_contexts_mask ≥ U.LE_AUDIO_CONTEXT_MASK_RFU)
        ∨ (v = U.LE_AUDIO_METADATA_TYPE_STREAMING_AUDIO_CONTEXTS
          ∧ m.streaming_audio_contexts_mask ≥ U.LE_AUDIO_CONTEXT_MASK_RFU)
        ∨ (v = U.LE_AUDIO_METADATA_TYPE_PARENTAL_RATING
          ∧ m.parental_rating ≥ U.LE_AUDIO_PARENTAL_RATING_RFU)) :
    metadata_reject_code U m fuel t r = ASCS_ERROR_CODE_INVALID_METADATA := by
  obtain ⟨-, -, -, -, -, d1, d2, d3⟩ := hU
  induction fuel generalizing t r with
  | zero => omega
  | succ fuel ih =>
    have ht : t < U.LE_AUDIO_METADATA_TYPE_RFU := by omega
    rw [metadata_reject_code_succ U m fuel t r ht]
    by_cases htv : t = v
    · subst htv
      rw [if_pos hbit]
      rcases hbad with ⟨e, hb⟩ | ⟨e, hb⟩ | ⟨e, hb⟩
      · rw [if_pos e, if_pos hb]
        exact metadata_reject_code_invalid U m fuel _
      · rw [if_neg (by rw [e]; exact fun h => d1 h.symm), if_pos e, if_pos hb]
        exact metadata_reject_code_invalid U m fuel _
      · rw [if_neg (by rw [e]; exact fun h => d2 h.symm),
          if_neg (by rw [e]; exact fun h => d3 h.symm), if_pos e, if_pos hb]
        exact metadata_reject_code_invalid U m fuel _
    · exact ih (t + 1) _ (by omega) (by omega)

/-- The code the loop over the metadata types ends with, from the cleared code. -/
theorem metadata_reject_code_eq (U : ascs_util_t) (m : le_audio_metadata_t)
    (hU : metadata_types_well_formed U) :
    metadata_reject_code U m
        (U.LE_AUDIO_METADATA_TYPE_RFU - U.LE_AUDIO_METADATA_TYPE_PREFERRED_AUDIO_CONTEXTS)
        U.LE_AUDIO_METADATA_TYPE_PREFERRED_AUDIO_CONTEXTS ASCS_ERROR_CODE_SUCCESS
      = if metadata_in_range U m then ASCS_ERROR_CODE_SUCCESS
        else ASCS_ERROR_CODE_INVALID_METADATA := by
  by_cases hin : metadata_in_range U m
  · rw [if_pos hin]
    exact metadata_reject_code_in_range U m hin _ _ _
  · rw [if_neg hin]
    have hU' := hU
    obtain ⟨b0, b1, b2, b3, b4, -, -, -⟩ := hU'
    unfold metadata_in_range at hin
    by_cases g1 : m.metadata_mask
          &&& (1 <<< U.LE_AUDIO_METADATA_TYPE_PREFERRED_AUDIO_CONTEXTS) ≠ 0
        ∧ m.preferred_audio_contexts_mask ≥ U.LE_AUDIO_CONTEXT_MASK_RFU
    · exact metadata_reject_code_violation U m hU _ _
        U.LE_AUDIO_METADATA_TYPE_PREFERRED_AUDIO_CONTEXTS _ (Nat.le_refl _) (by omega) b0 g1.1
        (Or.inl ⟨rfl, g1.2⟩)
    · by_cases g2 : m.metadata_mask
            &&& (1 <<< U.LE_AUDIO_METADATA_TYPE_STREAMING_AUDIO_CONTEXTS) ≠ 0
          ∧ m.streaming_audio_contexts_mask ≥ U.LE_AUDIO_CONTEXT_MASK_RFU
      · exact metadata_reject_code_violation U m hU _ _
          U.LE_AUDIO_METADATA_TYPE_STREAMING_AUDIO_CONTEXTS _ b1 (by omega) b2 g2.1
          (Or.inr (Or.inl ⟨rfl, g2.2⟩))
      · by_cases g3 : m.metadata_mask
              &&& (1 <<< U.LE_AUDIO_METADATA_TYPE_PARENTAL_RATING) ≠ 0
            ∧ m.parental_rating ≥ U.LE_AUDIO_PARENTAL_RATING_RFU
        · exact metadata_reject_code_violation U m hU _ _
            U.LE_AUDIO_METADATA_TYPE_PARENTAL_RATING _ b3 (by omega) b4 g3.1
            (Or.inr (Or.inr ⟨rfl, g3.2⟩))
        · exfalso
          apply hin
          refine ⟨fun h => ?_, fun h => ?_, fun h => ?_⟩
          · by_contra hc; exact g1 ⟨h, by omega⟩
          · by_contra hc; exact g2 ⟨h, by omega⟩
          · by_contra hc; exact g3 ⟨h, by omega⟩

/-- The entry
`ascs_server_control_point_operation_prepare_response_for_metadata_update` leaves for a
registered ASE in Enabling or Streaming, on a cleared entry. -/
theorem metadata_update_response (U : ascs_util_t) (srv : ascs_server_t)
    (c : ascs_server_connection_t) (i a k : Nat) (m : le_audio_metadata_t)
    (hU : metadata_types_well_formed U)
    (hi : i < c.response.length)
    (hz : c.resp i = ascs_control_point_operation_response_t.zero)
    (hk : ascs_server_get_streamendpoint_for_ase_id srv a = some k)
    (hst : (c.ase k).state = ASCS_STATE_ENABLING ∨ (c.ase k).state = ASCS_STATE_STREAMING) :
    (ascs_server_control_point_operation_prepare_response_for_metadata_update U srv c
        i a m).resp i
      = if m.metadata_mask &&& (1 <<< U.LE_AUDIO_METADATA_TYPE_RFU) ≠ 0 then
          ⟨a, ASCS_ERROR_CODE_REJECTED_METADATA, ASCS_REJECT_REASON_NONE⟩
        else if metadata_in_range U m then
          ⟨a, ASCS_ERROR_CODE_SUCCESS, ASCS_REJECT_REASON_NONE⟩
        else ⟨a, ASCS_ERROR_CODE_INVALID_METADATA, ASCS_REJECT_REASON_NONE⟩ := by
  have h0 := resp_set_ase_id_cleared c i a hi hz
  unfold ascs_server_control_point_operation_prepare_response_for_metadata_update
  simp only [hk, ase_set_response_ase_id, metadata_reject_code_eq U m hU]
  rcases hst with hs | hs <;> rw [hs] <;> simp only []
  all_goals
    by_cases hr : m.metadata_mask &&& (1 <<< U.LE_AUDIO_METADATA_TYPE_RFU) ≠ 0
    · rw [if_pos hr, if_pos hr]
      exact resp_update_set_ase_id c i a _ _ hi
    · rw [if_neg hr, if_neg hr]
      by_cases hin : metadata_in_range U m
      · simp only [if_pos hin, ne_eq, not_true_eq_false, if_false]
        exact h0
      · simp only [if_neg hin]
        rw [if_pos (by decide)]
        exact resp_update_set_ase_id c i a _ _ hi

/-- Entry `i` of the response of an accepted Update Metadata write on an attached
connection, as `ascs_server_control_point_operation_prepare_response_for_metadata_update`
computes it from the ase_id and the metadata the first read takes for sub-request `i`. -/
theorem write_callback_metadata_entry (U : ascs_util_t) (srv : ascs_server_t)
    (con_handle ci : Nat) (c : ascs_server_connection_t) (buffer : List Nat) (i : Nat)
    (hfind : ascs_server_get_remote_client_for_con_handle srv con_handle = some ci)
    (hc : srv.client ci = some c) (hacc : accepted_frame srv buffer)
    (hop : ascs_opcode_of_byte (buffer.getD 0 0) = ASCS_OPCODE_UPDATE_METADATA)
    (hi : i < buffer.getD 1 0) :
    ((ascs_server_write_callback U srv con_handle srv.ascs_ase_control_point_handle
        buffer).slot ci).resp i
      = (ascs_server_control_point_operation_prepare_response_for_metadata_update U srv
          (first_read_at U srv c buffer i).connection i (first_read_ase_id U srv c buffer i)
          (first_read_metadata U srv c buffer i)).resp i := by
  rw [write_callback_first_read_entry U srv con_handle ci c buffer i hfind hc hacc hi, hop]
  rfl

/-- C23. For every Update Metadata sub-request of an accepted ACP write on an attached
connection that names a registered ASE in Enabling or Streaming, with the metadata the
first read parses for it: if the mask has the RFU bit the entry recorded is (ase_id,
rejected metadata, 0); otherwise, if the preferred audio contexts are present and not
below the RFU context mask, or the streaming audio contexts are present and not below
it, or the parental rating is present and not below the RFU rating, the entry is
(ase_id, invalid metadata, 0); otherwise it is (ase_id, success, 0). The value of a
field whose bit is absent from the mask does not enter. The three metadata types are
constants of a header outside the sources and are taken to be distinct types from the
first type of the loop up to below the RFU type. -/
theorem acp_write_update_metadata_fields (U : ascs_util_t) (srv : ascs_server_t)
    (con_handle ci : Nat) (c : ascs_server_connection_t) (buffer : List Nat) (i k a : Nat)
    (m : le_audio_metadata_t)
    (hU : metadata_types_well_formed U)
    (hfind : ascs_server_get_remote_client_for_con_handle srv con_handle = some ci)
    (hc : srv.client ci = some c) (hacc : accepted_frame srv buffer)
    (hcap : srv.ascs_streamendpoint_chr_num ≤ c.response.length)
    (hop : ascs_opcode_of_byte (buffer.getD 0 0) = ASCS_OPCODE_UPDATE_METADATA)
    (hi : i < buffer.getD 1 0)
    (ha : first_read_ase_id U srv c buffer i = a)
    (hm : first_read_metadata U srv c buffer i = m)
    (hk : ascs_server_get_streamendpoint_for_ase_id srv a = some k)
    (hst : (c.ase k).state = ASCS_STATE_ENABLING ∨ (c.ase k).state = ASCS_STATE_STREAMING) :
    ((ascs_server_write_callback U srv con_handle srv.ascs_ase_control_point_handle
        buffer).slot ci).resp i
      = if m.metadata_mask &&& (1 <<< U.LE_AUDIO_METADATA_TYPE_RFU) ≠ 0 then
          ⟨a, ASCS_ERROR_CODE_REJECTED_METADATA, ASCS_REJECT_REASON_NONE⟩
        else if
            (m.metadata_mask &&& (1 <<< U.LE_AUDIO_METADATA_TYPE_PREFERRED_AUDIO_CONTEXTS) ≠ 0
              ∧ m.preferred_audio_contexts_mask ≥ U.LE_AUDIO_CONTEXT_MASK_RFU)
            ∨ (m.metadata_mask
                  &&& (1 <<< U.LE_AUDIO_METADATA_TYPE_STREAMING_AUDIO_CONTEXTS) ≠ 0
              ∧ m.streaming_audio_contexts_mask ≥ U.LE_AUDIO_CONTEXT_MASK_RFU)
            ∨ (m.metadata_mask &&& (1 <<< U.LE_AUDIO_METADATA_TYPE_PARENTAL_RATING) ≠ 0
              ∧ m.parental_rating ≥ U.LE_AUDIO_PARENTAL_RATING_RFU) then
          ⟨a, ASCS_ERROR_CODE_INVALID_METADATA, ASCS_REJECT_REASON_NONE⟩
        else ⟨a, ASCS_ERROR_CODE_SUCCESS, ASCS_REJECT_REASON_NONE⟩ := by
  subst ha hm
  obtain ⟨-, f2, f3, f4⟩ := first_read_at_connection U srv c buffer i
  have hilen : i < (first_read_at U srv c buffer i).connection.response.length := by
    rw [f2]; have := hacc.2.2.1; omega
  rw [write_callback_metadata_entry U srv con_handle ci c buffer i hfind hc hacc hop hi,
    metadata_update_response U srv _ i _ k _ hU hilen f4 hk (by rw [f3 k]; exact hst)]
  have hiff : metadata_in_range U (first_read_metadata U srv c buffer i)
      ↔ ¬ (((first_read_metadata U srv c buffer i).metadata_mask
              &&& (1 <<< U.LE_AUDIO_METADATA_TYPE_PREFERRED_AUDIO_CONTEXTS) ≠ 0
            ∧ (first_read_metadata U srv c buffer i).preferred_audio_contexts_mask
              ≥ U.LE_AUDIO_CONTEXT_MASK_RFU)
          ∨ ((first_read_metadata U srv c buffer i).metadata_mask
                &&& (1 <<< U.LE_AUDIO_METADATA_TYPE_STREAMING_AUDIO_CONTEXTS) ≠ 0
            ∧ (first_read_metadata U srv c buffer i).streaming_audio_contexts_mask
              ≥ U.LE_AUDIO_CONTEXT_MASK_RFU)
          ∨ ((first_read_metadata U srv c buffer i).metadata_mask
                &&& (1 <<< U.LE_AUDIO_METADATA_TYPE_PARENTAL_RATING) ≠ 0
            ∧ (first_read_metadata U srv c buffer i).parental_rating
              ≥ U.LE_AUDIO_PARENTAL_RATING_RFU)) := by
    unfold metadata_in_range
    constructor
    · rintro ⟨h1, h2, h3⟩ (⟨p, q⟩ | ⟨p, q⟩ | ⟨p, q⟩)
      · have := h1 p; omega
      · have := h2 p; omega
      · have := h3 p; omega
    · intro h
      refine ⟨fun p => ?_, fun p => ?_, fun p => ?_⟩
      · by_contra hc'; exact h (Or.inl ⟨p, by omega⟩)
      · by_contra hc'; exact h (Or.inr (Or.inl ⟨p, by omega⟩))
      · by_contra hc'; exact h (Or.inr (Or.inr ⟨p, by omega⟩))
  by_cases hr : (first_read_metadata U srv c buffer i).metadata_mask
      &&& (1 <<< U.LE_AUDIO_METADATA_TYPE_RFU) ≠ 0
  · rw [if_pos hr, if_pos hr]
  · rw [if_neg hr, if_neg hr]
    by_cases hin : metadata_in_range U (first_read_metadata U srv c buffer i)
    · rw [if_pos hin, if_neg (hiff.mp hin)]
    · rw [if_neg hin, if_pos (by by_contra hc'; exact hin (hiff.mpr hc'))]

set_option maxRecDepth 100000 in
/-- C23 (witness). An Update Metadata write for the Sink ASE 1, which is Streaming, whose
metadata is the single record (2, 6, 11): the parental rating is present and 11 is not
below the RFU rating 10, so the entry recorded is (1, invalid metadata, 0). -/
theorem acp_write_update_metadata_fields_witness :
    accepted_frame
        (example_server_two_sinks (example_streamendpoint ASCS_STATE_STREAMING 0 0)
          (example_streamendpoint ASCS_STATE_IDLE 0 0))
        [7, 1, 1, 3, 2, 6, 11]
      ∧ first_read_metadata example_util_metadata
          (example_server_two_sinks (example_streamendpoint ASCS_STATE_STREAMING 0 0)
            (example_streamendpoint ASCS_STATE_IDLE 0 0))
          ((example_server_two_sinks (example_streamendpoint ASCS_STATE_STREAMING 0 0)
            (example_streamendpoint ASCS_STATE_IDLE 0 0)).slot 0)
          [7, 1, 1, 3, 2, 6, 11] 0
        = ⟨64, 0, 0, 11, []⟩
      ∧ ((ascs_server_write_callback example_util_metadata
            (example_server_two_sinks (example_streamendpoint ASCS_STATE_STREAMING 0 0)
              (example_streamendpoint ASCS_STATE_IDLE 0 0)) 64 20
            [7, 1, 1, 3, 2, 6, 11]).slot 0).resp 0
          = ⟨1, ASCS_ERROR_CODE_INVALID_METADATA, ASCS_REJECT_REASON_NONE⟩ :=
  have hacc : accepted_frame
      (example_server_two_sinks (example_streamendpoint ASCS_STATE_STREAMING 0 0)
        (example_streamendpoint ASCS_STATE_IDLE 0 0))
      [7, 1, 1, 3, 2, 6, 11] :=
    ⟨by decide, by decide, by decide, by decide, by decide⟩
  ⟨hacc, by decide,
    acp_write_update_metadata_fields example_util_metadata
      (example_server_two_sinks (example_streamendpoint ASCS_STATE_STREAMING 0 0)
        (example_streamendpoint ASCS_STATE_IDLE 0 0)) 64 0
      ((example_server_two_sinks (example_streamendpoint ASCS_STATE_STREAMING 0 0)
        (example_streamendpoint ASCS_STATE_IDLE 0 0)).slot 0)
      [7, 1, 1, 3, 2, 6, 11] 0 0 1 ⟨64, 0, 0, 11, []⟩
      (by decide) (by decide) (by decide) hacc (by decide) (by decide) (by decide) (by decide)
      (by decide) (by decide) (by decide)⟩

/-! ## Claims on several sub-requests of one Config QoS write -/

set_option maxRecDepth 100000 in
/-- C21 (the code at the failing input). Two Sink ASEs 1 and 2 on one connection, both in
Codec Configured and both storing the pair (0, 0) their zeroed QoS configuration holds.
One Config QoS write carries two sub-requests, one per ASE, that are valid field by field
and both ask for the pair (1, 1): the entries recorded are (1, success, 0) and (2,
success, 0), and an event is raised for each. With the pair (0, 0) in both sub-requests
instead, both entries are (ase_id, invalid configuration parameter value, invalid ASE CIS
mapping). In neither case is the first sub-request accepted and the second one rejected:
the loop compares the request with the stored pairs only, and the first read stores
nothing. -/
theorem acp_write_config_qos_same_pair_twice :
    accepted_frame
        (example_server_two_sinks (example_streamendpoint ASCS_STATE_CODEC_CONFIGURED 0 0)
          (example_streamendpoint ASCS_STATE_CODEC_CONFIGURED 0 0))
        ([2, 2] ++ example_config_qos_sub_request 1 1 1
          ++ example_config_qos_sub_request 2 1 1)
      ∧ ((ascs_server_write_callback example_util
            (example_server_two_sinks (example_streamendpoint ASCS_STATE_CODEC_CONFIGURED 0 0)
              (example_streamendpoint ASCS_STATE_CODEC_CONFIGURED 0 0)) 64 20
            ([2, 2] ++ example_config_qos_sub_request 1 1 1
              ++ example_config_qos_sub_request 2 1 1)).slot 0).response
          = [⟨1, ASCS_ERROR_CODE_SUCCESS, ASCS_REJECT_REASON_NONE⟩,
              ⟨2, ASCS_ERROR_CODE_SUCCESS, ASCS_REJECT_REASON_NONE⟩]
      ∧ (ascs_server_write_callback example_util
            (example_server_two_sinks (example_streamendpoint ASCS_STATE_CODEC_CONFIGURED 0 0)
              (example_streamendpoint ASCS_STATE_CODEC_CONFIGURED 0 0)) 64 20
            ([2, 2] ++ example_config_qos_sub_request 1 1 1
              ++ example_config_qos_sub_request 2 1 1)).trace
          = [schedule_task 64 ASCS_TASK_SEND_CONTROL_POINT_OPERATION_RESPONSE,
              att_server_register_can_send_now_callback 64,
              emit_client_qos_configuration_request 64 1 ASCS_STATE_RFU
                ⟨1, 1, 10000, 0, 2, 40, 2, 10, 40000⟩,
              emit_client_qos_configuration_request 64 2 ASCS_STATE_RFU
                ⟨1, 1, 10000, 0, 2, 40, 2, 10, 40000⟩]
      ∧ ((ascs_server_write_callback example_util
            (example_server_two_sinks (example_streamendpoint ASCS_STATE_CODEC_CONFIGURED 0 0)
              (example_streamendpoint ASCS_STATE_CODEC_CONFIGURED 0 0)) 64 20
            ([2, 2] ++ example_config_qos_sub_request 1 0 0
              ++ example_config_qos_sub_request 2 0 0)).slot 0).response
          = [⟨1, ASCS_ERROR_CODE_INVALID_CONFIGURATION_PARAMETER_VALUE,
                ASCS_REJECT_REASON_INVALID_ASE_CIS_MAPPING⟩,
              ⟨2, ASCS_ERROR_CODE_INVALID_CONFIGURATION_PARAMETER_VALUE,
                ASCS_REJECT_REASON_INVALID_ASE_CIS_MAPPING⟩] :=
  ⟨⟨by decide, by decide, by decide, by decide, by decide⟩, by decide, by decide, by decide⟩

/-! ## The serialized value of an ASE -/

/-- C28. For every state and every ASE, `asce_server_ase_serialize` writes the ase_id of
the characteristic as byte 0 and the byte of the state as byte 1, and reading the header
back gives the ase_id and the state; for Idle and Releasing the value is those two bytes,
and for Enabling, Streaming and Disabling bytes 2 and 3 are the stored CIG and CIS ids,
followed by what the metadata serializer writes into the rest of the buffer. The bytes of
the states are enumerator values of a header outside the sources and are taken to be
distinct. -/
theorem ase_serialize_header_and_body (W : ascs_wire_t) (srv : ascs_server_t) (k : Nat)
    (e : ascs_streamendpoint_t) (value_size : Nat)
    (hinj : ∀ s t, W.state_byte s = W.state_byte t → s = t) :
    (asce_server_ase_serialize W srv k e value_size).getD 0 0 = (srv.chr k).ase_id
      ∧ (asce_server_ase_serialize W srv k e value_size).getD 1 0 = W.state_byte e.state
      ∧ ase_header_parse W (asce_server_ase_serialize W srv k e value_size)
          = some ((srv.chr k).ase_id, e.state)
      ∧ (e.state = ASCS_STATE_IDLE ∨ e.state = ASCS_STATE_RELEASING →
          asce_server_ase_serialize W srv k e value_size
            = [(srv.chr k).ase_id, W.state_byte e.state])
      ∧ (e.state = ASCS_STATE_ENABLING ∨ e.state = ASCS_STATE_STREAMING
            ∨ e.state = ASCS_STATE_DISABLING →
          asce_server_ase_serialize W srv k e value_size
            = [(srv.chr k).ase_id, W.state_byte e.state, e.qos_configuration.cig_id,
                e.qos_configuration.cis_id]
              ++ W.asce_util_metadata_serialize e.metadata (value_size - 4)) := by
  have hfind : ∀ s : ascs_state_t,
      [ASCS_STATE_IDLE, ASCS_STATE_CODEC_CONFIGURED, ASCS_STATE_QOS_CONFIGURED,
        ASCS_STATE_ENABLING, ASCS_STATE_STREAMING, ASCS_STATE_DISABLING, ASCS_STATE_RELEASING,
        ASCS_STATE_RFU].find? (fun t => W.state_byte t == W.state_byte s) = some s := by
    intro s
    have hne : ∀ t, t ≠ s → (W.state_byte t == W.state_byte s) = false := by
      intro t hts
      rw [beq_eq_false_iff_ne]
      exact fun h => hts (hinj t s h)
    cases s <;> simp [List.find?, hne]
  have hshape : ∃ rest, asce_server_ase_serialize W srv k e value_size
      = (srv.chr k).ase_id :: W.state_byte e.state :: rest := by
    unfold asce_server_ase_serialize
    cases e.state <;> exact ⟨_, rfl⟩
  obtain ⟨rest, hrest⟩ := hshape
  refine ⟨by rw [hrest]; rfl, by rw [hrest]; rfl, ?_, ?_, ?_⟩
  · rw [hrest]
    show Option.map _ _ = _
    rw [hfind e.state]
    rfl
  · intro h
    unfold asce_server_ase_serialize
    rcases h with h | h <;> rw [h]
  · intro h
    unfold asce_server_ase_serialize
    rcases h with h | h | h <;> rw [h] <;> rfl

/-- C28 (witness). The Sink ASE 1 of the two-Sink server, Streaming with the stored pair
(3, 5): the value is (1, 4, 3, 5) followed by the two bytes the metadata serializer of
the instance writes, and the header reads back as ASE 1 in Streaming. -/
theorem ase_serialize_header_and_body_witness :
    (∀ s t, example_wire.state_byte s = example_wire.state_byte t → s = t)
      ∧ asce_server_ase_serialize example_wire
          (example_server_two_sinks (example_streamendpoint ASCS_STATE_STREAMING 3 5)
            (example_streamendpoint ASCS_STATE_IDLE 0 0)) 0
          (example_streamendpoint ASCS_STATE_STREAMING 3 5) 44
        = [1, 4, 3, 5, 0, 0]
      ∧ ase_header_parse example_wire
          (asce_server_ase_serialize example_wire
            (example_server_two_sinks (example_streamendpoint ASCS_STATE_STREAMING 3 5)
              (example_streamendpoint ASCS_STATE_IDLE 0 0)) 0
            (example_streamendpoint ASCS_STATE_STREAMING 3 5) 44)
        = some (1, ASCS_STATE_STREAMING) :=
  have hinj : ∀ s t, example_wire.state_byte s = example_wire.state_byte t → s = t := by
    intro s t
    cases s <;> cases t <;> decide
  ⟨hinj, by decide,
    (ase_serialize_header_and_body example_wire
      (example_server_two_sinks (example_streamendpoint ASCS_STATE_STREAMING 3 5)
        (example_streamendpoint ASCS_STATE_IDLE 0 0)) 0
      (example_streamendpoint ASCS_STATE_STREAMING 3 5) 44 hinj).2.2.1⟩

/-! ## The control point notification -/

theorem take_set_self {α : Type} (l : List α) (n : Nat) (a : α) :
    (l.set n a).take n = l.take n := by
  induction l generalizing n with
  | nil => simp
  | cons x xs ih => cases n <;> simp [ih]

/-- A store through the cursor, when the cursor is inside the array and does not wrap,
extends the bytes written so far by one. -/
theorem value_cursor_put (s : value_cursor_t) (byte : Nat) (l : List Nat)
    (hpos : s.pos = l.length) (htake : s.value.take s.pos = l)
    (hin : l.length < s.value.length) (hw : l.length + 1 < 256) :
    (s.put byte).pos = (l ++ [byte]).length
      ∧ (s.put byte).value.take (s.put byte).pos = l ++ [byte]
      ∧ (s.put byte).value.length = s.value.length := by
  have h1 : (s.put byte).pos = l.length + 1 := by
    unfold value_cursor_t.put
    show (s.pos + 1) % 256 = _
    rw [hpos, Nat.mod_eq_of_lt hw]
  have h3 : (s.put byte).value.length = s.value.length := by
    unfold value_cursor_t.put
    exact List.length_set _ _ _
  refine ⟨by rw [h1]; simp, ?_, h3⟩
  rw [h1]
  unfold value_cursor_t.put
  show (s.value.set s.pos byte).take (l.length + 1) = _
  rw [hpos] at htake ⊢
  rw [List.take_succ, take_set_self, htake]
  simp [hin]

/-- The bytes of the first `n` entries of the response, three per entry. -/
theorem control_point_notification_loop (W : ascs_wire_t) (c : ascs_server_connection_t)
    (s : value_cursor_t) (l : List Nat) (n : Nat)
    (hpos : s.pos = l.length) (htake : s.value.take s.pos = l)
    (hin : l.length + 3 * n ≤ s.value.length) (hw : l.length + 3 * n < 256) :
    (for_loop n
        (fun i s =>
          ((s.put (c.resp i).ase_id).put (W.code_byte (c.resp i).response_code)).put
            (W.reason_byte (c.resp i).reason)) s).pos
        = l.length + 3 * n
      ∧ (for_loop n
          (fun i s =>
            ((s.put (c.resp i).ase_id).put (W.code_byte (c.resp i).response_code)).put
              (W.reason_byte (c.resp i).reason)) s).value.take (l.length + 3 * n)
        = l ++ (List.range n).flatMap (fun i =>
            [(c.resp i).ase_id, W.code_byte (c.resp i).response_code,
              W.reason_byte (c.resp i).reason])
      ∧ (for_loop n
          (fun i s =>
            ((s.put (c.resp i).ase_id).put (W.code_byte (c.resp i).response_code)).put
              (W.reason_byte (c.resp i).reason)) s).value.length = s.value.length := by
  induction n with
  | zero =>
    rw [for_loop_zero]
    simp [← hpos, htake]
  | succ n ih =>
    obtain ⟨i1, i2, i3⟩ := ih (by omega) (by omega)
    rw [for_loop_succ]
    generalize for_loop n _ s = t at i1 i2 i3
    rw [← i1] at i2
    have hl : (l ++ (List.range n).flatMap (fun i =>
        [(c.resp i).ase_id, W.code_byte (c.resp i).response_code,
          W.reason_byte (c.resp i).reason])).length = l.length + 3 * n := by
      rw [← i2, List.length_take, i1, i3]
      omega
    obtain ⟨a1, a2, a3⟩ := value_cursor_put t (c.resp n).ase_id _ (by rw [i1, hl]) i2
      (by rw [hl, i3]; omega) (by rw [hl]; omega)
    obtain ⟨b1, b2, b3⟩ := value_cursor_put _ (W.code_byte (c.resp n).response_code) _ a1 a2
      (by rw [a3, i3, List.length_append, hl, List.length_singleton]; omega)
      (by rw [List.length_append, hl, List.length_singleton]; omega)
    obtain ⟨c1, c2, c3⟩ := value_cursor_put _ (W.reason_byte (c.resp n).reason) _ b1 b2
      (by rw [b3, a3, i3]; simp only [List.length_append, hl, List.length_singleton]; omega)
      (by simp only [List.length_append, hl, List.length_singleton]; omega)
    have hlen : l.length + 3 * (n + 1)
        = (((l ++ (List.range n).flatMap (fun i =>
              [(c.resp i).ase_id, W.code_byte (c.resp i).response_code,
                W.reason_byte (c.resp i).reason])) ++ [(c.resp n).ase_id])
            ++ [W.code_byte (c.resp n).response_code]
            ++ [W.reason_byte (c.resp n).reason]).length := by
      simp only [List.length_append, hl, List.length_singleton]
      omega
    refine ⟨by rw [c1, hlen], ?_, by rw [c3, b3, a3, i3]⟩
    rw [hlen, ← c1, c2, List.range_succ, List.flatMap_append]
    simp

/-- The value `ascs_server_can_send_now` sends for the control point, for a number of
ASEs that is not the sentinel and is within the response array, the array being short
enough for the `uint8_t` cursor. -/
theorem control_point_notification_value_eq (W : ascs_wire_t) (c : ascs_server_connection_t)
    (hn : c.response_ases_num ≠ 0xFF) (hle : c.response_ases_num ≤ c.response.length)
    (hmax : c.response.length ≤ 84) :
    control_point_notification_value W c
      = [c.response_opcode, c.response_ases_num]
        ++ (List.range c.response_ases_num).flatMap (fun i =>
            [(c.resp i).ase_id, W.code_byte (c.resp i).response_code,
              W.reason_byte (c.resp i).reason]) := by
  unfold control_point_notification_value
  simp only [hn, ne_eq, not_false_eq_true, if_true]
  obtain ⟨a1, a2, a3⟩ := value_cursor_put
    ⟨List.replicate (2 + 3 * c.response.length) 0, 0⟩ c.response_opcode [] rfl rfl
    (by simp) (by simp)
  obtain ⟨b1, b2, b3⟩ := value_cursor_put _ c.response_ases_num _ a1 a2
    (by rw [a3]; simp; omega) (by simp)
  obtain ⟨c1, c2, -⟩ := control_point_notification_loop W c _ _ c.response_ases_num b1 b2
    (by rw [b3, a3]; simp; omega) (by simp; omega)
  rw [c1, c2]
  rfl

/-- The value `ascs_server_can_send_now` sends for the control point when the number of
ASEs is the sentinel 0xFF. -/
theorem control_point_notification_value_sentinel (W : ascs_wire_t)
    (c : ascs_server_connection_t) (hn : c.response_ases_num = 0xFF) :
    control_point_notification_value W c = [c.response_opcode, 0xFF] := by
  unfold control_point_notification_value
  simp only [hn, ne_eq, not_true_eq_false, if_false]
  obtain ⟨a1, a2, a3⟩ := value_cursor_put
    ⟨List.replicate (2 + 3 * c.response.length) 0, 0⟩ c.response_opcode [] rfl rfl
    (by simp) (by simp)
  obtain ⟨b1, b2, -⟩ := value_cursor_put _ 0xFF _ a1 a2 (by rw [a3]; simp; omega) (by simp)
  rw [b2]
  rfl

theorem length_flatMap_triples (f g h : Nat → Nat) (n : Nat) :
    ((List.range n).flatMap (fun i => [f i, g i, h i])).length = 3 * n := by
  induction n with
  | zero => rfl
  | succ n ih =>
    rw [List.range_succ, List.flatMap_append, List.length_append, ih]
    simp
    omega

/-- C24. For every connection state a non-empty ACP write on an attached connection
produces, the number of ASEs of the response is either the sentinel 0xFF or a count n
with 1 <= n <= ASCS_STREAMENDPOINTS_MAX_NUM; the value `ascs_server_can_send_now`
serializes for the control point is (opcode, 0xFF), two bytes, in the first case, and
(opcode, n) followed by (ase_id, code, reason) for the entries 0..n-1 in order, 2 + 3*n
bytes, in the second; it never exceeds the 2 + 3*ASCS_STREAMENDPOINTS_MAX_NUM bytes of
the array. The array constant is a parameter: the registered ASEs are taken to fit the
arrays, and the array to be short enough for the `uint8_t` cursor, at most 84 entries. -/
theorem acp_response_serialization (U : ascs_util_t) (W : ascs_wire_t) (srv : ascs_server_t)
    (con_handle ci : Nat) (c c2 : ascs_server_connection_t) (buffer : List Nat)
    (hfind : ascs_server_get_remote_client_for_con_handle srv con_handle = some ci)
    (hc : srv.client ci = some c) (hne : 1 ≤ buffer.length)
    (hcap : srv.ascs_streamendpoint_chr_num ≤ c.response.length)
    (hmax : c.response.length ≤ 84)
    (hc2 : (ascs_server_write_callback U srv con_handle srv.ascs_ase_control_point_handle
      buffer).slot ci = c2) :
    c2.response_opcode = buffer.getD 0 0
      ∧ c2.response.length = c.response.length
      ∧ (c2.response_ases_num = 0xFF
        ∨ (1 ≤ c2.response_ases_num ∧ c2.response_ases_num ≤ c2.response.length))
      ∧ (c2.response_ases_num = 0xFF →
          control_point_notification_value W c2 = [c2.response_opcode, 0xFF]
            ∧ (control_point_notification_value W c2).length = 2)
      ∧ (c2.response_ases_num ≠ 0xFF →
          control_point_notification_value W c2
              = [c2.response_opcode, c2.response_ases_num]
                ++ (List.range c2.response_ases_num).flatMap (fun i =>
                    [(c2.resp i).ase_id, W.code_byte (c2.resp i).response_code,
                      W.reason_byte (c2.resp i).reason])
            ∧ (control_point_notification_value W c2).length
              = 2 + 3 * c2.response_ases_num)
      ∧ (control_point_notification_value W c2).length ≤ 2 + 3 * c2.response.length := by
  have hframe : c2.response_opcode = buffer.getD 0 0
      ∧ c2.response.length = c.response.length
      ∧ (c2.response_ases_num = 0xFF
        ∨ (1 ≤ c2.response_ases_num ∧ c2.response_ases_num ≤ c2.response.length)) := by
    by_cases hacc : accepted_frame srv buffer
    · obtain ⟨-, hlive, hslot, -, -⟩ :=
        write_callback_attached U srv con_handle ci c buffer hfind hc hne
      obtain ⟨-, a2, a3, a4, -⟩ := control_point_write_accepted U srv c con_handle buffer
        hlive hacc
      rw [← hc2, hslot]
      refine ⟨a3, a2, Or.inr ?_⟩
      rw [a4, a2]
      have h1 := hacc.2.1
      have h2 := hacc.2.2.1
      omega
    · obtain ⟨hslot, -, -⟩ :=
        write_callback_rejected U srv con_handle ci c buffer hfind hc hne hacc
      rw [← hc2, hslot]
      exact ⟨rfl, by simp, Or.inl rfl⟩
  obtain ⟨f1, f2, f3⟩ := hframe
  have hs : c2.response_ases_num = 0xFF →
      control_point_notification_value W c2 = [c2.response_opcode, 0xFF]
        ∧ (control_point_notification_value W c2).length = 2 := by
    intro h
    rw [control_point_notification_value_sentinel W c2 h]
    exact ⟨rfl, rfl⟩
  have hn : c2.response_ases_num ≠ 0xFF →
      control_point_notification_value W c2
          = [c2.response_opcode, c2.response_ases_num]
            ++ (List.range c2.response_ases_num).flatMap (fun i =>
                [(c2.resp i).ase_id, W.code_byte (c2.resp i).response_code,
                  W.reason_byte (c2.resp i).reason])
        ∧ (control_point_notification_value W c2).length
          = 2 + 3 * c2.response_ases_num := by
    intro h
    have hle : c2.response_ases_num ≤ c2.response.length := by
      rcases f3 with h' | h'
      · exact absurd h' h
      · exact h'.2
    rw [control_point_notification_value_eq W c2 h hle (by rw [f2]; exact hmax)]
    refine ⟨rfl, ?_⟩
    rw [List.length_append, length_flatMap_triples]
    rfl
  refine ⟨f1, f2, f3, hs, hn, ?_⟩
  by_cases h : c2.response_ases_num = 0xFF
  · rw [(hs h).2]
    omega
  · rw [(hn h).2]
    rcases f3 with h' | h'
    · exact absurd h' h
    · have := h'.2
      omega

set_option maxRecDepth 100000 in
/-- C24 (witness). A Config QoS write for the Sink ASE 1 of the two-Sink server, in Codec
Configured, with the pair (1, 1) while the Sink ASE 2 stores the pair (1, 1): the value
that is serialized is (2, 1, 1, 7, 9), the opcode, one entry, and the entry (1, invalid
configuration parameter value, invalid ASE CIS mapping) in the bytes of the instance. -/
theorem acp_response_serialization_witness :
    control_point_notification_value example_wire
        ((ascs_server_write_callback example_util
          (example_server_two_sinks (example_streamendpoint ASCS_STATE_CODEC_CONFIGURED 0 0)
            (example_streamendpoint ASCS_STATE_CODEC_CONFIGURED 1 1)) 64 20
          ([2, 1] ++ example_config_qos_sub_request 1 1 1)).slot 0)
      = [2, 1, 1, 7, 9]
      ∧ (control_point_notification_value example_wire
          ((ascs_server_write_callback example_util
            (example_server_two_sinks (example_streamendpoint ASCS_STATE_CODEC_CONFIGURED 0 0)
              (example_streamendpoint ASCS_STATE_CODEC_CONFIGURED 1 1)) 64 20
            ([2, 1] ++ example_config_qos_sub_request 1 1 1)).slot 0)).length
        = 2 + 3 * ((ascs_server_write_callback example_util
            (example_server_two_sinks (example_streamendpoint ASCS_STATE_CODEC_CONFIGURED 0 0)
              (example_streamendpoint ASCS_STATE_CODEC_CONFIGURED 1 1)) 64 20
            ([2, 1] ++ example_config_qos_sub_request 1 1 1)).slot 0).response_ases_num :=
  ⟨by decide,
    ((acp_response_serialization example_util example_wire
      (example_server_two_sinks (example_streamendpoint ASCS_STATE_CODEC_CONFIGURED 0 0)
        (example_streamendpoint ASCS_STATE_CODEC_CONFIGURED 1 1)) 64 0
      ((example_server_two_sinks (example_streamendpoint ASCS_STATE_CODEC_CONFIGURED 0 0)
        (example_streamendpoint ASCS_STATE_CODEC_CONFIGURED 1 1)).slot 0)
      ((ascs_server_write_callback example_util
        (example_server_two_sinks (example_streamendpoint ASCS_STATE_CODEC_CONFIGURED 0 0)
          (example_streamendpoint ASCS_STATE_CODEC_CONFIGURED 1 1)) 64 20
        ([2, 1] ++ example_config_qos_sub_request 1 1 1)).slot 0)
      ([2, 1] ++ example_config_qos_sub_request 1 1 1)
      (by decide) (by decide) (by decide) (by decide) (by decide) rfl).2.2.2.2.1
      (by decide)).2⟩

/-! ## The task bitmap -/

theorem clear_task_and_self (x t : Nat) : clear_task x t &&& t = 0 := by
  apply Nat.eq_of_testBit_eq
  intro i
  simp only [clear_task, Nat.testBit_and, Nat.testBit_xor, Nat.zero_testBit]
  cases x.testBit i <;> cases t.testBit i <;> rfl

theorem clear_task_and_other (x t u : Nat) (h : t &&& u = 0) :
    clear_task x t &&& u = x &&& u := by
  apply Nat.eq_of_testBit_eq
  intro i
  have hi : (t &&& u).testBit i = false := by rw [h]; exact Nat.zero_testBit i
  rw [Nat.testBit_and] at hi
  simp only [clear_task, Nat.testBit_and, Nat.testBit_xor]
  revert hi
  cases x.testBit i <;> cases t.testBit i <;> cases u.testBit i <;> simp

theorem or_task_and_self (x t : Nat) : (x ||| t) &&& t = t := by
  apply Nat.eq_of_testBit_eq
  intro i
  simp only [Nat.testBit_and, Nat.testBit_or]
  cases x.testBit i <;> cases t.testBit i <;> rfl

theorem or_task_and_other (x t u : Nat) (h : t &&& u = 0) : (x ||| t) &&& u = x &&& u := by
  apply Nat.eq_of_testBit_eq
  intro i
  have hi : (t &&& u).testBit i = false := by rw [h]; exact Nat.zero_testBit i
  rw [Nat.testBit_and] at hi
  simp only [Nat.testBit_and, Nat.testBit_or]
  revert hi
  cases x.testBit i <;> cases t.testBit i <;> cases u.testBit i <;> simp

theorem or_task_idem (x t : Nat) : (x ||| t) ||| t = x ||| t := by
  rw [Nat.or_assoc, Nat.or_self]

theorem clear_task_zero_of_and (x t : Nat) (h : x &&& t = 0) : clear_task x t = x := by
  unfold clear_task
  rw [h]
  exact Nat.xor_zero x

/-! ## What the apply entry points leave untouched -/

theorem scheduling_frame_refl (n : Nat) (c : ascs_server_connection_t) :
    scheduling_frame n c c :=
  ⟨rfl, rfl, rfl, rfl, rfl, rfl, Or.inl rfl, fun _ => rfl, fun _ h => Or.inl h⟩

theorem scheduling_frame_trans {n : Nat} {c1 c2 c3 : ascs_server_connection_t}
    (h12 : scheduling_frame n c1 c2) (h23 : scheduling_frame n c2 c3) :
    scheduling_frame n c1 c3 := by
  obtain ⟨a1, a2, a3, a4, a5, a6, a7, a8, a9⟩ := h12
  obtain ⟨b1, b2, b3, b4, b5, b6, b7, b8, b9⟩ := h23
  refine ⟨b1.trans a1, b2.trans a2, b3.trans a3, b4.trans a4, b5.trans a5, b6.trans a6, ?_,
    fun k => (b8 k).trans (a8 k), ?_⟩
  · rcases a7 with a7 | a7 <;> rcases b7 with b7 | b7
    · exact Or.inl (b7.trans a7)
    · exact Or.inr (by rw [b7, a7])
    · exact Or.inr (b7.trans a7)
    · exact Or.inr (by rw [b7, a7, or_task_idem])
  · intro k hk
    rcases b9 k hk with h | h
    · rcases a9 k h with h' | ⟨h1, h2⟩
      · exact Or.inl h'
      · refine Or.inr ⟨h1, ?_⟩
        rcases b7 with b7 | b7
        · rw [b7]; exact h2
        · rw [b7, or_task_and_self]; decide
    · exact Or.inr h

/-- Storing a stream endpoint that keeps the notify flag and the client configuration. -/
theorem scheduling_frame_set_ase (n : Nat) (c : ascs_server_connection_t) (k : Nat)
    (e : ascs_streamendpoint_t)
    (h1 : e.ase_characteristic_value_changed_w2_notify
      = (c.ase k).ase_characteristic_value_changed_w2_notify)
    (h2 : e.ase_characteristic_client_configuration
      = (c.ase k).ase_characteristic_client_configuration) :
    scheduling_frame n c (c.set_ase k e) := by
  refine ⟨rfl, rfl, rfl, rfl, rfl, ?_, Or.inl rfl, ?_, ?_⟩
  · simp [ascs_server_connection_t.set_ase]
  · intro j
    rw [ase_set_ase]
    split
    · rename_i hjk; rw [hjk.1]; exact h2
    · rfl
  · intro j hj
    rw [ase_set_ase] at hj
    split at hj
    · rename_i hjk; rw [hjk.1, ← h1]; exact Or.inl hj
    · exact Or.inl hj

/-- The function `ascs_server_streamendpoint_schedule_value_changed_task` on a live
connection, for a registered stream endpoint. -/
theorem schedule_value_changed_task_frame (n : Nat) (srv : ascs_server_t)
    (c : ascs_server_connection_t) (k : Nat)
    (hlive : c.con_handle ≠ HCI_CON_HANDLE_INVALID) (hk : k < n) :
    scheduling_frame n c (ascs_server_streamendpoint_schedule_value_changed_task srv c k).1
      ∧ ∀ e ∈ (ascs_server_streamendpoint_schedule_value_changed_task srv c k).2,
          e.is_notification = false := by
  unfold ascs_server_streamendpoint_schedule_value_changed_task
  by_cases hw : (c.ase k).ase_characteristic_value_changed_w2_notify = true
  · rw [if_pos hw]
    exact ⟨scheduling_frame_refl n c, fun e he => by simp at he⟩
  · rw [if_neg hw]
    by_cases hcc : (c.ase k).ase_characteristic_client_configuration ≠ 0
    · rw [if_pos hcc, if_pos hw]
      rw [schedule_task_live srv _ _ (by exact hlive),
        if_neg (by intro h; exact absurd h.1 (by decide))]
      refine ⟨⟨rfl, rfl, rfl, rfl, rfl, ?_, Or.inr rfl, ?_, ?_⟩, ?_⟩
      · simp [ascs_server_connection_t.set_ase]
      · intro j
        show ((c.set_ase k _).ase j).ase_characteristic_client_configuration = _
        rw [ase_set_ase]
        split
        · rename_i hjk; rw [hjk.1]
        · rfl
      · intro j hj
        by_cases hjk : j = k
        · subst hjk
          refine Or.inr ⟨hk, ?_⟩
          show (c.scheduled_tasks ||| _) &&& _ ≠ 0
          rw [or_task_and_self]
          decide
        · left
          change ((c.set_ase k _).ase j).ase_characteristic_value_changed_w2_notify = true
            at hj
          rw [ase_set_ase, if_neg (fun h => hjk h.1)] at hj
          exact hj
      · intro e he
        simp only [List.mem_cons] at he
        rcases he with rfl | he
        · rfl
        · split at he
          · simp only [List.mem_singleton] at he
            subst he
            rfl
          · simp at he
    · rw [if_neg hcc]
      exact ⟨scheduling_frame_refl n c, fun e he => by simp at he⟩

theorem same_registry_refl (srv : ascs_server_t) : same_registry srv srv :=
  ⟨rfl, rfl, rfl, rfl, rfl⟩

theorem same_registry_trans {s1 s2 s3 : ascs_server_t} (h12 : same_registry s1 s2)
    (h23 : same_registry s2 s3) : same_registry s1 s3 :=
  ⟨h23.1.trans h12.1, h23.2.1.trans h12.2.1, h23.2.2.1.trans h12.2.2.1,
    h23.2.2.2.1.trans h12.2.2.2.1, h23.2.2.2.2.trans h12.2.2.2.2⟩

theorem same_registry_commit (srv : ascs_server_t) (ci : Nat)
    (r : ascs_server_connection_t × List ascs_effect_t) : same_registry srv (srv.commit ci r) :=
  ⟨rfl, rfl, rfl, rfl, by simp [ascs_server_t.commit, ascs_server_t.emit,
    ascs_server_t.set_client]⟩

theorem same_registry_chr {srv srv2 : ascs_server_t} (h : same_registry srv srv2) (k : Nat) :
    srv2.chr k = srv.chr k := by
  unfold ascs_server_t.chr
  rw [h.1]

/-- Storing back into its slot a connection that is within the frame of the old one, with
effects that are no notifications. -/
theorem commit_frame (srv : ascs_server_t) (ci : Nat) (c : ascs_server_connection_t)
    (r : ascs_server_connection_t × List ascs_effect_t) (hc : srv.client ci = some c)
    (hr : scheduling_frame srv.ascs_streamendpoint_chr_num c r.1)
    (he : ∀ e ∈ r.2, e.is_notification = false) :
    (∀ cj, scheduling_frame srv.ascs_streamendpoint_chr_num (srv.slot cj)
        ((srv.commit ci r).slot cj))
      ∧ (∃ es, (srv.commit ci r).trace = srv.trace ++ es
          ∧ ∀ e ∈ es, e.is_notification = false)
      ∧ same_registry srv (srv.commit ci r) := by
  refine ⟨?_, ⟨r.2, rfl, he⟩, same_registry_commit srv ci r⟩
  intro cj
  by_cases hcj : cj = ci
  · subst hcj
    rw [slot_commit_self srv cj r c hc, slot_of_client srv cj c hc]
    exact hr
  · rw [slot_commit_ne srv ci cj r hcj]
    exact scheduling_frame_refl _ _

/-- The shape shared by the entry points that go through
`ascs_server_streamendpoint_transit_to_state`, as far as the frame goes. -/
theorem transit_then_schedule_frame (srv : ascs_server_t) (con_handle ase_id : Nat)
    (opcode : ascs_opcode_t) (target_state : ascs_state_t)
    (g : Nat → ascs_server_connection_t → ascs_server_connection_t)
    (hg : ∀ k c, scheduling_frame srv.ascs_streamendpoint_chr_num c (g k c)) :
    (∀ cj, scheduling_frame srv.ascs_streamendpoint_chr_num (srv.slot cj)
        ((match ascs_server_streamendpoint_transit_to_state srv con_handle ase_id opcode
            target_state with
          | none => srv
          | some (ci, k, client) =>
            srv.commit ci (ascs_server_streamendpoint_schedule_value_changed_task srv
              (g k client) k)).slot cj))
      ∧ (∃ es, (match ascs_server_streamendpoint_transit_to_state srv con_handle ase_id opcode
            target_state with
          | none => srv
          | some (ci, k, client) =>
            srv.commit ci (ascs_server_streamendpoint_schedule_value_changed_task srv
              (g k client) k)).trace = srv.trace ++ es
          ∧ ∀ e ∈ es, e.is_notification = false)
      ∧ same_registry srv
          (match ascs_server_streamendpoint_transit_to_state srv con_handle ase_id opcode
            target_state with
          | none => srv
          | some (ci, k, client) =>
            srv.commit ci (ascs_server_streamendpoint_schedule_value_changed_task srv
              (g k client) k)) := by
  cases h : ascs_server_streamendpoint_transit_to_state srv con_handle ase_id opcode
    target_state with
  | none =>
    exact ⟨fun cj => scheduling_frame_refl _ _, ⟨[], by simp, by simp⟩, same_registry_refl srv⟩
  | some x =>
    obtain ⟨ci, k, client2⟩ := x
    obtain ⟨client, hc, hlive, hh, -, hk, -, hset⟩ :=
      transit_to_state_some srv con_handle ase_id opcode target_state ci k client2 h
    have hkn := (get_streamendpoint_some srv ase_id k hk).1
    have f1 : scheduling_frame srv.ascs_streamendpoint_chr_num client client2 := by
      rw [hset]
      exact scheduling_frame_set_ase _ client k _ rfl rfl
    have f2 := hg k client2
    have hlive2 : (g k client2).con_handle ≠ HCI_CON_HANDLE_INVALID := by
      rw [f2.1, hh]; exact hlive
    obtain ⟨f3, he⟩ := schedule_value_changed_task_frame srv.ascs_streamendpoint_chr_num srv
      (g k client2) k hlive2 hkn
    exact commit_frame srv ci client _ hc
      (scheduling_frame_trans (scheduling_frame_trans f1 f2) f3) he

/-- Every apply entry point stays within the frame on every slot, sends no
notification, and leaves the registry alone. -/
theorem apply_run_frame (a : ascs_apply_t) (srv : ascs_server_t) (con_handle ase_id : Nat) :
    (∀ cj, scheduling_frame srv.ascs_streamendpoint_chr_num (srv.slot cj)
        ((a.run srv con_handle ase_id).slot cj))
      ∧ (∃ es, (a.run srv con_handle ase_id).trace = srv.trace ++ es
          ∧ ∀ e ∈ es, e.is_notification = false)
      ∧ same_registry srv (a.run srv con_handle ase_id) := by
  cases a with
  | configure_codec x =>
    exact transit_then_schedule_frame srv con_handle ase_id ASCS_OPCODE_CONFIG_CODEC
      ASCS_STATE_CODEC_CONFIGURED
      (fun k c => c.set_ase k { (c.ase k) with codec_configuration := x })
      (fun k c => scheduling_frame_set_ase _ c k _ rfl rfl)
  | configure_qos x =>
    exact transit_then_schedule_frame srv con_handle ase_id ASCS_OPCODE_CONFIG_QOS
      ASCS_STATE_QOS_CONFIGURED
      (fun k c => c.set_ase k { (c.ase k) with qos_configuration := x })
      (fun k c => scheduling_frame_set_ase _ c k _ rfl rfl)
  | enable =>
    exact transit_then_schedule_frame srv con_handle ase_id ASCS_OPCODE_ENABLE
      ASCS_STATE_ENABLING (fun _ c => c) (fun _ c => scheduling_frame_refl _ c)
  | receiver_start_ready =>
    exact transit_then_schedule_frame srv con_handle ase_id ASCS_OPCODE_RECEIVER_START_READY
      ASCS_STATE_STREAMING (fun _ c => c) (fun _ c => scheduling_frame_refl _ c)
  | receiver_stop_ready =>
    exact transit_then_schedule_frame srv con_handle ase_id ASCS_OPCODE_RECEIVER_STOP_READY
      ASCS_STATE_QOS_CONFIGURED (fun _ c => c) (fun _ c => scheduling_frame_refl _ c)
  | release =>
    exact transit_then_schedule_frame srv con_handle ase_id ASCS_OPCODE_RELEASE
      ASCS_STATE_RELEASING (fun _ c => c) (fun _ c => scheduling_frame_refl _ c)
  | released caching =>
    exact transit_then_schedule_frame srv con_handle ase_id ASCS_OPCODE_RELEASED
      (if caching then ASCS_STATE_CODEC_CONFIGURED else ASCS_STATE_IDLE)
      (fun _ c => c) (fun _ c => scheduling_frame_refl _ c)
  | disable =>
    simp only [ascs_apply_t.run]
    unfold audio_stream_control_service_server_streamendpoint_disable
    cases hfind : ascs_server_get_remote_client_for_con_handle srv con_handle with
    | none =>
      exact ⟨fun cj => scheduling_frame_refl _ _, ⟨[], by simp, by simp⟩,
        same_registry_refl srv⟩
    | some ci =>
      obtain ⟨hv, client, hc, hh⟩ := get_remote_client_some srv con_handle ci hfind
      have hlive : client.con_handle ≠ HCI_CON_HANDLE_INVALID := by rw [hh]; exact hv
      simp only [hc]
      cases hk : ascs_server_get_streamendpoint_for_ase_id srv ase_id with
      | none =>
        exact ⟨fun cj => scheduling_frame_refl _ _, ⟨[], by simp, by simp⟩,
          same_registry_refl srv⟩
      | some k =>
        have hkn := (get_streamendpoint_some srv ase_id k hk).1
        dsimp only
        generalize (if (srv.chr k).role = LE_AUDIO_ROLE_SOURCE then ASCS_STATE_DISABLING
          else ASCS_STATE_QOS_CONFIGURED) = tgt
        split
        · exact ⟨fun cj => scheduling_frame_refl _ _, ⟨[], by simp, by simp⟩,
            same_registry_refl srv⟩
        · have f1 : scheduling_frame srv.ascs_streamendpoint_chr_num client
              (client.set_ase k { (client.ase k) with state := tgt }) :=
            scheduling_frame_set_ase _ client k _ rfl rfl
          obtain ⟨f3, he⟩ := schedule_value_changed_task_frame
            srv.ascs_streamendpoint_chr_num srv
            (client.set_ase k { (client.ase k) with state := tgt }) k (by exact hlive) hkn
          exact commit_frame srv ci client _ hc (scheduling_frame_trans f1 f3) he
  | metadata_update m =>
    simp only [ascs_apply_t.run]
    unfold audio_stream_control_service_server_streamendpoint_metadata_update
    cases hfind : ascs_server_get_remote_client_for_con_handle srv con_handle with
    | none =>
      exact ⟨fun cj => scheduling_frame_refl _ _, ⟨[], by simp, by simp⟩,
        same_registry_refl srv⟩
    | some ci =>
      obtain ⟨hv, client, hc, hh⟩ := get_remote_client_some srv con_handle ci hfind
      have hlive : client.con_handle ≠ HCI_CON_HANDLE_INVALID := by rw [hh]; exact hv
      simp only [hc]
      cases hk : ascs_server_get_streamendpoint_for_ase_id srv ase_id with
      | none =>
        exact ⟨fun cj => scheduling_frame_refl _ _, ⟨[], by simp, by simp⟩,
          same_registry_refl srv⟩
      | some k =>
        have hkn := (get_streamendpoint_some srv ase_id k hk).1
        have f1 : scheduling_frame srv.ascs_streamendpoint_chr_num client
            (client.set_ase k { (client.ase k) with metadata := m }) :=
          scheduling_frame_set_ase _ client k _ rfl rfl
        obtain ⟨f2, he2⟩ := schedule_value_changed_task_frame
          srv.ascs_streamendpoint_chr_num srv
          (client.set_ase k { (client.ase k) with metadata := m }) k (by exact hlive) hkn
        obtain ⟨f3, he3⟩ := schedule_value_changed_task_frame
          srv.ascs_streamendpoint_chr_num srv
          (ascs_server_streamendpoint_schedule_value_changed_task srv
            (client.set_ase k { (client.ase k) with metadata := m }) k).1 k
          (by rw [f2.1]; exact hlive) hkn
        have hall := commit_frame srv ci client
          ((ascs_server_streamendpoint_schedule_value_changed_task srv
              (ascs_server_streamendpoint_schedule_value_changed_task srv
                (client.set_ase k { (client.ase k) with metadata := m }) k).1 k).1,
            (ascs_server_streamendpoint_schedule_value_changed_task srv
              (client.set_ase k { (client.ase k) with metadata := m }) k).2
            ++ (ascs_server_streamendpoint_schedule_value_changed_task srv
              (ascs_server_streamendpoint_schedule_value_changed_task srv
                (client.set_ase k { (client.ase k) with metadata := m }) k).1 k).2)
          hc (scheduling_frame_trans (scheduling_frame_trans f1 f2) f3)
          (by
            intro e he
            rcases List.mem_append.mp he with h | h
            · exact he2 e h
            · exact he3 e h)
        dsimp only
        split
        · exact hall
        · exact hall
        all_goals
          exact ⟨fun cj => scheduling_frame_refl _ _, ⟨[], by simp, by simp⟩,
            same_registry_refl srv⟩

/-! ## The can-send-now callback -/

theorem client_of_lt (srv : ascs_server_t) (ci : Nat) (h : ci < srv.ascs_clients.length) :
    srv.client ci = some (srv.slot ci) := by
  unfold ascs_server_t.client ascs_server_t.slot
  rw [List.get?_eq_getElem?, List.getD_eq_getElem?_getD, List.getElem?_eq_getElem h]
  rfl

theorem lt_of_client (srv : ascs_server_t) (ci : Nat) (c : ascs_server_connection_t)
    (h : srv.client ci = some c) : ci < srv.ascs_clients.length := by
  unfold ascs_server_t.client at h
  by_contra hge
  rw [List.get?_eq_none.mpr (Nat.le_of_not_lt hge)] at h
  exact Option.noConfusion h

/-- The callback on a live connection with the control point bit set. -/
theorem can_send_now_control_point (W : ascs_wire_t) (srv : ascs_server_t) (ci : Nat)
    (c : ascs_server_connection_t) (hc : srv.client ci = some c)
    (hlive : c.con_handle ≠ HCI_CON_HANDLE_INVALID)
    (hbit : c.scheduled_tasks &&& ASCS_TASK_SEND_CONTROL_POINT_OPERATION_RESPONSE ≠ 0) :
    ascs_server_can_send_now W srv ci
      = srv.commit ci
          ({ c with
              scheduled_tasks :=
                clear_task c.scheduled_tasks ASCS_TASK_SEND_CONTROL_POINT_OPERATION_RESPONSE },
            att_server_notify c.con_handle srv.ascs_ase_control_point_handle
                (control_point_notification_value W c)
              :: (if clear_task c.scheduled_tasks
                    ASCS_TASK_SEND_CONTROL_POINT_OPERATION_RESPONSE ≠ 0 then
                  [att_server_register_can_send_now_callback c.con_handle]
                else [])) := by
  unfold ascs_server_can_send_now
  simp only [hc]
  rw [if_neg hlive]
  unfold can_send_now_task
  rw [if_pos hbit]
  rfl

/-- The value sent for the control point depends on the response of the connection
only. -/
theorem control_point_notification_value_congr (W : ascs_wire_t)
    (c c2 : ascs_server_connection_t) (h1 : c2.response_opcode = c.response_opcode)
    (h2 : c2.response_ases_num = c.response_ases_num) (h3 : c2.response = c.response) :
    control_point_notification_value W c2 = control_point_notification_value W c := by
  unfold control_point_notification_value ascs_server_connection_t.resp
  rw [h1, h2, h3]

/-- A sequence of calls of apply entry points stays within the frame on every slot,
sends no notification, and leaves the registry alone. -/
theorem apply_calls_frame (U : ascs_util_t) (W : ascs_wire_t)
    (calls : List (ascs_apply_t × Nat × Nat)) (srv : ascs_server_t) :
    (∀ cj, scheduling_frame srv.ascs_streamendpoint_chr_num (srv.slot cj)
        ((run_events U W srv
          (calls.map (fun x => ascs_event_t.apply x.1 x.2.1 x.2.2))).slot cj))
      ∧ (∃ es, (run_events U W srv
            (calls.map (fun x => ascs_event_t.apply x.1 x.2.1 x.2.2))).trace = srv.trace ++ es
          ∧ ∀ e ∈ es, e.is_notification = false)
      ∧ same_registry srv
          (run_events U W srv (calls.map (fun x => ascs_event_t.apply x.1 x.2.1 x.2.2))) := by
  induction calls generalizing srv with
  | nil =>
    exact ⟨fun cj => scheduling_frame_refl _ _, ⟨[], by simp [run_events], by simp⟩,
      same_registry_refl srv⟩
  | cons x xs ih =>
    obtain ⟨a1, ⟨es1, a2, a3⟩, a4⟩ := apply_run_frame x.1 srv x.2.1 x.2.2
    obtain ⟨b1, ⟨es2, b2, b3⟩, b4⟩ := ih (x.1.run srv x.2.1 x.2.2)
    have hstep : run_events U W srv
        ((x :: xs).map (fun x => ascs_event_t.apply x.1 x.2.1 x.2.2))
        = run_events U W (x.1.run srv x.2.1 x.2.2)
            (xs.map (fun x => ascs_event_t.apply x.1 x.2.1 x.2.2)) := rfl
    rw [hstep]
    refine ⟨fun cj => ?_, ⟨es1 ++ es2, ?_, ?_⟩, same_registry_trans a4 b4⟩
    · have hb := b1 cj
      rw [a4.2.1] at hb
      exact scheduling_frame_trans (a1 cj) hb
    · rw [b2, a2, List.append_assoc]
    · intro e he
      rcases List.mem_append.mp he with h | h
      · exact a3 e h
      · exact b3 e h

/-- C25. Whenever `ascs_server_can_send_now` runs on a live connection with the control
point bit set, that call sends exactly one notification, on the control point handle and
with the serialized response, clears only the control point bit, leaves the
value-changed bit, every stream endpoint with its notify flag and every other slot as
they are, and registers the callback again exactly if a bit remains. Consequently, after
a non-empty ACP write on an attached connection whose control point notifications are
enabled, and whatever apply entry points are called then, no notification is sent before
the next can-send-now callback of the slot, and that callback sends the control point
response of the write. The calls an event handler makes are taken after the write
callback has returned. -/
theorem can_send_now_control_point_response_first (U : ascs_util_t) (W : ascs_wire_t) :
    (∀ (srv : ascs_server_t) (ci : Nat) (c : ascs_server_connection_t),
        srv.client ci = some c → c.con_handle ≠ HCI_CON_HANDLE_INVALID →
        c.scheduled_tasks &&& ASCS_TASK_SEND_CONTROL_POINT_OPERATION_RESPONSE ≠ 0 →
        (∃ rest, (ascs_server_can_send_now W srv ci).trace
              = srv.trace
                ++ att_server_notify c.con_handle srv.ascs_ase_control_point_handle
                    (control_point_notification_value W c) :: rest
            ∧ (rest = [] ∨ rest = [att_server_register_can_send_now_callback c.con_handle])
            ∧ (rest = [] ↔ ((ascs_server_can_send_now W srv ci).slot ci).scheduled_tasks = 0))
          ∧ (ascs_server_can_send_now W srv ci).slot ci
            = { c with
                scheduled_tasks := ((ascs_server_can_send_now W srv ci).slot ci).scheduled_tasks }
          ∧ ((ascs_server_can_send_now W srv ci).slot ci).scheduled_tasks
              &&& ASCS_TASK_SEND_CONTROL_POINT_OPERATION_RESPONSE = 0
          ∧ (∀ u, ASCS_TASK_SEND_CONTROL_POINT_OPERATION_RESPONSE &&& u = 0 →
              ((ascs_server_can_send_now W srv ci).slot ci).scheduled_tasks &&& u
                = c.scheduled_tasks &&& u)
          ∧ (∀ cj, cj ≠ ci → (ascs_server_can_send_now W srv ci).slot cj = srv.slot cj))
      ∧ (∀ (srv : ascs_server_t) (con_handle ci : Nat) (c : ascs_server_connection_t)
          (buffer : List Nat) (calls : List (ascs_apply_t × Nat × Nat)),
          ascs_server_get_remote_client_for_con_handle srv con_handle = some ci →
          srv.client ci = some c → 1 ≤ buffer.length →
          c.ase_control_point_client_configuration ≠ 0 →
          ∃ es rest,
            (run_events U W
                (ascs_server_write_callback U srv con_handle srv.ascs_ase_control_point_handle
                  buffer)
                (calls.map (fun x => ascs_event_t.apply x.1 x.2.1 x.2.2))).trace
              = (ascs_server_write_callback U srv con_handle srv.ascs_ase_control_point_handle
                  buffer).trace ++ es
            ∧ (∀ e ∈ es, e.is_notification = false)
            ∧ (ascs_server_can_send_now W
                (run_events U W
                  (ascs_server_write_callback U srv con_handle
                    srv.ascs_ase_control_point_handle buffer)
                  (calls.map (fun x => ascs_event_t.apply x.1 x.2.1 x.2.2))) ci).trace
              = (run_events U W
                  (ascs_server_write_callback U srv con_handle
                    srv.ascs_ase_control_point_handle buffer)
                  (calls.map (fun x => ascs_event_t.apply x.1 x.2.1 x.2.2))).trace
                ++ att_server_notify con_handle srv.ascs_ase_control_point_handle
                    (control_point_notification_value W
                      ((ascs_server_write_callback U srv con_handle
                        srv.ascs_ase_control_point_handle buffer).slot ci)) :: rest
            ∧ (rest = [] ∨ rest = [att_server_register_can_send_now_callback con_handle])) := by
  have hA : ∀ (srv : ascs_server_t) (ci : Nat) (c : ascs_server_connection_t),
      srv.client ci = some c → c.con_handle ≠ HCI_CON_HANDLE_INVALID →
      c.scheduled_tasks &&& ASCS_TASK_SEND_CONTROL_POINT_OPERATION_RESPONSE ≠ 0 →
      (∃ rest, (ascs_server_can_send_now W srv ci).trace
            = srv.trace
              ++ att_server_notify c.con_handle srv.ascs_ase_control_point_handle
                  (control_point_notification_value W c) :: rest
          ∧ (rest = [] ∨ rest = [att_server_register_can_send_now_callback c.con_handle])
          ∧ (rest = [] ↔ ((ascs_server_can_send_now W srv ci).slot ci).scheduled_tasks = 0))
        ∧ (ascs_server_can_send_now W srv ci).slot ci
          = { c with
              scheduled_tasks := ((ascs_server_can_send_now W srv ci).slot ci).scheduled_tasks }
        ∧ ((ascs_server_can_send_now W srv ci).slot ci).scheduled_tasks
            &&& ASCS_TASK_SEND_CONTROL_POINT_OPERATION_RESPONSE = 0
        ∧ (∀ u, ASCS_TASK_SEND_CONTROL_POINT_OPERATION_RESPONSE &&& u = 0 →
            ((ascs_server_can_send_now W srv ci).slot ci).scheduled_tasks &&& u
              = c.scheduled_tasks &&& u)
        ∧ (∀ cj, cj ≠ ci → (ascs_server_can_send_now W srv ci).slot cj = srv.slot cj) := by
    intro srv ci c hc hlive hbit
    rw [can_send_now_control_point W srv ci c hc hlive hbit]
    rw [slot_commit_self srv ci _ c hc]
    refine ⟨⟨_, rfl, ?_, ?_⟩, rfl, clear_task_and_self _ _,
      fun u hu => clear_task_and_other _ _ u hu, fun cj hcj => slot_commit_ne srv ci cj _ hcj⟩
    · split
      · exact Or.inr rfl
      · exact Or.inl rfl
    · show _ ↔ clear_task c.scheduled_tasks _ = 0
      split
      · rename_i h
        exact ⟨fun h' => by simp at h', fun h' => absurd h' h⟩
      · rename_i h
        exact ⟨fun _ => by by_contra h'; exact h h', fun _ => rfl⟩
  refine ⟨hA, ?_⟩
  intro srv con_handle ci c buffer calls hfind hc hne hcccd
  obtain ⟨hh, hlive, hslot, -, -⟩ :=
    write_callback_attached U srv con_handle ci c buffer hfind hc hne
  have hreg1 : same_registry srv
      (ascs_server_write_callback U srv con_handle srv.ascs_ase_control_point_handle
        buffer) := by
    rw [write_callback_control_point U srv con_handle ci buffer c hfind hc hne]
    exact same_registry_commit srv ci _
  have hc1 : (ascs_server_write_callback U srv con_handle srv.ascs_ase_control_point_handle
      buffer).slot ci
        = { (ascs_server_write_callback U srv con_handle srv.ascs_ase_control_point_handle
              buffer).slot ci with
            con_handle := con_handle
            scheduled_tasks :=
              c.scheduled_tasks ||| ASCS_TASK_SEND_CONTROL_POINT_OPERATION_RESPONSE } := by
    rw [hslot]
    by_cases hacc : accepted_frame srv buffer
    · obtain ⟨-, -, -, -, a5, -, a7, -⟩ :=
        control_point_write_accepted U srv c con_handle buffer hlive hacc
      rw [if_neg hcccd] at a7
      conv_lhs => rw [show (ascs_server_control_point_write U srv c con_handle buffer).1
        = { (ascs_server_control_point_write U srv c con_handle buffer).1 with
            con_handle := (ascs_server_control_point_write U srv c con_handle
              buffer).1.con_handle
            scheduled_tasks := (ascs_server_control_point_write U srv c con_handle
              buffer).1.scheduled_tasks } from rfl]
      rw [a5, a7, hh]
    · rw [(control_point_write_rejected U srv c con_handle buffer hlive hacc).1,
        if_neg hcccd, hh]
  generalize ascs_server_write_callback U srv con_handle srv.ascs_ase_control_point_handle
    buffer = srv1 at hreg1 hc1 ⊢
  obtain ⟨f1, ⟨es, f2, f3⟩, f4⟩ := apply_calls_frame U W calls srv1
  generalize run_events U W srv1 (calls.map (fun x => ascs_event_t.apply x.1 x.2.1 x.2.2))
    = srv2 at f1 f2 f3 f4 ⊢
  obtain ⟨g1, -, g3, g4, g5, -, g7, -, -⟩ := f1 ci
  have hci : ci < srv2.ascs_clients.length := by
    rw [f4.2.2.2.2, hreg1.2.2.2.2]
    exact lt_of_client srv ci c hc
  have hc2 := client_of_lt srv2 ci hci
  have hh1 : (srv1.slot ci).con_handle = con_handle := by rw [hc1]
  have hs1 : (srv1.slot ci).scheduled_tasks
      = c.scheduled_tasks ||| ASCS_TASK_SEND_CONTROL_POINT_OPERATION_RESPONSE := by rw [hc1]
  have hlive2 : (srv2.slot ci).con_handle ≠ HCI_CON_HANDLE_INVALID := by
    rw [g1, hh1, ← hh]; exact hlive
  have hbit2 : (srv2.slot ci).scheduled_tasks
      &&& ASCS_TASK_SEND_CONTROL_POINT_OPERATION_RESPONSE ≠ 0 := by
    rcases g7 with g7 | g7
    · rw [g7, hs1, or_task_and_self]; decide
    · rw [g7, or_task_and_other _ _ _ (by decide), hs1, or_task_and_self]; decide
  obtain ⟨⟨rest, r1, r2, -⟩, -⟩ := hA srv2 ci (srv2.slot ci) hc2 hlive2 hbit2
  refine ⟨es, rest, f2, f3, ?_, ?_⟩
  · rw [r1, g1, hh1, f4.2.2.1, hreg1.2.2.1,
      control_point_notification_value_congr W (srv1.slot ci) (srv2.slot ci) g3 g4 g5]
  · rw [g1, hh1] at r2
    exact r2

set_option maxRecDepth 100000 in
/-- C25 (witness). A Config QoS write for the Sink ASE 1 of the two-Sink server, in Codec
Configured, then the call of `configure_qos` that answers the event, then the can-send-now
callback of the slot: the write and the call add no notification to the trace, the
callback sends the control point response (2, 1, 1, 0, 0) on handle 20 and registers
itself again for the value-changed task the call has armed. -/
theorem can_send_now_control_point_response_first_witness :
    (ascs_server_can_send_now example_wire
        (run_events example_util example_wire
          (ascs_server_write_callback example_util
            (example_server_two_sinks (example_streamendpoint ASCS_STATE_CODEC_CONFIGURED 0 0)
              (example_streamendpoint ASCS_STATE_IDLE 0 0)) 64 20
            ([2, 1] ++ example_config_qos_sub_request 1 1 1))
          [ascs_event_t.apply (ascs_apply_t.configure_qos ⟨1, 1, 10000, 0, 2, 40, 2, 10, 40000⟩)
            64 1]) 0).trace
      = [schedule_task 64 ASCS_TASK_SEND_CONTROL_POINT_OPERATION_RESPONSE,
          att_server_register_can_send_now_callback 64,
          emit_client_qos_configuration_request 64 1 ASCS_STATE_RFU
            ⟨1, 1, 10000, 0, 2, 40, 2, 10, 40000⟩,
          schedule_task 64 ASCS_TASK_SEND_CODEC_CONFIGURATION_VALUE_CHANGED,
          att_server_notify 64 20 [2, 1, 1, 0, 0],
          att_server_register_can_send_now_callback 64]
      ∧ ∃ es rest,
          (run_events example_util example_wire
              (ascs_server_write_callback example_util
                (example_server_two_sinks
                  (example_streamendpoint ASCS_STATE_CODEC_CONFIGURED 0 0)
                  (example_streamendpoint ASCS_STATE_IDLE 0 0)) 64 20
                ([2, 1] ++ example_config_qos_sub_request 1 1 1))
              ([(ascs_apply_t.configure_qos ⟨1, 1, 10000, 0, 2, 40, 2, 10, 40000⟩, 64, 1)].map
                (fun x => ascs_event_t.apply x.1 x.2.1 x.2.2))).trace
            = (ascs_server_write_callback example_util
                (example_server_two_sinks
                  (example_streamendpoint ASCS_STATE_CODEC_CONFIGURED 0 0)
                  (example_streamendpoint ASCS_STATE_IDLE 0 0)) 64 20
                ([2, 1] ++ example_config_qos_sub_request 1 1 1)).trace ++ es
          ∧ (∀ e ∈ es, e.is_notification = false)
          ∧ (ascs_server_can_send_now example_wire
              (run_events example_util example_wire
                (ascs_server_write_callback example_util
                  (example_server_two_sinks
                    (example_streamendpoint ASCS_STATE_CODEC_CONFIGURED 0 0)
                    (example_streamendpoint ASCS_STATE_IDLE 0 0)) 64 20
                  ([2, 1] ++ example_config_qos_sub_request 1 1 1))
                ([(ascs_apply_t.configure_qos ⟨1, 1, 10000, 0, 2, 40, 2, 10, 40000⟩, 64,
                    1)].map (fun x => ascs_event_t.apply x.1 x.2.1 x.2.2))) 0).trace
            = (run_events example_util example_wire
                (ascs_server_write_callback example_util
                  (example_server_two_sinks
                    (example_streamendpoint ASCS_STATE_CODEC_CONFIGURED 0 0)
                    (example_streamendpoint ASCS_STATE_IDLE 0 0)) 64 20
                  ([2, 1] ++ example_config_qos_sub_request 1 1 1))
                ([(ascs_apply_t.configure_qos ⟨1, 1, 10000, 0, 2, 40, 2, 10, 40000⟩, 64,
                    1)].map (fun x => ascs_event_t.apply x.1 x.2.1 x.2.2))).trace
              ++ att_server_notify 64
                  (example_server_two_sinks
                    (example_streamendpoint ASCS_STATE_CODEC_CONFIGURED 0 0)
                    (example_streamendpoint ASCS_STATE_IDLE 0 0)).ascs_ase_control_point_handle
                  (control_point_notification_value example_wire
                    ((ascs_server_write_callback example_util
                      (example_server_two_sinks
                        (example_streamendpoint ASCS_STATE_CODEC_CONFIGURED 0 0)
                        (example_streamendpoint ASCS_STATE_IDLE 0 0)) 64
                      (example_server_two_sinks
                        (example_streamendpoint ASCS_STATE_CODEC_CONFIGURED 0 0)
                        (example_streamendpoint ASCS_STATE_IDLE
                          0 0)).ascs_ase_control_point_handle
                      ([2, 1] ++ example_config_qos_sub_request 1 1 1)).slot 0)) :: rest
          ∧ (rest = [] ∨ rest = [att_server_register_can_send_now_callback 64]) :=
  ⟨by decide,
    (can_send_now_control_point_response_first example_util example_wire).2
      (example_server_two_sinks (example_streamendpoint ASCS_STATE_CODEC_CONFIGURED 0 0)
        (example_streamendpoint ASCS_STATE_IDLE 0 0)) 64 0
      ((example_server_two_sinks (example_streamendpoint ASCS_STATE_CODEC_CONFIGURED 0 0)
        (example_streamendpoint ASCS_STATE_IDLE 0 0)).slot 0)
      ([2, 1] ++ example_config_qos_sub_request 1 1 1)
      [(ascs_apply_t.configure_qos ⟨1, 1, 10000, 0, 2, 40, 2, 10, 40000⟩, 64, 1)]
      (by decide) (by decide) (by decide) (by decide)⟩

/-! ## The value-changed branch of the can-send-now callback -/

theorem pending_indices_succ (c : ascs_server_connection_t) (i n : Nat) :
    pending_indices c i (n + 1)
      = if (c.ase i).ase_characteristic_value_changed_w2_notify = true then
          i :: pending_indices c (i + 1) n
        else pending_indices c (i + 1) n := by
  unfold pending_indices
  rw [List.range'_succ, List.filter_cons]

theorem pending_indices_congr (c c2 : ascs_server_connection_t) (i n : Nat)
    (h : ∀ j, i ≤ j → (c2.ase j).ase_characteristic_value_changed_w2_notify
      = (c.ase j).ase_characteristic_value_changed_w2_notify) :
    pending_indices c2 i n = pending_indices c i n := by
  unfold pending_indices
  apply List.filter_congr
  intro x hx
  exact h x (List.mem_range'_1.mp hx).1

theorem pending_indices_mem (c : ascs_server_connection_t) (i n j : Nat) :
    j ∈ pending_indices c i n
      ↔ (i ≤ j ∧ j < i + n) ∧ (c.ase j).ase_characteristic_value_changed_w2_notify = true := by
  unfold pending_indices
  rw [List.mem_filter, List.mem_range'_1]

theorem pending_indices_sorted (c : ascs_server_connection_t) (i n : Nat) :
    (pending_indices c i n).Pairwise (fun a b => a < b) := by
  unfold pending_indices
  exact List.Pairwise.filter _ (List.pairwise_lt_range' i n)

/-- The loop once a notification was sent: it sets the bit again if another stream
endpoint is pending. -/
theorem can_send_now_value_changed_sent (W : ascs_wire_t) (srv : ascs_server_t)
    (fuel i : Nat) (c : ascs_server_connection_t) :
    can_send_now_value_changed W srv fuel i true c
      = if pending_indices c i fuel = [] then (c, [])
        else
          ({ c with
              scheduled_tasks :=
                c.scheduled_tasks ||| ASCS_TASK_SEND_CODEC_CONFIGURATION_VALUE_CHANGED }, []) := by
  induction fuel generalizing i with
  | zero => rfl
  | succ fuel ih =>
    unfold can_send_now_value_changed
    rw [pending_indices_succ]
    by_cases hw : (c.ase i).ase_characteristic_value_changed_w2_notify = true
    · rw [if_neg (by simp [hw]), if_neg (by simp), if_pos hw, if_neg (by simp)]
    · rw [if_pos hw, if_neg hw, ih]

/-- The loop while no notification was sent: the first pending stream endpoint is
notified with its two flags cleared, and the bit is set again if another one is
pending. -/
theorem can_send_now_value_changed_first (W : ascs_wire_t) (srv : ascs_server_t)
    (fuel i : Nat) (c : ascs_server_connection_t) :
    (pending_indices c i fuel = [] →
        can_send_now_value_changed W srv fuel i false c = (c, []))
      ∧ ∀ j rest, pending_indices c i fuel = j :: rest →
          can_send_now_value_changed W srv fuel i false c
            = ({ (c.set_ase j (notified_streamendpoint c j)) with
                  scheduled_tasks :=
                    if rest = [] then c.scheduled_tasks
                    else c.scheduled_tasks
                      ||| ASCS_TASK_SEND_CODEC_CONFIGURATION_VALUE_CHANGED },
                [value_changed_notification W srv c j])
            ∧ pending_indices (c.set_ase j (notified_streamendpoint c j)) i fuel = rest := by
  induction fuel generalizing i with
  | zero =>
    refine ⟨fun _ => rfl, fun j rest h => ?_⟩
    simp [pending_indices] at h
  | succ fuel ih =>
    obtain ⟨ih1, ih2⟩ := ih (i + 1)
    by_cases hw : (c.ase i).ase_characteristic_value_changed_w2_notify = true
    · have hil : i < c.streamendpoints.length := by
        by_contra hge
        have hz : c.ase i = ascs_streamendpoint_t.zero := by
          unfold ascs_server_connection_t.ase
          rw [List.getD_eq_getElem?_getD, List.getElem?_eq_none (Nat.le_of_not_lt hge)]
          rfl
        rw [hz] at hw
        exact Bool.noConfusion hw
      have hafter : pending_indices (c.set_ase i (notified_streamendpoint c i)) (i + 1) fuel
          = pending_indices c (i + 1) fuel := by
        apply pending_indices_congr
        intro j hj
        rw [ase_set_ase, if_neg (by omega)]
      refine ⟨fun h => ?_, fun j rest h => ?_⟩
      · rw [pending_indices_succ, if_pos hw] at h
        exact List.noConfusion h
      · rw [pending_indices_succ, if_pos hw] at h
        obtain ⟨rfl, hrest⟩ := List.cons.inj h
        constructor
        · have key : can_send_now_value_changed W srv (fuel + 1) i false c
              = ((can_send_now_value_changed W srv fuel (i + 1) true
                    (c.set_ase i (notified_streamendpoint c i))).1,
                  value_changed_notification W srv c i
                    :: (can_send_now_value_changed W srv fuel (i + 1) true
                      (c.set_ase i (notified_streamendpoint c i))).2) := by
            conv_lhs => unfold can_send_now_value_changed
            rw [if_neg (by simp [hw]), if_pos (by simp)]
            rfl
          rw [key, can_send_now_value_changed_sent, hafter, hrest]
          by_cases hr : rest = []
          · rw [if_pos hr, if_pos hr]
            rfl
          · rw [if_neg hr, if_neg hr]
            rfl
        · rw [pending_indices_succ, if_neg, hafter, hrest]
          rw [ase_set_ase, if_pos ⟨rfl, hil⟩]
          simp [notified_streamendpoint]
    · have hne : ∀ j, (c.ase j).ase_characteristic_value_changed_w2_notify = true → j ≠ i := by
        intro j hj hji
        rw [hji] at hj
        exact hw hj
      refine ⟨fun h => ?_, fun j rest h => ?_⟩
      · rw [pending_indices_succ, if_neg hw] at h
        unfold can_send_now_value_changed
        rw [if_pos hw]
        exact ih1 h
      · rw [pending_indices_succ, if_neg hw] at h
        obtain ⟨e1, e2⟩ := ih2 j rest h
        have hji : j ≠ i := by
          have hm : j ∈ pending_indices c (i + 1) fuel := by rw [h]; exact List.mem_cons_self _ _
          have := ((pending_indices_mem c (i + 1) fuel j).mp hm).1.1
          omega
        constructor
        · unfold can_send_now_value_changed
          rw [if_pos hw]
          exact e1
        · rw [pending_indices_succ, if_neg, e2]
          rw [ase_set_ase, if_neg (fun h' => hji h'.1.symm)]
          exact hw

theorem lt_length_of_notify (c : ascs_server_connection_t) (j : Nat)
    (h : (c.ase j).ase_characteristic_value_changed_w2_notify = true) :
    j < c.streamendpoints.length := by
  by_contra hge
  have hz : c.ase j = ascs_streamendpoint_t.zero := by
    unfold ascs_server_connection_t.ase
    rw [List.getD_eq_getElem?_getD, List.getElem?_eq_none (Nat.le_of_not_lt hge)]
    rfl
  rw [hz] at h
  exact Bool.noConfusion h

/-- The callback on a live connection whose only bit is the value-changed one, with the
pending stream endpoints `j :: rest`. -/
theorem can_send_now_value_changed_step (W : ascs_wire_t) (srv : ascs_server_t) (ci : Nat)
    (c : ascs_server_connection_t) (j : Nat) (rest : List Nat)
    (hc : srv.client ci = some c) (hlive : c.con_handle ≠ HCI_CON_HANDLE_INVALID)
    (hs : c.scheduled_tasks = ASCS_TASK_SEND_CODEC_CONFIGURATION_VALUE_CHANGED)
    (hp : pending_indices c 0 srv.ascs_streamendpoint_chr_num = j :: rest) :
    ascs_server_can_send_now W srv ci
      = srv.commit ci
          ({ (c.set_ase j (notified_streamendpoint c j)) with
              scheduled_tasks :=
                if rest = [] then 0 else ASCS_TASK_SEND_CODEC_CONFIGURATION_VALUE_CHANGED },
            value_changed_notification W srv c j
              :: (if rest = [] then []
                  else [att_server_register_can_send_now_callback c.con_handle])) := by
  unfold ascs_server_can_send_now
  simp only [hc]
  rw [if_neg hlive]
  unfold can_send_now_task
  rw [hs, if_neg (by decide), if_pos (by decide)]
  have hp2 : pending_indices
      { c with
        scheduled_tasks :=
          clear_task ASCS_TASK_SEND_CODEC_CONFIGURATION_VALUE_CHANGED
            ASCS_TASK_SEND_CODEC_CONFIGURATION_VALUE_CHANGED }
      0 srv.ascs_streamendpoint_chr_num = j :: rest := hp
  rw [((can_send_now_value_changed_first W srv srv.ascs_streamendpoint_chr_num 0 _).2 j rest
    hp2).1]
  by_cases hr : rest = []
  · simp only [hr, if_true]
    rfl
  · simp only [hr, if_false]
    rfl

theorem ase_serialize_congr (W : ascs_wire_t) {srv srv2 : ascs_server_t}
    (h : same_registry srv srv2) (k : Nat) (e : ascs_streamendpoint_t) (value_size : Nat) :
    asce_server_ase_serialize W srv2 k e value_size
      = asce_server_ase_serialize W srv k e value_size := by
  unfold asce_server_ase_serialize
  rw [same_registry_chr h k]

theorem value_changed_notifications_congr (W : ascs_wire_t) {srv srv2 : ascs_server_t}
    (c c2 : ascs_server_connection_t) (l : List Nat) (h : same_registry srv srv2)
    (hh : c2.con_handle = c.con_handle) (hl : ∀ x ∈ l, c2.ase x = c.ase x) :
    value_changed_notifications W srv2 c2 l = value_changed_notifications W srv c l := by
  have hone : ∀ x ∈ l, value_changed_notification W srv2 c2 x
      = value_changed_notification W srv c x := by
    intro x hx
    unfold value_changed_notification notified_streamendpoint
    rw [hh, hl x hx, same_registry_chr h x, ase_serialize_congr W h]
  induction l with
  | nil => rfl
  | cons a l ih =>
    cases l with
    | nil =>
      show [_] = [_]
      rw [hone a (List.mem_cons_self _ _)]
    | cons b l =>
      show _ :: _ :: _ = _ :: _ :: _
      rw [hone a (List.mem_cons_self _ _), hh,
        ih (fun x hx => hl x (List.mem_cons_of_mem _ hx))
          (fun x hx => hone x (List.mem_cons_of_mem _ hx))]

/-- As many can-send-now callbacks as stream endpoints are pending, on a live connection
whose only bit is the value-changed one. -/
theorem can_send_now_drains (U : ascs_util_t) (W : ascs_wire_t) (ci : Nat) (rest : List Nat) :
    ∀ (j : Nat) (srv : ascs_server_t) (c : ascs_server_connection_t),
      srv.client ci = some c → c.con_handle ≠ HCI_CON_HANDLE_INVALID →
      c.scheduled_tasks = ASCS_TASK_SEND_CODEC_CONFIGURATION_VALUE_CHANGED →
      pending_indices c 0 srv.ascs_streamendpoint_chr_num = j :: rest →
      (run_events U W srv
          (List.replicate (rest.length + 1) (ascs_event_t.can_send_now ci))).trace
          = srv.trace ++ value_changed_notifications W srv c (j :: rest)
        ∧ ((run_events U W srv
            (List.replicate (rest.length + 1)
              (ascs_event_t.can_send_now ci))).slot ci).scheduled_tasks = 0
        ∧ (∀ x, x ∈ j :: rest →
            ((run_events U W srv
              (List.replicate (rest.length + 1) (ascs_event_t.can_send_now ci))).slot ci).ase x
              = notified_streamendpoint c x)
        ∧ (∀ x, x ∉ j :: rest →
            ((run_events U W srv
              (List.replicate (rest.length + 1) (ascs_event_t.can_send_now ci))).slot ci).ase x
              = c.ase x) := by
  induction rest with
  | nil =>
    intro j srv c hc hlive hs hp
    have hstep : run_events U W srv (List.replicate ([] : List Nat).length.succ
        (ascs_event_t.can_send_now ci)) = ascs_server_can_send_now W srv ci := rfl
    have hjw := ((pending_indices_mem c 0 _ j).mp (by rw [hp]; exact List.mem_cons_self _ _)).2
    have hjl := lt_length_of_notify c j hjw
    rw [hstep, can_send_now_value_changed_step W srv ci c j [] hc hlive hs hp,
      slot_commit_self srv ci _ c hc]
    refine ⟨rfl, rfl, ?_, ?_⟩
    · intro x hx
      rw [List.mem_singleton] at hx
      subst hx
      show (c.set_ase x _).ase x = _
      rw [ase_set_ase, if_pos ⟨rfl, hjl⟩]
    · intro x hx
      show (c.set_ase j _).ase x = _
      rw [ase_set_ase, if_neg (fun h => hx (by rw [h.1]; exact List.mem_cons_self _ _))]
  | cons j2 rest ih =>
    intro j srv c hc hlive hs hp
    have hjw := ((pending_indices_mem c 0 _ j).mp (by rw [hp]; exact List.mem_cons_self _ _)).2
    have hjl := lt_length_of_notify c j hjw
    have hsorted := pending_indices_sorted c 0 srv.ascs_streamendpoint_chr_num
    rw [hp, List.pairwise_cons] at hsorted
    have hstep : run_events U W srv (List.replicate ((j2 :: rest).length + 1)
        (ascs_event_t.can_send_now ci))
        = run_events U W (ascs_server_can_send_now W srv ci)
            (List.replicate (rest.length + 1) (ascs_event_t.can_send_now ci)) := rfl
    rw [hstep]
    have h1 := can_send_now_value_changed_step W srv ci c j (j2 :: rest) hc hlive hs hp
    simp only [if_neg (List.cons_ne_nil j2 rest)] at h1
    have hreg : same_registry srv (ascs_server_can_send_now W srv ci) := by
      rw [h1]; exact same_registry_commit srv ci _
    obtain ⟨c1, hc1d⟩ : ∃ c1 : ascs_server_connection_t,
        c1 = { (c.set_ase j (notified_streamendpoint c j)) with
          scheduled_tasks := ASCS_TASK_SEND_CODEC_CONFIGURATION_VALUE_CHANGED } := ⟨_, rfl⟩
    have hc1 : (ascs_server_can_send_now W srv ci).client ci = some c1 := by
      rw [h1, hc1d]; exact client_commit_self srv ci _ c hc
    have hp1 : pending_indices c1 0
        (ascs_server_can_send_now W srv ci).ascs_streamendpoint_chr_num = j2 :: rest := by
      rw [hreg.2.1, hc1d]
      exact ((can_send_now_value_changed_first W srv srv.ascs_streamendpoint_chr_num 0 c).2 j
        (j2 :: rest) hp).2
    have htr : (ascs_server_can_send_now W srv ci).trace
        = srv.trace ++ [value_changed_notification W srv c j,
            att_server_register_can_send_now_callback c.con_handle] := by
      rw [h1]; rfl
    have hh1 : c1.con_handle = c.con_handle := by rw [hc1d]; rfl
    have hs1 : c1.scheduled_tasks = ASCS_TASK_SEND_CODEC_CONFIGURATION_VALUE_CHANGED := by
      rw [hc1d]
    obtain ⟨i1, i2, i3, i4⟩ := ih j2 (ascs_server_can_send_now W srv ci) c1 hc1
      (by rw [hh1]; exact hlive) hs1 hp1
    have hother : ∀ x, x ≠ j → c1.ase x = c.ase x := by
      intro x hx
      rw [hc1d]
      show (c.set_ase j _).ase x = _
      rw [ase_set_ase, if_neg (fun h => hx h.1)]
    have hself : c1.ase j = notified_streamendpoint c j := by
      rw [hc1d]
      show (c.set_ase j _).ase j = _
      rw [ase_set_ase, if_pos ⟨rfl, hjl⟩]
    have hnej : ∀ x ∈ j2 :: rest, x ≠ j := by
      intro x hx hxj
      have := hsorted.1 x hx
      omega
    refine ⟨?_, i2, ?_, ?_⟩
    · rw [i1, htr, value_changed_notifications_congr W c c1 (j2 :: rest) hreg hh1
        (fun x hx => hother x (hnej x hx)), List.append_assoc]
      rfl
    · intro x hx
      rcases List.mem_cons.mp hx with rfl | hx
      · rw [i4 x (fun h => hnej x h rfl)]
        exact hself
      · rw [i3 x hx]
        unfold notified_streamendpoint
        rw [hother x (hnej x hx)]
    · intro x hx
      rw [i4 x (fun h => hx (List.mem_cons_of_mem _ h)),
        hother x (fun h => hx (by rw [h]; exact List.mem_cons_self _ _))]

/-- C27. A live connection on which the control point bit is clear and the value-changed
bit is set, the bitmap holding no other bit, and on which the stream endpoints with the
notify flag are the registered ones at the indices of the list p, which is not empty and
increasing. Then as many can-send-now callbacks as p has entries, with nothing in
between, add to the trace one value notification per entry of p, in the order of p, each
for the stream endpoint with its notify flag and its initiated-by-client flag cleared,
with a registration of the callback after each but the last; afterwards
`scheduled_tasks` is 0, no stream endpoint has the notify flag, the stream endpoints of p
have both flags cleared and the others are as before. -/
theorem value_changed_notifications_in_index_order (U : ascs_util_t) (W : ascs_wire_t)
    (srv : ascs_server_t) (ci : Nat) (c : ascs_server_connection_t) (p : List Nat)
    (hc : srv.client ci = some c) (hlive : c.con_handle ≠ HCI_CON_HANDLE_INVALID)
    (hacp : c.scheduled_tasks &&& ASCS_TASK_SEND_CONTROL_POINT_OPERATION_RESPONSE = 0)
    (hval : c.scheduled_tasks &&& ASCS_TASK_SEND_CODEC_CONFIGURATION_VALUE_CHANGED ≠ 0)
    (hbits : c.scheduled_tasks < 4)
    (hreg : ∀ x, (c.ase x).ase_characteristic_value_changed_w2_notify = true →
      x < srv.ascs_streamendpoint_chr_num)
    (hp : pending_indices c 0 srv.ascs_streamendpoint_chr_num = p) (hne : p ≠ []) :
    p.Pairwise (fun a b => a < b)
      ∧ (∀ x, x ∈ p ↔ (c.ase x).ase_characteristic_value_changed_w2_notify = true)
      ∧ (run_events U W srv (List.replicate p.length (ascs_event_t.can_send_now ci))).trace
          = srv.trace ++ value_changed_notifications W srv c p
      ∧ ((run_events U W srv
          (List.replicate p.length (ascs_event_t.can_send_now ci))).slot ci).scheduled_tasks = 0
      ∧ (∀ x, (((run_events U W srv
          (List.replicate p.length (ascs_event_t.can_send_now ci))).slot ci).ase
            x).ase_characteristic_value_changed_w2_notify = false)
      ∧ (∀ x, x ∈ p →
          ((run_events U W srv
            (List.replicate p.length (ascs_event_t.can_send_now ci))).slot ci).ase x
            = notified_streamendpoint c x)
      ∧ (∀ x, x ∉ p →
          ((run_events U W srv
            (List.replicate p.length (ascs_event_t.can_send_now ci))).slot ci).ase x
            = c.ase x) := by
  have hs : c.scheduled_tasks = ASCS_TASK_SEND_CODEC_CONFIGURATION_VALUE_CHANGED := by
    revert hacp hval
    generalize c.scheduled_tasks = s at hbits ⊢
    interval_cases s <;> decide
  have hmem : ∀ x, x ∈ p ↔ (c.ase x).ase_characteristic_value_changed_w2_notify = true := by
    intro x
    rw [← hp, pending_indices_mem]
    constructor
    · exact fun h => h.2
    · intro h
      have := hreg x h
      exact ⟨⟨Nat.zero_le _, by omega⟩, h⟩
  have hsorted : p.Pairwise (fun a b => a < b) := by
    rw [← hp]; exact pending_indices_sorted c 0 _
  cases p with
  | nil => exact absurd rfl hne
  | cons j rest =>
    obtain ⟨d1, d2, d3, d4⟩ := can_send_now_drains U W ci rest j srv c hc hlive hs hp
    refine ⟨hsorted, hmem, d1, d2, ?_, d3, d4⟩
    intro x
    change (((run_events U W srv (List.replicate (rest.length + 1)
      (ascs_event_t.can_send_now ci))).slot ci).ase
        x).ase_characteristic_value_changed_w2_notify = false
    by_cases hx : x ∈ j :: rest
    · rw [d3 x hx]
      rfl
    · rw [d4 x hx]
      cases hw : (c.ase x).ase_characteristic_value_changed_w2_notify with
      | false => rfl
      | true => exact absurd ((hmem x).mpr hw) hx

set_option maxRecDepth 100000 in
/-- C27 (witness). The two Sink ASEs 1 and 2 of the two-Sink server, both in Codec
Configured, after the calls of `configure_qos` for both: the value-changed bit is the only
one set and both stream endpoints are pending. Two can-send-now callbacks send the value
of ASE 1 on handle 10, register the callback, and send the value of ASE 2 on handle 13;
`scheduled_tasks` is 0 afterwards. -/
theorem value_changed_notifications_in_index_order_witness :
    pending_indices
        ((run_events example_util example_wire
          (example_server_two_sinks (example_streamendpoint ASCS_STATE_CODEC_CONFIGURED 0 0)
            (example_streamendpoint ASCS_STATE_CODEC_CONFIGURED 0 0))
          [ascs_event_t.apply (ascs_apply_t.configure_qos ⟨1, 1, 10000, 0, 2, 40, 2, 10, 40000⟩)
              64 1,
            ascs_event_t.apply (ascs_apply_t.configure_qos ⟨1, 2, 10000, 0, 2, 40, 2, 10, 40000⟩)
              64 2]).slot 0) 0 2 = [0, 1]
      ∧ (run_events example_util example_wire
          (run_events example_util example_wire
            (example_server_two_sinks (example_streamendpoint ASCS_STATE_CODEC_CONFIGURED 0 0)
              (example_streamendpoint ASCS_STATE_CODEC_CONFIGURED 0 0))
            [ascs_event_t.apply
                (ascs_apply_t.configure_qos ⟨1, 1, 10000, 0, 2, 40, 2, 10, 40000⟩) 64 1,
              ascs_event_t.apply
                (ascs_apply_t.configure_qos ⟨1, 2, 10000, 0, 2, 40, 2, 10, 40000⟩) 64 2])
          (List.replicate [0, 1].length (ascs_event_t.can_send_now 0))).trace
        = [schedule_task 64 ASCS_TASK_SEND_CODEC_CONFIGURATION_VALUE_CHANGED,
            att_server_register_can_send_now_callback 64,
            schedule_task 64 ASCS_TASK_SEND_CODEC_CONFIGURATION_VALUE_CHANGED,
            att_server_notify 64 10 [1, 2, 1, 1],
            att_server_register_can_send_now_callback 64,
            att_server_notify 64 13 [2, 2, 1, 2]]
      ∧ ((run_events example_util example_wire
          (run_events example_util example_wire
            (example_server_two_sinks (example_streamendpoint ASCS_STATE_CODEC_CONFIGURED 0 0)
              (example_streamendpoint ASCS_STATE_CODEC_CONFIGURED 0 0))
            [ascs_event_t.apply
                (ascs_apply_t.configure_qos ⟨1, 1, 10000, 0, 2, 40, 2, 10, 40000⟩) 64 1,
              ascs_event_t.apply
                (ascs_apply_t.configure_qos ⟨1, 2, 10000, 0, 2, 40, 2, 10, 40000⟩) 64 2])
          (List.replicate [0, 1].length
            (ascs_event_t.can_send_now 0))).slot 0).scheduled_tasks = 0 :=
  ⟨by decide, by decide,
    (value_changed_notifications_in_index_order example_util example_wire
      (run_events example_util example_wire
        (example_server_two_sinks (example_streamendpoint ASCS_STATE_CODEC_CONFIGURED 0 0)
          (example_streamendpoint ASCS_STATE_CODEC_CONFIGURED 0 0))
        [ascs_event_t.apply (ascs_apply_t.configure_qos ⟨1, 1, 10000, 0, 2, 40, 2, 10, 40000⟩)
            64 1,
          ascs_event_t.apply (ascs_apply_t.configure_qos ⟨1, 2, 10000, 0, 2, 40, 2, 10, 40000⟩)
            64 2]) 0
      ((run_events example_util example_wire
        (example_server_two_sinks (example_streamendpoint ASCS_STATE_CODEC_CONFIGURED 0 0)
          (example_streamendpoint ASCS_STATE_CODEC_CONFIGURED 0 0))
        [ascs_event_t.apply (ascs_apply_t.configure_qos ⟨1, 1, 10000, 0, 2, 40, 2, 10, 40000⟩)
            64 1,
          ascs_event_t.apply (ascs_apply_t.configure_qos ⟨1, 2, 10000, 0, 2, 40, 2, 10, 40000⟩)
            64 2]).slot 0)
      [0, 1] (by decide) (by decide) (by decide) (by decide) (by decide)
      (fun x hx => Nat.lt_of_lt_of_le (lt_length_of_notify _ x hx) (by decide))
      (by decide) (by decide)).2.2.2.1⟩

/-! ## Disconnects -/

/-- The loop of `ascs_server_reset_client_streamendpoints` over the first `n` stream
endpoints. -/
theorem reset_streamendpoints_loop (c : ascs_server_connection_t) (n : Nat) :
    for_loop n (fun i c => c.set_ase i (ascs_server_reset_streamendpoint (c.ase i))) c
        = { c with
            streamendpoints :=
              (for_loop n (fun i c => c.set_ase i (ascs_server_reset_streamendpoint (c.ase i)))
                c).streamendpoints }
      ∧ (for_loop n (fun i c => c.set_ase i (ascs_server_reset_streamendpoint (c.ase i)))
          c).streamendpoints.length = c.streamendpoints.length
      ∧ ∀ k, (for_loop n (fun i c => c.set_ase i (ascs_server_reset_streamendpoint (c.ase i)))
            c).ase k
          = if k < n then ascs_server_reset_streamendpoint (c.ase k) else c.ase k := by
  induction n with
  | zero =>
    rw [for_loop_zero]
    exact ⟨rfl, rfl, fun k => by simp⟩
  | succ n ih =>
    obtain ⟨i1, i2, i3⟩ := ih
    rw [for_loop_succ]
    generalize for_loop n
      (fun i c => c.set_ase i (ascs_server_reset_streamendpoint (c.ase i))) c = t at i1 i2 i3
    refine ⟨?_, ?_, ?_⟩
    · show t.set_ase n _ = _
      rw [i1]
      rfl
    · show (t.streamendpoints.set n _).length = _
      rw [List.length_set, i2]
    · intro k
      show (t.set_ase n _).ase k = _
      rw [ase_set_ase]
      by_cases hkn : k = n
      · subst hkn
        by_cases hl : k < t.streamendpoints.length
        · rw [if_pos ⟨rfl, hl⟩, if_pos (Nat.lt_succ_self k), i3 k, if_neg (Nat.lt_irrefl k)]
        · rw [if_neg (fun h => hl h.2), if_pos (Nat.lt_succ_self k), i3 k,
            if_neg (Nat.lt_irrefl k)]
          have hz : c.ase k = ascs_streamendpoint_t.zero := by
            unfold ascs_server_connection_t.ase
            rw [List.getD_eq_getElem?_getD,
              List.getElem?_eq_none (by rw [← i2]; exact Nat.le_of_not_lt hl)]
            rfl
          rw [hz]
          rfl
      · rw [if_neg (fun h => hkn h.1), i3 k]
        by_cases h1 : k < n
        · rw [if_pos h1, if_pos (by omega)]
        · rw [if_neg h1, if_neg (by omega)]

/-- The function `ascs_server_reset_client`, field by field. -/
theorem reset_client_fields (srv : ascs_server_t) (c : ascs_server_connection_t) :
    (ascs_server_reset_client srv c).con_handle = HCI_CON_HANDLE_INVALID
      ∧ (ascs_server_reset_client srv c).scheduled_tasks = 0
      ∧ (ascs_server_reset_client srv c).response_opcode = 0
      ∧ (ascs_server_reset_client srv c).response_ases_num = 0
      ∧ (ascs_server_reset_client srv c).response
          = c.response.map (fun _ => ascs_control_point_operation_response_t.zero)
      ∧ (ascs_server_reset_client srv c).ase_control_point_client_configuration
          = c.ase_control_point_client_configuration
      ∧ (ascs_server_reset_client srv c).streamendpoints.length = c.streamendpoints.length
      ∧ ∀ k, (ascs_server_reset_client srv c).ase k
          = if k < srv.ascs_streamendpoint_chr_num then
              ascs_server_reset_streamendpoint (c.ase k)
            else c.ase k := by
  unfold ascs_server_reset_client ascs_server_reset_client_streamendpoints
  obtain ⟨h1, h2, h3⟩ := reset_streamendpoints_loop
    (ascs_server_reset_client_response
      { c with scheduled_tasks := 0, con_handle := HCI_CON_HANDLE_INVALID })
    srv.ascs_streamendpoint_chr_num
  generalize for_loop srv.ascs_streamendpoint_chr_num
    (fun i c => c.set_ase i (ascs_server_reset_streamendpoint (c.ase i)))
    (ascs_server_reset_client_response
      { c with scheduled_tasks := 0, con_handle := HCI_CON_HANDLE_INVALID }) = t at h1 h2 h3
  refine ⟨by rw [h1]; rfl, by rw [h1]; rfl, by rw [h1]; rfl, by rw [h1]; rfl, by rw [h1]; rfl,
    by rw [h1]; rfl, by rw [h2]; rfl, fun k => by rw [h3 k]; rfl⟩

theorem slot_set_client_self (srv : ascs_server_t) (ci : Nat)
    (c2 c : ascs_server_connection_t) (hc : srv.client ci = some c) :
    (srv.set_client ci c2).slot ci = c2 :=
  slot_commit_self srv ci (c2, []) c hc ▸ by
    simp [ascs_server_t.commit, ascs_server_t.emit]

theorem slot_set_client_ne (srv : ascs_server_t) (ci cj : Nat) (c2 : ascs_server_connection_t)
    (h : cj ≠ ci) : (srv.set_client ci c2).slot cj = srv.slot cj := by
  simp [ascs_server_t.set_client, ascs_server_t.slot, List.getD_eq_getElem?_getD,
    List.getElem?_set, Ne.symm h]

/-- The disconnection complete event, field by field. For a handle that matches a slot:
the handle of the slot becomes the invalid sentinel, `scheduled_tasks` becomes 0, the
pending response is cleared, and every stream endpoint of a registered ASE has state
Idle, a zero codec configuration, QoS configuration and metadata and both flags false,
while its client configuration value, like the one of the control point, is the one it
was; the stream endpoints past the registered ASEs are left as they are. A disconnected
event is emitted, the other slots are untouched, and a can-send-now callback for that
slot right after sends nothing. For a handle that matches no slot nothing changes. -/
theorem packet_handler_disconnection_complete_fields (W : ascs_wire_t) (srv : ascs_server_t)
    (con_handle ci : Nat) (c : ascs_server_connection_t)
    (hfind : ascs_server_get_remote_client_for_con_handle srv con_handle = some ci)
    (hc : srv.client ci = some c) :
    ((ascs_server_packet_handler srv
        (hci_packet_t.hci_event_disconnection_complete con_handle)).slot ci).con_handle
        = HCI_CON_HANDLE_INVALID
      ∧ ((ascs_server_packet_handler srv
          (hci_packet_t.hci_event_disconnection_complete con_handle)).slot ci).scheduled_tasks
        = 0
      ∧ ((ascs_server_packet_handler srv
          (hci_packet_t.hci_event_disconnection_complete con_handle)).slot ci).response_opcode
        = 0
      ∧ ((ascs_server_packet_handler srv
          (hci_packet_t.hci_event_disconnection_complete con_handle)).slot
            ci).response_ases_num = 0
      ∧ ((ascs_server_packet_handler srv
          (hci_packet_t.hci_event_disconnection_complete con_handle)).slot ci).response
        = c.response.map (fun _ => ascs_control_point_operation_response_t.zero)
      ∧ ((ascs_server_packet_handler srv
          (hci_packet_t.hci_event_disconnection_complete con_handle)).slot
            ci).ase_control_point_client_configuration
        = c.ase_control_point_client_configuration
      ∧ (∀ k, k < srv.ascs_streamendpoint_chr_num →
          ((ascs_server_packet_handler srv
            (hci_packet_t.hci_event_disconnection_complete con_handle)).slot ci).ase k
            = { ascs_streamendpoint_t.zero with
                ase_characteristic_client_configuration :=
                  (c.ase k).ase_characteristic_client_configuration })
      ∧ (∀ k, srv.ascs_streamendpoint_chr_num ≤ k →
          ((ascs_server_packet_handler srv
            (hci_packet_t.hci_event_disconnection_complete con_handle)).slot ci).ase k
            = c.ase k)
      ∧ ((∀ k, srv.ascs_streamendpoint_chr_num ≤ k → c.ase k = ascs_streamendpoint_t.zero) →
          ∀ k, ((ascs_server_packet_handler srv
            (hci_packet_t.hci_event_disconnection_complete con_handle)).slot ci).ase k
            = { ascs_streamendpoint_t.zero with
                ase_characteristic_client_configuration :=
                  (c.ase k).ase_characteristic_client_configuration })
      ∧ (ascs_server_packet_handler srv
          (hci_packet_t.hci_event_disconnection_complete con_handle)).trace
        = srv.trace ++ [emit_disconnected con_handle]
      ∧ (∀ cj, cj ≠ ci →
          (ascs_server_packet_handler srv
            (hci_packet_t.hci_event_disconnection_complete con_handle)).slot cj = srv.slot cj)
      ∧ (ascs_server_can_send_now W
          (ascs_server_packet_handler srv
            (hci_packet_t.hci_event_disconnection_complete con_handle)) ci).trace
        = (ascs_server_packet_handler srv
            (hci_packet_t.hci_event_disconnection_complete con_handle)).trace
      ∧ (∀ h, ascs_server_get_remote_client_for_con_handle srv h = none →
          ascs_server_packet_handler srv (hci_packet_t.hci_event_disconnection_complete h)
            = srv) := by
  have hpk : ascs_server_packet_handler srv
      (hci_packet_t.hci_event_disconnection_complete con_handle)
      = (srv.set_client ci (ascs_server_reset_client srv c)).emit
          [emit_disconnected con_handle] := by
    unfold ascs_server_packet_handler
    simp only [hfind, hc]
  have hslot : ((srv.set_client ci (ascs_server_reset_client srv c)).emit
      [emit_disconnected con_handle]).slot ci = ascs_server_reset_client srv c :=
    slot_set_client_self srv ci _ c hc
  obtain ⟨r1, r2, r3, r4, r5, r6, r7, r8⟩ := reset_client_fields srv c
  have hreg : ∀ k, k < srv.ascs_streamendpoint_chr_num →
      (ascs_server_reset_client srv c).ase k
        = { ascs_streamendpoint_t.zero with
            ase_characteristic_client_configuration :=
              (c.ase k).ase_characteristic_client_configuration } := by
    intro k hk
    rw [r8 k, if_pos hk]
    rfl
  have hunreg : ∀ k, srv.ascs_streamendpoint_chr_num ≤ k →
      (ascs_server_reset_client srv c).ase k = c.ase k := by
    intro k hk
    rw [r8 k, if_neg (by omega)]
  rw [hpk, hslot]
  refine ⟨r1, r2, r3, r4, r5, r6, hreg, hunreg, ?_, rfl, ?_, ?_, ?_⟩
  · intro hz k
    by_cases hk : k < srv.ascs_streamendpoint_chr_num
    · exact hreg k hk
    · rw [hunreg k (by omega), hz k (by omega)]
  · intro cj hcj
    exact slot_set_client_ne srv ci cj _ hcj
  · have hc2 : ((srv.set_client ci (ascs_server_reset_client srv c)).emit
        [emit_disconnected con_handle]).client ci = some (ascs_server_reset_client srv c) :=
      client_commit_self srv ci (ascs_server_reset_client srv c, [emit_disconnected con_handle])
        c hc
    unfold ascs_server_can_send_now
    simp only [hc2]
    rw [if_pos r1]
    rfl
  · intro h hnone
    unfold ascs_server_packet_handler
    simp only [hnone]

set_option maxRecDepth 100000 in
/-- C30 (the code at the failing input). The server initialised from the attribute table
with one Sink and one Source ASE, with three templates and one slot. The client on
handle 64 enables the notifications of ASE 1 and of the control point and disconnects:
the slot is free, a disconnected event was raised, ASE 1 is Idle, and the client
configuration of ASE 1 and the one of the control point are still 1. The client on
handle 65 then attaches on the same slot with a read of the value of ASE 1 and writes no
client configuration; both client configurations of its slot are 1. When the application
configures the codec of ASE 1 for handle 65, the value-changed task is armed and the
can-send-now callback is registered, and the can-send-now callback of the slot sends a
notification of the value of ASE 1 to handle 65. -/
theorem disconnection_complete_slot_reuse_notifies :
    ((run_events example_util example_wire example_init_sink_source
          example_events_disconnect).slot 0).con_handle = HCI_CON_HANDLE_INVALID
      ∧ (run_events example_util example_wire example_init_sink_source
          example_events_disconnect).trace
        = [emit_connected 64 ERROR_CODE_SUCCESS, emit_disconnected 64]
      ∧ ((((run_events example_util example_wire example_init_sink_source
            example_events_disconnect).slot 0).ase 0).state,
          (((run_events example_util example_wire example_init_sink_source
            example_events_disconnect).slot 0).ase 0).ase_characteristic_client_configuration,
          ((run_events example_util example_wire example_init_sink_source
            example_events_disconnect).slot 0).ase_control_point_client_configuration)
        = (ASCS_STATE_IDLE, 1, 1)
      ∧ ascs_server_get_remote_client_for_con_handle
          (run_events example_util example_wire example_init_sink_source
            (example_events_disconnect ++ [ascs_event_t.gatt_read 65 3])) 65 = some 0
      ∧ ((((run_events example_util example_wire example_init_sink_source
            (example_events_disconnect ++ [ascs_event_t.gatt_read 65 3])).slot 0).ase
              0).ase_characteristic_client_configuration,
          ((run_events example_util example_wire example_init_sink_source
            (example_events_disconnect ++ [ascs_event_t.gatt_read 65 3])).slot
              0).ase_control_point_client_configuration)
        = (1, 1)
      ∧ (run_events example_util example_wire example_init_sink_source
          (example_events_disconnect
            ++ [ascs_event_t.gatt_read 65 3,
              ascs_event_t.apply (ascs_apply_t.configure_codec example_codec_configuration)
                65 1,
              ascs_event_t.can_send_now 0])).trace
        = [emit_connected 64 ERROR_CODE_SUCCESS, emit_disconnected 64,
            emit_connected 65 ERROR_CODE_SUCCESS,
            schedule_task 65 ASCS_TASK_SEND_CODEC_CONFIGURATION_VALUE_CHANGED,
            att_server_register_can_send_now_callback 65,
            att_server_notify 65 3
              (asce_server_ase_serialize example_wire example_init_sink_source 0
                { ascs_streamendpoint_t.zero with
                  state := ASCS_STATE_CODEC_CONFIGURED
                  codec_configuration := example_codec_configuration
                  ase_characteristic_client_configuration := 1 }
                (25 + example_wire.LE_AUDIO_MAX_CODEC_CONFIG_SIZE))] := by
  decide

/-! ## Initialisation -/

set_option maxRecDepth 100000 in
/-- C29 (the code at the failing input). The attribute table holds one Sink ASE and one
Source ASE characteristic. With two templates, `audio_stream_control_service_server_init`
registers the Sink ASE with id 1 and no Source ASE: the second call of
`ascs_server_streamenpoint_init` is given the number of templates that are left, 1, and
its loop compares the global count of registered ASEs, 1 already, with it. With three
templates the Source ASE is registered at index 1 with id 2, and with four templates and
no more characteristics in the table nothing more. -/
theorem init_two_templates_registers_no_source :
    (audio_stream_control_service_server_init example_att_db 1 0xFFFF 4
        [ascs_streamendpoint_characteristic_t.zero, ascs_streamendpoint_characteristic_t.zero]
        1).ascs_streamendpoint_chr_num = 1
      ∧ (audio_stream_control_service_server_init example_att_db 1 0xFFFF 4
          [ascs_streamendpoint_characteristic_t.zero, ascs_streamendpoint_characteristic_t.zero]
          1).ascs_streamendpoint_characteristics
        = [⟨1, LE_AUDIO_ROLE_SINK, 3, 4⟩, ascs_streamendpoint_characteristic_t.zero]
      ∧ (audio_stream_control_service_server_init example_att_db 1 0xFFFF 4
          [ascs_streamendpoint_characteristic_t.zero, ascs_streamendpoint_characteristic_t.zero,
            ascs_streamendpoint_characteristic_t.zero]
          1).ascs_streamendpoint_chr_num = 2
      ∧ (audio_stream_control_service_server_init example_att_db 1 0xFFFF 4
          [ascs_streamendpoint_characteristic_t.zero, ascs_streamendpoint_characteristic_t.zero,
            ascs_streamendpoint_characteristic_t.zero]
          1).ascs_streamendpoint_characteristics
        = [⟨1, LE_AUDIO_ROLE_SINK, 3, 4⟩, ⟨2, LE_AUDIO_ROLE_SOURCE, 6, 7⟩,
            ascs_streamendpoint_characteristic_t.zero]
      ∧ (audio_stream_control_service_server_init example_att_db 1 0xFFFF 4
          [ascs_streamendpoint_characteristic_t.zero, ascs_streamendpoint_characteristic_t.zero,
            ascs_streamendpoint_characteristic_t.zero,
            ascs_streamendpoint_characteristic_t.zero]
          1).ascs_streamendpoint_chr_num = 2 := by
  decide

/-! ## The notify flags and the value-changed bit in every reachable state -/

theorem notify_frame_refl (c : ascs_server_connection_t) : notify_frame c c :=
  ⟨fun _ => rfl, rfl⟩

theorem notify_frame_trans {c1 c2 c3 : ascs_server_connection_t} (h12 : notify_frame c1 c2)
    (h23 : notify_frame c2 c3) : notify_frame c1 c3 :=
  ⟨fun k => (h23.1 k).trans (h12.1 k), h23.2.trans h12.2⟩

theorem notify_frame_set_ase (c : ascs_server_connection_t) (k : Nat)
    (e : ascs_streamendpoint_t)
    (h : e.ase_characteristic_value_changed_w2_notify
      = (c.ase k).ase_characteristic_value_changed_w2_notify) :
    notify_frame c (c.set_ase k e) := by
  refine ⟨fun j => ?_, rfl⟩
  rw [ase_set_ase]
  split
  · rename_i hjk; rw [hjk.1]; exact h
  · rfl

theorem slot_set_client (srv : ascs_server_t) (ci cj : Nat) (c2 : ascs_server_connection_t) :
    (srv.set_client ci c2).slot cj
      = if cj = ci ∧ ci < srv.ascs_clients.length then c2 else srv.slot cj := by
  unfold ascs_server_t.set_client ascs_server_t.slot
  simp only [List.getD_eq_getElem?_getD, List.getElem?_set]
  by_cases h : cj = ci
  · subst h
    by_cases hl : cj < srv.ascs_clients.length
    · simp [hl]
    · simp [hl, List.getElem?_eq_none (Nat.le_of_not_lt hl)]
  · simp [h, Ne.symm h]

/-- Preservation of the invariant by a step that stays within the notify frame on every
slot and keeps the number of registered ASEs. -/
theorem notify_invariant_of_frame (srv srv2 : ascs_server_t) (hinv : notify_invariant srv)
    (hn : srv2.ascs_streamendpoint_chr_num = srv.ascs_streamendpoint_chr_num)
    (hf : ∀ cj, notify_frame (srv.slot cj) (srv2.slot cj)) : notify_invariant srv2 := by
  intro ci k hw
  rw [(hf ci).1 k] at hw
  rw [hn, (hf ci).2]
  exact hinv ci k hw

/-- Preservation of the invariant by a step that stays within the scheduling frame. -/
theorem notify_invariant_of_scheduling_frame (srv srv2 : ascs_server_t)
    (hinv : notify_invariant srv)
    (hn : srv2.ascs_streamendpoint_chr_num = srv.ascs_streamendpoint_chr_num)
    (hf : ∀ cj, scheduling_frame srv.ascs_streamendpoint_chr_num (srv.slot cj)
      (srv2.slot cj)) : notify_invariant srv2 := by
  intro ci k hw
  obtain ⟨-, -, -, -, -, -, f7, -, f9⟩ := hf ci
  rw [hn]
  rcases f9 k hw with h | h
  · obtain ⟨h1, h2⟩ := hinv ci k h
    refine ⟨h1, ?_⟩
    rcases f7 with f7 | f7
    · rw [f7]; exact h2
    · rw [f7, or_task_and_self]; decide
  · exact h

/-- A slot that was reset has no notify flag set, if the flags that were set were those
of registered ASEs. -/
theorem reset_client_no_notify (srv : ascs_server_t) (c : ascs_server_connection_t)
    (h : ∀ k, (c.ase k).ase_characteristic_value_changed_w2_notify = true →
      k < srv.ascs_streamendpoint_chr_num) (k : Nat) :
    ((ascs_server_reset_client srv c).ase k).ase_characteristic_value_changed_w2_notify
      = false := by
  rw [(reset_client_fields srv c).2.2.2.2.2.2.2 k]
  split
  · rfl
  · rename_i hk
    cases hw : (c.ase k).ase_characteristic_value_changed_w2_notify with
    | false => rfl
    | true => exact absurd (h k hw) hk

/-- The invariant after the slot `ci` was replaced by a connection without notify
flags. -/
theorem notify_invariant_set_client_clean (srv : ascs_server_t) (ci : Nat)
    (c2 : ascs_server_connection_t) (hinv : notify_invariant srv)
    (h : ∀ k, (c2.ase k).ase_characteristic_value_changed_w2_notify = false) :
    notify_invariant (srv.set_client ci c2) := by
  intro cj k hw
  rw [slot_set_client] at hw ⊢
  split at hw
  · rw [h k] at hw
    exact Bool.noConfusion hw
  · rename_i hne
    rw [if_neg hne]
    exact hinv cj k hw

theorem notify_invariant_emit (srv : ascs_server_t) (es : List ascs_effect_t)
    (hinv : notify_invariant srv) : notify_invariant (srv.emit es) := hinv

theorem slot_modify (srv : ascs_server_t) (f : ascs_server_connection_t → ascs_server_connection_t)
    (i cj : Nat) :
    ({ srv with ascs_clients := srv.ascs_clients.modify f i } : ascs_server_t).slot cj
      = if cj = i ∧ i < srv.ascs_clients.length then f (srv.slot cj) else srv.slot cj := by
  unfold ascs_server_t.slot
  simp only [List.getD_eq_getElem?_getD, List.getElem?_modify]
  by_cases h : cj = i
  · subst h
    by_cases hl : cj < srv.ascs_clients.length
    · simp [hl]
    · simp [hl, List.getElem?_eq_none (Nat.le_of_not_lt hl)]
  · have h2 : ¬ i = cj := fun h' => h h'.symm
    simp only [h, h2, false_and, if_false]
    cases srv.ascs_clients[cj]? <;> rfl

/-- The function `ascs_server_add_client` changes the handle of one slot at most. -/
theorem add_client_notify_frame (srv : ascs_server_t) (con_handle : Nat) :
    (∀ cj, notify_frame (srv.slot cj) ((ascs_server_add_client srv con_handle).2.slot cj))
      ∧ (ascs_server_add_client srv con_handle).2.ascs_streamendpoint_chr_num
        = srv.ascs_streamendpoint_chr_num := by
  unfold ascs_server_add_client
  split
  · refine ⟨fun cj => ?_, rfl⟩
    show notify_frame _
      (({ srv with ascs_clients := srv.ascs_clients.modify _ _ } : ascs_server_t).slot cj)
    rw [slot_modify]
    split
    · exact ⟨fun _ => rfl, rfl⟩
    · exact notify_frame_refl _
  · exact ⟨fun cj => notify_frame_refl _, rfl⟩

theorem write_ase_client_configuration_notify_frame (srv : ascs_server_t)
    (attribute_handle value : Nat) (c : ascs_server_connection_t) (fuel i : Nat) :
    notify_frame c (write_ase_client_configuration srv attribute_handle value c fuel i) := by
  induction fuel generalizing i with
  | zero => exact notify_frame_refl c
  | succ fuel ih =>
    unfold write_ase_client_configuration
    split
    · exact notify_frame_set_ase c i _ rfl
    · exact ih (i + 1)

theorem notify_frame_slot_set_client (srv : ascs_server_t) (ci : Nat)
    (c c2 : ascs_server_connection_t) (hc : srv.client ci = some c) (h : notify_frame c c2)
    (cj : Nat) : notify_frame (srv.slot cj) ((srv.set_client ci c2).slot cj) := by
  rw [slot_set_client]
  split
  · rename_i hcj
    rw [hcj.1, slot_of_client srv ci c hc]
    exact h
  · exact notify_frame_refl _

theorem write_client_configuration_notify_frame (srv : ascs_server_t)
    (ci attribute_handle : Nat) (buffer : List Nat) :
    (∀ cj, notify_frame (srv.slot cj)
        ((write_client_configuration srv ci attribute_handle buffer).slot cj))
      ∧ (write_client_configuration srv ci attribute_handle buffer).ascs_streamendpoint_chr_num
        = srv.ascs_streamendpoint_chr_num := by
  unfold write_client_configuration
  cases hc : srv.client ci with
  | none => exact ⟨fun cj => notify_frame_refl _, rfl⟩
  | some c =>
    dsimp only
    split
    · exact ⟨notify_frame_slot_set_client srv ci c _ hc ⟨fun _ => rfl, rfl⟩, rfl⟩
    · exact ⟨notify_frame_slot_set_client srv ci c _ hc
        (write_ase_client_configuration_notify_frame srv _ _ c _ _), rfl⟩

/-- The branch of the write callback for the control point stays within the notify
frame. -/
theorem control_point_write_notify_frame (U : ascs_util_t) (srv : ascs_server_t)
    (c : ascs_server_connection_t) (con_handle : Nat) (buffer : List Nat)
    (hlive : c.con_handle ≠ HCI_CON_HANDLE_INVALID) :
    notify_frame c (ascs_server_control_point_write U srv c con_handle buffer).1 := by
  have hor : ∀ s : Nat,
      (if c.ase_control_point_client_configuration = 0 then s
        else s ||| ASCS_TASK_SEND_CONTROL_POINT_OPERATION_RESPONSE)
        &&& ASCS_TASK_SEND_CODEC_CONFIGURATION_VALUE_CHANGED
      = s &&& ASCS_TASK_SEND_CODEC_CONFIGURATION_VALUE_CHANGED := by
    intro s
    split
    · rfl
    · exact or_task_and_other _ _ _ (by decide)
  by_cases hacc : accepted_frame srv buffer
  · obtain ⟨-, -, -, -, -, -, a7, -, a9, -⟩ :=
      control_point_write_accepted U srv c con_handle buffer hlive hacc
    refine ⟨fun k => ?_, ?_⟩
    · have h := a9 k
      unfold same_but_initiated at h
      rw [h]
    · rw [a7]
      exact hor _
  · rw [(control_point_write_rejected U srv c con_handle buffer hlive hacc).1]
    exact ⟨fun _ => rfl, hor _⟩

theorem write_callback_notify_frame (U : ascs_util_t) (srv : ascs_server_t)
    (con_handle attribute_handle : Nat) (buffer : List Nat) :
    (∀ cj, notify_frame (srv.slot cj)
        ((ascs_server_write_callback U srv con_handle attribute_handle buffer).slot cj))
      ∧ (ascs_server_write_callback U srv con_handle attribute_handle
          buffer).ascs_streamendpoint_chr_num = srv.ascs_streamendpoint_chr_num := by
  unfold ascs_server_write_callback
  by_cases hah : attribute_handle = srv.ascs_ase_control_point_handle
  · rw [if_pos hah]
    split
    · exact ⟨fun cj => notify_frame_refl _, rfl⟩
    · cases hfind : ascs_server_get_remote_client_for_con_handle srv con_handle with
      | none => exact ⟨fun cj => notify_frame_refl _, rfl⟩
      | some ci =>
        obtain ⟨hv, c, hc, hh⟩ := get_remote_client_some srv con_handle ci hfind
        simp only [hc]
        refine ⟨fun cj => ?_, rfl⟩
        exact notify_frame_slot_set_client srv ci c _ hc
          (control_point_write_notify_frame U srv c con_handle buffer
            (by rw [hh]; exact hv)) cj
  · rw [if_neg hah]
    cases hfind : ascs_server_get_remote_client_for_con_handle srv con_handle with
    | some ci => exact write_client_configuration_notify_frame srv ci attribute_handle buffer
    | none =>
      dsimp only
      obtain ⟨a1, a2⟩ := add_client_notify_frame srv con_handle
      generalize ascs_server_add_client srv con_handle = r at a1 a2
      obtain ⟨o, srv1⟩ := r
      cases o with
      | none => exact ⟨fun cj => notify_frame_refl _, rfl⟩
      | some ci =>
        obtain ⟨b1, b2⟩ := write_client_configuration_notify_frame
          (srv1.emit [emit_connected con_handle ERROR_CODE_SUCCESS]) ci attribute_handle buffer
        exact ⟨fun cj => notify_frame_trans (a1 cj) (b1 cj), b2.trans a2⟩

theorem read_attribute_notify_frame (W : ascs_wire_t) (srv : ascs_server_t)
    (ci attribute_handle : Nat) :
    (∀ cj, notify_frame (srv.slot cj) ((read_attribute W srv ci attribute_handle).1.slot cj))
      ∧ (read_attribute W srv ci attribute_handle).1.ascs_streamendpoint_chr_num
        = srv.ascs_streamendpoint_chr_num := by
  unfold read_attribute
  cases hc : srv.client ci with
  | none => exact ⟨fun cj => notify_frame_refl _, rfl⟩
  | some c =>
    dsimp only
    split
    · exact ⟨fun cj => notify_frame_refl _, rfl⟩
    · split
      · exact ⟨fun cj => notify_frame_refl _, rfl⟩
      · exact ⟨notify_frame_slot_set_client srv ci c _ hc ⟨fun _ => rfl, rfl⟩, rfl⟩

theorem read_callback_notify_frame (W : ascs_wire_t) (srv : ascs_server_t)
    (con_handle attribute_handle : Nat) :
    (∀ cj, notify_frame (srv.slot cj)
        ((ascs_server_read_callback W srv con_handle attribute_handle).1.slot cj))
      ∧ (ascs_server_read_callback W srv con_handle
          attribute_handle).1.ascs_streamendpoint_chr_num
        = srv.ascs_streamendpoint_chr_num := by
  unfold ascs_server_read_callback
  cases hfind : ascs_server_get_remote_client_for_con_handle srv con_handle with
  | some ci => exact read_attribute_notify_frame W srv ci attribute_handle
  | none =>
    dsimp only
    obtain ⟨a1, a2⟩ := add_client_notify_frame srv con_handle
    generalize ascs_server_add_client srv con_handle = r at a1 a2
    obtain ⟨o, srv1⟩ := r
    cases o with
    | none => exact ⟨fun cj => notify_frame_refl _, rfl⟩
    | some ci =>
      obtain ⟨b1, b2⟩ := read_attribute_notify_frame W
        (srv1.emit [emit_connected con_handle ERROR_CODE_SUCCESS]) ci attribute_handle
      exact ⟨fun cj => notify_frame_trans (a1 cj) (b1 cj), b2.trans a2⟩

/-- The two branches of the can-send-now callback keep, on the connection, that a notify
flag is set only on a registered stream endpoint and only with the value-changed bit. -/
theorem can_send_now_task_invariant (W : ascs_wire_t) (srv : ascs_server_t)
    (c : ascs_server_connection_t)
    (h : ∀ k, (c.ase k).ase_characteristic_value_changed_w2_notify = true →
      k < srv.ascs_streamendpoint_chr_num
        ∧ c.scheduled_tasks &&& ASCS_TASK_SEND_CODEC_CONFIGURATION_VALUE_CHANGED ≠ 0) (k : Nat)
    (hw : ((can_send_now_task W srv c).1.ase k).ase_characteristic_value_changed_w2_notify
      = true) :
    k < srv.ascs_streamendpoint_chr_num
      ∧ (can_send_now_task W srv c).1.scheduled_tasks
        &&& ASCS_TASK_SEND_CODEC_CONFIGURATION_VALUE_CHANGED ≠ 0 := by
  unfold can_send_now_task at hw ⊢
  by_cases h2 : c.scheduled_tasks &&& ASCS_TASK_SEND_CONTROL_POINT_OPERATION_RESPONSE ≠ 0
  · rw [if_pos h2] at hw ⊢
    obtain ⟨a1, a2⟩ := h k hw
    refine ⟨a1, ?_⟩
    show clear_task _ _ &&& _ ≠ 0
    rw [clear_task_and_other _ _ _ (by decide)]
    exact a2
  · rw [if_neg h2] at hw ⊢
    by_cases h1 : c.scheduled_tasks &&& ASCS_TASK_SEND_CODEC_CONFIGURATION_VALUE_CHANGED ≠ 0
    · rw [if_pos h1] at hw ⊢
      obtain ⟨c0, hc0⟩ : ∃ c0 : ascs_server_connection_t,
          c0 = { c with
            scheduled_tasks :=
              clear_task c.scheduled_tasks
                ASCS_TASK_SEND_CODEC_CONFIGURATION_VALUE_CHANGED } := ⟨_, rfl⟩
      rw [← hc0] at hw ⊢
      have hase : ∀ x, c0.ase x = c.ase x := by intro x; rw [hc0]; rfl
      obtain ⟨f1, f2⟩ := can_send_now_value_changed_first W srv
        srv.ascs_streamendpoint_chr_num 0 c0
      cases hp : pending_indices c0 0 srv.ascs_streamendpoint_chr_num with
      | nil =>
        rw [f1 hp] at hw
        exfalso
        have hk := (h k (by rw [← hase k]; exact hw)).1
        have hm : k ∈ pending_indices c0 0 srv.ascs_streamendpoint_chr_num :=
          (pending_indices_mem c0 0 _ k).mpr ⟨⟨Nat.zero_le _, by omega⟩, hw⟩
        rw [hp] at hm
        exact List.not_mem_nil _ hm
      | cons j rest =>
        rw [(f2 j rest hp).1] at hw ⊢
        change ((c0.set_ase j (notified_streamendpoint c0 j)).ase
          k).ase_characteristic_value_changed_w2_notify = true at hw
        rw [ase_set_ase] at hw
        split at hw
        · exact Bool.noConfusion hw
        · rename_i hkj
          have hwc : (c.ase k).ase_characteristic_value_changed_w2_notify = true := by
            rw [← hase k]; exact hw
          have hk := (h k hwc).1
          refine ⟨hk, ?_⟩
          have hm : k ∈ pending_indices c0 0 srv.ascs_streamendpoint_chr_num :=
            (pending_indices_mem c0 0 _ k).mpr ⟨⟨Nat.zero_le _, by omega⟩, hw⟩
          rw [hp] at hm
          have hjl : j < c0.streamendpoints.length :=
            lt_length_of_notify c0 j
              ((pending_indices_mem c0 0 _ j).mp (by rw [hp]; exact List.mem_cons_self _ _)).2
          have hne : rest ≠ [] := by
            intro hr
            rw [hr, List.mem_singleton] at hm
            exact hkj ⟨hm, hjl⟩
          show (if rest = [] then _ else _) &&& _ ≠ 0
          rw [if_neg hne, or_task_and_self]
          decide
    · rw [if_neg h1] at hw ⊢
      exact h k hw

theorem notify_invariant_can_send_now (W : ascs_wire_t) (srv : ascs_server_t) (ci : Nat)
    (hinv : notify_invariant srv) : notify_invariant (ascs_server_can_send_now W srv ci) := by
  unfold ascs_server_can_send_now
  cases hc : srv.client ci with
  | none => exact hinv
  | some c =>
    dsimp only
    have hci : ∀ k, (c.ase k).ase_characteristic_value_changed_w2_notify = true →
        k < srv.ascs_streamendpoint_chr_num
          ∧ c.scheduled_tasks &&& ASCS_TASK_SEND_CODEC_CONFIGURATION_VALUE_CHANGED ≠ 0 := by
      intro k hw
      have := hinv ci k (by rw [slot_of_client srv ci c hc]; exact hw)
      rw [slot_of_client srv ci c hc] at this
      exact this
    split
    · exact notify_invariant_set_client_clean srv ci _ hinv
        (reset_client_no_notify srv c (fun k hw => (hci k hw).1))
    · intro cj k hw
      change (((srv.set_client ci (can_send_now_task W srv c).1).slot cj).ase
        k).ase_characteristic_value_changed_w2_notify = true at hw
      show k < srv.ascs_streamendpoint_chr_num
        ∧ ((srv.set_client ci (can_send_now_task W srv c).1).slot cj).scheduled_tasks
          &&& ASCS_TASK_SEND_CODEC_CONFIGURATION_VALUE_CHANGED ≠ 0
      rw [slot_set_client] at hw ⊢
      split at hw
      · rename_i hcj
        rw [if_pos hcj]
        exact can_send_now_task_invariant W srv c hci k hw
      · rename_i hcj
        rw [if_neg hcj]
        exact hinv cj k hw

theorem notify_invariant_packet_handler (srv : ascs_server_t) (p : hci_packet_t)
    (hinv : notify_invariant srv) : notify_invariant (ascs_server_packet_handler srv p) := by
  unfold ascs_server_packet_handler
  cases p with
  | hci_event_disconnection_complete con_handle =>
    dsimp only
    cases hfind : ascs_server_get_remote_client_for_con_handle srv con_handle with
    | none => exact hinv
    | some ci =>
      dsimp only
      cases hc : srv.client ci with
      | none => exact hinv
      | some c =>
        dsimp only
        apply notify_invariant_emit
        apply notify_invariant_set_client_clean srv ci _ hinv
        apply reset_client_no_notify
        intro k hw
        exact (hinv ci k (by rw [slot_of_client srv ci c hc]; exact hw)).1
  | hci_event_other => exact hinv
  | other_packet_type => exact hinv

/-- Every event preserves the invariant. -/
theorem notify_invariant_exec (U : ascs_util_t) (W : ascs_wire_t) (srv : ascs_server_t)
    (e : ascs_event_t) (hinv : notify_invariant srv) : notify_invariant (e.exec U W srv) := by
  cases e with
  | gatt_read con_handle attribute_handle =>
    obtain ⟨h1, h2⟩ := read_callback_notify_frame W srv con_handle attribute_handle
    exact notify_invariant_of_frame srv _ hinv h2 h1
  | gatt_write con_handle attribute_handle buffer =>
    obtain ⟨h1, h2⟩ := write_callback_notify_frame U srv con_handle attribute_handle buffer
    exact notify_invariant_of_frame srv _ hinv h2 h1
  | apply a con_handle ase_id =>
    obtain ⟨h1, -, h3⟩ := apply_run_frame a srv con_handle ase_id
    exact notify_invariant_of_scheduling_frame srv _ hinv h3.2.1 h1
  | can_send_now ci => exact notify_invariant_can_send_now W srv ci hinv
  | packet p => exact notify_invariant_packet_handler srv p hinv

theorem notify_invariant_run_events (U : ascs_util_t) (W : ascs_wire_t)
    (events : List ascs_event_t) (srv : ascs_server_t) (hinv : notify_invariant srv) :
    notify_invariant (run_events U W srv events) := by
  induction events generalizing srv with
  | nil => exact hinv
  | cons e es ih => exact ih (e.exec U W srv) (notify_invariant_exec U W srv e hinv)

theorem notify_invariant_init (db : List att_characteristic_t)
    (start_handle end_handle max_num : Nat)
    (streamendpoint_characteristics : List ascs_streamendpoint_characteristic_t)
    (clients_num : Nat) :
    notify_invariant (audio_stream_control_service_server_init db start_handle end_handle
      max_num streamendpoint_characteristics clients_num) := by
  intro ci k hw
  exfalso
  have hslot : (audio_stream_control_service_server_init db start_handle end_handle
      max_num streamendpoint_characteristics clients_num).slot ci
        = (List.replicate clients_num (ascs_server_connection_t.init max_num)).getD ci
            ascs_server_connection_t.zero := rfl
  rw [hslot, List.getD_eq_getElem?_getD, List.getElem?_replicate] at hw
  split at hw
  · have hz : (ascs_server_connection_t.init max_num).ase k = ascs_streamendpoint_t.zero := by
      unfold ascs_server_connection_t.ase ascs_server_connection_t.init
      rw [List.getD_eq_getElem?_getD, List.getElem?_replicate]
      split <;> rfl
    change ((ascs_server_connection_t.init max_num).ase
      k).ase_characteristic_value_changed_w2_notify = true at hw
    rw [hz] at hw
    exact Bool.noConfusion hw
  · have hz : ascs_server_connection_t.zero.ase k = ascs_streamendpoint_t.zero := rfl
    change (ascs_server_connection_t.zero.ase
      k).ase_characteristic_value_changed_w2_notify = true at hw
    rw [hz] at hw
    exact Bool.noConfusion hw

/-- C26. In every state reached from initialisation through GATT reads and writes, calls
of the apply entry points, can-send-now callbacks and packets, among them the
disconnection complete events, for every slot: if `scheduled_tasks` is 0 then no stream
endpoint of the slot has the notify flag set; equivalently, a notify flag that is set
comes with the value-changed bit. -/
theorem idle_scheduler_has_no_pending_notification (U : ascs_util_t) (W : ascs_wire_t)
    (db : List att_characteristic_t) (start_handle end_handle max_num : Nat)
    (streamendpoint_characteristics : List ascs_streamendpoint_characteristic_t)
    (clients_num : Nat) (events : List ascs_event_t) (ci k : Nat) :
    (((run_events U W
          (audio_stream_control_service_server_init db start_handle end_handle max_num
            streamendpoint_characteristics clients_num) events).slot ci).scheduled_tasks = 0 →
        (((run_events U W
          (audio_stream_control_service_server_init db start_handle end_handle max_num
            streamendpoint_characteristics clients_num) events).slot ci).ase
            k).ase_characteristic_value_changed_w2_notify = false)
      ∧ ((((run_events U W
          (audio_stream_control_service_server_init db start_handle end_handle max_num
            streamendpoint_characteristics clients_num) events).slot ci).ase
            k).ase_characteristic_value_changed_w2_notify = true →
        ((run_events U W
          (audio_stream_control_service_server_init db start_handle end_handle max_num
            streamendpoint_characteristics clients_num) events).slot ci).scheduled_tasks
          &&& ASCS_TASK_SEND_CODEC_CONFIGURATION_VALUE_CHANGED ≠ 0) := by
  have hinv := notify_invariant_run_events U W events _
    (notify_invariant_init db start_handle end_handle max_num streamendpoint_characteristics
      clients_num)
  generalize run_events U W
    (audio_stream_control_service_server_init db start_handle end_handle max_num
      streamendpoint_characteristics clients_num) events = srv at hinv
  constructor
  · intro h0
    cases hw : ((srv.slot ci).ase k).ase_characteristic_value_changed_w2_notify with
    | false => rfl
    | true =>
      exfalso
      have := (hinv ci k hw).2
      rw [h0] at this
      exact this (Nat.zero_and _)
  · intro hw
    exact (hinv ci k hw).2

set_option maxRecDepth 100000 in
/-- C26 (witness). The server initialised from the attribute table with one Sink and one
Source ASE, with three templates and one slot. A client on handle 64 enables the
notifications of the Sink ASE through its client configuration handle 4 and the
application configures the codec of ASE 1: the notify flag of stream endpoint 0 is set
and so is the value-changed bit. After the can-send-now callback `scheduled_tasks` is 0
and the flag is clear. -/
theorem idle_scheduler_has_no_pending_notification_witness :
    ((((run_events example_util example_wire
          (audio_stream_control_service_server_init example_att_db 1 0xFFFF 4
            [ascs_streamendpoint_characteristic_t.zero,
              ascs_streamendpoint_characteristic_t.zero,
              ascs_streamendpoint_characteristic_t.zero] 1)
          [ascs_event_t.gatt_write 64 4 [1, 0],
            ascs_event_t.apply (ascs_apply_t.configure_codec ascs_codec_configuration_t.zero)
              64 1]).slot 0).ase 0).ase_characteristic_value_changed_w2_notify = true
        ∧ ((run_events example_util example_wire
            (audio_stream_control_service_server_init example_att_db 1 0xFFFF 4
              [ascs_streamendpoint_characteristic_t.zero,
                ascs_streamendpoint_characteristic_t.zero,
                ascs_streamendpoint_characteristic_t.zero] 1)
            [ascs_event_t.gatt_write 64 4 [1, 0],
              ascs_event_t.apply (ascs_apply_t.configure_codec ascs_codec_configuration_t.zero)
                64 1]).slot 0).scheduled_tasks
            &&& ASCS_TASK_SEND_CODEC_CONFIGURATION_VALUE_CHANGED ≠ 0)
      ∧ (((run_events example_util example_wire
            (audio_stream_control_service_server_init example_att_db 1 0xFFFF 4
              [ascs_streamendpoint_characteristic_t.zero,
                ascs_streamendpoint_characteristic_t.zero,
                ascs_streamendpoint_characteristic_t.zero] 1)
            [ascs_event_t.gatt_write 64 4 [1, 0],
              ascs_event_t.apply (ascs_apply_t.configure_codec ascs_codec_configuration_t.zero)
                64 1,
              ascs_event_t.can_send_now 0]).slot 0).scheduled_tasks = 0
        ∧ (((run_events example_util example_wire
            (audio_stream_control_service_server_init example_att_db 1 0xFFFF 4
              [ascs_streamendpoint_characteristic_t.zero,
                ascs_streamendpoint_characteristic_t.zero,
                ascs_streamendpoint_characteristic_t.zero] 1)
            [ascs_event_t.gatt_write 64 4 [1, 0],
              ascs_event_t.apply (ascs_apply_t.configure_codec ascs_codec_configuration_t.zero)
                64 1,
              ascs_event_t.can_send_now 0]).slot 0).ase
              0).ase_characteristic_value_changed_w2_notify = false) := by
  refine ⟨⟨by decide, ?_⟩, ⟨by decide, ?_⟩⟩
  · exact (idle_scheduler_has_no_pending_notification example_util example_wire
      example_att_db 1 0xFFFF 4
      [ascs_streamendpoint_characteristic_t.zero, ascs_streamendpoint_characteristic_t.zero,
        ascs_streamendpoint_characteristic_t.zero] 1
      [ascs_event_t.gatt_write 64 4 [1, 0],
        ascs_event_t.apply (ascs_apply_t.configure_codec ascs_codec_configuration_t.zero)
          64 1] 0 0).2 (by decide)
  · exact (idle_scheduler_has_no_pending_notification example_util example_wire
      example_att_db 1 0xFFFF 4
      [ascs_streamendpoint_characteristic_t.zero, ascs_streamendpoint_characteristic_t.zero,
        ascs_streamendpoint_characteristic_t.zero] 1
      [ascs_event_t.gatt_write 64 4 [1, 0],
        ascs_event_t.apply (ascs_apply_t.configure_codec ascs_codec_configuration_t.zero)
          64 1,
        ascs_event_t.can_send_now 0] 0 0).1 (by decide)

/-! ## The CIS mapping across one accepted Config QoS sub-request -/

theorem find_index_set_same {α : Type} (p : α → Bool) (l : List α) (i : Nat) (a b : α)
    (ha : l.get? i = some a) (hp : p b = p a) : find_index p (l.set i b) = find_index p l := by
  induction l generalizing i with
  | nil => rfl
  | cons x xs ih =>
    cases i with
    | zero =>
      simp only [List.get?_cons_zero, Option.some.injEq] at ha
      subst ha
      simp only [List.set_cons_zero, find_index, hp]
    | succ i =>
      simp only [List.get?_cons_succ] at ha
      simp only [List.set_cons_succ, find_index, ih i ha]

/-- Storing back a connection with the handle it had does not change what the lookup by
handle finds. -/
theorem get_remote_client_commit (srv : ascs_server_t) (ci : Nat)
    (c : ascs_server_connection_t) (r : ascs_server_connection_t × List ascs_effect_t)
    (hc : srv.client ci = some c) (hh : r.1.con_handle = c.con_handle) (con_handle : Nat) :
    ascs_server_get_remote_client_for_con_handle (srv.commit ci r) con_handle
      = ascs_server_get_remote_client_for_con_handle srv con_handle := by
  unfold ascs_server_get_remote_client_for_con_handle
  split
  · rfl
  · show find_index _ (srv.ascs_clients.set ci r.1) = _
    exact find_index_set_same _ _ ci c r.1 hc (by simp [hh])

theorem get_streamendpoint_commit (srv : ascs_server_t) (ci : Nat)
    (r : ascs_server_connection_t × List ascs_effect_t) (ase_id : Nat) :
    ascs_server_get_streamendpoint_for_ase_id (srv.commit ci r) ase_id
      = ascs_server_get_streamendpoint_for_ase_id srv ase_id := rfl

/-- The function `ascs_server_streamendpoint_schedule_value_changed_task` on a live
connection changes no stream endpoint but in its notify flag. -/
theorem schedule_value_changed_task_ase (srv : ascs_server_t)
    (c : ascs_server_connection_t) (k : Nat)
    (hlive : c.con_handle ≠ HCI_CON_HANDLE_INVALID) (j : Nat) :
    ∃ b, (ascs_server_streamendpoint_schedule_value_changed_task srv c k).1.ase j
      = { (c.ase j) with ase_characteristic_value_changed_w2_notify := b } := by
  unfold ascs_server_streamendpoint_schedule_value_changed_task
  by_cases hw : (c.ase k).ase_characteristic_value_changed_w2_notify = true
  · rw [if_pos hw]
    exact ⟨_, rfl⟩
  · rw [if_neg hw]
    by_cases hcc : (c.ase k).ase_characteristic_client_configuration ≠ 0
    · rw [if_pos hcc, if_pos hw, schedule_task_live srv _ _ (by exact hlive),
        if_neg (by intro h; exact absurd h.1 (by decide))]
      change ∃ b, (c.set_ase k _).ase j = _
      rw [ase_set_ase]
      split
      · rename_i hjk
        rw [hjk.1]
        exact ⟨true, rfl⟩
      · exact ⟨_, rfl⟩
    · rw [if_neg hcc]
      exact ⟨_, rfl⟩

/-- The function `audio_stream_control_service_server_streamendpoint_configure_qos` for a
registered ASE of an attached connection that is in Codec Configured or QoS Configured:
the stream endpoint goes to QoS Configured and stores the configuration, and no other
stream endpoint of the slot changes. -/
theorem configure_qos_effect (srv : ascs_server_t) (con_handle ase_id ci k : Nat)
    (c : ascs_server_connection_t) (q : ascs_qos_configuration_t)
    (hfind : ascs_server_get_remote_client_for_con_handle srv con_handle = some ci)
    (hc : srv.client ci = some c)
    (hk : ascs_server_get_streamendpoint_for_ase_id srv ase_id = some k)
    (hst : (c.ase k).state = ASCS_STATE_CODEC_CONFIGURED
      ∨ (c.ase k).state = ASCS_STATE_QOS_CONFIGURED) :
    (((audio_stream_control_service_server_streamendpoint_configure_qos srv con_handle ase_id
        q).slot ci).ase k).state = ASCS_STATE_QOS_CONFIGURED
      ∧ (((audio_stream_control_service_server_streamendpoint_configure_qos srv con_handle
          ase_id q).slot ci).ase k).qos_configuration = q
      ∧ ∀ j, j ≠ k →
          ((audio_stream_control_service_server_streamendpoint_configure_qos srv con_handle
            ase_id q).slot ci).ase j = c.ase j := by
  obtain ⟨hv, c2, hc2, hh⟩ := get_remote_client_some srv con_handle ci hfind
  have hcc : c2 = c := Option.some.inj (hc2.symm.trans hc)
  subst hcc
  have hlive : c2.con_handle ≠ HCI_CON_HANDLE_INVALID := by rw [hh]; exact hv
  have hkl : k < c2.streamendpoints.length := by
    by_contra hge
    have hz : c2.ase k = ascs_streamendpoint_t.zero := by
      unfold ascs_server_connection_t.ase
      rw [List.getD_eq_getElem?_getD, List.getElem?_eq_none (Nat.le_of_not_lt hge)]
      rfl
    rw [hz] at hst
    rcases hst with h | h <;> exact ascs_state_t.noConfusion h
  have hT : ascs_server_streamendpoint_can_transit_to_state (c2.ase k).state (srv.chr k).role
      ASCS_OPCODE_CONFIG_QOS ASCS_STATE_QOS_CONFIGURED = true :=
    (config_qos_permitted_iff_state _ _).mp hst
  have htr : ascs_server_streamendpoint_transit_to_state srv con_handle ase_id
      ASCS_OPCODE_CONFIG_QOS ASCS_STATE_QOS_CONFIGURED
        = some (ci, k, c2.set_ase k
            { (c2.ase k) with state := ASCS_STATE_QOS_CONFIGURED }) := by
    unfold ascs_server_streamendpoint_transit_to_state
    simp only [hfind, hc, hk, hT, not_true_eq_false, if_false]
  unfold audio_stream_control_service_server_streamendpoint_configure_qos
  rw [htr]
  dsimp only
  rw [slot_commit_self srv ci _ c2 hc]
  have hA : ∀ j,
      ((c2.set_ase k { (c2.ase k) with state := ASCS_STATE_QOS_CONFIGURED }).set_ase k
        { ((c2.set_ase k { (c2.ase k) with state := ASCS_STATE_QOS_CONFIGURED }).ase k) with
          qos_configuration := q }).ase j
        = if j = k then
            { (c2.ase k) with state := ASCS_STATE_QOS_CONFIGURED, qos_configuration := q }
          else c2.ase j := by
    intro j
    have hl2 : k < (c2.set_ase k
        { (c2.ase k) with state := ASCS_STATE_QOS_CONFIGURED }).streamendpoints.length := by
      simp [ascs_server_connection_t.set_ase, hkl]
    rw [ase_set_ase]
    by_cases hjk : j = k
    · rw [if_pos ⟨hjk, hl2⟩, if_pos hjk, ase_set_ase, if_pos ⟨rfl, hkl⟩]
    · rw [if_neg (fun h => hjk h.1), if_neg hjk, ase_set_ase, if_neg (fun h => hjk h.1)]
  refine ⟨?_, ?_, ?_⟩
  · obtain ⟨b, hb⟩ := schedule_value_changed_task_ase srv
      ((c2.set_ase k { (c2.ase k) with state := ASCS_STATE_QOS_CONFIGURED }).set_ase k
        { ((c2.set_ase k { (c2.ase k) with state := ASCS_STATE_QOS_CONFIGURED }).ase k) with
          qos_configuration := q }) k (by exact hlive) k
    rw [hb, hA k, if_pos rfl]
  · obtain ⟨b, hb⟩ := schedule_value_changed_task_ase srv
      ((c2.set_ase k { (c2.ase k) with state := ASCS_STATE_QOS_CONFIGURED }).set_ase k
        { ((c2.set_ase k { (c2.ase k) with state := ASCS_STATE_QOS_CONFIGURED }).ase k) with
          qos_configuration := q }) k (by exact hlive) k
    rw [hb, hA k, if_pos rfl]
  · intro j hj
    have hw : ∀ x : ascs_server_connection_t, x.con_handle ≠ HCI_CON_HANDLE_INVALID →
        (x.ase j) = c2.ase j →
        (ascs_server_streamendpoint_schedule_value_changed_task srv x k).1.ase j
          = c2.ase j := by
      intro x hx hxj
      unfold ascs_server_streamendpoint_schedule_value_changed_task
      by_cases hw : (x.ase k).ase_characteristic_value_changed_w2_notify = true
      · rw [if_pos hw]; exact hxj
      · rw [if_neg hw]
        by_cases hcc : (x.ase k).ase_characteristic_client_configuration ≠ 0
        · rw [if_pos hcc, if_pos hw, schedule_task_live srv _ _ (by exact hx),
            if_neg (by intro h; exact absurd h.1 (by decide))]
          show (x.set_ase k _).ase j = _
          rw [ase_set_ase, if_neg (fun h => hj h.1)]
          exact hxj
        · rw [if_neg hcc]; exact hxj
    apply hw _ (by exact hlive)
    rw [hA j, if_neg hj]

/-- C22 (as amended). For every Config QoS sub-request of an accepted ACP write on an
attached connection that names a registered ASE in Codec Configured and is answered with
success: no other ASE of the same direction on the connection stores the (cig_id,
cis_id) pair of the request, whatever its state; and once the application answers with
`configure_qos` for that ASE and the configuration of the request, on the server as the
write left it, the ASE is in QoS Configured, stores the configuration, and its pair
differs from the stored pair of every other ASE of the same direction on the
connection. -/
theorem accepted_config_qos_pair_is_new (U : ascs_util_t) (srv : ascs_server_t)
    (con_handle ci : Nat) (c : ascs_server_connection_t) (buffer : List Nat) (i k a : Nat)
    (q : ascs_qos_configuration_t)
    (hfind : ascs_server_get_remote_client_for_con_handle srv con_handle = some ci)
    (hc : srv.client ci = some c) (hacc : accepted_frame srv buffer)
    (hcap : srv.ascs_streamendpoint_chr_num ≤ c.response.length)
    (hop : ascs_opcode_of_byte (buffer.getD 0 0) = ASCS_OPCODE_CONFIG_QOS)
    (hi : i < buffer.getD 1 0)
    (ha : first_read_ase_id U srv c buffer i = a)
    (hq : first_read_qos_request U srv c buffer i = q)
    (hk : ascs_server_get_streamendpoint_for_ase_id srv a = some k)
    (hst : (c.ase k).state = ASCS_STATE_CODEC_CONFIGURED)
    (hok : (((ascs_server_write_callback U srv con_handle srv.ascs_ase_control_point_handle
        buffer).slot ci).resp i).response_code = ASCS_ERROR_CODE_SUCCESS) :
    (∀ j, j < srv.ascs_streamendpoint_chr_num → (srv.chr j).ase_id ≠ a →
        (srv.chr j).role = (srv.chr k).role →
        ¬ (q.cig_id = (c.ase j).qos_configuration.cig_id
          ∧ q.cis_id = (c.ase j).qos_configuration.cis_id))
      ∧ (((audio_stream_control_service_server_streamendpoint_configure_qos
            (ascs_server_write_callback U srv con_handle srv.ascs_ase_control_point_handle
              buffer) con_handle a q).slot ci).ase k).state = ASCS_STATE_QOS_CONFIGURED
      ∧ (((audio_stream_control_service_server_streamendpoint_configure_qos
            (ascs_server_write_callback U srv con_handle srv.ascs_ase_control_point_handle
              buffer) con_handle a q).slot ci).ase k).qos_configuration = q
      ∧ (∀ j, j < srv.ascs_streamendpoint_chr_num → (srv.chr j).ase_id ≠ a →
          (srv.chr j).role = (srv.chr k).role →
          ¬ (q.cig_id
              = (((audio_stream_control_service_server_streamendpoint_configure_qos
                  (ascs_server_write_callback U srv con_handle
                    srv.ascs_ase_control_point_handle buffer) con_handle a q).slot ci).ase
                  j).qos_configuration.cig_id
            ∧ q.cis_id
              = (((audio_stream_control_service_server_streamendpoint_configure_qos
                  (ascs_server_write_callback U srv con_handle
                    srv.ascs_ase_control_point_handle buffer) con_handle a q).slot ci).ase
                  j).qos_configuration.cis_id)) := by
  have hka := (get_streamendpoint_some srv a k hk).2
  have hnew : ∀ j, j < srv.ascs_streamendpoint_chr_num → (srv.chr j).ase_id ≠ a →
      (srv.chr j).role = (srv.chr k).role →
      ¬ (q.cig_id = (c.ase j).qos_configuration.cig_id
        ∧ q.cis_id = (c.ase j).qos_configuration.cis_id) := by
    intro j hj hja hjr hpair
    rw [write_callback_qos_response U srv con_handle ci c buffer i k a q hfind hc hacc hcap hop
      hi ha hq hk ((config_qos_permitted_iff_state _ _).mp (Or.inl hst))] at hok
    have hcol : cis_mapping_collision srv c k q :=
      ⟨hst, j, hj, by rw [hka]; exact hja, hjr, hpair.1, hpair.2⟩
    rw [if_pos hcol] at hok
    exact ascs_error_code_t.noConfusion hok
  have hne : 1 ≤ buffer.length := by have := hacc.1; omega
  obtain ⟨hh, hlive, -, -, -⟩ :=
    write_callback_attached U srv con_handle ci c buffer hfind hc hne
  obtain ⟨-, -, -, -, a5, -, -, -, a9, -⟩ :=
    control_point_write_accepted U srv c con_handle buffer hlive hacc
  rw [write_callback_control_point U srv con_handle ci buffer c hfind hc hne]
  have hfind1 : ascs_server_get_remote_client_for_con_handle
      (srv.commit ci (ascs_server_control_point_write U srv c con_handle buffer)) con_handle
        = some ci := by
    rw [get_remote_client_commit srv ci c _ hc a5]
    exact hfind
  have hc1 := client_commit_self srv ci
    (ascs_server_control_point_write U srv c con_handle buffer) c hc
  have hsame : ∀ j, (ascs_server_control_point_write U srv c con_handle buffer).1.ase j
      = { (c.ase j) with
          ase_characteristic_value_change_initiated_by_client :=
            ((ascs_server_control_point_write U srv c con_handle buffer).1.ase
              j).ase_characteristic_value_change_initiated_by_client } := a9
  have hst1 : ((ascs_server_control_point_write U srv c con_handle buffer).1.ase k).state
      = ASCS_STATE_CODEC_CONFIGURED := by
    rw [hsame k]; exact hst
  obtain ⟨e1, e2, e3⟩ := configure_qos_effect
    (srv.commit ci (ascs_server_control_point_write U srv c con_handle buffer)) con_handle a ci
    k _ q hfind1 hc1 hk (Or.inl hst1)
  refine ⟨hnew, e1, e2, ?_⟩
  intro j hj hja hjr
  have hjk : j ≠ k := by
    intro h
    rw [h] at hja
    exact hja hka
  rw [e3 j hjk, hsame j]
  exact hnew j hj hja hjr

set_option maxRecDepth 100000 in
/-- C22 (witness). A Config QoS write with the pair (1, 1) for the Sink ASE 1 of the
two-Sink server, both ASEs in Codec Configured with the stored pair (0, 0): the
sub-request is answered with success, and after `configure_qos` ASE 1 is in QoS
Configured with the pair (1, 1) while ASE 2 stores (0, 0). -/
theorem accepted_config_qos_pair_is_new_witness :
    (((ascs_server_write_callback example_util
        (example_server_two_sinks (example_streamendpoint ASCS_STATE_CODEC_CONFIGURED 0 0)
          (example_streamendpoint ASCS_STATE_CODEC_CONFIGURED 0 0)) 64 20
        ([2, 1] ++ example_config_qos_sub_request 1 1 1)).slot 0).resp 0).response_code
      = ASCS_ERROR_CODE_SUCCESS
      ∧ (((audio_stream_control_service_server_streamendpoint_configure_qos
          (ascs_server_write_callback example_util
            (example_server_two_sinks (example_streamendpoint ASCS_STATE_CODEC_CONFIGURED 0 0)
              (example_streamendpoint ASCS_STATE_CODEC_CONFIGURED 0 0)) 64
            (example_server_two_sinks (example_streamendpoint ASCS_STATE_CODEC_CONFIGURED 0 0)
              (example_streamendpoint ASCS_STATE_CODEC_CONFIGURED 0
                0)).ascs_ase_control_point_handle
            ([2, 1] ++ example_config_qos_sub_request 1 1 1)) 64 1
          ⟨1, 1, 10000, 0, 2, 40, 2, 10, 40000⟩).slot 0).ase 0).state
        = ASCS_STATE_QOS_CONFIGURED := by
  refine ⟨by decide, ?_⟩
  exact (accepted_config_qos_pair_is_new example_util
    (example_server_two_sinks (example_streamendpoint ASCS_STATE_CODEC_CONFIGURED 0 0)
      (example_streamendpoint ASCS_STATE_CODEC_CONFIGURED 0 0)) 64 0
    ((example_server_two_sinks (example_streamendpoint ASCS_STATE_CODEC_CONFIGURED 0 0)
      (example_streamendpoint ASCS_STATE_CODEC_CONFIGURED 0 0)).slot 0)
    ([2, 1] ++ example_config_qos_sub_request 1 1 1) 0 0 1
    ⟨1, 1, 10000, 0, 2, 40, 2, 10, 40000⟩
    (by decide) (by decide) ⟨by decide, by decide, by decide, by decide, by decide⟩
    (by decide) (by decide) (by decide) (by decide) (by decide) (by decide) (by decide)
    (by decide)).2.1

set_option maxRecDepth 100000 in
/-- C22 (counterexample). The server initialised from an attribute table with two Sink
ASE characteristics, with two templates and one slot. A client on handle 64 attaches by
writing a client configuration, and the application configures the codec of both ASEs:
both are in Codec Configured and both hold the pair (0, 0) of their zeroed QoS
configuration. When the application then calls `configure_qos` with the pair (1, 1) for
both, both are in QoS Configured and hold (1, 1). -/
theorem reachable_state_with_equal_pairs :
    (((run_events example_util example_wire
          (audio_stream_control_service_server_init example_att_db_two_sinks 1 0xFFFF 4
            [ascs_streamendpoint_characteristic_t.zero,
              ascs_streamendpoint_characteristic_t.zero] 1)
          [ascs_event_t.gatt_write 64 4 [1, 0],
            ascs_event_t.apply (ascs_apply_t.configure_codec ascs_codec_configuration_t.zero)
              64 1,
            ascs_event_t.apply (ascs_apply_t.configure_codec ascs_codec_configuration_t.zero)
              64 2]).slot 0).streamendpoints.map
        (fun e => (e.state, e.qos_configuration.cig_id, e.qos_configuration.cis_id))).take 2
      = [(ASCS_STATE_CODEC_CONFIGURED, 0, 0), (ASCS_STATE_CODEC_CONFIGURED, 0, 0)]
      ∧ (run_events example_util example_wire
          (audio_stream_control_service_server_init example_att_db_two_sinks 1 0xFFFF 4
            [ascs_streamendpoint_characteristic_t.zero,
              ascs_streamendpoint_characteristic_t.zero] 1)
          [ascs_event_t.gatt_write 64 4 [1, 0],
            ascs_event_t.apply (ascs_apply_t.configure_codec ascs_codec_configuration_t.zero)
              64 1,
            ascs_event_t.apply (ascs_apply_t.configure_codec ascs_codec_configuration_t.zero)
              64 2]).ascs_streamendpoint_characteristics
        = [⟨1, LE_AUDIO_ROLE_SINK, 3, 4⟩, ⟨2, LE_AUDIO_ROLE_SINK, 6, 7⟩]
      ∧ (((run_events example_util example_wire
          (audio_stream_control_service_server_init example_att_db_two_sinks 1 0xFFFF 4
            [ascs_streamendpoint_characteristic_t.zero,
              ascs_streamendpoint_characteristic_t.zero] 1)
          [ascs_event_t.gatt_write 64 4 [1, 0],
            ascs_event_t.apply (ascs_apply_t.configure_codec ascs_codec_configuration_t.zero)
              64 1,
            ascs_event_t.apply (ascs_apply_t.configure_codec ascs_codec_configuration_t.zero)
              64 2,
            ascs_event_t.apply
              (ascs_apply_t.configure_qos ⟨1, 1, 10000, 0, 2, 40, 2, 10, 40000⟩) 64 1,
            ascs_event_t.apply
              (ascs_apply_t.configure_qos ⟨1, 1, 10000, 0, 2, 40, 2, 10, 40000⟩) 64
              2]).slot 0).streamendpoints.map
        (fun e => (e.state, e.qos_configuration.cig_id, e.qos_configuration.cis_id))).take 2
        = [(ASCS_STATE_QOS_CONFIGURED, 1, 1), (ASCS_STATE_QOS_CONFIGURED, 1, 1)] := by
  decide

/-! ## What an apply entry point does, case by case -/

theorem set_ase_set_ase (c : ascs_server_connection_t) (k : Nat)
    (e1 e2 : ascs_streamendpoint_t) : (c.set_ase k e1).set_ase k e2 = c.set_ase k e2 := by
  simp [ascs_server_connection_t.set_ase, List.set_set]

theorem set_ase_of_le (c : ascs_server_connection_t) (k : Nat) (e : ascs_streamendpoint_t)
    (h : c.streamendpoints.length ≤ k) : c.set_ase k e = c := by
  unfold ascs_server_connection_t.set_ase
  rw [List.set_eq_of_length_le h]

theorem ase_of_le (c : ascs_server_connection_t) (k : Nat)
    (h : c.streamendpoints.length ≤ k) : c.ase k = ascs_streamendpoint_t.zero := by
  unfold ascs_server_connection_t.ase
  rw [List.getD_eq_getElem?_getD, List.getElem?_eq_none h]
  rfl

/-- Storing into stream endpoint `k` a value computed from what a first store left
there. -/
theorem set_ase_modify (c : ascs_server_connection_t) (k : Nat) (e1 : ascs_streamendpoint_t)
    (f : ascs_streamendpoint_t → ascs_streamendpoint_t) :
    (c.set_ase k e1).set_ase k (f ((c.set_ase k e1).ase k)) = c.set_ase k (f e1) := by
  by_cases h : k < c.streamendpoints.length
  · rw [ase_set_ase, if_pos ⟨rfl, h⟩, set_ase_set_ase]
  · rw [set_ase_set_ase, set_ase_of_le c k _ (Nat.le_of_not_lt h),
      set_ase_of_le c k _ (Nat.le_of_not_lt h)]

/-- The function `ascs_server_streamendpoint_schedule_value_changed_task` on a live
connection in which stream endpoint `k` was just given the value `e`. -/
theorem schedule_value_changed_task_armed (srv : ascs_server_t)
    (c : ascs_server_connection_t) (k : Nat) (e : ascs_streamendpoint_t)
    (hlive : c.con_handle ≠ HCI_CON_HANDLE_INVALID) (hk : k < c.streamendpoints.length) :
    ascs_server_streamendpoint_schedule_value_changed_task srv (c.set_ase k e) k
      = value_changed_armed c k e := by
  unfold ascs_server_streamendpoint_schedule_value_changed_task value_changed_armed
  have he : (c.set_ase k e).ase k = e := by rw [ase_set_ase, if_pos ⟨rfl, hk⟩]
  rw [he]
  by_cases hw : e.ase_characteristic_value_changed_w2_notify = true
  · rw [if_pos hw, if_pos (Or.inl hw)]
  · rw [if_neg hw]
    by_cases hcc : e.ase_characteristic_client_configuration = 0
    · rw [if_neg (by simpa using hcc), if_pos (Or.inr hcc)]
    · rw [if_pos hcc, if_pos hw, if_neg (by rintro (h | h); exact hw h; exact hcc h),
        schedule_task_live srv _ _ (by exact hlive),
        if_neg (by intro h; exact absurd h.1 (by decide)), set_ase_set_ase]
      rfl

/-- Scheduling the value-changed task a second time right after the first changes
nothing. -/
theorem schedule_value_changed_task_twice (srv : ascs_server_t)
    (c : ascs_server_connection_t) (k : Nat) (e : ascs_streamendpoint_t)
    (hlive : c.con_handle ≠ HCI_CON_HANDLE_INVALID) (hk : k < c.streamendpoints.length) :
    ascs_server_streamendpoint_schedule_value_changed_task srv (value_changed_armed c k e).1 k
      = ((value_changed_armed c k e).1, []) := by
  unfold value_changed_armed
  by_cases h : e.ase_characteristic_value_changed_w2_notify = true
      ∨ e.ase_characteristic_client_configuration = 0
  · rw [if_pos h]
    dsimp only
    rw [schedule_value_changed_task_armed srv c k e hlive hk]
    unfold value_changed_armed
    rw [if_pos h]
  · rw [if_neg h]
    dsimp only
    unfold ascs_server_streamendpoint_schedule_value_changed_task
    have hf : (({ (c.set_ase k { e with ase_characteristic_value_changed_w2_notify := true })
        with scheduled_tasks :=
          c.scheduled_tasks ||| ASCS_TASK_SEND_CODEC_CONFIGURATION_VALUE_CHANGED }
          : ascs_server_connection_t).ase k).ase_characteristic_value_changed_w2_notify
        = true := by
      change ((c.set_ase k _).ase k).ase_characteristic_value_changed_w2_notify = true
      rw [ase_set_ase, if_pos ⟨rfl, hk⟩]
    rw [if_pos hf]

theorem transit_to_state_none (srv : ascs_server_t) (con_handle ase_id : Nat)
    (opcode : ascs_opcode_t) (target_state : ascs_state_t)
    (h : ascs_server_get_remote_client_for_con_handle srv con_handle = none
      ∨ ascs_server_get_streamendpoint_for_ase_id srv ase_id = none
      ∨ ∃ ci k, ascs_server_get_remote_client_for_con_handle srv con_handle = some ci
        ∧ ascs_server_get_streamendpoint_for_ase_id srv ase_id = some k
        ∧ ascs_server_streamendpoint_can_transit_to_state ((srv.slot ci).ase k).state
            (srv.chr k).role opcode target_state = false) :
    ascs_server_streamendpoint_transit_to_state srv con_handle ase_id opcode target_state
      = none := by
  unfold ascs_server_streamendpoint_transit_to_state
  cases hfind : ascs_server_get_remote_client_for_con_handle srv con_handle with
  | none => rfl
  | some ci =>
    obtain ⟨-, c, hc, -⟩ := get_remote_client_some srv con_handle ci hfind
    simp only [hc]
    cases hk : ascs_server_get_streamendpoint_for_ase_id srv ase_id with
    | none => rfl
    | some k =>
      rcases h with h | h | ⟨ci2, k2, h1, h2, h3⟩
      · rw [hfind] at h; exact Option.noConfusion h
      · rw [hk] at h; exact Option.noConfusion h
      · rw [hfind] at h1
        rw [hk] at h2
        obtain rfl := Option.some.inj h1
        obtain rfl := Option.some.inj h2
        rw [slot_of_client srv ci c hc] at h3
        simp only [h3, Bool.false_eq_true, not_false_eq_true, if_true]

theorem transit_to_state_eq_some (srv : ascs_server_t) (con_handle ase_id ci k : Nat)
    (c : ascs_server_connection_t) (opcode : ascs_opcode_t) (target_state : ascs_state_t)
    (hfind : ascs_server_get_remote_client_for_con_handle srv con_handle = some ci)
    (hc : srv.client ci = some c)
    (hk : ascs_server_get_streamendpoint_for_ase_id srv ase_id = some k)
    (hT : ascs_server_streamendpoint_can_transit_to_state (c.ase k).state (srv.chr k).role
      opcode target_state = true) :
    ascs_server_streamendpoint_transit_to_state srv con_handle ase_id opcode target_state
      = some (ci, k, c.set_ase k { (c.ase k) with state := target_state }) := by
  unfold ascs_server_streamendpoint_transit_to_state
  simp only [hfind, hc, hk, hT, not_true_eq_false, if_false]

/-- An apply entry point called with a connection handle that matches no slot, with an
ASE id that names no registered ASE, or for an ASE whose state fails its test, returns
with the server as it was. -/
theorem apply_run_rejected (a : ascs_apply_t) (srv : ascs_server_t) (con_handle ase_id : Nat)
    (h : ascs_server_get_remote_client_for_con_handle srv con_handle = none
      ∨ ascs_server_get_streamendpoint_for_ase_id srv ase_id = none
      ∨ ∃ ci k, ascs_server_get_remote_client_for_con_handle srv con_handle = some ci
        ∧ ascs_server_get_streamendpoint_for_ase_id srv ase_id = some k
        ∧ a.permitted ((srv.slot ci).ase k).state (srv.chr k).role = false) :
    a.run srv con_handle ase_id = srv := by
  have htr : ∀ (opcode : ascs_opcode_t) (target_state : ascs_state_t),
      (∀ s r, a.permitted s r
        = ascs_server_streamendpoint_can_transit_to_state s r opcode target_state) →
      ascs_server_streamendpoint_transit_to_state srv con_handle ase_id opcode target_state
        = none := by
    intro opcode target_state hp
    apply transit_to_state_none
    rcases h with h | h | ⟨ci, k, h1, h2, h3⟩
    · exact Or.inl h
    · exact Or.inr (Or.inl h)
    · exact Or.inr (Or.inr ⟨ci, k, h1, h2, by rw [← hp]; exact h3⟩)
  cases a with
  | configure_codec x =>
    simp only [ascs_apply_t.run,
      audio_stream_control_service_server_streamendpoint_configure_codec,
      htr ASCS_OPCODE_CONFIG_CODEC ASCS_STATE_CODEC_CONFIGURED (fun _ _ => rfl)]
  | configure_qos x =>
    simp only [ascs_apply_t.run,
      audio_stream_control_service_server_streamendpoint_configure_qos,
      htr ASCS_OPCODE_CONFIG_QOS ASCS_STATE_QOS_CONFIGURED (fun _ _ => rfl)]
  | enable =>
    simp only [ascs_apply_t.run, audio_stream_control_service_server_streamendpoint_enable,
      htr ASCS_OPCODE_ENABLE ASCS_STATE_ENABLING (fun _ _ => rfl)]
  | receiver_start_ready =>
    simp only [ascs_apply_t.run,
      audio_stream_control_service_server_streamendpoint_receiver_start_ready,
      htr ASCS_OPCODE_RECEIVER_START_READY ASCS_STATE_STREAMING (fun _ _ => rfl)]
  | receiver_stop_ready =>
    simp only [ascs_apply_t.run,
      audio_stream_control_service_server_streamendpoint_receiver_stop_ready,
      htr ASCS_OPCODE_RECEIVER_STOP_READY ASCS_STATE_QOS_CONFIGURED (fun _ _ => rfl)]
  | release =>
    simp only [ascs_apply_t.run, audio_stream_control_service_server_streamendpoint_release,
      htr ASCS_OPCODE_RELEASE ASCS_STATE_RELEASING (fun _ _ => rfl)]
  | released caching =>
    simp only [ascs_apply_t.run, audio_stream_control_service_server_streamendpoint_released,
      htr ASCS_OPCODE_RELEASED (if caching then ASCS_STATE_CODEC_CONFIGURED else ASCS_STATE_IDLE)
        (fun _ _ => rfl)]
  | disable =>
    simp only [ascs_apply_t.run, audio_stream_control_service_server_streamendpoint_disable]
    cases hfind : ascs_server_get_remote_client_for_con_handle srv con_handle with
    | none => rfl
    | some ci =>
      obtain ⟨-, c, hc, -⟩ := get_remote_client_some srv con_handle ci hfind
      simp only [hc]
      cases hk : ascs_server_get_streamendpoint_for_ase_id srv ase_id with
      | none => rfl
      | some k =>
        rcases h with h | h | ⟨ci2, k2, h1, h2, h3⟩
        · rw [hfind] at h; exact Option.noConfusion h
        · rw [hk] at h; exact Option.noConfusion h
        · rw [hfind] at h1
          rw [hk] at h2
          obtain rfl := Option.some.inj h1
          obtain rfl := Option.some.inj h2
          rw [slot_of_client srv ci c hc] at h3
          have h4 : ascs_server_streamendpoint_can_transit_to_state (c.ase k).state
              (srv.chr k).role ASCS_OPCODE_DISABLE
              (if (srv.chr k).role = LE_AUDIO_ROLE_SOURCE then ASCS_STATE_DISABLING
                else ASCS_STATE_QOS_CONFIGURED) = false := h3
          simp only [h4, Bool.false_eq_true, not_false_eq_true, if_true]
  | metadata_update m =>
    simp only [ascs_apply_t.run,
      audio_stream_control_service_server_streamendpoint_metadata_update]
    cases hfind : ascs_server_get_remote_client_for_con_handle srv con_handle with
    | none => rfl
    | some ci =>
      obtain ⟨-, c, hc, -⟩ := get_remote_client_some srv con_handle ci hfind
      simp only [hc]
      cases hk : ascs_server_get_streamendpoint_for_ase_id srv ase_id with
      | none => rfl
      | some k =>
        rcases h with h | h | ⟨ci2, k2, h1, h2, h3⟩
        · rw [hfind] at h; exact Option.noConfusion h
        · rw [hk] at h; exact Option.noConfusion h
        · rw [hfind] at h1
          rw [hk] at h2
          obtain rfl := Option.some.inj h1
          obtain rfl := Option.some.inj h2
          rw [slot_of_client srv ci c hc] at h3
          simp only [ascs_apply_t.permitted] at h3
          dsimp only
          cases hs : (c.ase k).state <;> rw [hs] at h3 <;>
            first
              | rfl
              | exact absurd h3 (by decide)

/-- An apply entry point called for a registered ASE of an attached connection whose
state passes its test: the stream endpoint takes what the entry point stores, the
value-changed task is armed, and the connection goes back into its slot. -/
theorem apply_run_permitted (a : ascs_apply_t) (srv : ascs_server_t)
    (con_handle ase_id ci k : Nat) (c : ascs_server_connection_t)
    (hfind : ascs_server_get_remote_client_for_con_handle srv con_handle = some ci)
    (hc : srv.client ci = some c)
    (hk : ascs_server_get_streamendpoint_for_ase_id srv ase_id = some k)
    (hlen : k < c.streamendpoints.length)
    (hp : a.permitted (c.ase k).state (srv.chr k).role = true) :
    a.run srv con_handle ase_id
      = srv.commit ci (value_changed_armed c k (a.store (srv.chr k).role (c.ase k))) := by
  obtain ⟨hv, c2, hc2, hh⟩ := get_remote_client_some srv con_handle ci hfind
  have hcc : c2 = c := Option.some.inj (hc2.symm.trans hc)
  subst hcc
  have hlive : c2.con_handle ≠ HCI_CON_HANDLE_INVALID := by rw [hh]; exact hv
  have htr : ∀ (opcode : ascs_opcode_t) (target_state : ascs_state_t),
      a.permitted (c2.ase k).state (srv.chr k).role
        = ascs_server_streamendpoint_can_transit_to_state (c2.ase k).state (srv.chr k).role
            opcode target_state →
      ascs_server_streamendpoint_transit_to_state srv con_handle ase_id opcode target_state
        = some (ci, k, c2.set_ase k { (c2.ase k) with state := target_state }) :=
    fun opcode target_state he =>
      transit_to_state_eq_some srv con_handle ase_id ci k c2 opcode target_state hfind hc hk
        (by rw [← he]; exact hp)
  cases a with
  | configure_codec x =>
    simp only [ascs_apply_t.run,
      audio_stream_control_service_server_streamendpoint_configure_codec,
      htr ASCS_OPCODE_CONFIG_CODEC ASCS_STATE_CODEC_CONFIGURED rfl]
    have h := set_ase_modify c2 k { (c2.ase k) with state := ASCS_STATE_CODEC_CONFIGURED }
      (fun e => { e with codec_configuration := x })
    dsimp only at h
    rw [h, schedule_value_changed_task_armed srv c2 k _ hlive hlen]
    rfl
  | configure_qos x =>
    simp only [ascs_apply_t.run,
      audio_stream_control_service_server_streamendpoint_configure_qos,
      htr ASCS_OPCODE_CONFIG_QOS ASCS_STATE_QOS_CONFIGURED rfl]
    have h := set_ase_modify c2 k { (c2.ase k) with state := ASCS_STATE_QOS_CONFIGURED }
      (fun e => { e with qos_configuration := x })
    dsimp only at h
    rw [h, schedule_value_changed_task_armed srv c2 k _ hlive hlen]
    rfl
  | enable =>
    simp only [ascs_apply_t.run, audio_stream_control_service_server_streamendpoint_enable,
      htr ASCS_OPCODE_ENABLE ASCS_STATE_ENABLING rfl]
    rw [schedule_value_changed_task_armed srv c2 k _ hlive hlen]
    rfl
  | receiver_start_ready =>
    simp only [ascs_apply_t.run,
      audio_stream_control_service_server_streamendpoint_receiver_start_ready,
      htr ASCS_OPCODE_RECEIVER_START_READY ASCS_STATE_STREAMING rfl]
    rw [schedule_value_changed_task_armed srv c2 k _ hlive hlen]
    rfl
  | receiver_stop_ready =>
    simp only [ascs_apply_t.run,
      audio_stream_control_service_server_streamendpoint_receiver_stop_ready,
      htr ASCS_OPCODE_RECEIVER_STOP_READY ASCS_STATE_QOS_CONFIGURED rfl]
    rw [schedule_value_changed_task_armed srv c2 k _ hlive hlen]
    rfl
  | release =>
    simp only [ascs_apply_t.run, audio_stream_control_service_server_streamendpoint_release,
      htr ASCS_OPCODE_RELEASE ASCS_STATE_RELEASING rfl]
    rw [schedule_value_changed_task_armed srv c2 k _ hlive hlen]
    rfl
  | released caching =>
    simp only [ascs_apply_t.run, audio_stream_control_service_server_streamendpoint_released,
      htr ASCS_OPCODE_RELEASED (if caching then ASCS_STATE_CODEC_CONFIGURED else ASCS_STATE_IDLE)
        rfl]
    rw [schedule_value_changed_task_armed srv c2 k _ hlive hlen]
    rfl
  | disable =>
    have h4 : ascs_server_streamendpoint_can_transit_to_state (c2.ase k).state
        (srv.chr k).role ASCS_OPCODE_DISABLE
        (if (srv.chr k).role = LE_AUDIO_ROLE_SOURCE then ASCS_STATE_DISABLING
          else ASCS_STATE_QOS_CONFIGURED) = true := hp
    simp only [ascs_apply_t.run, audio_stream_control_service_server_streamendpoint_disable,
      hfind, hc, hk, h4, not_true_eq_false, if_false]
    rw [schedule_value_changed_task_armed srv c2 k _ hlive hlen]
    rfl
  | metadata_update m =>
    simp only [ascs_apply_t.permitted] at hp
    simp only [ascs_apply_t.run,
      audio_stream_control_service_server_streamendpoint_metadata_update, hfind, hc, hk]
    have hone : ascs_server_streamendpoint_schedule_value_changed_task srv
        (c2.set_ase k { (c2.ase k) with metadata := m }) k
        = value_changed_armed c2 k { (c2.ase k) with metadata := m } :=
      schedule_value_changed_task_armed srv c2 k _ hlive hlen
    have htwo := schedule_value_changed_task_twice srv c2 k
      { (c2.ase k) with metadata := m } hlive hlen
    split
    · rw [hone, htwo, List.append_nil]
      rfl
    · rw [hone, htwo, List.append_nil]
      rfl
    · rename_i h1 h2
      cases hs : (c2.ase k).state <;> rw [hs] at hp <;>
        first
          | exact absurd hp (by decide)
          | exact absurd hs h1
          | exact absurd hs h2

theorem lt_length_of_state (c : ascs_server_connection_t) (k : Nat)
    (h : (c.ase k).state ≠ ASCS_STATE_IDLE) : k < c.streamendpoints.length := by
  by_contra hge
  rw [ase_of_le c k (Nat.le_of_not_lt hge)] at h
  exact h rfl

/-- What arming the value-changed task leaves in the stream endpoints: the one that was
stored, with its notify flag set if its client configuration is not 0, and the others as
they were. -/
theorem value_changed_armed_ase (c : ascs_server_connection_t) (k : Nat)
    (e : ascs_streamendpoint_t) (hk : k < c.streamendpoints.length) (j : Nat) :
    (value_changed_armed c k e).1.ase j
      = if j = k then
          { e with
            ase_characteristic_value_changed_w2_notify :=
              e.ase_characteristic_value_changed_w2_notify
                || decide (e.ase_characteristic_client_configuration ≠ 0) }
        else c.ase j := by
  unfold value_changed_armed
  by_cases h : e.ase_characteristic_value_changed_w2_notify = true
      ∨ e.ase_characteristic_client_configuration = 0
  · rw [if_pos h]
    dsimp only
    rw [ase_set_ase]
    by_cases hj : j = k
    · rw [if_pos ⟨hj, hk⟩, if_pos hj]
      rcases h with h | h
      · cases e; simp_all
      · cases e; simp_all
    · rw [if_neg (fun hh => hj hh.1), if_neg hj]
  · rw [if_neg h]
    change (c.set_ase k _).ase j = _
    rw [ase_set_ase]
    by_cases hj : j = k
    · rw [if_pos ⟨hj, hk⟩, if_pos hj]
      have h2 : e.ase_characteristic_client_configuration ≠ 0 := fun hh => h (Or.inr hh)
      simp [h2]
    · rw [if_neg (fun hh => hj hh.1), if_neg hj]

/-- What arming the value-changed task leaves in the other fields of the connection. -/
theorem value_changed_armed_fields (c : ascs_server_connection_t) (k : Nat)
    (e : ascs_streamendpoint_t) :
    (value_changed_armed c k e).1.con_handle = c.con_handle
      ∧ (value_changed_armed c k e).1.ase_control_point_client_configuration
          = c.ase_control_point_client_configuration
      ∧ (value_changed_armed c k e).1.response_opcode = c.response_opcode
      ∧ (value_changed_armed c k e).1.response_ases_num = c.response_ases_num
      ∧ (value_changed_armed c k e).1.response = c.response
      ∧ (value_changed_armed c k e).1.streamendpoints.length = c.streamendpoints.length := by
  unfold value_changed_armed
  split <;> simp [ascs_server_connection_t.set_ase]

theorem store_state (a : ascs_apply_t) (role : le_audio_role_t) (e : ascs_streamendpoint_t) :
    (a.store role e).state = a.target_state role e.state := by
  cases a <;> rfl

theorem permitted_mem_table (a : ascs_apply_t) (s : ascs_state_t) (r : le_audio_role_t)
    (h : a.permitted s r = true) : a.target_state r s ∈ transition_table s a.opcode r := by
  cases a with
  | released caching => cases caching <;> cases s <;> cases r <;> revert h <;> decide
  | _ =>
    revert h
    simp only [ascs_apply_t.permitted, ascs_apply_t.target_state, ascs_apply_t.opcode]
    cases s <;> cases r <;> decide

/-- The state of the ASE an apply entry point is called for, after the call. -/
theorem apply_run_ase_state (a : ascs_apply_t) (srv : ascs_server_t)
    (con_handle ase_id ci k : Nat) (c : ascs_server_connection_t)
    (hfind : ascs_server_get_remote_client_for_con_handle srv con_handle = some ci)
    (hc : srv.client ci = some c)
    (hk : ascs_server_get_streamendpoint_for_ase_id srv ase_id = some k)
    (hlen : k < c.streamendpoints.length) :
    (a.run srv con_handle ase_id).ase_state ci k
      = if a.permitted (c.ase k).state (srv.chr k).role = true then
          a.target_state (srv.chr k).role (c.ase k).state
        else (c.ase k).state := by
  by_cases hp : a.permitted (c.ase k).state (srv.chr k).role = true
  · rw [if_pos hp, apply_run_permitted a srv con_handle ase_id ci k c hfind hc hk hlen hp,
      ase_state_commit srv ci _ c hc, if_pos rfl, value_changed_armed_ase c k _ hlen,
      if_pos rfl]
    exact store_state a _ _
  · rw [if_neg hp, apply_run_rejected a srv con_handle ase_id
      (Or.inr (Or.inr ⟨ci, k, hfind, hk, by
        rw [slot_of_client srv ci c hc]; simpa using hp⟩))]
    exact ase_state_of_client srv ci k c hc

/-- After an apply entry point returned, the lookups by handle and by ASE id find what
they found before, and the connection is still in its slot. -/
theorem apply_run_lookup (a : ascs_apply_t) (srv : ascs_server_t)
    (con_handle ase_id ci : Nat) (c : ascs_server_connection_t)
    (hfind : ascs_server_get_remote_client_for_con_handle srv con_handle = some ci)
    (hc : srv.client ci = some c)
    (hlen : ∀ k, ascs_server_get_streamendpoint_for_ase_id srv ase_id = some k →
      k < c.streamendpoints.length) (h a2 : Nat) :
    ascs_server_get_remote_client_for_con_handle (a.run srv con_handle ase_id) h
        = ascs_server_get_remote_client_for_con_handle srv h
      ∧ ascs_server_get_streamendpoint_for_ase_id (a.run srv con_handle ase_id) a2
          = ascs_server_get_streamendpoint_for_ase_id srv a2
      ∧ (a.run srv con_handle ase_id).client ci = some ((a.run srv con_handle ase_id).slot ci)
      ∧ ((a.run srv con_handle ase_id).slot ci).streamendpoints.length
          = c.streamendpoints.length := by
  cases hk : ascs_server_get_streamendpoint_for_ase_id srv ase_id with
  | none =>
    rw [apply_run_rejected a srv con_handle ase_id (Or.inr (Or.inl hk))]
    exact ⟨rfl, rfl, by rw [slot_of_client srv ci c hc]; exact hc,
      by rw [slot_of_client srv ci c hc]⟩
  | some k =>
    by_cases hp : a.permitted (c.ase k).state (srv.chr k).role = true
    · rw [apply_run_permitted a srv con_handle ase_id ci k c hfind hc hk (hlen k hk) hp]
      obtain ⟨f1, -, -, -, -, f6⟩ := value_changed_armed_fields c k
        (a.store (srv.chr k).role (c.ase k))
      refine ⟨get_remote_client_commit srv ci c _ hc f1 h, rfl, ?_, ?_⟩
      · rw [slot_commit_self srv ci _ c hc]
        exact client_commit_self srv ci _ c hc
      · rw [slot_commit_self srv ci _ c hc]
        exact f6
    · have hrej : a.permitted ((srv.slot ci).ase k).state (srv.chr k).role = false := by
        rw [slot_of_client srv ci c hc]
        simpa using hp
      rw [apply_run_rejected a srv con_handle ase_id (Or.inr (Or.inr ⟨ci, k, hfind, hk, hrej⟩))]
      exact ⟨rfl, rfl, by rw [slot_of_client srv ci c hc]; exact hc,
        by rw [slot_of_client srv ci c hc]⟩

/-! ## Claims on the apply entry points -/

theorem not_permitted_of_not_mem_table (a : ascs_apply_t) (s : ascs_state_t)
    (r : le_audio_role_t) (h : a.target_state r s ∉ transition_table s a.opcode r) :
    a.permitted s r = false := by
  cases hp : a.permitted s r with
  | false => rfl
  | true => exact absurd (permitted_mem_table a s r hp) h

/-- C31. For each of the nine apply entry points: if the connection handle is the invalid
sentinel or matches no slot, or the ASE id names no registered ASE, or the state of the
ASE fails the test of the entry point (as it does whenever the table of section 4.3 does
not give the target of the entry point for the state, the opcode and the direction), the
call returns the server as it was: every slot with its stream endpoints and its
`scheduled_tasks` is unchanged, and nothing is added to the trace, so the scheduler is
not called and no callback is registered. -/
theorem apply_invalid_call_changes_nothing (a : ascs_apply_t) (srv : ascs_server_t)
    (con_handle ase_id : Nat)
    (h : con_handle = HCI_CON_HANDLE_INVALID
      ∨ ascs_server_get_remote_client_for_con_handle srv con_handle = none
      ∨ ascs_server_get_streamendpoint_for_ase_id srv ase_id = none
      ∨ ∃ ci k, ascs_server_get_remote_client_for_con_handle srv con_handle = some ci
        ∧ ascs_server_get_streamendpoint_for_ase_id srv ase_id = some k
        ∧ (a.permitted ((srv.slot ci).ase k).state (srv.chr k).role = false
          ∨ a.target_state (srv.chr k).role ((srv.slot ci).ase k).state
              ∉ transition_table ((srv.slot ci).ase k).state a.opcode (srv.chr k).role)) :
    a.run srv con_handle ase_id = srv
      ∧ (∀ ci, (a.run srv con_handle ase_id).slot ci = srv.slot ci)
      ∧ (a.run srv con_handle ase_id).trace = srv.trace := by
  have hrun : a.run srv con_handle ase_id = srv := by
    apply apply_run_rejected
    rcases h with h | h | h | ⟨ci, k, h1, h2, h3⟩
    · left
      unfold ascs_server_get_remote_client_for_con_handle
      rw [if_pos h]
    · exact Or.inl h
    · exact Or.inr (Or.inl h)
    · refine Or.inr (Or.inr ⟨ci, k, h1, h2, ?_⟩)
      rcases h3 with h3 | h3
      · exact h3
      · exact not_permitted_of_not_mem_table a _ _ h3
  rw [hrun]
  exact ⟨rfl, fun _ => rfl, rfl⟩

/-- C31 (witness). Enable for the Sink ASE 1 of an attached connection while that ASE is
Idle. -/
theorem apply_invalid_call_changes_nothing_witness :
    (∃ ci k, ascs_server_get_remote_client_for_con_handle
          (example_server 2 ASCS_STATE_IDLE ASCS_STATE_STREAMING) 64 = some ci
        ∧ ascs_server_get_streamendpoint_for_ase_id
            (example_server 2 ASCS_STATE_IDLE ASCS_STATE_STREAMING) 1 = some k
        ∧ ascs_apply_t.enable.permitted
            (((example_server 2 ASCS_STATE_IDLE ASCS_STATE_STREAMING).slot ci).ase k).state
            ((example_server 2 ASCS_STATE_IDLE ASCS_STATE_STREAMING).chr k).role = false)
      ∧ ascs_apply_t.enable.run (example_server 2 ASCS_STATE_IDLE ASCS_STATE_STREAMING) 64 1
          = example_server 2 ASCS_STATE_IDLE ASCS_STATE_STREAMING :=
  ⟨⟨0, 0, by decide, by decide, by decide⟩,
    (apply_invalid_call_changes_nothing ascs_apply_t.enable
      (example_server 2 ASCS_STATE_IDLE ASCS_STATE_STREAMING) 64 1
      (Or.inr (Or.inr (Or.inr ⟨0, 0, by decide, by decide, Or.inl (by decide)⟩)))).1⟩

/-- C33. For every attached connection and registered ASE in Releasing, `released` with
caching moves the ASE to Codec Configured and `released` without caching moves it to
Idle; for an ASE in any other state `released` returns the server as it was, for both
values of `caching`. -/
theorem released_caching_selects_target (srv : ascs_server_t) (con_handle ase_id ci k : Nat)
    (c : ascs_server_connection_t) (caching : Bool)
    (hfind : ascs_server_get_remote_client_for_con_handle srv con_handle = some ci)
    (hc : srv.client ci = some c)
    (hk : ascs_server_get_streamendpoint_for_ase_id srv ase_id = some k) :
    ((c.ase k).state = ASCS_STATE_RELEASING →
        (audio_stream_control_service_server_streamendpoint_released srv con_handle ase_id
            caching).ase_state ci k
          = if caching then ASCS_STATE_CODEC_CONFIGURED else ASCS_STATE_IDLE)
      ∧ ((c.ase k).state ≠ ASCS_STATE_RELEASING →
          audio_stream_control_service_server_streamendpoint_released srv con_handle ase_id
              caching = srv
            ∧ (audio_stream_control_service_server_streamendpoint_released srv con_handle
                ase_id caching).ase_state ci k = (c.ase k).state) := by
  constructor
  · intro hs
    have hlen := lt_length_of_state c k (by rw [hs]; decide)
    have h := apply_run_ase_state (ascs_apply_t.released caching) srv con_handle ase_id ci k c
      hfind hc hk hlen
    rw [hs] at h
    rw [if_pos (by cases caching <;> cases (srv.chr k).role <;> rfl)] at h
    exact h
  · intro hs
    have hrun : audio_stream_control_service_server_streamendpoint_released srv con_handle
        ase_id caching = srv :=
      apply_run_rejected (ascs_apply_t.released caching) srv con_handle ase_id
        (Or.inr (Or.inr ⟨ci, k, hfind, hk, by
          rw [slot_of_client srv ci c hc]
          revert hs
          cases (c.ase k).state <;> cases caching <;> cases (srv.chr k).role <;> decide⟩))
    rw [hrun]
    exact ⟨rfl, ase_state_of_client srv ci k c hc⟩

/-- C33 (witness). The Source ASE 2 of an attached connection, in Releasing, with
caching and without; the Sink ASE 1, in Streaming, is left as it is. -/
theorem released_caching_selects_target_witness :
    ascs_server_get_remote_client_for_con_handle
        (example_server 2 ASCS_STATE_STREAMING ASCS_STATE_RELEASING) 64 = some 0
      ∧ ((example_connection 64 ASCS_STATE_STREAMING ASCS_STATE_RELEASING).ase 1).state
          = ASCS_STATE_RELEASING
      ∧ (audio_stream_control_service_server_streamendpoint_released
            (example_server 2 ASCS_STATE_STREAMING ASCS_STATE_RELEASING) 64 2 true).ase_state 0 1
          = ASCS_STATE_CODEC_CONFIGURED
      ∧ (audio_stream_control_service_server_streamendpoint_released
            (example_server 2 ASCS_STATE_STREAMING ASCS_STATE_RELEASING) 64 2 false).ase_state 0 1
          = ASCS_STATE_IDLE
      ∧ audio_stream_control_service_server_streamendpoint_released
            (example_server 2 ASCS_STATE_STREAMING ASCS_STATE_RELEASING) 64 1 true
          = example_server 2 ASCS_STATE_STREAMING ASCS_STATE_RELEASING :=
  ⟨by decide, by decide,
    (released_caching_selects_target (example_server 2 ASCS_STATE_STREAMING ASCS_STATE_RELEASING)
      64 2 0 1 (example_connection 64 ASCS_STATE_STREAMING ASCS_STATE_RELEASING) true
      (by decide) (by decide) (by decide)).1 (by decide),
    (released_caching_selects_target (example_server 2 ASCS_STATE_STREAMING ASCS_STATE_RELEASING)
      64 2 0 1 (example_connection 64 ASCS_STATE_STREAMING ASCS_STATE_RELEASING) false
      (by decide) (by decide) (by decide)).1 (by decide),
    ((released_caching_selects_target
      (example_server 2 ASCS_STATE_STREAMING ASCS_STATE_RELEASING)
      64 1 0 0 (example_connection 64 ASCS_STATE_STREAMING ASCS_STATE_RELEASING) true
      (by decide) (by decide) (by decide)).2 (by decide)).1⟩

theorem sink_table_not_disabling (s : ascs_state_t) (o : ascs_opcode_t) :
    ASCS_STATE_DISABLING ∉ transition_table s o LE_AUDIO_ROLE_SINK := by
  cases s <;> cases o <;> decide

/-- A sequence of calls of apply entry points does not take a Sink ASE into Disabling. -/
theorem apply_calls_sink_not_disabling (U : ascs_util_t) (W : ascs_wire_t)
    (calls : List (ascs_apply_t × Nat × Nat)) (srv : ascs_server_t) (cj j : Nat)
    (hrole : (srv.chr j).role = LE_AUDIO_ROLE_SINK)
    (hs : srv.ase_state cj j ≠ ASCS_STATE_DISABLING) :
    (run_events U W srv
      (calls.map (fun x => ascs_event_t.apply x.1 x.2.1 x.2.2))).ase_state cj j
        ≠ ASCS_STATE_DISABLING := by
  induction calls generalizing srv with
  | nil => exact hs
  | cons x xs ih =>
    have hstep : run_events U W srv
        ((x :: xs).map (fun x => ascs_event_t.apply x.1 x.2.1 x.2.2))
        = run_events U W (x.1.run srv x.2.1 x.2.2)
            (xs.map (fun x => ascs_event_t.apply x.1 x.2.1 x.2.2)) := rfl
    rw [hstep]
    apply ih
    · rw [apply_run_chr]; exact hrole
    · rcases apply_run_state x.1 srv x.2.1 x.2.2 cj j with h | h
      · rw [h]; exact hs
      · intro hd
        rw [hd, hrole] at h
        exact sink_table_not_disabling _ _ h

/-- C34. For every attached connection and registered ASE in Enabling or Streaming,
`disable` moves a Source ASE to Disabling and a Sink ASE to QoS Configured; a
`receiver_stop_ready` right after moves the Source ASE on to QoS Configured, as it does
with every Source ASE in Disabling, while `receiver_stop_ready` for an ASE in Streaming
returns the server as it was; and whatever the server, no sequence of calls of apply
entry points takes a Sink ASE that is not in Disabling into Disabling. -/
theorem disable_selects_target_by_direction (U : ascs_util_t) (W : ascs_wire_t)
    (srv : ascs_server_t) (con_handle ase_id ci k : Nat) (c : ascs_server_connection_t)
    (hfind : ascs_server_get_remote_client_for_con_handle srv con_handle = some ci)
    (hc : srv.client ci = some c)
    (hk : ascs_server_get_streamendpoint_for_ase_id srv ase_id = some k) :
    ((c.ase k).state = ASCS_STATE_ENABLING ∨ (c.ase k).state = ASCS_STATE_STREAMING →
        (audio_stream_control_service_server_streamendpoint_disable srv con_handle
            ase_id).ase_state ci k
          = (if (srv.chr k).role = LE_AUDIO_ROLE_SOURCE then ASCS_STATE_DISABLING
              else ASCS_STATE_QOS_CONFIGURED)
        ∧ ((srv.chr k).role = LE_AUDIO_ROLE_SOURCE →
            (audio_stream_control_service_server_streamendpoint_receiver_stop_ready
              (audio_stream_control_service_server_streamendpoint_disable srv con_handle ase_id)
              con_handle ase_id).ase_state ci k = ASCS_STATE_QOS_CONFIGURED))
      ∧ ((c.ase k).state = ASCS_STATE_DISABLING → (srv.chr k).role = LE_AUDIO_ROLE_SOURCE →
          (audio_stream_control_service_server_streamendpoint_receiver_stop_ready srv
            con_handle ase_id).ase_state ci k = ASCS_STATE_QOS_CONFIGURED)
      ∧ ((c.ase k).state = ASCS_STATE_STREAMING →
          audio_stream_control_service_server_streamendpoint_receiver_stop_ready srv
            con_handle ase_id = srv)
      ∧ (∀ (calls : List (ascs_apply_t × Nat × Nat)) (cj j : Nat),
          (srv.chr j).role = LE_AUDIO_ROLE_SINK →
          srv.ase_state cj j ≠ ASCS_STATE_DISABLING →
          (run_events U W srv
            (calls.map (fun x => ascs_event_t.apply x.1 x.2.1 x.2.2))).ase_state cj j
              ≠ ASCS_STATE_DISABLING) := by
  refine ⟨?_, ?_, ?_, fun calls cj j => apply_calls_sink_not_disabling U W calls srv cj j⟩
  · intro hs
    have hlen := lt_length_of_state c k (by rcases hs with h | h <;> rw [h] <;> decide)
    have hdis : (audio_stream_control_service_server_streamendpoint_disable srv con_handle
        ase_id).ase_state ci k
          = (if (srv.chr k).role = LE_AUDIO_ROLE_SOURCE then ASCS_STATE_DISABLING
              else ASCS_STATE_QOS_CONFIGURED) := by
      have h := apply_run_ase_state ascs_apply_t.disable srv con_handle ase_id ci k c
        hfind hc hk hlen
      rw [if_pos (by
        rcases hs with h | h <;> rw [h] <;> cases (srv.chr k).role <;> rfl)] at h
      exact h
    refine ⟨hdis, fun hrole => ?_⟩
    obtain ⟨g1, g2, g3, g4⟩ := apply_run_lookup ascs_apply_t.disable srv con_handle ase_id ci c
      hfind hc (fun k2 hk2 => by
        rw [hk] at hk2; obtain rfl := Option.some.inj hk2; exact hlen) con_handle ase_id
    have hst : (((ascs_apply_t.disable.run srv con_handle ase_id).slot ci).ase k).state
        = ASCS_STATE_DISABLING := by
      have h2 := ase_state_of_client _ ci k _ g3
      rw [← h2]
      rw [if_pos hrole] at hdis
      exact hdis
    have h := apply_run_ase_state ascs_apply_t.receiver_stop_ready
      (ascs_apply_t.disable.run srv con_handle ase_id) con_handle ase_id ci k _
      (g1.trans hfind) g3 (g2.trans hk) (by rw [g4]; exact hlen)
    rw [hst, apply_run_chr, hrole] at h
    exact h
  · intro hs hrole
    have hlen := lt_length_of_state c k (by rw [hs]; decide)
    have h := apply_run_ase_state ascs_apply_t.receiver_stop_ready srv con_handle ase_id ci k c
      hfind hc hk hlen
    rw [hs, hrole] at h
    exact h
  · intro hs
    exact apply_run_rejected ascs_apply_t.receiver_stop_ready srv con_handle ase_id
      (Or.inr (Or.inr ⟨ci, k, hfind, hk, by
        rw [slot_of_client srv ci c hc, hs]
        cases (srv.chr k).role <;> rfl⟩))

/-- C34 (witness). The Source ASE 2 of an attached connection, in Streaming: `disable`
takes it to Disabling and `receiver_stop_ready` on to QoS Configured; the Sink ASE 1, in
Enabling, goes to QoS Configured. -/
theorem disable_selects_target_by_direction_witness :
    ascs_server_get_remote_client_for_con_handle
        (example_server 2 ASCS_STATE_ENABLING ASCS_STATE_STREAMING) 64 = some 0
      ∧ (audio_stream_control_service_server_streamendpoint_disable
            (example_server 2 ASCS_STATE_ENABLING ASCS_STATE_STREAMING) 64 2).ase_state 0 1
          = ASCS_STATE_DISABLING
      ∧ (audio_stream_control_service_server_streamendpoint_receiver_stop_ready
            (audio_stream_control_service_server_streamendpoint_disable
              (example_server 2 ASCS_STATE_ENABLING ASCS_STATE_STREAMING) 64 2)
            64 2).ase_state 0 1 = ASCS_STATE_QOS_CONFIGURED
      ∧ (audio_stream_control_service_server_streamendpoint_disable
            (example_server 2 ASCS_STATE_ENABLING ASCS_STATE_STREAMING) 64 1).ase_state 0 0
          = ASCS_STATE_QOS_CONFIGURED :=
  ⟨by decide,
    ((disable_selects_target_by_direction example_util example_wire
      (example_server 2 ASCS_STATE_ENABLING ASCS_STATE_STREAMING) 64 2 0 1
      (example_connection 64 ASCS_STATE_ENABLING ASCS_STATE_STREAMING)
      (by decide) (by decide) (by decide)).1 (Or.inr (by decide))).1,
    ((disable_selects_target_by_direction example_util example_wire
      (example_server 2 ASCS_STATE_ENABLING ASCS_STATE_STREAMING) 64 2 0 1
      (example_connection 64 ASCS_STATE_ENABLING ASCS_STATE_STREAMING)
      (by decide) (by decide) (by decide)).1 (Or.inr (by decide))).2 (by decide),
    ((disable_selects_target_by_direction example_util example_wire
      (example_server 2 ASCS_STATE_ENABLING ASCS_STATE_STREAMING) 64 1 0 0
      (example_connection 64 ASCS_STATE_ENABLING ASCS_STATE_STREAMING)
      (by decide) (by decide) (by decide)).1 (Or.inl (by decide))).1⟩

/-- Storing `e` in stream endpoint `k` of the connection in slot `ci`, arming the
value-changed task and storing the connection back has the effect described. -/
theorem commit_value_changed_armed_effect (srv : ascs_server_t) (ci k : Nat)
    (c : ascs_server_connection_t) (e : ascs_streamendpoint_t)
    (hc : srv.client ci = some c) (hlen : k < c.streamendpoints.length) :
    apply_effect srv ci k c e (srv.commit ci (value_changed_armed c k e)) := by
  obtain ⟨f1, f2, f3, f4, f5, f6⟩ := value_changed_armed_fields c k e
  unfold apply_effect
  rw [slot_commit_self srv ci _ c hc]
  refine ⟨?_, ?_, fun cj hcj => slot_commit_ne srv ci cj _ hcj, f1, f2, f3, f4, f5, f6,
    same_registry_commit srv ci _, rfl, ?_, ?_⟩
  · rw [value_changed_armed_ase c k e hlen, if_pos rfl]
  · intro j hj
    rw [value_changed_armed_ase c k e hlen, if_neg hj]
  · intro hw
    rw [value_changed_armed_ase c k e hlen, if_pos rfl, trace_commit]
    unfold value_changed_armed
    rw [if_pos (Or.inl hw)]
    exact ⟨by simp [hw], rfl, List.append_nil _⟩
  · intro hw
    rw [value_changed_armed_ase c k e hlen, if_pos rfl, trace_commit]
    unfold value_changed_armed
    by_cases hcc : e.ase_characteristic_client_configuration = 0
    · rw [if_pos (Or.inr hcc), if_neg (by simpa using hcc), if_neg (by simpa using hcc)]
      exact ⟨by simp [hw, hcc], rfl, rfl⟩
    · rw [if_neg (by rintro (h | h); rw [hw] at h; exact Bool.noConfusion h; exact hcc h),
        if_pos hcc, if_pos hcc]
      exact ⟨by simp [hw, hcc], rfl, rfl⟩

/-- C32 (as amended). When `configure_codec` (respectively `configure_qos`) is called for
an attached connection, a registered ASE and a transition the state machine permits, the
state of that ASE becomes Codec Configured (respectively QoS Configured), its stored
codec (respectively QoS) configuration is the argument, its other stored configuration,
its metadata, its client configuration and its client-initiated flag are unchanged,
every other ASE, every other field of the connection but `scheduled_tasks`, and every
other slot are unchanged. If the notify flag of the ASE was not set, it is set exactly
when the client configuration of the ASE is not 0, and then the value-changed bit is
OR-ed into `scheduled_tasks` and the callback is registered if `scheduled_tasks` was 0; if
the notify flag was already set, it stays set and `scheduled_tasks` and the trace are left
as they are, whatever the client configuration. -/
theorem configure_codec_and_qos_effect (srv : ascs_server_t) (con_handle ase_id ci k : Nat)
    (c : ascs_server_connection_t)
    (hfind : ascs_server_get_remote_client_for_con_handle srv con_handle = some ci)
    (hc : srv.client ci = some c)
    (hk : ascs_server_get_streamendpoint_for_ase_id srv ase_id = some k)
    (hcap : srv.ascs_streamendpoint_chr_num ≤ c.streamendpoints.length) :
    (∀ codec_configuration : ascs_codec_configuration_t,
        ascs_server_streamendpoint_can_transit_to_state (c.ase k).state (srv.chr k).role
            ASCS_OPCODE_CONFIG_CODEC ASCS_STATE_CODEC_CONFIGURED = true →
        apply_effect srv ci k c
          { (c.ase k) with
            state := ASCS_STATE_CODEC_CONFIGURED, codec_configuration := codec_configuration }
          (audio_stream_control_service_server_streamendpoint_configure_codec srv con_handle
            ase_id codec_configuration))
      ∧ (∀ qos_configuration : ascs_qos_configuration_t,
          ascs_server_streamendpoint_can_transit_to_state (c.ase k).state (srv.chr k).role
              ASCS_OPCODE_CONFIG_QOS ASCS_STATE_QOS_CONFIGURED = true →
          apply_effect srv ci k c
            { (c.ase k) with
              state := ASCS_STATE_QOS_CONFIGURED, qos_configuration := qos_configuration }
            (audio_stream_control_service_server_streamendpoint_configure_qos srv con_handle
              ase_id qos_configuration)) := by
  have hlen : k < c.streamendpoints.length :=
    Nat.lt_of_lt_of_le (get_streamendpoint_some srv ase_id k hk).1 hcap
  constructor
  · intro x hT
    have h := apply_run_permitted (ascs_apply_t.configure_codec x) srv con_handle ase_id ci k c
      hfind hc hk hlen hT
    have h2 : audio_stream_control_service_server_streamendpoint_configure_codec srv
        con_handle ase_id x
        = srv.commit ci (value_changed_armed c k
            { (c.ase k) with state := ASCS_STATE_CODEC_CONFIGURED, codec_configuration := x }) :=
      h
    rw [h2]
    exact commit_value_changed_armed_effect srv ci k c _ hc hlen
  · intro x hT
    have h := apply_run_permitted (ascs_apply_t.configure_qos x) srv con_handle ase_id ci k c
      hfind hc hk hlen hT
    have h2 : audio_stream_control_service_server_streamendpoint_configure_qos srv
        con_handle ase_id x
        = srv.commit ci (value_changed_armed c k
            { (c.ase k) with state := ASCS_STATE_QOS_CONFIGURED, qos_configuration := x }) :=
      h
    rw [h2]
    exact commit_value_changed_armed_effect srv ci k c _ hc hlen

/-- C32 (witness). `configure_codec` for the Sink ASE 1 of an attached connection, which
is Idle and has notifications enabled: the ASE is in Codec Configured with its notify
flag set, and the trace holds the call of the scheduler and the registration. -/
theorem configure_codec_and_qos_effect_witness :
    ascs_server_get_remote_client_for_con_handle
        (example_server 2 ASCS_STATE_IDLE ASCS_STATE_IDLE) 64 = some 0
      ∧ apply_effect (example_server 2 ASCS_STATE_IDLE ASCS_STATE_IDLE) 0 0
          (example_connection 64 ASCS_STATE_IDLE ASCS_STATE_IDLE)
          { ((example_connection 64 ASCS_STATE_IDLE ASCS_STATE_IDLE).ase 0) with
            state := ASCS_STATE_CODEC_CONFIGURED
            codec_configuration := ascs_codec_configuration_t.zero }
          (audio_stream_control_service_server_streamendpoint_configure_codec
            (example_server 2 ASCS_STATE_IDLE ASCS_STATE_IDLE) 64 1
            ascs_codec_configuration_t.zero)
      ∧ (((audio_stream_control_service_server_streamendpoint_configure_codec
            (example_server 2 ASCS_STATE_IDLE ASCS_STATE_IDLE) 64 1
            ascs_codec_configuration_t.zero).slot 0).ase 0).state = ASCS_STATE_CODEC_CONFIGURED
      ∧ (audio_stream_control_service_server_streamendpoint_configure_codec
            (example_server 2 ASCS_STATE_IDLE ASCS_STATE_IDLE) 64 1
            ascs_codec_configuration_t.zero).trace
          = [schedule_task 64 ASCS_TASK_SEND_CODEC_CONFIGURATION_VALUE_CHANGED,
              att_server_register_can_send_now_callback 64] :=
  ⟨by decide,
    (configure_codec_and_qos_effect (example_server 2 ASCS_STATE_IDLE ASCS_STATE_IDLE) 64 1 0 0
      (example_connection 64 ASCS_STATE_IDLE ASCS_STATE_IDLE) (by decide) (by decide)
      (by decide) (by decide)).1 ascs_codec_configuration_t.zero (by decide),
    by decide, by decide⟩

set_option maxRecDepth 100000 in
/-- C32 (counterexample). The server initialised from an attribute table with a Sink and a
Source ASE characteristic, with three templates and one slot. A client on handle 64
enables the notifications of ASE 1, the application configures the codec of ASE 1, and
the client disables the notifications again before the callback has fired: the notify
flag of ASE 1 is set and its client configuration is 0. A second `configure_codec` for
ASE 1 leaves the flag set and the value-changed bit in `scheduled_tasks`, with the client
configuration 0, and the callback that fires next sends the value of ASE 1. -/
theorem configure_codec_armed_with_zero_client_configuration :
    (((run_events example_util example_wire
          (audio_stream_control_service_server_init example_att_db 1 0xFFFF 4
            [ascs_streamendpoint_characteristic_t.zero,
              ascs_streamendpoint_characteristic_t.zero,
              ascs_streamendpoint_characteristic_t.zero] 1)
          [ascs_event_t.gatt_write 64 4 [1, 0],
            ascs_event_t.apply (ascs_apply_t.configure_codec ascs_codec_configuration_t.zero)
              64 1,
            ascs_event_t.gatt_write 64 4 [0, 0]]).slot 0).streamendpoints.map
        (fun e => (e.state, e.ase_characteristic_client_configuration,
          e.ase_characteristic_value_changed_w2_notify))).take 1
      = [(ASCS_STATE_CODEC_CONFIGURED, 0, true)]
      ∧ (((run_events example_util example_wire
          (audio_stream_control_service_server_init example_att_db 1 0xFFFF 4
            [ascs_streamendpoint_characteristic_t.zero,
              ascs_streamendpoint_characteristic_t.zero,
              ascs_streamendpoint_characteristic_t.zero] 1)
          [ascs_event_t.gatt_write 64 4 [1, 0],
            ascs_event_t.apply (ascs_apply_t.configure_codec ascs_codec_configuration_t.zero)
              64 1,
            ascs_event_t.gatt_write 64 4 [0, 0],
            ascs_event_t.apply (ascs_apply_t.configure_codec ascs_codec_configuration_t.zero)
              64 1]).slot 0).streamendpoints.map
        (fun e => (e.state, e.ase_characteristic_client_configuration,
          e.ase_characteristic_value_changed_w2_notify))).take 1
        = [(ASCS_STATE_CODEC_CONFIGURED, 0, true)]
      ∧ ((run_events example_util example_wire
          (audio_stream_control_service_server_init example_att_db 1 0xFFFF 4
            [ascs_streamendpoint_characteristic_t.zero,
              ascs_streamendpoint_characteristic_t.zero,
              ascs_streamendpoint_characteristic_t.zero] 1)
          [ascs_event_t.gatt_write 64 4 [1, 0],
            ascs_event_t.apply (ascs_apply_t.configure_codec ascs_codec_configuration_t.zero)
              64 1,
            ascs_event_t.gatt_write 64 4 [0, 0],
            ascs_event_t.apply (ascs_apply_t.configure_codec ascs_codec_configuration_t.zero)
              64 1]).slot 0).scheduled_tasks
        = ASCS_TASK_SEND_CODEC_CONFIGURATION_VALUE_CHANGED
      ∧ (run_events example_util example_wire
          (audio_stream_control_service_server_init example_att_db 1 0xFFFF 4
            [ascs_streamendpoint_characteristic_t.zero,
              ascs_streamendpoint_characteristic_t.zero,
              ascs_streamendpoint_characteristic_t.zero] 1)
          [ascs_event_t.gatt_write 64 4 [1, 0],
            ascs_event_t.apply (ascs_apply_t.configure_codec ascs_codec_configuration_t.zero)
              64 1,
            ascs_event_t.gatt_write 64 4 [0, 0],
            ascs_event_t.apply (ascs_apply_t.configure_codec ascs_codec_configuration_t.zero)
              64 1,
            ascs_event_t.can_send_now 0]).trace
        = [emit_connected 64 ERROR_CODE_SUCCESS,
            schedule_task 64 ASCS_TASK_SEND_CODEC_CONFIGURATION_VALUE_CHANGED,
            att_server_register_can_send_now_callback 64,
            att_server_notify 64 3 [1, 1, 0, 0]] := by
  decide

/-! ## The id counter -/

theorem next_streamendpoint_chr_id_range (counter : Nat) (h : counter ≤ 255) :
    1 ≤ ascs_server_get_next_streamendpoint_chr_id counter
      ∧ ascs_server_get_next_streamendpoint_chr_id counter ≤ 255 := by
  unfold ascs_server_get_next_streamendpoint_chr_id
  split <;> omega

theorem next_streamendpoint_chr_ids_range (n counter : Nat) (h : counter ≤ 255) (id : Nat)
    (hid : id ∈ next_streamendpoint_chr_ids n counter) : 1 ≤ id ∧ id ≤ 255 := by
  induction n generalizing counter with
  | zero => simp [next_streamendpoint_chr_ids] at hid
  | succ n ih =>
    simp only [next_streamendpoint_chr_ids, List.mem_cons] at hid
    rcases hid with rfl | hid
    · exact next_streamendpoint_chr_id_range counter h
    · exact ih _ (next_streamendpoint_chr_id_range counter h).2 hid

theorem next_streamendpoint_chr_ids_eq_range (n counter : Nat) (h : counter + n ≤ 255) :
    next_streamendpoint_chr_ids n counter = List.range' (counter + 1) n := by
  induction n generalizing counter with
  | zero => rfl
  | succ n ih =>
    have h1 : ascs_server_get_next_streamendpoint_chr_id counter = counter + 1 := by
      unfold ascs_server_get_next_streamendpoint_chr_id
      rw [if_neg (by omega)]
    simp only [next_streamendpoint_chr_ids, h1, List.range'_succ]
    rw [ih (counter + 1) (by omega)]

/-- C38. The function `ascs_server_get_next_streamendpoint_chr_id` takes the counter `c`
to 1 if `c` is 0xFF and to `c + 1` otherwise, and returns the new value of the counter.
For every value of the 8-bit counter and every number of calls, each id returned is
between 1 and 255, so it fits the counter and is never 0; and the first 255 ids returned
when the counter starts at 0, as it does at initialisation, are 1, 2, ..., 255, which are
distinct; the next one is 1 again. -/
theorem next_streamendpoint_chr_id_sequence :
    (∀ counter, ascs_server_get_next_streamendpoint_chr_id counter
        = if counter = 0xFF then 1 else counter + 1)
      ∧ (∀ counter n id, counter ≤ 255 → id ∈ next_streamendpoint_chr_ids n counter →
          1 ≤ id ∧ id ≤ 255 ∧ id ≠ 0)
      ∧ next_streamendpoint_chr_ids 255 0 = List.range' 1 255
      ∧ (next_streamendpoint_chr_ids 255 0).Nodup
      ∧ next_streamendpoint_chr_ids 256 0 = List.range' 1 255 ++ [1] := by
  refine ⟨fun _ => rfl, ?_, ?_, ?_, ?_⟩
  · intro counter n id h hid
    obtain ⟨h1, h2⟩ := next_streamendpoint_chr_ids_range n counter h id hid
    exact ⟨h1, h2, by omega⟩
  · exact next_streamendpoint_chr_ids_eq_range 255 0 (by omega)
  · rw [next_streamendpoint_chr_ids_eq_range 255 0 (by omega)]
    exact List.nodup_range' 1 255
  · have hsplit : ∀ n m counter, next_streamendpoint_chr_ids (n + m) counter
        = next_streamendpoint_chr_ids n counter
          ++ next_streamendpoint_chr_ids m
            (Nat.iterate ascs_server_get_next_streamendpoint_chr_id n counter) := by
      intro n
      induction n with
      | zero => intro m counter; simp [next_streamendpoint_chr_ids]
      | succ n ih =>
        intro m counter
        have e : n + 1 + m = (n + m) + 1 := by omega
        rw [e]
        simp only [next_streamendpoint_chr_ids, Function.iterate_succ, Function.comp,
          List.cons_append]
        rw [ih]
    have hiter : ∀ n counter, counter + n ≤ 255 →
        Nat.iterate ascs_server_get_next_streamendpoint_chr_id n counter = counter + n := by
      intro n
      induction n with
      | zero => intro counter _; rfl
      | succ n ih =>
        intro counter h
        have h1 : ascs_server_get_next_streamendpoint_chr_id counter = counter + 1 := by
          unfold ascs_server_get_next_streamendpoint_chr_id
          rw [if_neg (by omega)]
        rw [Function.iterate_succ, Function.comp, h1, ih (counter + 1) (by omega)]
        omega
    rw [hsplit 255 1 0, next_streamendpoint_chr_ids_eq_range 255 0 (by omega),
      hiter 255 0 (by omega)]
    rfl

/-- C38 (witness). Five calls with the counter at 253: the ids wrap from 255 to 1. -/
theorem next_streamendpoint_chr_id_sequence_witness :
    (253 : Nat) ≤ 255 ∧ (255 : Nat) ∈ next_streamendpoint_chr_ids 5 253
      ∧ next_streamendpoint_chr_ids 5 253 = [254, 255, 1, 2, 3]
      ∧ (1 ≤ 255 ∧ 255 ≤ 255 ∧ 255 ≠ 0) :=
  ⟨by decide, by decide, by decide,
    next_streamendpoint_chr_id_sequence.2.1 253 5 255 (by decide) (by decide)⟩

/-! ## Claims on the scheduler -/

theorem testBit_or_task (x i : Nat) :
    (x ||| ASCS_TASK_SEND_CONTROL_POINT_OPERATION_RESPONSE).testBit i
      = (x.testBit i || decide (i = 1)) := by
  rw [Nat.testBit_or]
  have h : ASCS_TASK_SEND_CONTROL_POINT_OPERATION_RESPONSE = 2 ^ 1 := rfl
  rw [h, Nat.testBit_two_pow]
  by_cases hi : i = 1
  · simp [hi]
  · have h2 : ¬ 1 = i := fun hh => hi hh.symm
    simp [hi, h2]

/-- C36. The function `ascs_server_schedule_task` called with the control point response
task on a live connection: if the client configuration of the control point is 0, the
connection is returned as it was, with its `scheduled_tasks`, and no callback is
registered; if it is not 0, the bit of the task is set in `scheduled_tasks`, every other
bit and every other field of the connection is as before, and the callback is registered
exactly if `scheduled_tasks` was 0. -/
theorem schedule_control_point_response_task (srv : ascs_server_t)
    (c : ascs_server_connection_t) (hlive : c.con_handle ≠ HCI_CON_HANDLE_INVALID) :
    (c.ase_control_point_client_configuration = 0 →
        (ascs_server_schedule_task srv c ASCS_TASK_SEND_CONTROL_POINT_OPERATION_RESPONSE).1 = c
          ∧ registrations (ascs_server_schedule_task srv c
              ASCS_TASK_SEND_CONTROL_POINT_OPERATION_RESPONSE).2 = 0
          ∧ (ascs_server_schedule_task srv c ASCS_TASK_SEND_CONTROL_POINT_OPERATION_RESPONSE).2
            = [schedule_task c.con_handle ASCS_TASK_SEND_CONTROL_POINT_OPERATION_RESPONSE])
      ∧ (c.ase_control_point_client_configuration ≠ 0 →
          (ascs_server_schedule_task srv c ASCS_TASK_SEND_CONTROL_POINT_OPERATION_RESPONSE).1
              = { c with
                  scheduled_tasks :=
                    c.scheduled_tasks ||| ASCS_TASK_SEND_CONTROL_POINT_OPERATION_RESPONSE }
            ∧ (∀ i, ((ascs_server_schedule_task srv c
                  ASCS_TASK_SEND_CONTROL_POINT_OPERATION_RESPONSE).1.scheduled_tasks).testBit i
                = if i = 1 then true else c.scheduled_tasks.testBit i)
            ∧ (ascs_server_schedule_task srv c
                ASCS_TASK_SEND_CONTROL_POINT_OPERATION_RESPONSE).2
              = schedule_task c.con_handle ASCS_TASK_SEND_CONTROL_POINT_OPERATION_RESPONSE
                :: (if c.scheduled_tasks = 0 then
                    [att_server_register_can_send_now_callback c.con_handle] else [])) := by
  rw [schedule_task_live srv c _ hlive]
  constructor
  · intro h0
    rw [if_pos ⟨rfl, h0⟩]
    exact ⟨rfl, rfl, rfl⟩
  · intro h1
    rw [if_neg (fun h => h1 h.2)]
    refine ⟨rfl, fun i => ?_, rfl⟩
    show (c.scheduled_tasks ||| ASCS_TASK_SEND_CONTROL_POINT_OPERATION_RESPONSE).testBit i = _
    rw [testBit_or_task]
    by_cases hi : i = 1
    · simp [hi]
    · simp [hi]

/-- C36 (witness). A live connection with the value-changed bit set: with the client
configuration of the control point at 0 nothing changes, with 1 `scheduled_tasks` goes
from 1 to 3 and no callback is registered. -/
theorem schedule_control_point_response_task_witness :
    (example_connection 64 ASCS_STATE_IDLE ASCS_STATE_IDLE).con_handle ≠ HCI_CON_HANDLE_INVALID
      ∧ (ascs_server_schedule_task (example_server 2 ASCS_STATE_IDLE ASCS_STATE_IDLE)
            { example_connection 64 ASCS_STATE_IDLE ASCS_STATE_IDLE with
              ase_control_point_client_configuration := 0, scheduled_tasks := 1 }
            ASCS_TASK_SEND_CONTROL_POINT_OPERATION_RESPONSE).1
          = { example_connection 64 ASCS_STATE_IDLE ASCS_STATE_IDLE with
              ase_control_point_client_configuration := 0, scheduled_tasks := 1 }
      ∧ (ascs_server_schedule_task (example_server 2 ASCS_STATE_IDLE ASCS_STATE_IDLE)
            { example_connection 64 ASCS_STATE_IDLE ASCS_STATE_IDLE with scheduled_tasks := 1 }
            ASCS_TASK_SEND_CONTROL_POINT_OPERATION_RESPONSE)
          = ({ example_connection 64 ASCS_STATE_IDLE ASCS_STATE_IDLE with scheduled_tasks := 3 },
              [schedule_task 64 ASCS_TASK_SEND_CONTROL_POINT_OPERATION_RESPONSE]) :=
  ⟨by decide,
    ((schedule_control_point_response_task (example_server 2 ASCS_STATE_IDLE ASCS_STATE_IDLE)
      { example_connection 64 ASCS_STATE_IDLE ASCS_STATE_IDLE with
        ase_control_point_client_configuration := 0, scheduled_tasks := 1 }
      (by decide)).1 (by decide)).1,
    by decide⟩

theorem registrations_append (a b : List ascs_effect_t) :
    registrations (a ++ b) = registrations a + registrations b := by
  simp [registrations, List.filter_append]

theorem or_task_ne_zero (x t : Nat) (ht : t ≠ 0) : x ||| t ≠ 0 := by
  intro h
  apply ht
  apply Nat.eq_of_testBit_eq
  intro i
  have hi : (x ||| t).testBit i = false := by rw [h]; exact Nat.zero_testBit i
  rw [Nat.testBit_or] at hi
  rw [Nat.zero_testBit]
  cases hx : x.testBit i <;> cases hb : t.testBit i <;> simp_all

/-- The two branches of the can-send-now callback register nothing and keep the handle
of the connection. -/
theorem can_send_now_task_registrations (W : ascs_wire_t) (srv : ascs_server_t)
    (c : ascs_server_connection_t) :
    registrations (can_send_now_task W srv c).2 = 0
      ∧ (can_send_now_task W srv c).1.con_handle = c.con_handle := by
  unfold can_send_now_task
  by_cases h2 : c.scheduled_tasks &&& ASCS_TASK_SEND_CONTROL_POINT_OPERATION_RESPONSE ≠ 0
  · rw [if_pos h2]
    exact ⟨rfl, rfl⟩
  · rw [if_neg h2]
    by_cases h1 : c.scheduled_tasks &&& ASCS_TASK_SEND_CODEC_CONFIGURATION_VALUE_CHANGED ≠ 0
    · rw [if_pos h1]
      obtain ⟨c0, hc0⟩ : ∃ c0 : ascs_server_connection_t,
          c0 = { c with
            scheduled_tasks :=
              clear_task c.scheduled_tasks
                ASCS_TASK_SEND_CODEC_CONFIGURATION_VALUE_CHANGED } := ⟨_, rfl⟩
      rw [← hc0]
      have hh : c0.con_handle = c.con_handle := by rw [hc0]
      obtain ⟨f1, f2⟩ := can_send_now_value_changed_first W srv
        srv.ascs_streamendpoint_chr_num 0 c0
      cases hp : pending_indices c0 0 srv.ascs_streamendpoint_chr_num with
      | nil =>
        rw [f1 hp]
        exact ⟨rfl, hh⟩
      | cons j rest =>
        rw [(f2 j rest hp).1]
        exact ⟨rfl, hh⟩
    · rw [if_neg h1]
      exact ⟨rfl, rfl⟩

/-- The function `ascs_server_can_send_now` for the slot of a connection is the function
on the connection, stored back into the slot. -/
theorem can_send_now_eq_connection (W : ascs_wire_t) (srv : ascs_server_t) (ci : Nat)
    (c : ascs_server_connection_t) (hc : srv.client ci = some c) :
    ascs_server_can_send_now W srv ci = srv.commit ci (can_send_now_connection W srv c) := by
  unfold ascs_server_can_send_now can_send_now_connection
  simp only [hc]
  by_cases hl : c.con_handle = HCI_CON_HANDLE_INVALID
  · rw [if_pos hl, if_pos hl]
    simp [ascs_server_t.commit, ascs_server_t.emit]
  · rw [if_neg hl, if_neg hl]

theorem scheduler_consistent_schedule_task (srv : ascs_server_t)
    (c : ascs_server_connection_t) (out task : Nat) (ht : task ≠ 0)
    (h : scheduler_consistent ⟨c, out⟩) :
    scheduler_consistent
      ⟨(ascs_server_schedule_task srv c task).1,
        out + registrations (ascs_server_schedule_task srv c task).2⟩ := by
  obtain ⟨hlive, hout⟩ := h
  dsimp only at hlive hout
  rw [schedule_task_live srv c task hlive]
  split
  · exact ⟨hlive, hout⟩
  · refine ⟨hlive, ?_⟩
    dsimp only
    rw [if_pos (or_task_ne_zero _ _ ht)]
    by_cases h0 : c.scheduled_tasks = 0
    · rw [if_pos h0, hout, if_neg (by simpa using h0)]
      rfl
    · rw [if_neg h0, hout, if_pos h0]
      rfl

theorem scheduler_consistent_exec (W : ascs_wire_t) (srv : ascs_server_t) (s : scheduler_t)
    (e : scheduler_event_t) (h : scheduler_consistent s) :
    scheduler_consistent (e.exec W srv s) := by
  cases e with
  | schedule_control_point_operation_response =>
    exact scheduler_consistent_schedule_task srv s.connection s.outstanding _ (by decide) h
  | schedule_codec_configuration_value_changed =>
    exact scheduler_consistent_schedule_task srv s.connection s.outstanding _ (by decide) h
  | schedule_value_changed_task k =>
    show scheduler_consistent
      ⟨(ascs_server_streamendpoint_schedule_value_changed_task srv s.connection k).1,
        s.outstanding + registrations
          (ascs_server_streamendpoint_schedule_value_changed_task srv s.connection k).2⟩
    unfold ascs_server_streamendpoint_schedule_value_changed_task
    by_cases hw : (s.connection.ase k).ase_characteristic_value_changed_w2_notify = true
    · rw [if_pos hw]
      exact h
    · rw [if_neg hw]
      by_cases hcc : (s.connection.ase k).ase_characteristic_client_configuration ≠ 0
      · rw [if_pos hcc, if_pos hw]
        have h2 : scheduler_consistent
            ⟨s.connection.set_ase k
              { (s.connection.ase k) with ase_characteristic_value_changed_w2_notify := true },
              s.outstanding⟩ := h
        exact scheduler_consistent_schedule_task srv _ s.outstanding _ (by decide) h2
      · rw [if_neg hcc]
        exact h
  | can_send_now =>
    show scheduler_consistent
      (if s.outstanding = 0 then s
        else
          ⟨(can_send_now_connection W srv s.connection).1,
            s.outstanding - 1 + registrations (can_send_now_connection W srv s.connection).2⟩)
    by_cases h0 : s.outstanding = 0
    · rw [if_pos h0]
      exact h
    · rw [if_neg h0]
      obtain ⟨hlive, hout⟩ := h
      have h1 : s.outstanding = 1 := by
        by_cases ht : s.connection.scheduled_tasks ≠ 0
        · rw [hout, if_pos ht]
        · rw [hout, if_neg ht] at h0
          exact absurd rfl h0
      unfold can_send_now_connection
      rw [if_neg hlive]
      obtain ⟨g1, g2⟩ := can_send_now_task_registrations W srv s.connection
      refine ⟨by dsimp only; rw [g2]; exact hlive, ?_⟩
      dsimp only
      rw [registrations_append, g1, h1]
      by_cases ht : (can_send_now_task W srv s.connection).1.scheduled_tasks ≠ 0
      · rw [if_pos ht, if_pos ht]
        rfl
      · rw [if_neg ht, if_neg ht]
        rfl

theorem scheduler_consistent_run (W : ascs_wire_t) (srv : ascs_server_t)
    (events : List scheduler_event_t) (s : scheduler_t) (h : scheduler_consistent s) :
    scheduler_consistent (run_scheduler W srv s events) := by
  induction events generalizing s with
  | nil => exact h
  | cons e es ih => exact ih _ (scheduler_consistent_exec W srv s e h)

/-- C37. On a live connection `ascs_server_schedule_task`, called with one of the two
tasks, registers the can-send-now callback exactly when the task is admitted (it is not
the control point response with the client configuration of the control point at 0) and
`scheduled_tasks` was 0, and `ascs_server_can_send_now` registers it again exactly when
`scheduled_tasks` is not 0 after its branch has run. Hence, with a registration used up
by each call of the callback and the callback called only for a registration, after every
sequence of arming calls and callbacks that starts with no registration and
`scheduled_tasks` at 0, or with one registration and `scheduled_tasks` not 0, the
connection is live, at most one registration is outstanding, and one is outstanding
exactly if `scheduled_tasks` is not 0. -/
theorem can_send_now_registration_outstanding (W : ascs_wire_t) (srv : ascs_server_t)
    (c : ascs_server_connection_t) (hlive : c.con_handle ≠ HCI_CON_HANDLE_INVALID) :
    (∀ task, task = ASCS_TASK_SEND_CONTROL_POINT_OPERATION_RESPONSE
          ∨ task = ASCS_TASK_SEND_CODEC_CONFIGURATION_VALUE_CHANGED →
        registrations (ascs_server_schedule_task srv c task).2
          = if ¬ (task = ASCS_TASK_SEND_CONTROL_POINT_OPERATION_RESPONSE
                ∧ c.ase_control_point_client_configuration = 0)
              ∧ c.scheduled_tasks = 0 then 1 else 0)
      ∧ registrations (can_send_now_connection W srv c).2
          = (if (can_send_now_connection W srv c).1.scheduled_tasks ≠ 0 then 1 else 0)
      ∧ (∀ ci, srv.client ci = some c →
          ascs_server_can_send_now W srv ci
            = srv.commit ci (can_send_now_connection W srv c))
      ∧ (∀ events : List scheduler_event_t,
          (run_scheduler W srv ⟨c, if c.scheduled_tasks ≠ 0 then 1 else 0⟩
              events).connection.con_handle ≠ HCI_CON_HANDLE_INVALID
            ∧ (run_scheduler W srv ⟨c, if c.scheduled_tasks ≠ 0 then 1 else 0⟩
                events).outstanding ≤ 1
            ∧ (1 ≤ (run_scheduler W srv ⟨c, if c.scheduled_tasks ≠ 0 then 1 else 0⟩
                  events).outstanding
              ↔ (run_scheduler W srv ⟨c, if c.scheduled_tasks ≠ 0 then 1 else 0⟩
                  events).connection.scheduled_tasks ≠ 0)) := by
  refine ⟨?_, ?_, fun ci hc => can_send_now_eq_connection W srv ci c hc, ?_⟩
  · intro task ht
    rw [schedule_task_live srv c task hlive]
    by_cases hadm : task = ASCS_TASK_SEND_CONTROL_POINT_OPERATION_RESPONSE
        ∧ c.ase_control_point_client_configuration = 0
    · rw [if_pos hadm, if_neg (fun h => h.1 hadm)]
      rfl
    · rw [if_neg hadm]
      by_cases h0 : c.scheduled_tasks = 0
      · rw [if_pos h0, if_pos ⟨hadm, h0⟩]
        rfl
      · rw [if_neg h0, if_neg (fun h => h0 h.2)]
        rfl
  · unfold can_send_now_connection
    rw [if_neg hlive]
    dsimp only
    rw [registrations_append, (can_send_now_task_registrations W srv c).1]
    by_cases ht : (can_send_now_task W srv c).1.scheduled_tasks ≠ 0
    · rw [if_pos ht, if_pos ht]
      rfl
    · rw [if_neg ht, if_neg ht]
      rfl
  · intro events
    obtain ⟨h1, h2⟩ := scheduler_consistent_run W srv events
      ⟨c, if c.scheduled_tasks ≠ 0 then 1 else 0⟩ ⟨hlive, rfl⟩
    by_cases ht : (run_scheduler W srv ⟨c, if c.scheduled_tasks ≠ 0 then 1 else 0⟩
        events).connection.scheduled_tasks ≠ 0
    · rw [if_pos ht] at h2
      exact ⟨h1, by rw [h2], fun _ => ht, fun _ => by rw [h2]⟩
    · rw [if_neg ht] at h2
      exact ⟨h1, by rw [h2]; omega, fun h => by rw [h2] at h; omega, fun h => absurd h ht⟩

/-- C37 (witness). A live connection with notifications enabled and nothing scheduled:
the value-changed task for ASE 1 is armed (one registration), the control point response
is armed (no further registration), and the callback fires three times: it sends the
response and registers again, sends the value of ASE 1 and registers no more, and the
third call does not happen. -/
theorem can_send_now_registration_outstanding_witness :
    (example_connection 64 ASCS_STATE_IDLE ASCS_STATE_IDLE).con_handle ≠ HCI_CON_HANDLE_INVALID
      ∧ ([[], [scheduler_event_t.schedule_value_changed_task 0],
            [scheduler_event_t.schedule_value_changed_task 0,
              scheduler_event_t.schedule_control_point_operation_response],
            [scheduler_event_t.schedule_value_changed_task 0,
              scheduler_event_t.schedule_control_point_operation_response,
              scheduler_event_t.can_send_now],
            [scheduler_event_t.schedule_value_changed_task 0,
              scheduler_event_t.schedule_control_point_operation_response,
              scheduler_event_t.can_send_now, scheduler_event_t.can_send_now],
            [scheduler_event_t.schedule_value_changed_task 0,
              scheduler_event_t.schedule_control_point_operation_response,
              scheduler_event_t.can_send_now, scheduler_event_t.can_send_now,
              scheduler_event_t.can_send_now]].map
          (fun events =>
            ((run_scheduler example_wire (example_server 2 ASCS_STATE_IDLE ASCS_STATE_IDLE)
                ⟨example_connection 64 ASCS_STATE_IDLE ASCS_STATE_IDLE, 0⟩
                events).connection.scheduled_tasks,
              (run_scheduler example_wire (example_server 2 ASCS_STATE_IDLE ASCS_STATE_IDLE)
                ⟨example_connection 64 ASCS_STATE_IDLE ASCS_STATE_IDLE, 0⟩
                events).outstanding)))
          = [(0, 0), (1, 1), (3, 1), (1, 1), (0, 0), (0, 0)]
      ∧ (run_scheduler example_wire (example_server 2 ASCS_STATE_IDLE ASCS_STATE_IDLE)
            ⟨example_connection 64 ASCS_STATE_IDLE ASCS_STATE_IDLE, 0⟩
            [scheduler_event_t.schedule_value_changed_task 0,
              scheduler_event_t.schedule_control_point_operation_response,
              scheduler_event_t.can_send_now]).outstanding ≤ 1 :=
  ⟨by decide, by decide,
    ((can_send_now_registration_outstanding example_wire
      (example_server 2 ASCS_STATE_IDLE ASCS_STATE_IDLE)
      (example_connection 64 ASCS_STATE_IDLE ASCS_STATE_IDLE) (by decide)).2.2.2
        [scheduler_event_t.schedule_value_changed_task 0,
          scheduler_event_t.schedule_control_point_operation_response,
          scheduler_event_t.can_send_now]).2.1⟩

/-! ## The validator and the apply entry points -/

set_option maxRecDepth 100000 in
/-- C40 (the code at the failing input). A Config Codec write of 265 bytes for two ASEs
whose body is the concatenation of two sub-requests, the second of which starts at offset
256, names ASE 2 and asks for the target latency 9: the write is accepted with two
entries; the cursor of the first read, reduced modulo 256, is at offset 0 for the second
sub-request, so the second entry records the opcode byte 1 as its ase_id, with success,
for the request read from there; the second read, at offset 256, raises the event for
that entry with the ase_id 2 and the request of the second sub-request. -/
theorem acp_write_cursors_diverge :
    wrapped_config_codec_write.length = 265
      ∧ ascs_opcode_of_byte (wrapped_config_codec_write.getD 0 0) = ASCS_OPCODE_CONFIG_CODEC
      ∧ wrapped_config_codec_write.getD 1 0 = 2
      ∧ sub_request_offset ASCS_OPCODE_CONFIG_CODEC wrapped_config_codec_write 1 = 256
      ∧ sub_request_offset ASCS_OPCODE_CONFIG_CODEC wrapped_config_codec_write 2 = 265
      ∧ sub_request_ase_id ASCS_OPCODE_CONFIG_CODEC wrapped_config_codec_write 1 = 2
      ∧ ((ascs_server_write_callback example_util
            (example_server 2 ASCS_STATE_IDLE ASCS_STATE_IDLE) 64 20
            wrapped_config_codec_write).slot 0).response_ases_num = 2
      ∧ ((ascs_server_write_callback example_util
            (example_server 2 ASCS_STATE_IDLE ASCS_STATE_IDLE) 64 20
            wrapped_config_codec_write).slot 0).resp 0
          = ⟨2, ASCS_ERROR_CODE_INVALID_CONFIGURATION_PARAMETER_VALUE,
              ASCS_REJECT_REASON_MAX_TRANSPORT_LATENCY⟩
      ∧ ((ascs_server_write_callback example_util
            (example_server 2 ASCS_STATE_IDLE ASCS_STATE_IDLE) 64 20
            wrapped_config_codec_write).slot 0).resp 1
          = ⟨1, ASCS_ERROR_CODE_SUCCESS, ASCS_REJECT_REASON_NONE⟩
      ∧ (ascs_server_write_callback example_util
            (example_server 2 ASCS_STATE_IDLE ASCS_STATE_IDLE) 64 20
            wrapped_config_codec_write).trace
          = [schedule_task 64 ASCS_TASK_SEND_CONTROL_POINT_OPERATION_RESPONSE,
              att_server_register_can_send_now_callback 64,
              emit_client_codec_configuration_request 64 2
                ⟨9, 9, 6, 0, 0, ascs_specific_codec_configuration_t.zero⟩] := by
  decide

/-! ## The first seed scenario -/

/-- The value `ascs_server_can_send_now` sends for the control point, for a number of
ASEs that is within the response array and small enough for the `uint8_t` cursor. -/
theorem control_point_notification_value_of_lt (W : ascs_wire_t)
    (c : ascs_server_connection_t)
    (hn : c.response_ases_num ≠ 0xFF) (hle : c.response_ases_num ≤ c.response.length)
    (hsmall : 2 + 3 * c.response_ases_num < 256) :
    control_point_notification_value W c
      = [c.response_opcode, c.response_ases_num]
        ++ (List.range c.response_ases_num).flatMap (fun i =>
            [(c.resp i).ase_id, W.code_byte (c.resp i).response_code,
              W.reason_byte (c.resp i).reason]) := by
  unfold control_point_notification_value
  simp only [hn, ne_eq, not_false_eq_true, if_true]
  obtain ⟨a1, a2, a3⟩ := value_cursor_put
    ⟨List.replicate (2 + 3 * c.response.length) 0, 0⟩ c.response_opcode [] rfl rfl
    (by simp) (by simp)
  obtain ⟨b1, b2, b3⟩ := value_cursor_put _ c.response_ases_num _ a1 a2
    (by rw [a3]; simp; omega) (by simp)
  obtain ⟨c1, c2, -⟩ := control_point_notification_loop W c _ _ c.response_ases_num b1 b2
    (by rw [b3, a3]; simp; omega) (by simp; omega)
  rw [c1, c2]
  rfl

/-- The trace of the write of the first seed scenario, with company id 0, once its entry
is known to be a success. -/
theorem lc3_config_codec_write_effects (U : ascs_util_t) (srv : ascs_server_t)
    (c : ascs_server_connection_t) (con_handle : Nat)
    (hlive : c.con_handle ≠ HCI_CON_HANDLE_INVALID)
    (hacc : accepted_frame srv lc3_config_codec_write)
    (hacp : c.ase_control_point_client_configuration ≠ 0)
    (hentry : (ascs_server_control_point_write U srv c con_handle lc3_config_codec_write).1.resp 0
      = ⟨1, ASCS_ERROR_CODE_SUCCESS, ASCS_REJECT_REASON_NONE⟩) :
    (ascs_server_control_point_write U srv c con_handle lc3_config_codec_write).2
      = schedule_task c.con_handle ASCS_TASK_SEND_CONTROL_POINT_OPERATION_RESPONSE
        :: ((if c.scheduled_tasks = 0 then
              [att_server_register_can_send_now_callback c.con_handle] else [])
          ++ [emit_client_codec_configuration_request con_handle 1
              ⟨3, 2, 6, 0, 0, U.ascs_util_specific_codec_configuration_parse []⟩]) := by
  obtain ⟨w1, -⟩ := control_point_write_accepted U srv c con_handle lc3_config_codec_write
    hlive hacc
  rw [w1 0] at hentry
  rw [control_point_write_accepted_eq U srv c con_handle lc3_config_codec_write hacc]
  have hB := (first_read_loop U srv (ascs_opcode_of_byte (lc3_config_codec_write.getD 0 0))
    lc3_config_codec_write (first_read_start c lc3_config_codec_write)
    (lc3_config_codec_write.getD 1 0)).1
  change same_but_response _
    (first_read_at U srv c lc3_config_codec_write (lc3_config_codec_write.getD 1 0)).connection
    at hB
  generalize first_read_at U srv c lc3_config_codec_write (lc3_config_codec_write.getD 1 0)
    = sB at *
  obtain ⟨f1, f2, f3, f4, -⟩ := same_but_response_fields hB
  simp only [first_read_start, ascs_server_reset_client_response] at f1 f2 f3 f4
  have hliveB : sB.connection.con_handle ≠ HCI_CON_HANDLE_INVALID := by rw [f1]; exact hlive
  rw [schedule_task_live srv sB.connection _ hliveB,
    if_neg (by rw [f2]; exact fun h => hacp h.2)]
  dsimp only
  rw [f3]
  have h1 : lc3_config_codec_write.getD 1 0 = 0 + 1 := rfl
  rw [h1, for_loop_succ, for_loop_zero]
  have hop : ascs_opcode_of_byte (lc3_config_codec_write.getD 0 0) = ASCS_OPCODE_CONFIG_CODEC :=
    rfl
  rw [hop]
  unfold second_read_body
  dsimp only
  rw [request_successfully_processed_result]
  simp only [ascs_server_connection_t.resp] at hentry ⊢
  rw [decide_eq_true (show (sB.connection.response.getD 0
      ascs_control_point_operation_response_t.zero).response_code = ASCS_ERROR_CODE_SUCCESS by
    rw [hentry]), f1, f4]
  rfl

/-- After an accepted write to the control point on an attached connection the lookups
find what they found before, the connection is in its slot, and its stream endpoints are
as many as before and in the states they were in. -/
theorem write_callback_accepted_lookup (U : ascs_util_t) (srv : ascs_server_t)
    (con_handle ci : Nat) (c : ascs_server_connection_t) (buffer : List Nat)
    (hfind : ascs_server_get_remote_client_for_con_handle srv con_handle = some ci)
    (hc : srv.client ci = some c) (hacc : accepted_frame srv buffer) :
    ascs_server_get_remote_client_for_con_handle
        (ascs_server_write_callback U srv con_handle srv.ascs_ase_control_point_handle buffer)
        con_handle = some ci
      ∧ (ascs_server_write_callback U srv con_handle srv.ascs_ase_control_point_handle
          buffer).client ci
        = some ((ascs_server_write_callback U srv con_handle srv.ascs_ase_control_point_handle
            buffer).slot ci)
      ∧ (∀ a, ascs_server_get_streamendpoint_for_ase_id
          (ascs_server_write_callback U srv con_handle srv.ascs_ase_control_point_handle buffer) a
        = ascs_server_get_streamendpoint_for_ase_id srv a)
      ∧ (∀ k, (ascs_server_write_callback U srv con_handle srv.ascs_ase_control_point_handle
          buffer).chr k = srv.chr k)
      ∧ ((ascs_server_write_callback U srv con_handle srv.ascs_ase_control_point_handle
          buffer).slot ci).streamendpoints.length = c.streamendpoints.length
      ∧ (∀ k, (((ascs_server_write_callback U srv con_handle srv.ascs_ase_control_point_handle
          buffer).slot ci).ase k).state = (c.ase k).state) := by
  have hne : 1 ≤ buffer.length := by have := hacc.1; omega
  obtain ⟨-, hlive, hslot, -, -⟩ :=
    write_callback_attached U srv con_handle ci c buffer hfind hc hne
  have hw := write_callback_control_point U srv con_handle ci buffer c hfind hc hne
  obtain ⟨-, -, -, -, w5, -, -, w8, w9, -, -⟩ :=
    control_point_write_accepted U srv c con_handle buffer hlive hacc
  refine ⟨?_, ?_, ?_, ?_, ?_, ?_⟩
  · rw [hw, get_remote_client_commit srv ci c _ hc w5 con_handle]
    exact hfind
  · rw [hw, slot_commit_self srv ci _ c hc]
    exact client_commit_self srv ci _ c hc
  · intro a; rw [hw]; rfl
  · intro k; rw [hw]; rfl
  · rw [hslot, w8]
  · intro k
    rw [hslot]
    have h := w9 k
    unfold same_but_initiated at h
    rw [h]

/-- C35 (as amended). On an attached connection with control point notifications
enabled, with ASE 1 registered and Idle, the ACP write with the bytes 01 01 01 03 02 06
00 00 00 00 00 (Config Codec, one ASE, ase_id 1, target latency 3, target phy 2, coding
format LC3, company id 0, vendor specific codec id 0, no codec specific configuration) is
length-valid; the response is the opcode 1, one entry, (1, success, 0), which the
can-send-now callback sends as 01 01 01 00 00; the write raises exactly one event, the
codec configuration request for ase_id 1; and `configure_codec` for ASE 1, called after
the write, takes the ASE to Codec Configured. The values 3 and 2 are taken to be defined
target latency and target phy values, 6 to be the LC3 coding format, a standard one, an
empty codec specific configuration to have no invalid field, and success and the reason
0 to be sent as the byte 0. -/
theorem acp_write_lc3_config_codec_accepted (U : ascs_util_t) (W : ascs_wire_t)
    (srv : ascs_server_t) (con_handle ci k : Nat) (c : ascs_server_connection_t)
    (hfind : ascs_server_get_remote_client_for_con_handle srv con_handle = some ci)
    (hc : srv.client ci = some c)
    (hk : ascs_server_get_streamendpoint_for_ase_id srv 1 = some k)
    (hs : (c.ase k).state = ASCS_STATE_IDLE)
    (hacp : c.ase_control_point_client_configuration ≠ 0)
    (hcap : srv.ascs_streamendpoint_chr_num ≤ c.response.length)
    (hcap2 : srv.ascs_streamendpoint_chr_num ≤ c.streamendpoints.length)
    (hlat : 3 < U.LE_AUDIO_CLIENT_TARGET_LATENCY_RFU)
    (hphy : 2 < U.LE_AUDIO_CLIENT_TARGET_PHY_RFU)
    (hlc3 : U.HCI_AUDIO_CODING_FORMAT_LC3 = 6)
    (hstd : U.HCI_AUDIO_CODING_FORMAT_LC3 < U.HCI_AUDIO_CODING_FORMAT_RFU)
    (hin : specific_codec_configuration_in_range U
      (U.ascs_util_specific_codec_configuration_parse []))
    (hsucc : W.code_byte ASCS_ERROR_CODE_SUCCESS = 0)
    (hnone : W.reason_byte ASCS_REJECT_REASON_NONE = 0) :
    accepted_frame srv lc3_config_codec_write
      ∧ ((ascs_server_write_callback U srv con_handle srv.ascs_ase_control_point_handle
          lc3_config_codec_write).slot ci).response_opcode = 1
      ∧ ((ascs_server_write_callback U srv con_handle srv.ascs_ase_control_point_handle
          lc3_config_codec_write).slot ci).response_ases_num = 1
      ∧ ((ascs_server_write_callback U srv con_handle srv.ascs_ase_control_point_handle
          lc3_config_codec_write).slot ci).resp 0
        = ⟨1, ASCS_ERROR_CODE_SUCCESS, ASCS_REJECT_REASON_NONE⟩
      ∧ control_point_notification_value W
          ((ascs_server_write_callback U srv con_handle srv.ascs_ase_control_point_handle
            lc3_config_codec_write).slot ci) = [1, 1, 1, 0, 0]
      ∧ (∃ rest,
          (ascs_server_can_send_now W
            (ascs_server_write_callback U srv con_handle srv.ascs_ase_control_point_handle
              lc3_config_codec_write) ci).trace
          = (ascs_server_write_callback U srv con_handle srv.ascs_ase_control_point_handle
              lc3_config_codec_write).trace
            ++ att_server_notify con_handle srv.ascs_ase_control_point_handle [1, 1, 1, 0, 0]
              :: rest)
      ∧ (ascs_server_write_callback U srv con_handle srv.ascs_ase_control_point_handle
          lc3_config_codec_write).trace
        = srv.trace
          ++ schedule_task con_handle ASCS_TASK_SEND_CONTROL_POINT_OPERATION_RESPONSE
            :: ((if c.scheduled_tasks = 0 then
                  [att_server_register_can_send_now_callback con_handle] else [])
              ++ [emit_client_codec_configuration_request con_handle 1
                  ⟨3, 2, 6, 0, 0, U.ascs_util_specific_codec_configuration_parse []⟩])
      ∧ (∀ codec_configuration : ascs_codec_configuration_t,
          (audio_stream_control_service_server_streamendpoint_configure_codec
            (ascs_server_write_callback U srv con_handle srv.ascs_ase_control_point_handle
              lc3_config_codec_write)
            con_handle 1 codec_configuration).ase_state ci k = ASCS_STATE_CODEC_CONFIGURED) := by
  have hk1 := (get_streamendpoint_some srv 1 k hk).1
  have hacc : accepted_frame srv lc3_config_codec_write :=
    ⟨by decide, by decide, (by show 1 ≤ _; omega), by decide, by decide⟩
  obtain ⟨hh, hlive, hslot, htrace, -⟩ :=
    write_callback_attached U srv con_handle ci c lc3_config_codec_write hfind hc (by decide)
  obtain ⟨-, w2, w3, w4, w5, w6, w7, -⟩ :=
    control_point_write_accepted U srv c con_handle lc3_config_codec_write hlive hacc
  have hentry : ((ascs_server_write_callback U srv con_handle
      srv.ascs_ase_control_point_handle lc3_config_codec_write).slot ci).resp 0
      = ⟨1, ASCS_ERROR_CODE_SUCCESS, ASCS_REJECT_REASON_NONE⟩ := by
    rw [write_callback_codec_response U srv con_handle ci c lc3_config_codec_write 0 k 1
      ⟨3, 2, 6, 0, 0, U.ascs_util_specific_codec_configuration_parse []⟩ hfind hc hacc hcap
      rfl (by decide) rfl rfl hk (by rw [hs]; cases (srv.chr k).role <;> decide) hlat hphy]
    have hrfu : ¬ ((6 : Nat) ≥ U.HCI_AUDIO_CODING_FORMAT_RFU ∧
        (6 : Nat) ≠ U.HCI_AUDIO_CODING_FORMAT_VENDOR_SPECIFIC) := by
      rintro ⟨h, -⟩
      rw [hlc3] at hstd
      omega
    have hid : ¬ ((0 : Nat) ≠ 0 ∨ (0 : Nat) ≠ 0) := by
      rintro (h | h) <;> exact h rfl
    dsimp only
    rw [if_neg hrfu, if_pos hlc3.symm, if_neg hid,
      codec_configuration_reject_reason_in_range U _ hin, if_neg (fun h => h rfl)]
  have hvalue : control_point_notification_value W
      ((ascs_server_write_callback U srv con_handle srv.ascs_ase_control_point_handle
        lc3_config_codec_write).slot ci) = [1, 1, 1, 0, 0] := by
    have ho : ((ascs_server_write_callback U srv con_handle srv.ascs_ase_control_point_handle
        lc3_config_codec_write).slot ci).response_opcode = 1 := by rw [hslot, w3]; rfl
    have hn : ((ascs_server_write_callback U srv con_handle srv.ascs_ase_control_point_handle
        lc3_config_codec_write).slot ci).response_ases_num = 1 := by rw [hslot, w4]; rfl
    have hl : ((ascs_server_write_callback U srv con_handle srv.ascs_ase_control_point_handle
        lc3_config_codec_write).slot ci).response.length = c.response.length := by
      rw [hslot, w2]
    rw [control_point_notification_value_of_lt W _ (by rw [hn]; decide)
      (by rw [hn, hl]; omega) (by rw [hn]; decide)]
    rw [ho, hn]
    have hr : List.range 1 = [0] := rfl
    rw [hr]
    simp only [List.flatMap_cons, List.flatMap_nil, List.append_nil, hentry, hsucc, hnone]
    rfl
  obtain ⟨g1, g2, g3, g4, g5, g6⟩ := write_callback_accepted_lookup U srv con_handle ci c
    lc3_config_codec_write hfind hc hacc
  refine ⟨hacc, by rw [hslot, w3]; rfl, by rw [hslot, w4]; rfl, hentry, hvalue, ?_, ?_, ?_⟩
  · have hbit : ((ascs_server_write_callback U srv con_handle
        srv.ascs_ase_control_point_handle lc3_config_codec_write).slot ci).scheduled_tasks
        &&& ASCS_TASK_SEND_CONTROL_POINT_OPERATION_RESPONSE ≠ 0 := by
      rw [hslot, w7, if_neg hacp, or_task_and_self]
      decide
    have hlive2 : ((ascs_server_write_callback U srv con_handle
        srv.ascs_ase_control_point_handle lc3_config_codec_write).slot ci).con_handle
        ≠ HCI_CON_HANDLE_INVALID := by
      rw [hslot, w5]; exact hlive
    rw [can_send_now_control_point W _ ci _ g2 hlive2 hbit, trace_commit, hvalue]
    have hch : ((ascs_server_write_callback U srv con_handle
        srv.ascs_ase_control_point_handle lc3_config_codec_write).slot ci).con_handle
        = con_handle := by rw [hslot, w5]; exact hh
    have hah : (ascs_server_write_callback U srv con_handle
        srv.ascs_ase_control_point_handle
        lc3_config_codec_write).ascs_ase_control_point_handle
        = srv.ascs_ase_control_point_handle := by
      rw [write_callback_control_point U srv con_handle ci lc3_config_codec_write c hfind hc
        (by decide)]
      rfl
    rw [hch, hah]
    exact ⟨_, rfl⟩
  · rw [htrace, lc3_config_codec_write_effects U srv c con_handle hlive hacc hacp
      (by rw [← hslot]; exact hentry), hh]
  · intro x
    have hlen : k < c.streamendpoints.length := Nat.lt_of_lt_of_le hk1 hcap2
    have h := apply_run_ase_state (ascs_apply_t.configure_codec x) _ con_handle 1 ci k _
      g1 g2 ((g3 1).trans hk) (by rw [g5]; exact hlen)
    rw [g6 k, hs, g4 k] at h
    rw [if_pos (by cases (srv.chr k).role <;> rfl)] at h
    exact h

/-- C35 (witness). A server with the Sink ASE 1 registered, Idle, on an attached
connection with control point notifications enabled. -/
theorem acp_write_lc3_config_codec_accepted_witness :
    ascs_server_get_remote_client_for_con_handle
        (example_server 1 ASCS_STATE_IDLE ASCS_STATE_IDLE) 64 = some 0
      ∧ ascs_server_get_streamendpoint_for_ase_id
          (example_server 1 ASCS_STATE_IDLE ASCS_STATE_IDLE) 1 = some 0
      ∧ specific_codec_configuration_in_range example_util
          (example_util.ascs_util_specific_codec_configuration_parse [])
      ∧ ((ascs_server_write_callback example_util
            (example_server 1 ASCS_STATE_IDLE ASCS_STATE_IDLE) 64 20
            lc3_config_codec_write).slot 0).resp 0
          = ⟨1, ASCS_ERROR_CODE_SUCCESS, ASCS_REJECT_REASON_NONE⟩
      ∧ control_point_notification_value example_wire
          ((ascs_server_write_callback example_util
            (example_server 1 ASCS_STATE_IDLE ASCS_STATE_IDLE) 64 20
            lc3_config_codec_write).slot 0) = [1, 1, 1, 0, 0]
      ∧ (ascs_server_write_callback example_util
            (example_server 1 ASCS_STATE_IDLE ASCS_STATE_IDLE) 64 20
            lc3_config_codec_write).trace
          = [schedule_task 64 ASCS_TASK_SEND_CONTROL_POINT_OPERATION_RESPONSE,
              att_server_register_can_send_now_callback 64,
              emit_client_codec_configuration_request 64 1
                ⟨3, 2, 6, 0, 0, ascs_specific_codec_configuration_t.zero⟩] :=
  ⟨by decide, by decide, by decide,
    (acp_write_lc3_config_codec_accepted example_util example_wire
      (example_server 1 ASCS_STATE_IDLE ASCS_STATE_IDLE) 64 0 0
      (example_connection 64 ASCS_STATE_IDLE ASCS_STATE_IDLE)
      (by decide) (by decide) (by decide) (by decide) (by decide) (by decide) (by decide)
      (by decide) (by decide) (by decide) (by decide) (by decide) (by decide)
      (by decide)).2.2.2.1,
    (acp_write_lc3_config_codec_accepted example_util example_wire
      (example_server 1 ASCS_STATE_IDLE ASCS_STATE_IDLE) 64 0 0
      (example_connection 64 ASCS_STATE_IDLE ASCS_STATE_IDLE)
      (by decide) (by decide) (by decide) (by decide) (by decide) (by decide) (by decide)
      (by decide) (by decide) (by decide) (by decide) (by decide) (by decide)
      (by decide)).2.2.2.2.1,
    by decide⟩

/-- C35 (counterexample). The bytes of the seed scenario as they are written, 01 01 01 03
02 06 10 00 00 00 00, on a server with the Sink ASE 1 registered, Idle, on an attached
connection with control point notifications enabled: the write is length-valid, the
request the first read parses has coding format 6 and company id 0x0010, the entry is
(1, invalid configuration parameter value, codec id), and the write raises no event. -/
theorem seed_config_codec_write_rejected :
    (2 ≤ seed_config_codec_write.length
        ∧ seed_config_codec_write.getD 1 0 ≠ 0
        ∧ seed_config_codec_write.getD 1 0
            ≤ (example_server 1 ASCS_STATE_IDLE ASCS_STATE_IDLE).ascs_streamendpoint_chr_num
        ∧ ascs_server_control_point_operation_has_valid_length
            (ascs_opcode_of_byte (seed_config_codec_write.getD 0 0))
            (seed_config_codec_write.getD 1 0) (seed_config_codec_write.drop 2)
            (seed_config_codec_write.length - 2) = true)
      ∧ first_read_codec_request example_util (example_server 1 ASCS_STATE_IDLE ASCS_STATE_IDLE)
          (example_connection 64 ASCS_STATE_IDLE ASCS_STATE_IDLE) seed_config_codec_write 0
          = ⟨3, 2, 6, 0x0010, 0, ascs_specific_codec_configuration_t.zero⟩
      ∧ ((ascs_server_write_callback example_util
            (example_server 1 ASCS_STATE_IDLE ASCS_STATE_IDLE) 64 20
            seed_config_codec_write).slot 0).response_ases_num = 1
      ∧ ((ascs_server_write_callback example_util
            (example_server 1 ASCS_STATE_IDLE ASCS_STATE_IDLE) 64 20
            seed_config_codec_write).slot 0).resp 0
          = ⟨1, ASCS_ERROR_CODE_INVALID_CONFIGURATION_PARAMETER_VALUE,
              ASCS_REJECT_REASON_CODEC_ID⟩
      ∧ control_point_notification_value example_wire
          ((ascs_server_write_callback example_util
            (example_server 1 ASCS_STATE_IDLE ASCS_STATE_IDLE) 64 20
            seed_config_codec_write).slot 0)
          = [1, 1, 1, example_wire.code_byte
                ASCS_ERROR_CODE_INVALID_CONFIGURATION_PARAMETER_VALUE,
              example_wire.reason_byte ASCS_REJECT_REASON_CODEC_ID]
      ∧ (ascs_server_write_callback example_util
            (example_server 1 ASCS_STATE_IDLE ASCS_STATE_IDLE) 64 20
            seed_config_codec_write).trace
          = [schedule_task 64 ASCS_TASK_SEND_CONTROL_POINT_OPERATION_RESPONSE,
              att_server_register_can_send_now_callback 64] := by
  decide

/-! ## The Sink ASEs stay out of Disabling in every reachable state -/

end ASCS
